import Mathlib

/-!
Vulky: frame loop and swapchain lifecycle.

A shallow embedding of the frame scheduler (`App::Draw`), of the swapchain
rebuild protocol (`App::RecreateSwapChainAndRelevantObject`,
`App::DestroySwapChainAndRelevantObject`, the `Create*` steps they call) and of
`App::InitVulkan`, from `src/Vulky/App.cpp` and `src/Vulky/VulkanHelper.cpp`.

The application object is a record of handles.  A member function is a function
from the application state and from the answers the driver and the window
system give during the call to a `Step`: the state in which the call returned or
threw, the API calls it made in order, and how it ended.  Pure queries
(`vkGet*`) answer from the response records and are not listed in the trace.

Further parts: device selection, the nine pipeline variants and their keyboard
control (`App::KeyboardCallback`), uploads through a staging buffer with a small
semantics of buffer contents, the mip chain of a texture
(`GenerateMipmaps`, `CreateTextureImageFromFile`), the run of the application
(`App::Run`, `App::MainLoop`, `App::Destroy`), the vertex attributes and the
camera (`Camera.cpp`).
-/

namespace Vulky

/-! ## Handles, result codes, enumerants of `vulkan_core.h` -/

/-- A Vulkan object handle. -/
abbrev Handle := Nat

/-- The null handle. -/
def VK_NULL_HANDLE : Handle := 0

/-- A `VkResult` code. -/
abbrev VkResult := Int

def VK_SUCCESS : VkResult := 0

def VK_SUBOPTIMAL_KHR : VkResult := 1000001003

def VK_ERROR_OUT_OF_DATE_KHR : VkResult := -1000001004

def VK_ERROR_DEVICE_LOST : VkResult := -4

/-- A `VkFormat` enumerant. -/
abbrev VkFormat := Nat

def VK_FORMAT_UNDEFINED : VkFormat := 0

def VK_FORMAT_B8G8R8A8_UNORM : VkFormat := 44

def VK_FORMAT_D32_SFLOAT : VkFormat := 126

def VK_FORMAT_D24_UNORM_S8_UINT : VkFormat := 129

def VK_FORMAT_D32_SFLOAT_S8_UINT : VkFormat := 130

def VK_COLOR_SPACE_SRGB_NONLINEAR_KHR : Nat := 0

def VK_PRESENT_MODE_IMMEDIATE_KHR : Nat := 0

def VK_PRESENT_MODE_MAILBOX_KHR : Nat := 1

def VK_PRESENT_MODE_FIFO_KHR : Nat := 2

def VK_IMAGE_TILING_OPTIMAL : Nat := 0

def VK_IMAGE_TILING_LINEAR : Nat := 1

def VK_FORMAT_FEATURE_DEPTH_STENCIL_ATTACHMENT_BIT : Nat := 0x200

def VK_QUEUE_GRAPHICS_BIT : Nat := 1

def VK_MEMORY_PROPERTY_DEVICE_LOCAL_BIT : Nat := 1

def VK_MEMORY_PROPERTY_HOST_VISIBLE_BIT : Nat := 2

def VK_MEMORY_PROPERTY_HOST_COHERENT_BIT : Nat := 4

def VK_IMAGE_LAYOUT_UNDEFINED : Nat := 0

def VK_IMAGE_LAYOUT_COLOR_ATTACHMENT_OPTIMAL : Nat := 2

def VK_IMAGE_LAYOUT_DEPTH_STENCIL_ATTACHMENT_OPTIMAL : Nat := 3

def VK_IMAGE_LAYOUT_SHADER_READ_ONLY_OPTIMAL : Nat := 5

def VK_IMAGE_LAYOUT_TRANSFER_DST_OPTIMAL : Nat := 7

def VK_IMAGE_ASPECT_COLOR_BIT : Nat := 1

def VK_IMAGE_ASPECT_DEPTH_BIT : Nat := 2

def VK_IMAGE_ASPECT_STENCIL_BIT : Nat := 4

def VK_SHARING_MODE_EXCLUSIVE : Nat := 0

def VK_SHARING_MODE_CONCURRENT : Nat := 1

def VK_POLYGON_MODE_FILL : Nat := 0

def VK_POLYGON_MODE_LINE : Nat := 1

def VK_POLYGON_MODE_POINT : Nat := 2

def VK_CULL_MODE_NONE : Nat := 0

def VK_CULL_MODE_FRONT_BIT : Nat := 1

def VK_CULL_MODE_BACK_BIT : Nat := 2

def VK_IMAGE_USAGE_TRANSIENT_ATTACHMENT_BIT : Nat := 0x40

def VK_IMAGE_USAGE_COLOR_ATTACHMENT_BIT : Nat := 0x10

def VK_IMAGE_USAGE_DEPTH_STENCIL_ATTACHMENT_BIT : Nat := 0x20

def VK_BUFFER_USAGE_UNIFORM_BUFFER_BIT : Nat := 0x10

/-- The value `std::numeric_limits<uint32_t>::max()`. -/
def UINT32_MAX : Nat := 4294967295

/-! ## Data model (`VulkanHelper.hpp`, members of `App`) -/

structure VkExtent2D where
  width : Nat
  height : Nat
deriving DecidableEq, Repr

structure VkSurfaceFormatKHR where
  format : VkFormat
  colorSpace : Nat
deriving DecidableEq, Repr

structure VkSurfaceCapabilitiesKHR where
  minImageCount : Nat
  maxImageCount : Nat
  currentExtent : VkExtent2D
  minImageExtent : VkExtent2D
  maxImageExtent : VkExtent2D
  currentTransform : Nat
deriving DecidableEq, Repr

structure QueueFamilyIndices where
  GraphicsFamily : Option Nat := none
  PresentFamily : Option Nat := none
deriving DecidableEq, Repr

structure SwapChainSupportDetails where
  Capabilities : VkSurfaceCapabilitiesKHR
  Formats : List VkSurfaceFormatKHR
  PresentModes : List Nat
deriving DecidableEq, Repr

structure SwapChainInfo where
  MsaaSamples : Nat := 1
  SwapChain : Handle := VK_NULL_HANDLE
  SwapChainImages : List Handle := []
  SwapChainImageViews : List Handle := []
  SwapChainImageFormat : VkFormat := VK_FORMAT_UNDEFINED
  SwapChainExtent : VkExtent2D := ⟨0, 0⟩
  ColorImage : Handle := VK_NULL_HANDLE
  ColorImageMemory : Handle := VK_NULL_HANDLE
  ColorImageView : Handle := VK_NULL_HANDLE
  DepthImage : Handle := VK_NULL_HANDLE
  DepthImageMemory : Handle := VK_NULL_HANDLE
  DepthImageView : Handle := VK_NULL_HANDLE
  SwapChainFramebuffers : List Handle := []
deriving DecidableEq, Repr

structure BufferInfo where
  Buffer : Handle := VK_NULL_HANDLE
  Memory : Handle := VK_NULL_HANDLE
deriving DecidableEq, Repr

structure TextureInfo where
  MipLevels : Nat := 0
  TextureImage : Handle := VK_NULL_HANDLE
  TextureImageMemory : Handle := VK_NULL_HANDLE
  TextureImageView : Handle := VK_NULL_HANDLE
  TextureSampler : Handle := VK_NULL_HANDLE
deriving DecidableEq, Repr

/-- One queue family of a physical device, as `FindQueueFamilies` reads it:
`vkGetPhysicalDeviceQueueFamilyProperties` and
`vkGetPhysicalDeviceSurfaceSupportKHR`. -/
structure QueueFamily where
  queueCount : Nat
  queueFlags : Nat
  presentSupport : Bool
deriving DecidableEq, Repr

/-- Format features of one format (`VkFormatProperties`). -/
structure VkFormatProperties where
  linearTilingFeatures : Nat := 0
  optimalTilingFeatures : Nat := 0
deriving DecidableEq, Repr

/-- What the driver reports for a physical device, with its handle (the default
is the null handle, no device): its queue families, the format properties it
lists, the property flags of its memory types, the sizes in bytes of its memory
heaps, its type and name, the sample counts of its limits, the names of its
extensions, the formats and present modes of the surface, and the feature
`samplerAnisotropy`. -/
structure PhysicalDevice where
  handle : Handle := VK_NULL_HANDLE
  queueFamilies : List QueueFamily := []
  formatProperties : List (VkFormat × VkFormatProperties) := []
  memoryTypes : List Nat := []
  memoryHeaps : List Nat := []
  deviceType : Nat := 0
  deviceName : String := ""
  framebufferColorSampleCounts : Nat := 0
  framebufferDepthSampleCounts : Nat := 0
  extensions : List String := []
  surfaceFormats : List VkSurfaceFormatKHR := []
  surfacePresentModes : List Nat := []
  samplerAnisotropy : Nat := 0
deriving DecidableEq, Repr

/-- The pipeline variant constants `GRAPHICS_PIPELINE_TYPE_*`.  Their
declaration is in a header that is not part of the sources at hand, so they are
parameters of the model. -/
structure GraphicsPipelineType where
  FILL : Nat
  WIREFRAME : Nat
  POINT : Nat
  NONE_CULL : Nat
  FRONT_CULL : Nat
  BACK_CULL : Nat
deriving DecidableEq, Repr

/-- The values of `sizeof` for the uniform block types.  Their declaration is
in a header that is not part of the sources at hand, so they are parameters of
the model. -/
structure Sizeof where
  MvpUniformBufferObject : Nat
  LightUniformBufferObject : Nat
  MaterialUniformBufferObject : Nat
deriving DecidableEq, Repr

/-- Modelled from the spec: the declaration of `m_GraphicsPipelines` is in
`App.hpp`, which is not part of the sources at hand.  The spec describes it as
"a mapping from this composite key to a compiled pipeline object"; the code
uses `operator[]` and iterates over key/value pairs.  It is a list of
key/value pairs with at most one pair per key, in iteration order. -/
abbrev PipelineMap := List (Nat × Handle)

/-- The application object: the members of `App` that the embedded functions
read or write. -/
structure App where
  GRAPHICS_PIPELINE_TYPE : GraphicsPipelineType
  SIZEOF : Sizeof
  m_InitWidth : Nat
  m_InitHeight : Nat
  m_bEnableValidationLayers : Bool := false
  m_MaxFramesInFlights : Nat
  m_CurrentFrame : Nat := 0
  m_bFramebufferResized : Bool := false
  m_GraphicsPipelineDisplayMode : Nat
  m_GraphicsPipelineCullMode : Nat
  m_Instance : Handle := VK_NULL_HANDLE
  m_DebugMessenger : Handle := VK_NULL_HANDLE
  m_Surface : Handle := VK_NULL_HANDLE
  m_PhysicalDevice : PhysicalDevice := {}
  m_GpuName : String := ""
  m_Device : Handle := VK_NULL_HANDLE
  m_GraphicsQueue : Handle := VK_NULL_HANDLE
  m_PresentQueue : Handle := VK_NULL_HANDLE
  m_SwapChainInfo : SwapChainInfo := {}
  m_RenderPass : Handle := VK_NULL_HANDLE
  m_DescriptorSetLayout : Handle := VK_NULL_HANDLE
  m_PipelineLayout : Handle := VK_NULL_HANDLE
  m_GraphicsPipelines : PipelineMap := []
  m_CommandPool : Handle := VK_NULL_HANDLE
  m_AlbedoTexture : TextureInfo := {}
  m_NormalTexture : TextureInfo := {}
  m_MetallicTexture : TextureInfo := {}
  m_RoughnessTexture : TextureInfo := {}
  m_AoTexture : TextureInfo := {}
  m_VertexNum : Nat := 0
  m_FacetNum : Nat := 0
  m_Indices : List Nat := []
  m_VertexBuffer : BufferInfo := {}
  m_IndexBuffer : BufferInfo := {}
  m_MvpUniformBuffers : List BufferInfo := []
  m_LightUniformBuffers : List BufferInfo := []
  m_MaterialUniformBuffers : List BufferInfo := []
  m_DescriptorPool : Handle := VK_NULL_HANDLE
  m_DescriptorSets : List Handle := []
  m_DrawingCommandBuffers : List Handle := []
  m_ImageAvailableSemaphores : List Handle := []
  m_RenderFinishedSemaphores : List Handle := []
  m_InFlightFences : List Handle := []
deriving DecidableEq, Repr

/-- Method `SwapChainInfo::BufferCount`. -/
def SwapChainInfo.BufferCount (s : SwapChainInfo) : Nat := s.SwapChainImages.length

/-! ## API calls -/

/-- The two queues of the application. -/
inductive Queue where
  | m_GraphicsQueue
  | m_PresentQueue
deriving DecidableEq, Repr

/-- The three per-image uniform buffer arrays. -/
inductive UniformArray where
  | m_MvpUniformBuffers
  | m_LightUniformBuffers
  | m_MaterialUniformBuffers
deriving DecidableEq, Repr

/-- The command buffer handed to `vkQueueSubmit`: element `i` of
`m_DrawingCommandBuffers`, or a one-time command buffer of
`BeginSingleTimeCommands`. -/
inductive CommandBufferRef where
  | m_DrawingCommandBuffers (i : Nat)
  | singleTime (commandBuffer : Handle)
deriving DecidableEq, Repr

/-- The semaphore handed to an API call: element `i` of one of the two
semaphore arrays. -/
inductive SemaphoreRef where
  | m_ImageAvailableSemaphores (i : Nat)
  | m_RenderFinishedSemaphores (i : Nat)
deriving DecidableEq, Repr

/-- The fields of `VkSwapchainCreateInfoKHR` that `CreateSwapChain` computes. -/
structure VkSwapchainCreateInfoKHR where
  surface : Handle
  minImageCount : Nat
  imageFormat : VkFormat
  imageColorSpace : Nat
  imageExtent : VkExtent2D
  imageSharingMode : Nat
  queueFamilyIndexCount : Nat
  preTransform : Nat
  presentMode : Nat
deriving DecidableEq, Repr

/-- A call that moves data: the helper `MapMemory` on a memory handle, with the
bytes `pData` points to (none for a null pointer), and the copy and blit
commands recorded into a one-time command buffer. -/
inductive TransferCall where
  | MapMemory (Memory : Handle) (Size : Nat) (pData : Option (List Nat))
  | vkCmdCopyBuffer (commandBuffer srcBuffer dstBuffer : Handle) (srcOffset dstOffset size : Nat)
  | vkCmdCopyBufferToImage (commandBuffer srcBuffer dstImage : Handle)
      (mipLevel width height : Nat)
  | vkCmdBlitImage (commandBuffer image : Handle) (srcMipLevel : Nat) (srcWidth srcHeight : Int)
      (dstMipLevel : Nat) (dstWidth dstHeight : Int)
deriving DecidableEq, Repr

/-- A call of the start and of the end of the application: the window, the
event poll, and the destructions of `App::Destroy` and of `DestroyBuffer` and
`DestroyTexture`. -/
inductive LifecycleCall where
  | glfwInit
  | glfwCreateWindow (width height : Nat)
  | glfwPollEvents
  | glfwSetWindowShouldClose
  | vkDestroyBuffer (h : Handle)
  | vkDestroySampler (h : Handle)
  | vkDestroySemaphore (semaphore : SemaphoreRef)
  | vkDestroyFence (fence : Nat)
  | vkDestroyDescriptorPool (h : Handle)
  | vkDestroyDescriptorSetLayout (h : Handle)
  | vkDestroyCommandPool (h : Handle)
  | vkDestroyDevice (h : Handle)
  | vkDestroySurfaceKHR (h : Handle)
  | vkDestroyDebugUtilsMessengerEXT (h : Handle)
  | vkDestroyInstance (h : Handle)
  | glfwDestroyWindow
  | glfwTerminate
deriving DecidableEq, Repr

set_option maxHeartbeats 800000 in
/-- An API call made by the application.  Sync objects, drawing command
buffers and uniform buffers are named by their index in the member array they
are taken from (`m_InFlightFences[i]`, ...); every other object is named by its
handle.  `MapMemory` is a call of the helper of that name on an element of a
uniform buffer array. -/
inductive Op where
  | vkWaitForFences (fence : Nat)
  | vkAcquireNextImageKHR (swapchain : Handle) (semaphore : SemaphoreRef)
  | MapMemory (array : UniformArray) (index : Nat)
  | vkResetFences (fence : Nat)
  | vkQueueSubmit (queue : Queue) (waitSemaphores : List SemaphoreRef)
      (commandBuffer : CommandBufferRef) (signalSemaphores : List SemaphoreRef)
      (fence : Option Nat)
  | vkQueuePresentKHR (queue : Queue) (waitSemaphore : SemaphoreRef) (swapchain : Handle)
      (imageIndex : Nat)
  | glfwGetFramebufferSize (Width Height : Int)
  | glfwWaitEvents
  | vkDeviceWaitIdle
  | vkQueueWaitIdle (queue : Queue)
  | vkDestroyImageView (h : Handle)
  | vkDestroyImage (h : Handle)
  | vkFreeMemory (h : Handle)
  | vkDestroyFramebuffer (h : Handle)
  | vkDestroyPipeline (h : Handle)
  | vkDestroyPipelineLayout (h : Handle)
  | vkDestroyRenderPass (h : Handle)
  | vkDestroySwapchainKHR (h : Handle)
  | vkFreeCommandBuffers (commandPool : Handle) (commandBuffers : List Handle)
  | vkDestroyShaderModule (h : Handle)
  | vkCreateSwapchainKHR (info : VkSwapchainCreateInfoKHR)
  | vkCreateImageView (image : Handle) (format : VkFormat) (aspect : Nat)
  | vkCreateRenderPass (colorFormat depthFormat : VkFormat) (samples : Nat)
  | vkCreateShaderModule (code : List Nat)
  | vkCreatePipelineLayout (setLayout : Handle)
  | vkCreateGraphicsPipelines (polygonMode cullMode : Nat) (layout renderPass : Handle)
  | vkCreateImage (width height mipLevels samples : Nat) (format : VkFormat) (usage : Nat)
  | vkAllocateMemory (memoryTypeIndex : Nat)
  | vkBindImageMemory (image memory : Handle)
  | vkCreateFramebuffer (renderPass : Handle) (attachments : List Handle) (width height : Nat)
  | vkAllocateCommandBuffers (commandPool : Handle) (count : Nat)
  | vkBeginCommandBuffer (commandBuffer : Handle)
  | vkEndCommandBuffer (commandBuffer : Handle)
  | vkCmdPipelineBarrier (commandBuffer image : Handle) (baseMipLevel levelCount : Nat)
      (oldLayout newLayout aspect : Nat)
  | vkCmdBeginRenderPass (commandBuffer renderPass framebuffer : Handle)
  | vkCmdBindPipeline (commandBuffer pipeline : Handle)
  | vkCmdBindVertexBuffers (commandBuffer buffer : Handle)
  | vkCmdBindIndexBuffer (commandBuffer buffer : Handle)
  | vkCmdBindDescriptorSets (commandBuffer layout descriptorSet : Handle)
  | vkCmdDrawIndexed (commandBuffer : Handle) (indexCount : Nat)
  | vkCmdEndRenderPass (commandBuffer : Handle)
  | vkCreateBuffer (size usage : Nat)
  | vkBindBufferMemory (buffer memory : Handle)
  | vkCreateSemaphore
  | vkCreateFence
  | transfer (call : TransferCall)
  | lifecycle (call : LifecycleCall)
deriving DecidableEq, Repr

/-! ## Execution steps -/

/-- How a call ended: it returned, it threw `std::runtime_error` with the
given message, or it never returned (the event wait of the rebuild saw no
non-zero framebuffer size in the whole script of the window system). -/
inductive Outcome where
  | returned
  | threw (what : String)
  | blocked
deriving DecidableEq, Repr

/-- The result of running a member function: the state at its end, the API
calls it made in order, and how it ended. -/
structure Step where
  app : App
  trace : List Op
  outcome : Outcome
deriving DecidableEq, Repr

/-- A call that returns at once. -/
def Step.ret (app : App) (trace : List Op) : Step := ⟨app, trace, .returned⟩

/-- A throw of `std::runtime_error`. -/
def Step.throw (app : App) (trace : List Op) (what : String) : Step :=
  ⟨app, trace, .threw what⟩

/-- Sequencing of statements: the second runs when the first returned. -/
def Step.andThen (s : Step) (f : App → Step) : Step :=
  match s.outcome with
  | .returned => ⟨(f s.app).app, s.trace ++ (f s.app).trace, (f s.app).outcome⟩
  | _ => s

/-- A loop `for(i = ...)` over the given indices: the body runs for each index
in turn, and the loop ends where a body throws. -/
def forLoop : List Nat → (Nat → App → Step) → App → Step
  | [], _, app => Step.ret app []
  | i :: rest, body, app => (body i app).andThen (forLoop rest body)

/-- Method `std::vector::resize`: the first `n` elements, padded with
value-initialised elements when the vector grows. -/
def resize {α : Type} (v : List α) (n : Nat) (d : α) : List α :=
  v.take n ++ List.replicate (n - v.length) d

/-- Operator `m[key] = h` of the pipeline mapping: overwrites the value of an
existing key and inserts a new pair otherwise (in key order). -/
def PipelineMap.insert : PipelineMap → Nat → Handle → PipelineMap
  | [], key, h => [(key, h)]
  | (k, v) :: rest, key, h =>
    if key = k then (key, h) :: rest
    else if key < k then (key, h) :: (k, v) :: rest
    else (k, v) :: PipelineMap.insert rest key h

/-- The value stored under a key, if any. -/
def PipelineMap.find (m : PipelineMap) (key : Nat) : Option Handle :=
  (m.find? (fun kv => kv.1 == key)).map Prod.snd

/-- Operator `m[key]` of the pipeline mapping, read: a key that is absent is
inserted with a null handle. -/
def PipelineMap.subscript (m : PipelineMap) (key : Nat) : PipelineMap × Handle :=
  match PipelineMap.find m key with
  | some h => (m, h)
  | none => (PipelineMap.insert m key VK_NULL_HANDLE, VK_NULL_HANDLE)

/-! ## Capability queries (`VulkanHelper.cpp`) -/

/-- Method `QueueFamilyIndices::IsComplete`. -/
def QueueFamilyIndices.IsComplete (q : QueueFamilyIndices) : Bool :=
  q.GraphicsFamily.isSome && q.PresentFamily.isSome

/-- The loop of `FindQueueFamilies` from family index `i` on. -/
def FindQueueFamilies.loop : List QueueFamily → Nat → QueueFamilyIndices → QueueFamilyIndices
  | [], _, Indices => Indices
  | q :: rest, i, Indices =>
    let Indices1 : QueueFamilyIndices :=
      if q.queueCount > 0 ∧ q.queueFlags &&& VK_QUEUE_GRAPHICS_BIT ≠ 0
      then { Indices with GraphicsFamily := some i } else Indices
    let Indices2 : QueueFamilyIndices :=
      if q.queueCount > 0 ∧ q.presentSupport = true
      then { Indices1 with PresentFamily := some i } else Indices1
    if Indices2.IsComplete then Indices2 else FindQueueFamilies.loop rest (i + 1) Indices2

/-- Function `FindQueueFamilies`. -/
def FindQueueFamilies (Device : PhysicalDevice) : QueueFamilyIndices :=
  FindQueueFamilies.loop Device.queueFamilies 0 {}

/-- Function `ChooseSwapSurfaceFormat`.  The source reads `AvailableFormats[0]`
of a vector that may be empty; the model answers the undefined format there. -/
def ChooseSwapSurfaceFormat (AvailableFormats : List VkSurfaceFormatKHR) : VkSurfaceFormatKHR :=
  match AvailableFormats with
  | [] => ⟨VK_FORMAT_UNDEFINED, VK_COLOR_SPACE_SRGB_NONLINEAR_KHR⟩
  | first :: rest =>
    if rest = [] ∧ first.format = VK_FORMAT_UNDEFINED then
      ⟨VK_FORMAT_B8G8R8A8_UNORM, VK_COLOR_SPACE_SRGB_NONLINEAR_KHR⟩
    else
      match AvailableFormats.find? (fun f =>
          f.format == VK_FORMAT_B8G8R8A8_UNORM && f.colorSpace == VK_COLOR_SPACE_SRGB_NONLINEAR_KHR) with
      | some f => f
      | none => first

/-- The loop of `ChooseSwapPresentMode`, with the best mode so far. -/
def ChooseSwapPresentMode.loop : List Nat → Nat → Nat
  | [], BestMode => BestMode
  | m :: rest, BestMode =>
    if m = VK_PRESENT_MODE_MAILBOX_KHR then m
    else if m = VK_PRESENT_MODE_IMMEDIATE_KHR then ChooseSwapPresentMode.loop rest m
    else ChooseSwapPresentMode.loop rest BestMode

/-- Function `ChooseSwapPresentMode`. -/
def ChooseSwapPresentMode (AvailablePresentModes : List Nat) : Nat :=
  ChooseSwapPresentMode.loop AvailablePresentModes VK_PRESENT_MODE_FIFO_KHR

/-- Function `ChooseSwapExtent`.  The first argument is what
`glfwGetFramebufferSize` reports for the window. -/
def ChooseSwapExtent (_framebufferSize : Int × Int) (Capabilities : VkSurfaceCapabilitiesKHR)
    (InitWidth InitHeight : Nat) : VkExtent2D :=
  if Capabilities.currentExtent.width ≠ UINT32_MAX then Capabilities.currentExtent
  else
    { width := max Capabilities.minImageExtent.width (min Capabilities.maxImageExtent.width InitWidth)
      height := max Capabilities.minImageExtent.height (min Capabilities.maxImageExtent.height InitHeight) }

/-- The answer of `vkGetPhysicalDeviceFormatProperties`. -/
def PhysicalDevice.formatProps (Device : PhysicalDevice) (Format : VkFormat) : VkFormatProperties :=
  (Device.formatProperties.lookup Format).getD {}

/-- Function `FindSupportedFormat`. -/
def FindSupportedFormat (Device : PhysicalDevice) :
    List VkFormat → Nat → Nat → Except String VkFormat
  | [], _, _ => .error "Failed to find supported format!"
  | Format :: rest, Tiling, Features =>
    if Tiling = VK_IMAGE_TILING_LINEAR ∧
        (Device.formatProps Format).linearTilingFeatures &&& Features = Features then .ok Format
    else if Tiling = VK_IMAGE_TILING_OPTIMAL ∧
        (Device.formatProps Format).optimalTilingFeatures &&& Features = Features then .ok Format
    else FindSupportedFormat Device rest Tiling Features

/-- Function `FindDepthFormat`. -/
def FindDepthFormat (Device : PhysicalDevice) : Except String VkFormat :=
  FindSupportedFormat Device
    [VK_FORMAT_D32_SFLOAT, VK_FORMAT_D32_SFLOAT_S8_UINT, VK_FORMAT_D24_UNORM_S8_UINT]
    VK_IMAGE_TILING_OPTIMAL VK_FORMAT_FEATURE_DEPTH_STENCIL_ATTACHMENT_BIT

/-- Function `HasStencilComponent`. -/
def HasStencilComponent (Format : VkFormat) : Bool :=
  Format == VK_FORMAT_D32_SFLOAT_S8_UINT || Format == VK_FORMAT_D24_UNORM_S8_UINT

/-- The loop of `FindMemoryType` from memory type index `i` on. -/
def FindMemoryType.loop : List Nat → Nat → Nat → Nat → Except String Nat
  | [], _, _, _ => .error "Failed to find a suitable memory type!"
  | propertyFlags :: rest, i, TypeFilter, Properties =>
    if TypeFilter &&& (1 <<< i) ≠ 0 ∧ propertyFlags &&& Properties = Properties then .ok i
    else FindMemoryType.loop rest (i + 1) TypeFilter Properties

/-- Function `FindMemoryType`. -/
def FindMemoryType (Device : PhysicalDevice) (TypeFilter Properties : Nat) : Except String Nat :=
  FindMemoryType.loop Device.memoryTypes 0 TypeFilter Properties

/-! ## Answers of the driver and of the window system -/

/-- The answer to a call that creates an object: the result code, and the
handle the driver writes when the code is `VK_SUCCESS`. -/
structure Created where
  result : VkResult
  handle : Handle
deriving DecidableEq, Repr

/-- The answers during the creation of one attachment image (`CreateImage`,
`CreateImageView`, `TransitionImageLayout`). -/
structure ImageAnswers where
  vkCreateImage : Created
  memoryTypeBits : Nat
  vkAllocateMemory : Created
  vkCreateImageView : Created
  singleTimeCommandBuffer : Handle
deriving DecidableEq, Repr

/-- The answers during one build of the swapchain and of the objects that
depend on it.  Where a call sits in a loop, the answer is a function of the
loop index; `vkCreateGraphicsPipelines n` answers the `n`-th of the nine calls. -/
structure BuildAnswers where
  Support : SwapChainSupportDetails
  framebufferSize : Int × Int
  vkCreateSwapchainKHR : Created
  SwapChainImages : List Handle
  SwapChainImageView : Nat → Created
  vkCreateRenderPass : Created
  VertexShaderFile : Option (List Nat)
  FragmentShaderFile : Option (List Nat)
  VertShaderModule : Created
  FragShaderModule : Created
  vkCreatePipelineLayout : Created
  vkCreateGraphicsPipelines : Nat → Created
  Color : ImageAnswers
  Depth : ImageAnswers
  vkCreateFramebuffer : Nat → Created
  vkAllocateCommandBuffers : VkResult
  DrawingCommandBuffer : Nat → Handle
  vkBeginCommandBuffer : Nat → VkResult
  vkEndCommandBuffer : Nat → VkResult

/-! ## Teardown and build of the swapchain-dependent objects (`App.cpp`) -/

/-- Member function `App::DestroySwapChainAndRelevantObject`. -/
def DestroySwapChainAndRelevantObject (app : App) : Step :=
  Step.ret app
    ([ Op.vkDestroyImageView app.m_SwapChainInfo.DepthImageView,
       Op.vkDestroyImage app.m_SwapChainInfo.DepthImage,
       Op.vkFreeMemory app.m_SwapChainInfo.DepthImageMemory,
       Op.vkDestroyImageView app.m_SwapChainInfo.ColorImageView,
       Op.vkDestroyImage app.m_SwapChainInfo.ColorImage,
       Op.vkFreeMemory app.m_SwapChainInfo.ColorImageMemory ]
     ++ app.m_SwapChainInfo.SwapChainFramebuffers.map Op.vkDestroyFramebuffer
     ++ app.m_GraphicsPipelines.map (fun Kv => Op.vkDestroyPipeline Kv.2)
     ++ [ Op.vkDestroyPipelineLayout app.m_PipelineLayout,
          Op.vkDestroyRenderPass app.m_RenderPass ]
     ++ app.m_SwapChainInfo.SwapChainImageViews.map Op.vkDestroyImageView
     ++ [ Op.vkDestroySwapchainKHR app.m_SwapChainInfo.SwapChain,
          Op.vkFreeCommandBuffers app.m_CommandPool app.m_DrawingCommandBuffers ])

/-- Member function `App::CreateSwapChain`.  The method `value()` of an empty
`std::optional` throws `std::bad_optional_access`. -/
def CreateSwapChain (a : BuildAnswers) (app : App) : Step :=
  let SwapChainSupport := a.Support
  let SurfaceFormat := ChooseSwapSurfaceFormat SwapChainSupport.Formats
  let PresentMode := ChooseSwapPresentMode SwapChainSupport.PresentModes
  let Extent := ChooseSwapExtent a.framebufferSize SwapChainSupport.Capabilities
    app.m_InitWidth app.m_InitHeight
  let ImageCount0 := (SwapChainSupport.Capabilities.minImageCount + 1) % 2 ^ 32
  let ImageCount :=
    if SwapChainSupport.Capabilities.maxImageCount > 0 ∧
        ImageCount0 > SwapChainSupport.Capabilities.maxImageCount
    then SwapChainSupport.Capabilities.maxImageCount else ImageCount0
  let Indices := FindQueueFamilies app.m_PhysicalDevice
  match Indices.GraphicsFamily, Indices.PresentFamily with
  | some GraphicsFamily, some PresentFamily =>
    let CreateInfo : VkSwapchainCreateInfoKHR :=
      { surface := app.m_Surface
        minImageCount := ImageCount
        imageFormat := SurfaceFormat.format
        imageColorSpace := SurfaceFormat.colorSpace
        imageExtent := Extent
        imageSharingMode :=
          if GraphicsFamily ≠ PresentFamily then VK_SHARING_MODE_CONCURRENT
          else VK_SHARING_MODE_EXCLUSIVE
        queueFamilyIndexCount := if GraphicsFamily ≠ PresentFamily then 2 else 0
        preTransform := SwapChainSupport.Capabilities.currentTransform
        presentMode := PresentMode }
    if a.vkCreateSwapchainKHR.result ≠ VK_SUCCESS then
      Step.throw app [Op.vkCreateSwapchainKHR CreateInfo] "Failed to create swap chain!"
    else
      Step.ret
        { app with m_SwapChainInfo :=
            { app.m_SwapChainInfo with
              SwapChain := a.vkCreateSwapchainKHR.handle
              SwapChainImages := a.SwapChainImages
              SwapChainImageFormat := SurfaceFormat.format
              SwapChainExtent := Extent } }
        [Op.vkCreateSwapchainKHR CreateInfo]
  | _, _ => Step.throw app [] "bad optional access"

/-- Function `CreateImageView`; the reference parameter `ImageView` is the
setter that stores the new handle. -/
def CreateImageView (r : Created) (Image : Handle) (Format : VkFormat) (AspectFlags : Nat)
    (ImageView : App → Handle → App) (app : App) : Step :=
  if r.result ≠ VK_SUCCESS then
    Step.throw app [Op.vkCreateImageView Image Format AspectFlags]
      "Failed to create texture image view!"
  else Step.ret (ImageView app r.handle) [Op.vkCreateImageView Image Format AspectFlags]

/-- Member function `App::CreateSwapChainImageViews`. -/
def CreateSwapChainImageViews (a : BuildAnswers) (app : App) : Step :=
  forLoop (List.range app.m_SwapChainInfo.BufferCount)
    (fun i app =>
      CreateImageView (a.SwapChainImageView i)
        (app.m_SwapChainInfo.SwapChainImages.getD i VK_NULL_HANDLE)
        app.m_SwapChainInfo.SwapChainImageFormat VK_IMAGE_ASPECT_COLOR_BIT
        (fun app h => { app with m_SwapChainInfo :=
          { app.m_SwapChainInfo with
            SwapChainImageViews := app.m_SwapChainInfo.SwapChainImageViews.set i h } })
        app)
    { app with m_SwapChainInfo :=
      { app.m_SwapChainInfo with
        SwapChainImageViews :=
          resize app.m_SwapChainInfo.SwapChainImageViews
            app.m_SwapChainInfo.SwapChainImages.length VK_NULL_HANDLE } }

/-- Member function `App::CreateRenderPass`. -/
def CreateRenderPass (a : BuildAnswers) (app : App) : Step :=
  match FindDepthFormat app.m_PhysicalDevice with
  | .error what => Step.throw app [] what
  | .ok DepthFormat =>
    let create := Op.vkCreateRenderPass app.m_SwapChainInfo.SwapChainImageFormat DepthFormat
      app.m_SwapChainInfo.MsaaSamples
    if a.vkCreateRenderPass.result ≠ VK_SUCCESS then
      Step.throw app [create] "Failed to create render pass!"
    else Step.ret { app with m_RenderPass := a.vkCreateRenderPass.handle } [create]

/-- One of the nine blocks of `App::CreateGraphicsPipeline`: sets the polygon
mode and the cull mode and calls `vkCreateGraphicsPipelines` on the element
`m_GraphicsPipelines[key]`.  On failure the driver writes a null handle. -/
def CreateGraphicsPipeline.variant (r : Created) (polygonMode cullMode key : Nat)
    (app : App) : Step :=
  let create := Op.vkCreateGraphicsPipelines polygonMode cullMode app.m_PipelineLayout
    app.m_RenderPass
  if r.result ≠ VK_SUCCESS then
    Step.throw
      { app with m_GraphicsPipelines :=
          PipelineMap.insert app.m_GraphicsPipelines key VK_NULL_HANDLE }
      [create] "Failed to create graphics pipeline!"
  else
    Step.ret
      { app with m_GraphicsPipelines := PipelineMap.insert app.m_GraphicsPipelines key r.handle }
      [create]

/-- Member function `App::CreateGraphicsPipeline`.  `ReadFile` throws when a
shader file cannot be opened, `CreateShaderModule` when the module cannot be
created. -/
def CreateGraphicsPipeline (a : BuildAnswers) (app : App) : Step :=
  let t := app.GRAPHICS_PIPELINE_TYPE
  match a.VertexShaderFile, a.FragmentShaderFile with
  | none, _ => Step.throw app [] "Failed to open file!"
  | some _, none => Step.throw app [] "Failed to open file!"
  | some VertShaderCode, some FragShaderCode =>
    if a.VertShaderModule.result ≠ VK_SUCCESS then
      Step.throw app [Op.vkCreateShaderModule VertShaderCode] "Failed to create shader module!"
    else if a.FragShaderModule.result ≠ VK_SUCCESS then
      Step.throw app [Op.vkCreateShaderModule VertShaderCode, Op.vkCreateShaderModule FragShaderCode]
        "Failed to create shader module!"
    else if a.vkCreatePipelineLayout.result ≠ VK_SUCCESS then
      Step.throw app
        [Op.vkCreateShaderModule VertShaderCode, Op.vkCreateShaderModule FragShaderCode,
         Op.vkCreatePipelineLayout app.m_DescriptorSetLayout]
        "Failed to create pipeline layout!"
    else
      (Step.ret { app with m_PipelineLayout := a.vkCreatePipelineLayout.handle }
        [Op.vkCreateShaderModule VertShaderCode, Op.vkCreateShaderModule FragShaderCode,
         Op.vkCreatePipelineLayout app.m_DescriptorSetLayout])
      |>.andThen (CreateGraphicsPipeline.variant (a.vkCreateGraphicsPipelines 0)
          VK_POLYGON_MODE_FILL VK_CULL_MODE_FRONT_BIT (t.FILL ||| t.FRONT_CULL))
      |>.andThen (CreateGraphicsPipeline.variant (a.vkCreateGraphicsPipelines 1)
          VK_POLYGON_MODE_LINE VK_CULL_MODE_FRONT_BIT (t.WIREFRAME ||| t.FRONT_CULL))
      |>.andThen (CreateGraphicsPipeline.variant (a.vkCreateGraphicsPipelines 2)
          VK_POLYGON_MODE_POINT VK_CULL_MODE_FRONT_BIT (t.POINT ||| t.FRONT_CULL))
      |>.andThen (CreateGraphicsPipeline.variant (a.vkCreateGraphicsPipelines 3)
          VK_POLYGON_MODE_FILL VK_CULL_MODE_BACK_BIT (t.FILL ||| t.BACK_CULL))
      |>.andThen (CreateGraphicsPipeline.variant (a.vkCreateGraphicsPipelines 4)
          VK_POLYGON_MODE_LINE VK_CULL_MODE_BACK_BIT (t.WIREFRAME ||| t.BACK_CULL))
      |>.andThen (CreateGraphicsPipeline.variant (a.vkCreateGraphicsPipelines 5)
          VK_POLYGON_MODE_POINT VK_CULL_MODE_BACK_BIT (t.POINT ||| t.BACK_CULL))
      |>.andThen (CreateGraphicsPipeline.variant (a.vkCreateGraphicsPipelines 6)
          VK_POLYGON_MODE_FILL VK_CULL_MODE_NONE (t.FILL ||| t.NONE_CULL))
      |>.andThen (CreateGraphicsPipeline.variant (a.vkCreateGraphicsPipelines 7)
          VK_POLYGON_MODE_LINE VK_CULL_MODE_NONE (t.WIREFRAME ||| t.NONE_CULL))
      |>.andThen (CreateGraphicsPipeline.variant (a.vkCreateGraphicsPipelines 8)
          VK_POLYGON_MODE_POINT VK_CULL_MODE_NONE (t.POINT ||| t.NONE_CULL))
      |>.andThen (fun app => Step.ret app
          [Op.vkDestroyShaderModule a.VertShaderModule.handle,
           Op.vkDestroyShaderModule a.FragShaderModule.handle])

/-- Function `CreateImage`; the reference parameters `Image` and `ImageMemory`
are the setters that store the new handles. -/
def CreateImage (a : ImageAnswers) (Width Height MipLevels Samples : Nat) (Format : VkFormat)
    (Usage Properties : Nat) (Image ImageMemory : App → Handle → App) (app : App) : Step :=
  let create := Op.vkCreateImage Width Height MipLevels Samples Format Usage
  if a.vkCreateImage.result ≠ VK_SUCCESS then
    Step.throw app [create] "Failed to create texture image!"
  else
    match FindMemoryType app.m_PhysicalDevice a.memoryTypeBits Properties with
    | .error what => Step.throw (Image app a.vkCreateImage.handle) [create] what
    | .ok memoryTypeIndex =>
      if a.vkAllocateMemory.result ≠ VK_SUCCESS then
        Step.throw (Image app a.vkCreateImage.handle)
          [create, Op.vkAllocateMemory memoryTypeIndex]
          "Failed to allocate texture image memory!"
      else
        Step.ret (ImageMemory (Image app a.vkCreateImage.handle) a.vkAllocateMemory.handle)
          [create, Op.vkAllocateMemory memoryTypeIndex,
           Op.vkBindImageMemory a.vkCreateImage.handle a.vkAllocateMemory.handle]

/-- Function `TransitionImageLayout` on the graphics queue, with
`BeginSingleTimeCommands` and `EndSingleTimeCommands` inlined; the first
argument is the one-time command buffer the driver allocates. -/
def TransitionImageLayout (CommandBuffer : Handle) (Image : Handle) (Format : VkFormat)
    (MipLevels : Nat) (OldLayout NewLayout : Nat) (app : App) : Step :=
  let begin := [Op.vkAllocateCommandBuffers app.m_CommandPool 1,
                Op.vkBeginCommandBuffer CommandBuffer]
  let aspectMask :=
    if NewLayout = VK_IMAGE_LAYOUT_DEPTH_STENCIL_ATTACHMENT_OPTIMAL then
      (if HasStencilComponent Format then VK_IMAGE_ASPECT_DEPTH_BIT ||| VK_IMAGE_ASPECT_STENCIL_BIT
       else VK_IMAGE_ASPECT_DEPTH_BIT)
    else VK_IMAGE_ASPECT_COLOR_BIT
  if (OldLayout = VK_IMAGE_LAYOUT_UNDEFINED ∧ NewLayout = VK_IMAGE_LAYOUT_TRANSFER_DST_OPTIMAL) ∨
     (OldLayout = VK_IMAGE_LAYOUT_TRANSFER_DST_OPTIMAL ∧
        NewLayout = VK_IMAGE_LAYOUT_SHADER_READ_ONLY_OPTIMAL) ∨
     (OldLayout = VK_IMAGE_LAYOUT_UNDEFINED ∧
        NewLayout = VK_IMAGE_LAYOUT_DEPTH_STENCIL_ATTACHMENT_OPTIMAL) ∨
     (OldLayout = VK_IMAGE_LAYOUT_UNDEFINED ∧ NewLayout = VK_IMAGE_LAYOUT_COLOR_ATTACHMENT_OPTIMAL)
  then
    Step.ret app
      (begin ++
        [Op.vkCmdPipelineBarrier CommandBuffer Image 0 MipLevels OldLayout NewLayout aspectMask,
         Op.vkEndCommandBuffer CommandBuffer,
         Op.vkQueueSubmit Queue.m_GraphicsQueue [] (CommandBufferRef.singleTime CommandBuffer) []
           none,
         Op.vkQueueWaitIdle Queue.m_GraphicsQueue,
         Op.vkFreeCommandBuffers app.m_CommandPool [CommandBuffer]])
  else Step.throw app begin "Unsupported layout transition!"

/-- Member function `App::CreateColorResource`. -/
def CreateColorResource (a : BuildAnswers) (app : App) : Step :=
  let ColorFormat := app.m_SwapChainInfo.SwapChainImageFormat
  (CreateImage a.Color app.m_SwapChainInfo.SwapChainExtent.width
      app.m_SwapChainInfo.SwapChainExtent.height 1 app.m_SwapChainInfo.MsaaSamples ColorFormat
      (VK_IMAGE_USAGE_TRANSIENT_ATTACHMENT_BIT ||| VK_IMAGE_USAGE_COLOR_ATTACHMENT_BIT)
      VK_MEMORY_PROPERTY_DEVICE_LOCAL_BIT
      (fun app h => { app with m_SwapChainInfo := { app.m_SwapChainInfo with ColorImage := h } })
      (fun app h =>
        { app with m_SwapChainInfo := { app.m_SwapChainInfo with ColorImageMemory := h } })
      app)
  |>.andThen (fun app =>
      CreateImageView a.Color.vkCreateImageView app.m_SwapChainInfo.ColorImage ColorFormat
        VK_IMAGE_ASPECT_COLOR_BIT
        (fun app h =>
          { app with m_SwapChainInfo := { app.m_SwapChainInfo with ColorImageView := h } })
        app)
  |>.andThen (fun app =>
      TransitionImageLayout a.Color.singleTimeCommandBuffer app.m_SwapChainInfo.ColorImage
        ColorFormat 1 VK_IMAGE_LAYOUT_UNDEFINED VK_IMAGE_LAYOUT_COLOR_ATTACHMENT_OPTIMAL app)

/-- Member function `App::CreateDepthResource`. -/
def CreateDepthResource (a : BuildAnswers) (app : App) : Step :=
  match FindDepthFormat app.m_PhysicalDevice with
  | .error what => Step.throw app [] what
  | .ok DepthFormat =>
    (CreateImage a.Depth app.m_SwapChainInfo.SwapChainExtent.width
        app.m_SwapChainInfo.SwapChainExtent.height 1 app.m_SwapChainInfo.MsaaSamples DepthFormat
        VK_IMAGE_USAGE_DEPTH_STENCIL_ATTACHMENT_BIT VK_MEMORY_PROPERTY_DEVICE_LOCAL_BIT
        (fun app h => { app with m_SwapChainInfo := { app.m_SwapChainInfo with DepthImage := h } })
        (fun app h =>
          { app with m_SwapChainInfo := { app.m_SwapChainInfo with DepthImageMemory := h } })
        app)
    |>.andThen (fun app =>
        CreateImageView a.Depth.vkCreateImageView app.m_SwapChainInfo.DepthImage DepthFormat
          VK_IMAGE_ASPECT_DEPTH_BIT
          (fun app h =>
            { app with m_SwapChainInfo := { app.m_SwapChainInfo with DepthImageView := h } })
          app)
    |>.andThen (fun app =>
        TransitionImageLayout a.Depth.singleTimeCommandBuffer app.m_SwapChainInfo.DepthImage
          DepthFormat 1 VK_IMAGE_LAYOUT_UNDEFINED VK_IMAGE_LAYOUT_DEPTH_STENCIL_ATTACHMENT_OPTIMAL
          app)

/-- Member function `App::CreateFramebuffers`. -/
def CreateFramebuffers (a : BuildAnswers) (app : App) : Step :=
  forLoop (List.range app.m_SwapChainInfo.BufferCount)
    (fun i app =>
      let create := Op.vkCreateFramebuffer app.m_RenderPass
        [app.m_SwapChainInfo.ColorImageView, app.m_SwapChainInfo.DepthImageView,
         app.m_SwapChainInfo.SwapChainImageViews.getD i VK_NULL_HANDLE]
        app.m_SwapChainInfo.SwapChainExtent.width app.m_SwapChainInfo.SwapChainExtent.height
      if (a.vkCreateFramebuffer i).result ≠ VK_SUCCESS then
        Step.throw app [create] "Failed to create framebuffer!"
      else
        Step.ret
          { app with m_SwapChainInfo :=
            { app.m_SwapChainInfo with
              SwapChainFramebuffers :=
                app.m_SwapChainInfo.SwapChainFramebuffers.set i (a.vkCreateFramebuffer i).handle } }
          [create])
    { app with m_SwapChainInfo :=
      { app.m_SwapChainInfo with
        SwapChainFramebuffers :=
          resize app.m_SwapChainInfo.SwapChainFramebuffers app.m_SwapChainInfo.BufferCount
            VK_NULL_HANDLE } }

/-- The body of the recording loop of `App::CreateDrawingCommandBuffers` for
command buffer `i`. -/
def CreateDrawingCommandBuffers.record (a : BuildAnswers) (i : Nat) (app : App) : Step :=
  let cb := app.m_DrawingCommandBuffers.getD i VK_NULL_HANDLE
  if a.vkBeginCommandBuffer i ≠ VK_SUCCESS then
    Step.throw app [Op.vkBeginCommandBuffer cb] "Failed to begin recording command buffer!"
  else
    let pipeline := PipelineMap.subscript app.m_GraphicsPipelines
      (app.m_GraphicsPipelineDisplayMode ||| app.m_GraphicsPipelineCullMode)
    let app1 := { app with m_GraphicsPipelines := pipeline.1 }
    let ops :=
      [ Op.vkBeginCommandBuffer cb,
        Op.vkCmdBeginRenderPass cb app.m_RenderPass
          (app.m_SwapChainInfo.SwapChainFramebuffers.getD i VK_NULL_HANDLE),
        Op.vkCmdBindPipeline cb pipeline.2,
        Op.vkCmdBindVertexBuffers cb app.m_VertexBuffer.Buffer,
        Op.vkCmdBindIndexBuffer cb app.m_IndexBuffer.Buffer,
        Op.vkCmdBindDescriptorSets cb app.m_PipelineLayout
          (app.m_DescriptorSets.getD i VK_NULL_HANDLE),
        Op.vkCmdDrawIndexed cb app.m_Indices.length,
        Op.vkCmdEndRenderPass cb,
        Op.vkEndCommandBuffer cb ]
    if a.vkEndCommandBuffer i ≠ VK_SUCCESS then
      Step.throw app1 ops "Failed to record command buffer!"
    else Step.ret app1 ops

/-- Member function `App::CreateDrawingCommandBuffers`. -/
def CreateDrawingCommandBuffers (a : BuildAnswers) (app : App) : Step :=
  let count := app.m_SwapChainInfo.BufferCount
  let allocate := Op.vkAllocateCommandBuffers app.m_CommandPool count
  if a.vkAllocateCommandBuffers ≠ VK_SUCCESS then
    Step.throw
      { app with m_DrawingCommandBuffers := resize app.m_DrawingCommandBuffers count VK_NULL_HANDLE }
      [allocate] "Failed to allocate command buffers!"
  else
    (Step.ret
      { app with m_DrawingCommandBuffers := (List.range count).map a.DrawingCommandBuffer }
      [allocate])
    |>.andThen (forLoop (List.range count) (CreateDrawingCommandBuffers.record a))

/-! ## Keyboard control of the pipeline variant (`App::KeyboardCallback`) -/

/-- Key and action codes of `glfw3.h`. -/
def GLFW_RELEASE : Int := 0

def GLFW_KEY_C : Int := 67

def GLFW_KEY_D : Int := 68

def GLFW_KEY_R : Int := 82

def GLFW_KEY_ESCAPE : Int := 256

/-- Member function `App::RecreateDrawingCommandBuffer`. -/
def RecreateDrawingCommandBuffer (a : BuildAnswers) (app : App) : Step :=
  (Step.ret app
    [ Op.vkQueueWaitIdle Queue.m_GraphicsQueue,
      Op.vkFreeCommandBuffers app.m_CommandPool app.m_DrawingCommandBuffers ])
  |>.andThen (CreateDrawingCommandBuffers a)

/-- The `switch` of `App::KeyboardCallback` on the display mode. -/
def KeyboardCallback.nextDisplayMode (t : GraphicsPipelineType) (mode : Nat) : Nat :=
  if mode = t.FILL then t.WIREFRAME
  else if mode = t.WIREFRAME then t.POINT
  else if mode = t.POINT then t.FILL
  else t.FILL

/-- The `switch` of `App::KeyboardCallback` on the cull mode. -/
def KeyboardCallback.nextCullMode (t : GraphicsPipelineType) (mode : Nat) : Nat :=
  if mode = t.NONE_CULL then t.FRONT_CULL
  else if mode = t.FRONT_CULL then t.BACK_CULL
  else if mode = t.BACK_CULL then t.NONE_CULL
  else t.NONE_CULL

/-- Callback `App::KeyboardCallback` for one key event, with the answers of the
driver during the re-recording of the drawing command buffers.  The camera
that the key R resets is not a member of the state here; `Camera.Reset` embeds
that call. -/
def KeyboardCallback (a : BuildAnswers) (Key Action : Int) (app : App) : Step :=
  (if Key = GLFW_KEY_R ∧ Action = GLFW_RELEASE then
      RecreateDrawingCommandBuffer a
        { app with
          m_GraphicsPipelineDisplayMode := app.GRAPHICS_PIPELINE_TYPE.FILL
          m_GraphicsPipelineCullMode := app.GRAPHICS_PIPELINE_TYPE.NONE_CULL }
    else Step.ret app [])
  |>.andThen (fun app =>
    if Key = GLFW_KEY_D ∧ Action = GLFW_RELEASE then
      RecreateDrawingCommandBuffer a
        { app with
          m_GraphicsPipelineDisplayMode :=
            KeyboardCallback.nextDisplayMode app.GRAPHICS_PIPELINE_TYPE
              app.m_GraphicsPipelineDisplayMode }
    else Step.ret app [])
  |>.andThen (fun app =>
    if Key = GLFW_KEY_C ∧ Action = GLFW_RELEASE then
      RecreateDrawingCommandBuffer a
        { app with
          m_GraphicsPipelineCullMode :=
            KeyboardCallback.nextCullMode app.GRAPHICS_PIPELINE_TYPE
              app.m_GraphicsPipelineCullMode }
    else Step.ret app [])
  |>.andThen (fun app =>
    if Key = GLFW_KEY_ESCAPE ∧ Action = GLFW_RELEASE then
      Step.ret app [Op.lifecycle LifecycleCall.glfwSetWindowShouldClose]
    else Step.ret app [])

/-- One keyboard event: the key, the action, and the answers of the driver
while the callback runs. -/
structure KeyEvent where
  Key : Int
  Action : Int
  build : BuildAnswers

/-- A sequence of keyboard events, each handled by `App::KeyboardCallback`;
the run ends where a callback throws. -/
def KeyboardCallbacks : List KeyEvent → App → Step
  | [], app => Step.ret app []
  | e :: rest, app => (KeyboardCallback e.build e.Key e.Action app).andThen (KeyboardCallbacks rest)

/-! ## Swapchain rebuild -/

/-- Callback `App::FramebufferResizeCallback`; `InitWindow` registers the
application object as the user pointer of the window, so the pointer is not
null. -/
def FramebufferResizeCallback (app : App) : App :=
  { app with m_bFramebufferResized := true }

/-- One iteration of the wait loop of the rebuild: what
`glfwGetFramebufferSize` reads, and what `glfwWaitEvents` dispatches before it
returns: whether it delivers a framebuffer-resize notification to
`FramebufferResizeCallback`, and the keyboard events it hands to
`KeyboardCallback`.  The mouse callbacks that `InitWindow` registers write
the camera and the members `m_MouseButton` and `m_MouseAction` only, which
are not members of the state here. -/
structure WaitAnswer where
  Width : Int
  Height : Int
  resized : Bool
  keys : List KeyEvent

/-- The body of the loop `while(Width == 0 || Height == 0)` of
`App::RecreateSwapChainAndRelevantObject`: the read of the framebuffer size
and `glfwWaitEvents`, which runs the callbacks of the events it delivers, as
`glfwPollEvents` does in `MainLoop`.  The resize callback and the keyboard
callback write different members, so their order makes no difference.  The
body ends where a keyboard callback throws. -/
def RecreateSwapChainAndRelevantObject.waitBody (w : WaitAnswer) (app : App) : Step :=
  (Step.ret (if w.resized then FramebufferResizeCallback app else app)
    [Op.glfwGetFramebufferSize w.Width w.Height, Op.glfwWaitEvents])
  |>.andThen (KeyboardCallbacks w.keys)

/-- The loop `while(Width == 0 || Height == 0)` of
`App::RecreateSwapChainAndRelevantObject`.  Both variables start at 0, so the
body runs at least once; the loop takes one answer of the window system for
each iteration, and blocks when the script ends with a zero size. -/
def RecreateSwapChainAndRelevantObject.wait : List WaitAnswer → App → Step
  | [], app => ⟨app, [], .blocked⟩
  | w :: rest, app =>
    if w.Width = 0 ∨ w.Height = 0 then
      (RecreateSwapChainAndRelevantObject.waitBody w app).andThen
        (RecreateSwapChainAndRelevantObject.wait rest)
    else RecreateSwapChainAndRelevantObject.waitBody w app

/-- The answers during one call of `App::RecreateSwapChainAndRelevantObject`. -/
structure RecreateAnswers where
  waits : List WaitAnswer
  build : BuildAnswers

/-- Member function `App::RecreateSwapChainAndRelevantObject`. -/
def RecreateSwapChainAndRelevantObject (a : RecreateAnswers) (app : App) : Step :=
  (RecreateSwapChainAndRelevantObject.wait a.waits app)
  |>.andThen (fun app => Step.ret app [Op.vkDeviceWaitIdle])
  |>.andThen DestroySwapChainAndRelevantObject
  |>.andThen (CreateSwapChain a.build)
  |>.andThen (CreateSwapChainImageViews a.build)
  |>.andThen (CreateRenderPass a.build)
  |>.andThen (CreateGraphicsPipeline a.build)
  |>.andThen (CreateColorResource a.build)
  |>.andThen (CreateDepthResource a.build)
  |>.andThen (CreateFramebuffers a.build)
  |>.andThen (CreateDrawingCommandBuffers a.build)

/-! ## The frame -/

/-- Member function `App::UpdateUniformBuffer`: three calls of the helper
`MapMemory`, on element `CurrentImage` of each uniform buffer array.  The
blocks written (matrices of the camera, lights, material) are not modelled. -/
def UpdateUniformBuffer (CurrentImage : Nat) (app : App) : Step :=
  Step.ret app
    [ Op.MapMemory UniformArray.m_MvpUniformBuffers CurrentImage,
      Op.MapMemory UniformArray.m_LightUniformBuffers CurrentImage,
      Op.MapMemory UniformArray.m_MaterialUniformBuffers CurrentImage ]

/-- The answers during one call of `App::Draw`: the result and the image index
of `vkAcquireNextImageKHR`, the results of `vkQueueSubmit` and of
`vkQueuePresentKHR`, and the answers during the rebuild, should it run. -/
structure DrawAnswers where
  vkAcquireNextImageKHR : VkResult
  ImageIndex : Nat
  vkQueueSubmit : VkResult
  vkQueuePresentKHR : VkResult
  recreate : RecreateAnswers

/-- Member function `App::Draw`. -/
def Draw (a : DrawAnswers) (app : App) : Step :=
  let acquire :=
    [ Op.vkWaitForFences app.m_CurrentFrame,
      Op.vkAcquireNextImageKHR app.m_SwapChainInfo.SwapChain
        (SemaphoreRef.m_ImageAvailableSemaphores app.m_CurrentFrame) ]
  if a.vkAcquireNextImageKHR = VK_ERROR_OUT_OF_DATE_KHR ∨
      a.vkAcquireNextImageKHR = VK_SUBOPTIMAL_KHR then
    (Step.ret app acquire).andThen (RecreateSwapChainAndRelevantObject a.recreate)
  else if a.vkAcquireNextImageKHR ≠ VK_SUCCESS then
    Step.throw app acquire "Failed to acquire swap chain image!"
  else
    (Step.ret app acquire)
    |>.andThen (UpdateUniformBuffer a.ImageIndex)
    |>.andThen (fun app =>
      let submit :=
        [ Op.vkResetFences app.m_CurrentFrame,
          Op.vkQueueSubmit Queue.m_GraphicsQueue
            [SemaphoreRef.m_ImageAvailableSemaphores app.m_CurrentFrame]
            (CommandBufferRef.m_DrawingCommandBuffers a.ImageIndex)
            [SemaphoreRef.m_RenderFinishedSemaphores app.m_CurrentFrame]
            (some app.m_CurrentFrame) ]
      if a.vkQueueSubmit ≠ VK_SUCCESS then
        Step.throw app submit "Failed to submit draw command buffer!"
      else
        let present :=
          Op.vkQueuePresentKHR Queue.m_PresentQueue
            (SemaphoreRef.m_RenderFinishedSemaphores app.m_CurrentFrame)
            app.m_SwapChainInfo.SwapChain a.ImageIndex
        if a.vkQueuePresentKHR = VK_ERROR_OUT_OF_DATE_KHR ∨
            a.vkQueuePresentKHR = VK_SUBOPTIMAL_KHR ∨ app.m_bFramebufferResized = true then
          (Step.ret { app with m_bFramebufferResized := false } (submit ++ [present]))
          |>.andThen (RecreateSwapChainAndRelevantObject a.recreate)
        else if a.vkQueuePresentKHR ≠ VK_SUCCESS then
          Step.throw app (submit ++ [present]) "Failed to acquire swap chain image!"
        else
          Step.ret
            { app with m_CurrentFrame := (app.m_CurrentFrame + 1) % app.m_MaxFramesInFlights }
            (submit ++ [present]))

/-! ## Initialisation -/

/-- The answers during one call of `CreateBuffer`. -/
structure BufferAnswers where
  vkCreateBuffer : Created
  memoryTypeBits : Nat
  vkAllocateMemory : Created
deriving DecidableEq, Repr

/-- Function `CreateBuffer`; the two setters store into the fields `Buffer`
and `Memory` of the reference parameter. -/
def CreateBuffer (a : BufferAnswers) (Size Usage Properties : Nat)
    (Buffer Memory : App → Handle → App) (app : App) : Step :=
  let create := Op.vkCreateBuffer Size Usage
  if a.vkCreateBuffer.result ≠ VK_SUCCESS then
    Step.throw app [create] "Failed to create vertex buffer!"
  else
    match FindMemoryType app.m_PhysicalDevice a.memoryTypeBits Properties with
    | .error what => Step.throw (Buffer app a.vkCreateBuffer.handle) [create] what
    | .ok memoryTypeIndex =>
      if a.vkAllocateMemory.result ≠ VK_SUCCESS then
        Step.throw (Buffer app a.vkCreateBuffer.handle)
          [create, Op.vkAllocateMemory memoryTypeIndex]
          "Failed to allocate vertex buffer memory!"
      else
        Step.ret (Memory (Buffer app a.vkCreateBuffer.handle) a.vkAllocateMemory.handle)
          [create, Op.vkAllocateMemory memoryTypeIndex,
           Op.vkBindBufferMemory a.vkCreateBuffer.handle a.vkAllocateMemory.handle]

/-- Stores a buffer handle into element `i` of a vector of `BufferInfo`. -/
def setBuffer (v : List BufferInfo) (i : Nat) (h : Handle) : List BufferInfo :=
  v.set i { v.getD i {} with Buffer := h }

/-- Stores a memory handle into element `i` of a vector of `BufferInfo`. -/
def setMemory (v : List BufferInfo) (i : Nat) (h : Handle) : List BufferInfo :=
  v.set i { v.getD i {} with Memory := h }

/-- Member function `App::CreateMvpUniformBuffer`. -/
def CreateMvpUniformBuffer (a : Nat → BufferAnswers) (app : App) : Step :=
  let BufferSize := app.SIZEOF.MvpUniformBufferObject
  forLoop (List.range app.m_SwapChainInfo.BufferCount)
    (fun i app =>
      CreateBuffer (a i) BufferSize VK_BUFFER_USAGE_UNIFORM_BUFFER_BIT
        (VK_MEMORY_PROPERTY_HOST_VISIBLE_BIT ||| VK_MEMORY_PROPERTY_HOST_COHERENT_BIT)
        (fun app h => { app with m_MvpUniformBuffers := setBuffer app.m_MvpUniformBuffers i h })
        (fun app h => { app with m_MvpUniformBuffers := setMemory app.m_MvpUniformBuffers i h })
        app)
    { app with
      m_MvpUniformBuffers := resize app.m_MvpUniformBuffers app.m_SwapChainInfo.SwapChainImages.length {} }

/-- Member function `App::CreateLightUniformBuffer`. -/
def CreateLightUniformBuffer (a : Nat → BufferAnswers) (app : App) : Step :=
  let BufferSize := app.SIZEOF.LightUniformBufferObject
  forLoop (List.range app.m_SwapChainInfo.BufferCount)
    (fun i app =>
      CreateBuffer (a i) BufferSize VK_BUFFER_USAGE_UNIFORM_BUFFER_BIT
        (VK_MEMORY_PROPERTY_HOST_VISIBLE_BIT ||| VK_MEMORY_PROPERTY_HOST_COHERENT_BIT)
        (fun app h => { app with m_LightUniformBuffers := setBuffer app.m_LightUniformBuffers i h })
        (fun app h => { app with m_LightUniformBuffers := setMemory app.m_LightUniformBuffers i h })
        app)
    { app with
      m_LightUniformBuffers := resize app.m_LightUniformBuffers app.m_SwapChainInfo.BufferCount {} }

/-- Member function `App::CreateMaterialUniformBuffer`. -/
def CreateMaterialUniformBuffer (a : Nat → BufferAnswers) (app : App) : Step :=
  let BufferSize := app.SIZEOF.MaterialUniformBufferObject
  forLoop (List.range app.m_SwapChainInfo.BufferCount)
    (fun i app =>
      CreateBuffer (a i) BufferSize VK_BUFFER_USAGE_UNIFORM_BUFFER_BIT
        (VK_MEMORY_PROPERTY_HOST_VISIBLE_BIT ||| VK_MEMORY_PROPERTY_HOST_COHERENT_BIT)
        (fun app h =>
          { app with m_MaterialUniformBuffers := setBuffer app.m_MaterialUniformBuffers i h })
        (fun app h =>
          { app with m_MaterialUniformBuffers := setMemory app.m_MaterialUniformBuffers i h })
        app)
    { app with
      m_MaterialUniformBuffers := resize app.m_MaterialUniformBuffers app.m_SwapChainInfo.BufferCount {} }

/-- The answers during `App::CreateSyncObjects`, by frame slot. -/
structure SyncAnswers where
  ImageAvailableSemaphore : Nat → Created
  RenderFinishedSemaphore : Nat → Created
  InFlightFence : Nat → Created

/-- Member function `App::CreateSyncObjects`; the three creations of a slot are
joined by `||`, so a failure skips the creations after it. -/
def CreateSyncObjects (a : SyncAnswers) (app : App) : Step :=
  forLoop (List.range app.m_MaxFramesInFlights)
    (fun i app =>
      if (a.ImageAvailableSemaphore i).result ≠ VK_SUCCESS then
        Step.throw app [Op.vkCreateSemaphore] "Failed to create semaphores!"
      else
        let app1 := { app with m_ImageAvailableSemaphores :=
          app.m_ImageAvailableSemaphores.set i (a.ImageAvailableSemaphore i).handle }
        if (a.RenderFinishedSemaphore i).result ≠ VK_SUCCESS then
          Step.throw app1 [Op.vkCreateSemaphore, Op.vkCreateSemaphore]
            "Failed to create semaphores!"
        else
          let app2 := { app1 with m_RenderFinishedSemaphores :=
            app1.m_RenderFinishedSemaphores.set i (a.RenderFinishedSemaphore i).handle }
          if (a.InFlightFence i).result ≠ VK_SUCCESS then
            Step.throw app2 [Op.vkCreateSemaphore, Op.vkCreateSemaphore, Op.vkCreateFence]
              "Failed to create semaphores!"
          else
            Step.ret
              { app2 with m_InFlightFences :=
                  app2.m_InFlightFences.set i (a.InFlightFence i).handle }
              [Op.vkCreateSemaphore, Op.vkCreateSemaphore, Op.vkCreateFence])
    { app with
      m_ImageAvailableSemaphores :=
        resize app.m_ImageAvailableSemaphores app.m_MaxFramesInFlights VK_NULL_HANDLE
      m_RenderFinishedSemaphores :=
        resize app.m_RenderFinishedSemaphores app.m_MaxFramesInFlights VK_NULL_HANDLE
      m_InFlightFences := resize app.m_InFlightFences app.m_MaxFramesInFlights VK_NULL_HANDLE }

/-- What the environment reports of a member function whose body is not
embedded here: the values it leaves in the members it writes, and the message
of the exception when it threw.  Its API calls are not listed in the trace. -/
structure External (α : Type) where
  members : α
  threw : Option String

/-- A step of `InitVulkan` whose body is not embedded: it stores what the
environment reports into the members the function writes. -/
def External.run {α : Type} (r : External α) (store : App → α → App) (app : App) : Step :=
  ⟨store app r.members, [],
   match r.threw with
   | none => Outcome.returned
   | some what => Outcome.threw what⟩

/-- The answers during `App::InitVulkan`. -/
structure InitAnswers where
  CreateInstance : External Handle
  SetupDebugMessenger : External Handle
  CreateSurface : External Handle
  SelectPhysicalDevice : External (PhysicalDevice × Nat × String)
  CreateLogicalDevice : External (Handle × Handle × Handle)
  build : BuildAnswers
  CreateDescriptorSetLayout : External Handle
  CreateCommandPool : External Handle
  LoadAndCreateTextures :
    External (TextureInfo × TextureInfo × TextureInfo × TextureInfo × TextureInfo)
  LoadObjModel : External (Nat × Nat × List Nat)
  CreateVertexBuffer : External BufferInfo
  CreateIndexBuffer : External BufferInfo
  MvpUniformBuffer : Nat → BufferAnswers
  LightUniformBuffer : Nat → BufferAnswers
  MaterialUniformBuffer : Nat → BufferAnswers
  CreateDescriptorPool : External Handle
  CreateDescriptorSets : External (List Handle)
  sync : SyncAnswers

/-- Member function `App::InitVulkan`.  The steps that negotiate the device,
load the assets and create the descriptors are taken from the environment
(`External`); the steps that size an array by the number of presentable images
or of frame slots are embedded. -/
def InitVulkan (a : InitAnswers) (app : App) : Step :=
  (a.CreateInstance.run (fun app h => { app with m_Instance := h }) app)
  |>.andThen (a.SetupDebugMessenger.run (fun app h => { app with m_DebugMessenger := h }))
  |>.andThen (a.CreateSurface.run (fun app h => { app with m_Surface := h }))
  |>.andThen (a.SelectPhysicalDevice.run (fun app d =>
      { app with m_PhysicalDevice := d.1, m_GpuName := d.2.2,
                 m_SwapChainInfo := { app.m_SwapChainInfo with MsaaSamples := d.2.1 } }))
  |>.andThen (a.CreateLogicalDevice.run (fun app d =>
      { app with m_Device := d.1, m_GraphicsQueue := d.2.1, m_PresentQueue := d.2.2 }))
  |>.andThen (CreateSwapChain a.build)
  |>.andThen (CreateSwapChainImageViews a.build)
  |>.andThen (CreateRenderPass a.build)
  |>.andThen (a.CreateDescriptorSetLayout.run (fun app h => { app with m_DescriptorSetLayout := h }))
  |>.andThen (CreateGraphicsPipeline a.build)
  |>.andThen (a.CreateCommandPool.run (fun app h => { app with m_CommandPool := h }))
  |>.andThen (CreateColorResource a.build)
  |>.andThen (CreateDepthResource a.build)
  |>.andThen (CreateFramebuffers a.build)
  |>.andThen (a.LoadAndCreateTextures.run (fun app t =>
      { app with m_AlbedoTexture := t.1, m_NormalTexture := t.2.1, m_MetallicTexture := t.2.2.1,
                 m_RoughnessTexture := t.2.2.2.1, m_AoTexture := t.2.2.2.2 }))
  |>.andThen (a.LoadObjModel.run (fun app m =>
      { app with m_VertexNum := m.1, m_FacetNum := m.2.1, m_Indices := m.2.2 }))
  |>.andThen (a.CreateVertexBuffer.run (fun app b => { app with m_VertexBuffer := b }))
  |>.andThen (a.CreateIndexBuffer.run (fun app b => { app with m_IndexBuffer := b }))
  |>.andThen (CreateMvpUniformBuffer a.MvpUniformBuffer)
  |>.andThen (CreateLightUniformBuffer a.LightUniformBuffer)
  |>.andThen (CreateMaterialUniformBuffer a.MaterialUniformBuffer)
  |>.andThen (a.CreateDescriptorPool.run (fun app h => { app with m_DescriptorPool := h }))
  |>.andThen (a.CreateDescriptorSets.run (fun app s => { app with m_DescriptorSets := s }))
  |>.andThen (CreateDrawingCommandBuffers a.build)
  |>.andThen (CreateSyncObjects a.sync)

/-! ## Runs and trace predicates -/

/-- A run of `App::Draw` calls, one for each element of the list; the run ends
where a call throws or blocks. -/
def Draws : List DrawAnswers → App → Step
  | [], app => Step.ret app []
  | a :: rest, app => (Draw a app).andThen (Draws rest)

/-- A call that destroys or frees an object. -/
def Op.isDestroy : Op → Bool
  | .vkDestroyImageView _ => true
  | .vkDestroyImage _ => true
  | .vkFreeMemory _ => true
  | .vkDestroyFramebuffer _ => true
  | .vkDestroyPipeline _ => true
  | .vkDestroyPipelineLayout _ => true
  | .vkDestroyRenderPass _ => true
  | .vkDestroySwapchainKHR _ => true
  | .vkFreeCommandBuffers _ _ => true
  | .vkDestroyShaderModule _ => true
  | .lifecycle .glfwInit => false
  | .lifecycle (.glfwCreateWindow _ _) => false
  | .lifecycle .glfwPollEvents => false
  | .lifecycle .glfwSetWindowShouldClose => false
  | .lifecycle _ => true
  | _ => false

/-- A call of the event wait of the rebuild. -/
def Op.isWindowWait : Op → Bool
  | .glfwGetFramebufferSize _ _ => true
  | .glfwWaitEvents => true
  | _ => false

/-- The effect of one call on the frames in flight: the frames that are
submitted and not yet confirmed complete, as pairs of the fence and the image
index of the submission.  A submission of a drawing command buffer with a
fence adds its pair; a wait on a fence confirms every frame submitted with
that fence. -/
def inFlightStep (op : Op) (inFlight : List (Nat × Nat)) : List (Nat × Nat) :=
  match op with
  | .vkWaitForFences fence => inFlight.filter (fun p => p.1 != fence)
  | .vkQueueSubmit _ _ (.m_DrawingCommandBuffers k) _ (some fence) => (fence, k) :: inFlight
  | _ => inFlight

/-- The image index a call works on, when it writes a per-image uniform buffer
or submits a drawing command buffer. -/
def Op.usesImage : Op → Option Nat
  | .MapMemory _ k => some k
  | .vkQueueSubmit _ _ (.m_DrawingCommandBuffers k) _ _ => some k
  | _ => none

/-- Starting with the given frames in flight, no call of the trace writes the
uniform buffers of an image index, or submits its command buffer, while a
frame submitted with the same image index is in flight. -/
def imageSafe (inFlight : List (Nat × Nat)) : List Op → Bool
  | [] => true
  | op :: later =>
    (match op.usesImage with
     | some k => inFlight.all (fun p => p.2 != k)
     | none => true) && imageSafe (inFlightStep op inFlight) later

/-- Starting with the given frames in flight, no call of the trace writes a
uniform buffer or submits a drawing command buffer while a frame submitted
with the fence `fence` is in flight. -/
def slotSafe (fence : Nat) (inFlight : List (Nat × Nat)) : List Op → Bool
  | [] => true
  | op :: later =>
    (match op.usesImage with
     | some _ => inFlight.all (fun p => p.1 != fence)
     | none => true) && slotSafe fence (inFlightStep op inFlight) later

/-! ## Example answers, for the witnesses -/

/-- Example values of the pipeline variant constants. -/
def exampleTypes : GraphicsPipelineType :=
  { FILL := 1, WIREFRAME := 2, POINT := 4, NONE_CULL := 8, FRONT_CULL := 16, BACK_CULL := 32 }

/-- An example device: one queue family with graphics and presentation, depth
format `D32_SFLOAT`, a device-local and a host-visible coherent memory type. -/
def exampleDevice : PhysicalDevice :=
  { handle := 70
    queueFamilies := [⟨1, 1, true⟩]
    formatProperties := [(126, ⟨0, 0x200⟩)]
    memoryTypes := [1, 6] }

/-- An example application state: two frame slots, current slot 0, three
presentable images. -/
def exampleApp : App :=
  { GRAPHICS_PIPELINE_TYPE := exampleTypes
    SIZEOF := ⟨192, 96, 32⟩
    m_InitWidth := 800
    m_InitHeight := 600
    m_MaxFramesInFlights := 2
    m_GraphicsPipelineDisplayMode := 1
    m_GraphicsPipelineCullMode := 8
    m_PhysicalDevice := exampleDevice
    m_SwapChainInfo :=
      { SwapChain := 10, SwapChainImages := [11, 12, 13], SwapChainImageViews := [14, 15, 16]
        ColorImage := 17, ColorImageMemory := 18, ColorImageView := 19
        DepthImage := 20, DepthImageMemory := 21, DepthImageView := 22
        SwapChainFramebuffers := [23, 24, 25] }
    m_RenderPass := 26
    m_PipelineLayout := 27
    m_GraphicsPipelines := [(9, 28), (17, 29)]
    m_CommandPool := 30
    m_DrawingCommandBuffers := [31, 32, 33]
    m_MvpUniformBuffers := [⟨34, 35⟩, ⟨36, 37⟩, ⟨38, 39⟩]
    m_LightUniformBuffers := [⟨40, 41⟩, ⟨42, 43⟩, ⟨44, 45⟩]
    m_MaterialUniformBuffers := [⟨46, 47⟩, ⟨48, 49⟩, ⟨50, 51⟩]
    m_ImageAvailableSemaphores := [52, 53]
    m_RenderFinishedSemaphores := [54, 55]
    m_InFlightFences := [56, 57] }

/-- Example answers of one build in which every call succeeds and the driver
reports the given presentable images; new handles count up from `base`. -/
def exampleBuild (images : List Handle) (base : Handle) : BuildAnswers :=
  { Support :=
      { Capabilities := ⟨2, 0, ⟨800, 600⟩, ⟨1, 1⟩, ⟨4096, 4096⟩, 1⟩
        Formats := [⟨44, 0⟩]
        PresentModes := [2] }
    framebufferSize := (800, 600)
    vkCreateSwapchainKHR := ⟨VK_SUCCESS, base⟩
    SwapChainImages := images
    SwapChainImageView := fun i => ⟨VK_SUCCESS, base + 10 + i⟩
    vkCreateRenderPass := ⟨VK_SUCCESS, base + 1⟩
    VertexShaderFile := some [3, 2, 35, 7]
    FragmentShaderFile := some [3, 2, 35, 7]
    VertShaderModule := ⟨VK_SUCCESS, base + 2⟩
    FragShaderModule := ⟨VK_SUCCESS, base + 3⟩
    vkCreatePipelineLayout := ⟨VK_SUCCESS, base + 4⟩
    vkCreateGraphicsPipelines := fun n => ⟨VK_SUCCESS, base + 20 + n⟩
    Color := ⟨⟨VK_SUCCESS, base + 5⟩, 3, ⟨VK_SUCCESS, base + 6⟩, ⟨VK_SUCCESS, base + 7⟩, base + 8⟩
    Depth := ⟨⟨VK_SUCCESS, base + 30⟩, 3, ⟨VK_SUCCESS, base + 31⟩, ⟨VK_SUCCESS, base + 32⟩,
      base + 33⟩
    vkCreateFramebuffer := fun i => ⟨VK_SUCCESS, base + 40 + i⟩
    vkAllocateCommandBuffers := VK_SUCCESS
    DrawingCommandBuffer := fun i => base + 50 + i
    vkBeginCommandBuffer := fun _ => VK_SUCCESS
    vkEndCommandBuffer := fun _ => VK_SUCCESS }

/-- Example answers of a rebuild: the window is minimised at the first read,
restored at the second (with a resize notification in between), and every
creation succeeds. -/
def exampleRecreate (images : List Handle) (base : Handle) : RecreateAnswers :=
  { waits := [⟨0, 0, true, []⟩, ⟨800, 600, false, []⟩]
    build := exampleBuild images base }

/-- Example answers of one call of `Draw`. -/
def exampleDraw (acquire : VkResult) (ImageIndex : Nat) (submit present : VkResult) :
    DrawAnswers :=
  { vkAcquireNextImageKHR := acquire
    ImageIndex := ImageIndex
    vkQueueSubmit := submit
    vkQueuePresentKHR := present
    recreate := exampleRecreate [111, 112, 113] 100 }

/-- Example answers of `InitVulkan`: every step succeeds and the driver
reports the given presentable images. -/
def exampleInit (images : List Handle) : InitAnswers :=
  { CreateInstance := ⟨1, none⟩
    SetupDebugMessenger := ⟨0, none⟩
    CreateSurface := ⟨2, none⟩
    SelectPhysicalDevice := ⟨(exampleDevice, 4, "GPU"), none⟩
    CreateLogicalDevice := ⟨(3, 4, 4), none⟩
    build := exampleBuild images 1000
    CreateDescriptorSetLayout := ⟨5, none⟩
    CreateCommandPool := ⟨6, none⟩
    LoadAndCreateTextures := ⟨({}, {}, {}, {}, {}), none⟩
    LoadObjModel := ⟨(4, 2, [0, 1, 2, 2, 3, 0]), none⟩
    CreateVertexBuffer := ⟨⟨7, 8⟩, none⟩
    CreateIndexBuffer := ⟨⟨9, 10⟩, none⟩
    MvpUniformBuffer := fun i => ⟨⟨VK_SUCCESS, 2000 + i⟩, 3, ⟨VK_SUCCESS, 2100 + i⟩⟩
    LightUniformBuffer := fun i => ⟨⟨VK_SUCCESS, 2200 + i⟩, 3, ⟨VK_SUCCESS, 2300 + i⟩⟩
    MaterialUniformBuffer := fun i => ⟨⟨VK_SUCCESS, 2400 + i⟩, 3, ⟨VK_SUCCESS, 2500 + i⟩⟩
    CreateDescriptorPool := ⟨11, none⟩
    CreateDescriptorSets := ⟨[12, 13, 14], none⟩
    sync :=
      { ImageAvailableSemaphore := fun i => ⟨VK_SUCCESS, 3000 + i⟩
        RenderFinishedSemaphore := fun i => ⟨VK_SUCCESS, 3100 + i⟩
        InFlightFence := fun i => ⟨VK_SUCCESS, 3200 + i⟩ } }

/-- A freshly constructed application object: two frame slots, no Vulkan
object yet. -/
def freshApp : App :=
  { GRAPHICS_PIPELINE_TYPE := exampleTypes
    SIZEOF := ⟨192, 96, 32⟩
    m_InitWidth := 800
    m_InitHeight := 600
    m_MaxFramesInFlights := 2
    m_GraphicsPipelineDisplayMode := 1
    m_GraphicsPipelineCullMode := 8 }

/-! ## Members outside the rebuild -/

/-- The members of the application object that are not swapchain-dependent
objects: the frame slot bookkeeping, the resize flag, the descriptor objects,
the static buffers and textures, the uniform buffers and the sync objects. -/
structure Kept where
  m_MaxFramesInFlights : Nat
  m_CurrentFrame : Nat
  m_bFramebufferResized : Bool
  m_DescriptorSetLayout : Handle
  m_AlbedoTexture : TextureInfo
  m_NormalTexture : TextureInfo
  m_MetallicTexture : TextureInfo
  m_RoughnessTexture : TextureInfo
  m_AoTexture : TextureInfo
  m_VertexBuffer : BufferInfo
  m_IndexBuffer : BufferInfo
  m_MvpUniformBuffers : List BufferInfo
  m_LightUniformBuffers : List BufferInfo
  m_MaterialUniformBuffers : List BufferInfo
  m_DescriptorPool : Handle
  m_DescriptorSets : List Handle
  m_ImageAvailableSemaphores : List Handle
  m_RenderFinishedSemaphores : List Handle
  m_InFlightFences : List Handle
deriving DecidableEq, Repr

/-- The members of `Kept` in an application state. -/
def App.kept (app : App) : Kept :=
  { m_MaxFramesInFlights := app.m_MaxFramesInFlights
    m_CurrentFrame := app.m_CurrentFrame
    m_bFramebufferResized := app.m_bFramebufferResized
    m_DescriptorSetLayout := app.m_DescriptorSetLayout
    m_AlbedoTexture := app.m_AlbedoTexture
    m_NormalTexture := app.m_NormalTexture
    m_MetallicTexture := app.m_MetallicTexture
    m_RoughnessTexture := app.m_RoughnessTexture
    m_AoTexture := app.m_AoTexture
    m_VertexBuffer := app.m_VertexBuffer
    m_IndexBuffer := app.m_IndexBuffer
    m_MvpUniformBuffers := app.m_MvpUniformBuffers
    m_LightUniformBuffers := app.m_LightUniformBuffers
    m_MaterialUniformBuffers := app.m_MaterialUniformBuffers
    m_DescriptorPool := app.m_DescriptorPool
    m_DescriptorSets := app.m_DescriptorSets
    m_ImageAvailableSemaphores := app.m_ImageAvailableSemaphores
    m_RenderFinishedSemaphores := app.m_RenderFinishedSemaphores
    m_InFlightFences := app.m_InFlightFences }

/-- Whether `glfwWaitEvents` delivers a framebuffer-resize notification in an
iteration of the wait loop of the rebuild that runs: the iterations up to and
including the first one that reads a non-zero size or in which a keyboard
callback throws. -/
def resizedDuringWait : List WaitAnswer → App → Bool
  | [], _ => false
  | w :: rest, app =>
    w.resized ||
      (decide (w.Width = 0 ∨ w.Height = 0) &&
        decide ((RecreateSwapChainAndRelevantObject.waitBody w app).outcome = Outcome.returned) &&
        resizedDuringWait rest (RecreateSwapChainAndRelevantObject.waitBody w app).app)

/-- A call of the swapchain rebuild: a call of the event wait or of a keyboard
callback that the event wait runs, an idle wait, a destruction, a creation, a
recorded command, or the submission of a one-time command buffer without
semaphores and without a fence. -/
def Op.isRebuildCall : Op → Bool
  | .vkWaitForFences _ => false
  | .vkAcquireNextImageKHR _ _ => false
  | .MapMemory _ _ => false
  | .vkResetFences _ => false
  | .vkQueueSubmit _ [] (.singleTime _) [] none => true
  | .vkQueueSubmit _ _ _ _ _ => false
  | .vkQueuePresentKHR _ _ _ _ => false
  | .transfer _ => false
  | .lifecycle .glfwSetWindowShouldClose => true
  | .lifecycle _ => false
  | _ => true

/-- A call that `App::KeyboardCallback` makes: the idle wait on the graphics
queue, the release and the allocation of the drawing command buffers, a
command of their recording, or the request to close the window. -/
def Op.isCallbackCall : Op → Bool
  | .vkQueueWaitIdle _ => true
  | .vkFreeCommandBuffers _ _ => true
  | .vkAllocateCommandBuffers _ _ => true
  | .vkBeginCommandBuffer _ => true
  | .vkCmdBeginRenderPass _ _ _ => true
  | .vkCmdBindPipeline _ _ => true
  | .vkCmdBindVertexBuffers _ _ => true
  | .vkCmdBindIndexBuffer _ _ => true
  | .vkCmdBindDescriptorSets _ _ _ => true
  | .vkCmdDrawIndexed _ _ => true
  | .vkCmdEndRenderPass _ => true
  | .vkEndCommandBuffer _ => true
  | .lifecycle .glfwSetWindowShouldClose => true
  | _ => false

/-- The driver answers success to every call of a re-recording of the drawing
command buffers. -/
def BuildAnswers.recordingSucceeds (a : BuildAnswers) : Prop :=
  a.vkAllocateCommandBuffers = VK_SUCCESS ∧
    ∀ i, a.vkBeginCommandBuffer i = VK_SUCCESS ∧ a.vkEndCommandBuffer i = VK_SUCCESS

/-- The type of the members that `App.outsideCallbacks` collects. -/
abbrev CallbackFrame : Type :=
  GraphicsPipelineType × PhysicalDevice × SwapChainInfo × Handle × Handle

/-- Members outside `Kept` that no keyboard callback writes: the constants of
the pipeline variants, the physical device, the swapchain information, the
render pass and the pipeline layout. -/
def App.outsideCallbacks (app : App) : CallbackFrame :=
  (app.GRAPHICS_PIPELINE_TYPE, app.m_PhysicalDevice, app.m_SwapChainInfo, app.m_RenderPass,
    app.m_PipelineLayout)

/-- Every call of a swapchain build succeeds on the device: the device has a
graphics and a present queue family and a depth format, both shader files
open, the memory type searches for the two attachments find a type, and the
driver answers success to every creation and to the recording of the drawing
command buffers. -/
def BuildAnswers.succeeds (b : BuildAnswers) (Device : PhysicalDevice) : Prop :=
  (FindQueueFamilies Device).IsComplete = true ∧
  b.vkCreateSwapchainKHR.result = VK_SUCCESS ∧
  (∀ i, (b.SwapChainImageView i).result = VK_SUCCESS) ∧
  (∃ Format, FindDepthFormat Device = .ok Format) ∧
  b.vkCreateRenderPass.result = VK_SUCCESS ∧
  (∃ VertShaderCode FragShaderCode,
    b.VertexShaderFile = some VertShaderCode ∧ b.FragmentShaderFile = some FragShaderCode) ∧
  b.VertShaderModule.result = VK_SUCCESS ∧
  b.FragShaderModule.result = VK_SUCCESS ∧
  b.vkCreatePipelineLayout.result = VK_SUCCESS ∧
  (∀ n, (b.vkCreateGraphicsPipelines n).result = VK_SUCCESS) ∧
  (b.Color.vkCreateImage.result = VK_SUCCESS ∧
    (∃ i, FindMemoryType Device b.Color.memoryTypeBits VK_MEMORY_PROPERTY_DEVICE_LOCAL_BIT
      = .ok i) ∧
    b.Color.vkAllocateMemory.result = VK_SUCCESS ∧
    b.Color.vkCreateImageView.result = VK_SUCCESS) ∧
  (b.Depth.vkCreateImage.result = VK_SUCCESS ∧
    (∃ i, FindMemoryType Device b.Depth.memoryTypeBits VK_MEMORY_PROPERTY_DEVICE_LOCAL_BIT
      = .ok i) ∧
    b.Depth.vkAllocateMemory.result = VK_SUCCESS ∧
    b.Depth.vkCreateImageView.result = VK_SUCCESS) ∧
  (∀ i, (b.vkCreateFramebuffer i).result = VK_SUCCESS) ∧
  b.recordingSucceeds

/-- Example answers of a rebuild during which the window stays minimised. -/
def exampleMinimised : RecreateAnswers :=
  { waits := [⟨0, 0, false, []⟩], build := exampleBuild [111, 112, 113] 100 }

/-- Example answers of a rebuild in which the window is minimised at the first
read and `glfwWaitEvents` then delivers the release of the key D, and the
window is restored at the second read. -/
def exampleRecreateWithKey : RecreateAnswers :=
  { waits :=
      [ ⟨0, 0, false, [⟨GLFW_KEY_D, GLFW_RELEASE, exampleBuild [111, 112, 113] 200⟩]⟩,
        ⟨800, 600, false, []⟩ ]
    build := exampleBuild [111, 112, 113] 100 }

/-- A step that leaves the members of `Kept` of the state `app` as they were
and makes only calls of the swapchain rebuild. -/
def Step.inert (s : Step) (app : App) : Prop :=
  s.app.kept = app.kept ∧ ∀ op ∈ s.trace, op.isRebuildCall = true

/-- The keys `fill mode | cull mode` of the nine pipeline variants, in the
order in which `App::CreateGraphicsPipeline` creates them. -/
def variantKeys (t : GraphicsPipelineType) : List Nat :=
  [ t.FILL ||| t.FRONT_CULL, t.WIREFRAME ||| t.FRONT_CULL, t.POINT ||| t.FRONT_CULL,
    t.FILL ||| t.BACK_CULL, t.WIREFRAME ||| t.BACK_CULL, t.POINT ||| t.BACK_CULL,
    t.FILL ||| t.NONE_CULL, t.WIREFRAME ||| t.NONE_CULL, t.POINT ||| t.NONE_CULL ]

/-- The nine pairs of a key and the handle the driver answers for it, in the
order of creation. -/
def variantPairs (a : BuildAnswers) (t : GraphicsPipelineType) : List (Nat × Handle) :=
  (variantKeys t).zip ((List.range 9).map (fun n => (a.vkCreateGraphicsPipelines n).handle))

/-- The eight creation steps of the rebuild, in the order of
`App::RecreateSwapChainAndRelevantObject`. -/
def RecreateSwapChainAndRelevantObject.create (a : BuildAnswers) (app : App) : Step :=
  (CreateSwapChain a app)
  |>.andThen (CreateSwapChainImageViews a)
  |>.andThen (CreateRenderPass a)
  |>.andThen (CreateGraphicsPipeline a)
  |>.andThen (CreateColorResource a)
  |>.andThen (CreateDepthResource a)
  |>.andThen (CreateFramebuffers a)
  |>.andThen (CreateDrawingCommandBuffers a)

/-- The first two calls of `App::Draw` in a state: the wait on the in-flight
fence of the current slot and the acquisition that signals the
image-available semaphore of the slot. -/
def Draw.acquireCalls (app : App) : List Op :=
  [ Op.vkWaitForFences app.m_CurrentFrame,
    Op.vkAcquireNextImageKHR app.m_SwapChainInfo.SwapChain
      (SemaphoreRef.m_ImageAvailableSemaphores app.m_CurrentFrame) ]

/-- The calls of `App::Draw` from the wait up to and including
`vkQueueSubmit`, for the acquired image index. -/
def Draw.submitCalls (ImageIndex : Nat) (app : App) : List Op :=
  Draw.acquireCalls app ++
  [ Op.MapMemory UniformArray.m_MvpUniformBuffers ImageIndex,
    Op.MapMemory UniformArray.m_LightUniformBuffers ImageIndex,
    Op.MapMemory UniformArray.m_MaterialUniformBuffers ImageIndex,
    Op.vkResetFences app.m_CurrentFrame,
    Op.vkQueueSubmit Queue.m_GraphicsQueue
      [SemaphoreRef.m_ImageAvailableSemaphores app.m_CurrentFrame]
      (CommandBufferRef.m_DrawingCommandBuffers ImageIndex)
      [SemaphoreRef.m_RenderFinishedSemaphores app.m_CurrentFrame]
      (some app.m_CurrentFrame) ]

/-- The calls of `App::Draw` from the wait up to and including
`vkQueuePresentKHR`. -/
def Draw.presentCalls (ImageIndex : Nat) (app : App) : List Op :=
  Draw.submitCalls ImageIndex app ++
  [ Op.vkQueuePresentKHR Queue.m_PresentQueue
      (SemaphoreRef.m_RenderFinishedSemaphores app.m_CurrentFrame)
      app.m_SwapChainInfo.SwapChain ImageIndex ]

/-- The example application after `InitVulkan` with three presentable images
and one rebuild in which the driver reports four. -/
def exampleRebuiltWithFourImages : Step :=
  (InitVulkan (exampleInit [61, 62, 63]) freshApp).andThen
    (RecreateSwapChainAndRelevantObject (exampleRecreate [71, 72, 73, 74] 500))

/-! ## Device selection (`VulkanHelper.cpp`, `App::SelectPhysicalDevice`) -/

/-- Enumerant `VK_PHYSICAL_DEVICE_TYPE_DISCRETE_GPU` of `vulkan_core.h`. -/
def VK_PHYSICAL_DEVICE_TYPE_DISCRETE_GPU : Nat := 2

def VK_SAMPLE_COUNT_1_BIT : Nat := 1

def VK_SAMPLE_COUNT_2_BIT : Nat := 2

def VK_SAMPLE_COUNT_4_BIT : Nat := 4

def VK_SAMPLE_COUNT_8_BIT : Nat := 8

def VK_SAMPLE_COUNT_16_BIT : Nat := 16

def VK_SAMPLE_COUNT_32_BIT : Nat := 32

def VK_SAMPLE_COUNT_64_BIT : Nat := 64

/-- Function `CheckPhysicalDeviceExtensionsSupport`: the `std::set` of the
required names, from which the name of each available extension is erased, is
empty at the end. -/
def CheckPhysicalDeviceExtensionsSupport (Device : PhysicalDevice) (Extensions : List String) :
    Bool :=
  let RequiredExtensions := Extensions.dedup
  (Device.extensions.foldl (fun s extensionName => s.erase extensionName)
    RequiredExtensions).isEmpty

/-- Function `IsPhysicalDeviceSuitable`. -/
def IsPhysicalDeviceSuitable (Device : PhysicalDevice) (Extensions : List String) : Bool :=
  let Indices := FindQueueFamilies Device
  let bExtensionsSupported := CheckPhysicalDeviceExtensionsSupport Device Extensions
  let bSwapChainAdequate :=
    if bExtensionsSupported then
      !Device.surfaceFormats.isEmpty && !Device.surfacePresentModes.isEmpty
    else false
  Indices.IsComplete && bExtensionsSupported && bSwapChainAdequate &&
    (Device.samplerAnisotropy != 0)

/-- Function `GetMaxUsableSampleCount`. -/
def GetMaxUsableSampleCount (Device : PhysicalDevice) : Nat :=
  let Counts := min Device.framebufferColorSampleCounts Device.framebufferDepthSampleCounts
  if Counts &&& VK_SAMPLE_COUNT_64_BIT ≠ 0 then VK_SAMPLE_COUNT_64_BIT
  else if Counts &&& VK_SAMPLE_COUNT_32_BIT ≠ 0 then VK_SAMPLE_COUNT_32_BIT
  else if Counts &&& VK_SAMPLE_COUNT_16_BIT ≠ 0 then VK_SAMPLE_COUNT_16_BIT
  else if Counts &&& VK_SAMPLE_COUNT_8_BIT ≠ 0 then VK_SAMPLE_COUNT_8_BIT
  else if Counts &&& VK_SAMPLE_COUNT_4_BIT ≠ 0 then VK_SAMPLE_COUNT_4_BIT
  else if Counts &&& VK_SAMPLE_COUNT_2_BIT ≠ 0 then VK_SAMPLE_COUNT_2_BIT
  else VK_SAMPLE_COUNT_1_BIT

/-- The value of `Memory` that `App::SelectPhysicalDevice` computes for a
device, in `VkDeviceSize` (64-bit) arithmetic. -/
def SelectPhysicalDevice.Memory (Device : PhysicalDevice) : Nat :=
  let Memory := Device.memoryHeaps.foldl
    (fun Memory size => (Memory + size / 1024 / 1024) % 2 ^ 64) 0
  if Device.deviceType = VK_PHYSICAL_DEVICE_TYPE_DISCRETE_GPU then (Memory * 50) % 2 ^ 64
  else Memory

/-- The loop of `App::SelectPhysicalDevice` over the enumerated devices, with
the value of `MaxMemory`. -/
def SelectPhysicalDevice.loop (m_DeviceExtensions : List String) :
    List PhysicalDevice → Nat → App → App
  | [], _, app => app
  | Device :: rest, MaxMemory, app =>
    if IsPhysicalDeviceSuitable Device m_DeviceExtensions then
      let Memory := SelectPhysicalDevice.Memory Device
      if Memory > MaxMemory then
        SelectPhysicalDevice.loop m_DeviceExtensions rest Memory
          { app with
            m_PhysicalDevice := Device
            m_SwapChainInfo :=
              { app.m_SwapChainInfo with MsaaSamples := GetMaxUsableSampleCount Device }
            m_GpuName := Device.deviceName }
      else SelectPhysicalDevice.loop m_DeviceExtensions rest MaxMemory app
    else SelectPhysicalDevice.loop m_DeviceExtensions rest MaxMemory app

/-- Member function `App::SelectPhysicalDevice`, on the devices that
`vkEnumeratePhysicalDevices` lists.  The member `m_DeviceExtensions` is declared
in a header that is not part of the sources at hand, so it is a parameter. -/
def SelectPhysicalDevice (PhysicalDevices : List PhysicalDevice)
    (m_DeviceExtensions : List String) (app : App) : Step :=
  if PhysicalDevices.length = 0 then
    Step.throw app [] "Failed to find a GPU with Vulkan support!"
  else
    let app1 := SelectPhysicalDevice.loop m_DeviceExtensions PhysicalDevices 0 app
    if app1.m_PhysicalDevice.handle = VK_NULL_HANDLE then
      Step.throw app1 [] "Failed to find a supported GPU!"
    else Step.ret app1 []

/-- The score of a device in the words of the claim: the sum over its memory
heaps of the heap size in bytes divided by 1024 and by 1024 (integer
division), multiplied by 50 if the device is a discrete GPU. -/
def deviceScore (Device : PhysicalDevice) : Nat :=
  (Device.memoryHeaps.map (fun size => size / 1024 / 1024)).sum *
    (if Device.deviceType = VK_PHYSICAL_DEVICE_TYPE_DISCRETE_GPU then 50 else 1)

/-- Two example devices: an integrated GPU with 8 GiB in one heap, and a
discrete GPU with 4 GiB of device memory and 256 MiB of host-visible memory. -/
def exampleDevices : List PhysicalDevice :=
  [ { exampleDevice with
      handle := 71, deviceName := "integrated", deviceType := 1
      memoryHeaps := [8589934592]
      framebufferColorSampleCounts := 15, framebufferDepthSampleCounts := 15
      extensions := ["VK_KHR_swapchain", "VK_KHR_maintenance1"]
      surfaceFormats := [⟨44, 0⟩], surfacePresentModes := [2]
      samplerAnisotropy := 1 },
    { exampleDevice with
      handle := 72, deviceName := "discrete", deviceType := 2
      memoryHeaps := [4294967296, 268435456]
      framebufferColorSampleCounts := 127, framebufferDepthSampleCounts := 127
      extensions := ["VK_KHR_maintenance1", "VK_KHR_swapchain"]
      surfaceFormats := [⟨44, 0⟩], surfacePresentModes := [2, 1]
      samplerAnisotropy := 1 } ]

/-! ## A build that fails -/

/-- The swapchain handle and the presentable images held in a state. -/
def App.swapChain (app : App) : Handle × List Handle :=
  (app.m_SwapChainInfo.SwapChain, app.m_SwapChainInfo.SwapChainImages)

/-- A step that returns or throws, and leaves the swapchain handle and the
presentable images as they are in the state `app`. -/
def Step.keepsSwapChain (s : Step) (app : App) : Prop :=
  s.app.swapChain = app.swapChain ∧ s.outcome ≠ Outcome.blocked

/-- Example answers of a build in which the creation of the second framebuffer
fails and every other call succeeds. -/
def exampleFailingBuild : BuildAnswers :=
  { exampleBuild [111, 112, 113] 100 with
    vkCreateFramebuffer := fun i => if i = 1 then ⟨-1, 0⟩ else ⟨VK_SUCCESS, 140 + i⟩ }

/-! ## Valid modes and example keyboard events -/

/-- The display mode is one of fill, wireframe and point, and the cull mode is
one of none, front and back. -/
def App.modesValid (app : App) : Prop :=
  (app.m_GraphicsPipelineDisplayMode = app.GRAPHICS_PIPELINE_TYPE.FILL ∨
   app.m_GraphicsPipelineDisplayMode = app.GRAPHICS_PIPELINE_TYPE.WIREFRAME ∨
   app.m_GraphicsPipelineDisplayMode = app.GRAPHICS_PIPELINE_TYPE.POINT) ∧
  (app.m_GraphicsPipelineCullMode = app.GRAPHICS_PIPELINE_TYPE.NONE_CULL ∨
   app.m_GraphicsPipelineCullMode = app.GRAPHICS_PIPELINE_TYPE.FRONT_CULL ∨
   app.m_GraphicsPipelineCullMode = app.GRAPHICS_PIPELINE_TYPE.BACK_CULL)

/-- Example keyboard events: release of D, of C, of a key without a function,
press of R, release of R, release of Esc. -/
def exampleKeys : List KeyEvent :=
  [ ⟨68, 0, exampleBuild [111, 112, 113] 200⟩, ⟨67, 0, exampleBuild [111, 112, 113] 300⟩,
    ⟨65, 0, exampleBuild [111, 112, 113] 400⟩, ⟨82, 1, exampleBuild [111, 112, 113] 500⟩,
    ⟨82, 0, exampleBuild [111, 112, 113] 600⟩, ⟨256, 0, exampleBuild [111, 112, 113] 700⟩ ]

/-! ## Uploads through a staging buffer (`VulkanHelper.cpp`, `App.cpp`) -/

/-- Buffer usage, image usage, layout, format and format feature enumerants of
`vulkan_core.h`. -/
def VK_BUFFER_USAGE_TRANSFER_SRC_BIT : Nat := 0x1

def VK_BUFFER_USAGE_TRANSFER_DST_BIT : Nat := 0x2

def VK_BUFFER_USAGE_INDEX_BUFFER_BIT : Nat := 0x40

def VK_BUFFER_USAGE_VERTEX_BUFFER_BIT : Nat := 0x80

def VK_IMAGE_USAGE_TRANSFER_SRC_BIT : Nat := 0x1

def VK_IMAGE_USAGE_TRANSFER_DST_BIT : Nat := 0x2

def VK_IMAGE_USAGE_SAMPLED_BIT : Nat := 0x4

def VK_IMAGE_LAYOUT_TRANSFER_SRC_OPTIMAL : Nat := 6

def VK_FORMAT_R8G8B8A8_UNORM : VkFormat := 37

def VK_FORMAT_R32G32_SFLOAT : VkFormat := 103

def VK_FORMAT_R32G32B32_SFLOAT : VkFormat := 106

def VK_FORMAT_FEATURE_SAMPLED_IMAGE_FILTER_LINEAR_BIT : Nat := 0x1000

/-- Function `BeginSingleTimeCommands` on the command pool of the application;
the argument is the command buffer the driver allocates.  The results of the
two calls are not checked. -/
def BeginSingleTimeCommands (CommandBuffer : Handle) (app : App) : List Op :=
  [Op.vkAllocateCommandBuffers app.m_CommandPool 1, Op.vkBeginCommandBuffer CommandBuffer]

/-- Function `EndSingleTimeCommands` on the graphics queue and the command pool
of the application. -/
def EndSingleTimeCommands (CommandBuffer : Handle) (app : App) : List Op :=
  [ Op.vkEndCommandBuffer CommandBuffer,
    Op.vkQueueSubmit Queue.m_GraphicsQueue [] (CommandBufferRef.singleTime CommandBuffer) [] none,
    Op.vkQueueWaitIdle Queue.m_GraphicsQueue,
    Op.vkFreeCommandBuffers app.m_CommandPool [CommandBuffer] ]

/-- Function `MapMemory` on a memory handle: `vkMapMemory` of the first `Size`
bytes, `memcpy` of `Size` bytes from `pData`, `vkUnmapMemory`.  The result of
`vkMapMemory` is not checked. -/
def MapMemory (Memory : Handle) (Size : Nat) (pData : Option (List Nat)) (app : App) : Step :=
  Step.ret app [Op.transfer (TransferCall.MapMemory Memory Size pData)]

/-- Function `CopyBuffer`, with the one-time command buffer the driver
allocates. -/
def CopyBuffer (CommandBuffer : Handle) (SrcBuffer DstBuffer : BufferInfo) (Size : Nat)
    (app : App) : Step :=
  Step.ret app
    (BeginSingleTimeCommands CommandBuffer app ++
      [Op.transfer
        (TransferCall.vkCmdCopyBuffer CommandBuffer SrcBuffer.Buffer DstBuffer.Buffer 0 0 Size)] ++
      EndSingleTimeCommands CommandBuffer app)

/-- Function `DestroyBuffer`. -/
def DestroyBuffer (Buffer : BufferInfo) (app : App) : Step :=
  Step.ret app [Op.lifecycle (LifecycleCall.vkDestroyBuffer Buffer.Buffer),
                Op.vkFreeMemory Buffer.Memory]

/-- Function `DestroyTexture`. -/
def DestroyTexture (Texture : TextureInfo) (app : App) : Step :=
  Step.ret app
    [ Op.lifecycle (LifecycleCall.vkDestroySampler Texture.TextureSampler),
      Op.vkDestroyImageView Texture.TextureImageView,
      Op.vkDestroyImage Texture.TextureImage,
      Op.vkFreeMemory Texture.TextureImageMemory ]

/-- The answers during an upload through a staging buffer. -/
structure UploadAnswers where
  Staging : BufferAnswers
  Destination : BufferAnswers
  singleTimeCommandBuffer : Handle
deriving DecidableEq, Repr

/-- Member function `App::CreateVertexBuffer`.  The vertex array `m_Vertices`
is given by its bytes, so `sizeof(m_Vertices[0]) * m_Vertices.size()` is their
number; `StagingBuffer` is a local variable, which holds the handles the driver
answers. -/
def CreateVertexBuffer (a : UploadAnswers) (m_Vertices : List Nat) (app : App) : Step :=
  let BufferSize := m_Vertices.length
  let StagingBuffer : BufferInfo :=
    ⟨a.Staging.vkCreateBuffer.handle, a.Staging.vkAllocateMemory.handle⟩
  (CreateBuffer a.Staging BufferSize VK_BUFFER_USAGE_TRANSFER_SRC_BIT
      (VK_MEMORY_PROPERTY_HOST_VISIBLE_BIT ||| VK_MEMORY_PROPERTY_HOST_COHERENT_BIT)
      (fun app _ => app) (fun app _ => app) app)
  |>.andThen (MapMemory StagingBuffer.Memory BufferSize (some m_Vertices))
  |>.andThen (CreateBuffer a.Destination BufferSize
      (VK_BUFFER_USAGE_TRANSFER_DST_BIT ||| VK_BUFFER_USAGE_VERTEX_BUFFER_BIT)
      VK_MEMORY_PROPERTY_DEVICE_LOCAL_BIT
      (fun app h => { app with m_VertexBuffer := { app.m_VertexBuffer with Buffer := h } })
      (fun app h => { app with m_VertexBuffer := { app.m_VertexBuffer with Memory := h } }))
  |>.andThen (fun app =>
      CopyBuffer a.singleTimeCommandBuffer StagingBuffer app.m_VertexBuffer BufferSize app)
  |>.andThen (DestroyBuffer StagingBuffer)

/-- Member function `App::CreateIndexBuffer`, with the bytes of the index array
`m_Indices`. -/
def CreateIndexBuffer (a : UploadAnswers) (m_Indices : List Nat) (app : App) : Step :=
  let BufferSize := m_Indices.length
  let StagingBuffer : BufferInfo :=
    ⟨a.Staging.vkCreateBuffer.handle, a.Staging.vkAllocateMemory.handle⟩
  (CreateBuffer a.Staging BufferSize VK_BUFFER_USAGE_TRANSFER_SRC_BIT
      (VK_MEMORY_PROPERTY_HOST_VISIBLE_BIT ||| VK_MEMORY_PROPERTY_HOST_COHERENT_BIT)
      (fun app _ => app) (fun app _ => app) app)
  |>.andThen (MapMemory StagingBuffer.Memory BufferSize (some m_Indices))
  |>.andThen (CreateBuffer a.Destination BufferSize
      (VK_BUFFER_USAGE_TRANSFER_DST_BIT ||| VK_BUFFER_USAGE_INDEX_BUFFER_BIT)
      VK_MEMORY_PROPERTY_DEVICE_LOCAL_BIT
      (fun app h => { app with m_IndexBuffer := { app.m_IndexBuffer with Buffer := h } })
      (fun app h => { app with m_IndexBuffer := { app.m_IndexBuffer with Memory := h } }))
  |>.andThen (fun app =>
      CopyBuffer a.singleTimeCommandBuffer StagingBuffer app.m_IndexBuffer BufferSize app)
  |>.andThen (DestroyBuffer StagingBuffer)

/-! ## Buffer contents on the device -/

/-- A buffer copy recorded by `vkCmdCopyBuffer`. -/
structure BufferCopy where
  srcBuffer : Handle
  dstBuffer : Handle
  srcOffset : Nat
  dstOffset : Nat
  size : Nat
deriving DecidableEq, Repr

/-- The state of the device as far as buffer contents go: the bytes of each
memory object (from offset 0), the memory bound to each buffer, the copies
recorded in each command buffer, and the copies submitted to the queue whose
completion the host has not waited for. -/
structure DeviceState where
  memory : List (Handle × List Nat) := []
  binding : List (Handle × Handle) := []
  recorded : List (Handle × BufferCopy) := []
  pending : List BufferCopy := []
deriving DecidableEq, Repr

/-- The bytes of a memory object. -/
def DeviceState.bytes (s : DeviceState) (Memory : Handle) : List Nat :=
  (s.memory.lookup Memory).getD []

/-- The first `size` bytes of the memory bound to a buffer. -/
def DeviceState.contents (s : DeviceState) (Buffer : Handle) (size : Nat) : Option (List Nat) :=
  (s.binding.lookup Buffer).map (fun Memory => (s.bytes Memory).take size)

/-- Overwrites the bytes from `offset` on with `data`; the bytes before
`offset` have to be there. -/
def writeBytes (old : List Nat) (offset : Nat) (data : List Nat) : Option (List Nat) :=
  if offset ≤ old.length then some (old.take offset ++ data ++ old.drop (offset + data.length))
  else none

/-- Whether a pending copy reads or writes the buffer. -/
def DeviceState.busyBuffer (s : DeviceState) (Buffer : Handle) : Bool :=
  s.pending.any (fun c => c.srcBuffer == Buffer || c.dstBuffer == Buffer)

/-- Whether a pending copy reads or writes a buffer bound to the memory. -/
def DeviceState.busyMemory (s : DeviceState) (Memory : Handle) : Bool :=
  s.pending.any (fun c =>
    s.binding.lookup c.srcBuffer == some Memory || s.binding.lookup c.dstBuffer == some Memory)

/-- The device executes one copy; there is no result when a buffer has no
memory or the source range is not there. -/
def DeviceState.copy (s : DeviceState) (c : BufferCopy) : Option DeviceState :=
  match s.binding.lookup c.srcBuffer, s.binding.lookup c.dstBuffer with
  | some src, some dst =>
    if c.srcOffset + c.size ≤ (s.bytes src).length then
      (writeBytes (s.bytes dst) c.dstOffset (((s.bytes src).drop c.srcOffset).take c.size)).map
        (fun data => { s with memory := (dst, data) :: s.memory })
    else none
  | _, _ => none

/-- The device executes the pending copies in the order of their submission. -/
def DeviceState.complete : List BufferCopy → DeviceState → Option DeviceState
  | [], s => some { s with pending := [] }
  | c :: rest, s => (s.copy c).bind (DeviceState.complete rest)

/-- The effect of one API call on the buffer contents.  A binding names the
memory of a buffer; `MapMemory` writes the bytes at once (the memory is host
coherent); a copy command is recorded, takes effect between its submission and
the return of the next `vkQueueWaitIdle`, and is taken to run when that call
returns.  There is no result, the use is invalid, when `MapMemory` gets a null
pointer or fewer bytes than `Size`, or when the host writes, destroys or frees
an object that a pending copy uses. -/
def DeviceState.step (s : DeviceState) : Op → Option DeviceState
  | .vkBindBufferMemory buffer memory =>
    some { s with binding := (buffer, memory) :: s.binding }
  | .transfer (.MapMemory Memory Size (some data)) =>
    if s.busyMemory Memory ∨ data.length < Size then none
    else (writeBytes (s.bytes Memory) 0 (data.take Size)).map
      (fun bytes => { s with memory := (Memory, bytes) :: s.memory })
  | .transfer (.MapMemory _ _ none) => none
  | .transfer (.vkCmdCopyBuffer commandBuffer srcBuffer dstBuffer srcOffset dstOffset size) =>
    some { s with
      recorded := s.recorded ++ [(commandBuffer, ⟨srcBuffer, dstBuffer, srcOffset, dstOffset, size⟩)] }
  | .vkQueueSubmit _ _ (.singleTime commandBuffer) _ _ =>
    some { s with
      pending := s.pending ++
        (s.recorded.filter (fun r => r.1 == commandBuffer)).map Prod.snd }
  | .vkQueueWaitIdle _ => DeviceState.complete s.pending s
  | .vkDeviceWaitIdle => DeviceState.complete s.pending s
  | .vkFreeCommandBuffers _ commandBuffers =>
    some { s with recorded := s.recorded.filter (fun r => !commandBuffers.contains r.1) }
  | .lifecycle (.vkDestroyBuffer buffer) =>
    if s.busyBuffer buffer then none
    else some { s with binding := s.binding.filter (fun b => b.1 != buffer) }
  | .vkFreeMemory memory =>
    if s.busyMemory memory then none
    else some { s with memory := s.memory.filter (fun m => m.1 != memory) }
  | _ => some s

/-- The effect of a trace on the buffer contents. -/
def DeviceState.run : List Op → DeviceState → Option DeviceState
  | [], s => some s
  | op :: rest, s => (s.step op).bind (DeviceState.run rest)

/-- Example answers of an upload in which every call succeeds. -/
def exampleUpload : UploadAnswers :=
  { Staging := ⟨⟨VK_SUCCESS, 80⟩, 3, ⟨VK_SUCCESS, 81⟩⟩
    Destination := ⟨⟨VK_SUCCESS, 82⟩, 3, ⟨VK_SUCCESS, 83⟩⟩
    singleTimeCommandBuffer := 84 }

/-! ## Textures and mip chains (`VulkanHelper.cpp`) -/

/-- The conversion of a `uint32_t` to `int32_t`. -/
def toInt32 (n : Nat) : Int :=
  if n % 2 ^ 32 < 2 ^ 31 then ((n % 2 ^ 32 : Nat) : Int) else ((n % 2 ^ 32 : Nat) : Int) - 2 ^ 32

/-- The destination extent of a blit of `GenerateMipmaps` in one dimension:
`Mip > 1 ? Mip / 2 : 1`. -/
def GenerateMipmaps.half (Mip : Int) : Int := if Mip > 1 then Int.tdiv Mip 2 else 1

/-- The update of `MipWidth` and of `MipHeight` at the end of an iteration of
`GenerateMipmaps`: `if(Mip > 1) Mip /= 2`. -/
def GenerateMipmaps.next (Mip : Int) : Int := if Mip > 1 then Int.tdiv Mip 2 else Mip

/-- The image barrier of `GenerateMipmaps` on one mip level (level count 1,
colour aspect). -/
def GenerateMipmaps.barrier (CommandBuffer Image : Handle) (baseMipLevel oldLayout newLayout : Nat) :
    Op :=
  Op.vkCmdPipelineBarrier CommandBuffer Image baseMipLevel 1 oldLayout newLayout
    VK_IMAGE_ASPECT_COLOR_BIT

/-- The loop of `GenerateMipmaps` over the values of `i` that remain, with the
values of `MipWidth` and `MipHeight`. -/
def GenerateMipmaps.loop (CommandBuffer Image : Handle) : List Nat → Int → Int → List Op
  | [], _, _ => []
  | i :: rest, MipWidth, MipHeight =>
    [ GenerateMipmaps.barrier CommandBuffer Image (i - 1) VK_IMAGE_LAYOUT_TRANSFER_DST_OPTIMAL
        VK_IMAGE_LAYOUT_TRANSFER_SRC_OPTIMAL,
      Op.transfer (TransferCall.vkCmdBlitImage CommandBuffer Image (i - 1) MipWidth MipHeight i
        (GenerateMipmaps.half MipWidth) (GenerateMipmaps.half MipHeight)),
      GenerateMipmaps.barrier CommandBuffer Image (i - 1) VK_IMAGE_LAYOUT_TRANSFER_SRC_OPTIMAL
        VK_IMAGE_LAYOUT_SHADER_READ_ONLY_OPTIMAL ] ++
    GenerateMipmaps.loop CommandBuffer Image rest (GenerateMipmaps.next MipWidth)
      (GenerateMipmaps.next MipHeight)

/-- Function `GenerateMipmaps` on the physical device, the command pool and the
graphics queue of the application, with the one-time command buffer the driver
allocates.  `Width`, `Height` and `MipLevels` are `uint32_t`. -/
def GenerateMipmaps (CommandBuffer Image : Handle) (Format : VkFormat)
    (Width Height MipLevels : Nat) (app : App) : Step :=
  if (app.m_PhysicalDevice.formatProps Format).optimalTilingFeatures &&&
      VK_FORMAT_FEATURE_SAMPLED_IMAGE_FILTER_LINEAR_BIT = 0 then
    Step.throw app [] "Texture image format does not support linear blitting!"
  else
    Step.ret app
      (BeginSingleTimeCommands CommandBuffer app ++
        GenerateMipmaps.loop CommandBuffer Image (List.range' 1 (MipLevels - 1))
          (toInt32 Width) (toInt32 Height) ++
        [GenerateMipmaps.barrier CommandBuffer Image ((MipLevels + 2 ^ 32 - 1) % 2 ^ 32)
          VK_IMAGE_LAYOUT_TRANSFER_DST_OPTIMAL VK_IMAGE_LAYOUT_SHADER_READ_ONLY_OPTIMAL] ++
        EndSingleTimeCommands CommandBuffer app)

/-- Function `CopyBufferToImage`, with the one-time command buffer the driver
allocates. -/
def CopyBufferToImage (CommandBuffer : Handle) (SrcBuffer DstImage : Handle) (Width Height : Nat)
    (app : App) : Step :=
  Step.ret app
    (BeginSingleTimeCommands CommandBuffer app ++
      [Op.transfer
        (TransferCall.vkCmdCopyBufferToImage CommandBuffer SrcBuffer DstImage 0 Width Height)] ++
      EndSingleTimeCommands CommandBuffer app)

/-- The extent of mip level `k` in one dimension in the words of the claim:
level 0 has the extent of the image, and each later level has the larger of 1
and the integer half of the level before. -/
def mipExtent (n : Nat) : Nat → Nat
  | 0 => n
  | k + 1 => max 1 (mipExtent n k / 2)

/-- The calls that `GenerateMipmaps` records for mip level `k + 1` in the words
of the claim: level `k` goes from transfer-destination to transfer-source, the
blit reads level `k` and writes level `k + 1`, and level `k` goes to
shader-read-only. -/
def mipLevelCalls (CommandBuffer Image : Handle) (W H k : Nat) : List Op :=
  [ Op.vkCmdPipelineBarrier CommandBuffer Image k 1 VK_IMAGE_LAYOUT_TRANSFER_DST_OPTIMAL
      VK_IMAGE_LAYOUT_TRANSFER_SRC_OPTIMAL VK_IMAGE_ASPECT_COLOR_BIT,
    Op.transfer (TransferCall.vkCmdBlitImage CommandBuffer Image k (mipExtent W k) (mipExtent H k)
      (k + 1) (mipExtent W (k + 1)) (mipExtent H (k + 1))),
    Op.vkCmdPipelineBarrier CommandBuffer Image k 1 VK_IMAGE_LAYOUT_TRANSFER_SRC_OPTIMAL
      VK_IMAGE_LAYOUT_SHADER_READ_ONLY_OPTIMAL VK_IMAGE_ASPECT_COLOR_BIT ]

/-- The effect of one recorded command on the layouts of the mip levels of an
image: a barrier on a range of levels needs each of them in its old layout (or
names the undefined layout) and leaves them in its new layout; a blit needs its
source level in the transfer-source and its destination level in the
transfer-destination layout.  There is no result when a level is not in the
layout the command needs. -/
def layoutStep (Image : Handle) (layout : Nat → Nat) : Op → Option (Nat → Nat)
  | .vkCmdPipelineBarrier _ image baseMipLevel levelCount oldLayout newLayout _ =>
    if image = Image then
      if oldLayout = VK_IMAGE_LAYOUT_UNDEFINED ∨
          ∀ l ∈ List.range' baseMipLevel levelCount, layout l = oldLayout then
        some (fun l => if baseMipLevel ≤ l ∧ l < baseMipLevel + levelCount then newLayout
          else layout l)
      else none
    else some layout
  | .transfer (.vkCmdBlitImage _ image srcMipLevel _ _ dstMipLevel _ _) =>
    if image = Image then
      if layout srcMipLevel = VK_IMAGE_LAYOUT_TRANSFER_SRC_OPTIMAL ∧
          layout dstMipLevel = VK_IMAGE_LAYOUT_TRANSFER_DST_OPTIMAL then some layout
      else none
    else some layout
  | _ => some layout

/-- The effect of a trace on the layouts of the mip levels of an image. -/
def layoutRun (Image : Handle) : List Op → (Nat → Nat) → Option (Nat → Nat)
  | [], layout => some layout
  | op :: rest, layout => (layoutStep Image layout op).bind (layoutRun Image rest)

/-- The mip count that `CreateTextureImageFromFile` computes from the two `int`
dimensions, `static_cast<uint32_t>(std::floor(std::log2(std::max(W, H)))) + 1`.
For an integer `n` from 1 to `2^31 - 1`, `std::floor(std::log2(n))` in `double`
is the integer logarithm of `n` to base 2: the logarithm of a power of two is
exact, and below a power of two `2^k` the logarithm of an integer is less than
`k` by more than the rounding error.  For `n <= 0` the C++ conversion has no
defined value; the logarithm here is 0 then. -/
def CreateTextureImageFromFile.mipLevels (TexWidth TexHeight : Int) : Nat :=
  (Nat.log 2 (max TexWidth TexHeight).toNat + 1) % 2 ^ 32

/-- The conversion of an `int` to `uint32_t`. -/
def toUInt32 (n : Int) : Nat := (n % 2 ^ 32).toNat

/-- The answers during `CreateTextureImageFromFile`: the pixels that
`stbi_load` returns (none for a null pointer) with the values it leaves in
`TexWidth` and `TexHeight`, whether `malloc` returns memory, and the answers of
the driver with the three one-time command buffers. -/
structure TextureAnswers where
  stbi_load : Option (List Nat)
  TexWidth : Int
  TexHeight : Int
  malloc : Bool
  Staging : BufferAnswers
  Image : ImageAnswers
  copyCommandBuffer : Handle
  mipmapCommandBuffer : Handle
deriving DecidableEq, Repr

/-- The five texture members of the application. -/
inductive TextureMember where
  | m_AlbedoTexture
  | m_NormalTexture
  | m_MetallicTexture
  | m_RoughnessTexture
  | m_AoTexture
deriving DecidableEq, Repr

/-- The value of a texture member. -/
def App.texture (app : App) : TextureMember → TextureInfo
  | .m_AlbedoTexture => app.m_AlbedoTexture
  | .m_NormalTexture => app.m_NormalTexture
  | .m_MetallicTexture => app.m_MetallicTexture
  | .m_RoughnessTexture => app.m_RoughnessTexture
  | .m_AoTexture => app.m_AoTexture

/-- Stores a value into a texture member. -/
def App.setTexture (app : App) (Texture : TextureMember) (t : TextureInfo) : App :=
  match Texture with
  | .m_AlbedoTexture => { app with m_AlbedoTexture := t }
  | .m_NormalTexture => { app with m_NormalTexture := t }
  | .m_MetallicTexture => { app with m_MetallicTexture := t }
  | .m_RoughnessTexture => { app with m_RoughnessTexture := t }
  | .m_AoTexture => { app with m_AoTexture := t }

/-- Function `CreateTextureImageFromFile`, as `CreateTextureFromFile` calls it
for a texture member of the application: the reference parameters `MipLevels`,
`TextureImage` and `TextureImageMemory` are the fields of that member.  When
`stbi_load` returns a null pointer and `malloc` returns one too, the code hands
the null pointer to `MapMemory`. -/
def CreateTextureImageFromFile (a : TextureAnswers) (Texture : TextureMember) (app : App) :
    Step :=
  let TexWidth := a.TexWidth
  let TexHeight := a.TexHeight
  let pPixels := a.stbi_load
  let ImageSize := ((TexWidth % 2 ^ 64).toNat * (TexHeight % 2 ^ 64).toNat * 4) % 2 ^ 64
  let MipLevels := CreateTextureImageFromFile.mipLevels TexWidth TexHeight
  let fallback := pPixels = none
  let pPixels :=
    if fallback then (if a.malloc then some [255, 255, 255, 255] else none) else pPixels
  let TexWidth := if fallback then 1 else TexWidth
  let TexHeight := if fallback then 1 else TexHeight
  let ImageSize := if fallback then 4 else ImageSize
  let MipLevels := if fallback then 1 else MipLevels
  let StagingBuffer : BufferInfo :=
    ⟨a.Staging.vkCreateBuffer.handle, a.Staging.vkAllocateMemory.handle⟩
  (CreateBuffer a.Staging ImageSize VK_BUFFER_USAGE_TRANSFER_SRC_BIT
      (VK_MEMORY_PROPERTY_HOST_VISIBLE_BIT ||| VK_MEMORY_PROPERTY_HOST_COHERENT_BIT)
      (fun app _ => app) (fun app _ => app)
      (app.setTexture Texture { app.texture Texture with MipLevels := MipLevels }))
  |>.andThen (MapMemory StagingBuffer.Memory ImageSize pPixels)
  |>.andThen (CreateImage a.Image (toUInt32 TexWidth) (toUInt32 TexHeight) MipLevels
      VK_SAMPLE_COUNT_1_BIT VK_FORMAT_R8G8B8A8_UNORM
      (VK_IMAGE_USAGE_TRANSFER_SRC_BIT ||| VK_IMAGE_USAGE_TRANSFER_DST_BIT |||
        VK_IMAGE_USAGE_SAMPLED_BIT)
      VK_MEMORY_PROPERTY_DEVICE_LOCAL_BIT
      (fun app h => app.setTexture Texture { app.texture Texture with TextureImage := h })
      (fun app h => app.setTexture Texture { app.texture Texture with TextureImageMemory := h }))
  |>.andThen (TransitionImageLayout a.Image.singleTimeCommandBuffer a.Image.vkCreateImage.handle
      VK_FORMAT_R8G8B8A8_UNORM MipLevels VK_IMAGE_LAYOUT_UNDEFINED
      VK_IMAGE_LAYOUT_TRANSFER_DST_OPTIMAL)
  |>.andThen (CopyBufferToImage a.copyCommandBuffer StagingBuffer.Buffer
      a.Image.vkCreateImage.handle (toUInt32 TexWidth) (toUInt32 TexHeight))
  |>.andThen (GenerateMipmaps a.mipmapCommandBuffer a.Image.vkCreateImage.handle
      VK_FORMAT_R8G8B8A8_UNORM (toUInt32 TexWidth) (toUInt32 TexHeight) MipLevels)
  |>.andThen (DestroyBuffer StagingBuffer)

/-- The calls of the upload of the 1x1 opaque white texture, in their order:
a staging buffer of 4 bytes, the four bytes 255 copied into it, an image of
extent 1x1 with 1 mip level, its transition to the transfer-destination
layout, the copy of the buffer into level 0 at extent 1x1, the transition of
level 0 to the shader-read-only layout without any blit, and the destruction
of the staging buffer; `i` and `j` are the memory type indices. -/
def fallbackCalls (a : TextureAnswers) (i j : Nat) (app : App) : List Op :=
  [ Op.vkCreateBuffer 4 VK_BUFFER_USAGE_TRANSFER_SRC_BIT,
    Op.vkAllocateMemory i,
    Op.vkBindBufferMemory a.Staging.vkCreateBuffer.handle a.Staging.vkAllocateMemory.handle,
    Op.transfer
      (TransferCall.MapMemory a.Staging.vkAllocateMemory.handle 4 (some [255, 255, 255, 255])),
    Op.vkCreateImage 1 1 1 VK_SAMPLE_COUNT_1_BIT VK_FORMAT_R8G8B8A8_UNORM
      (VK_IMAGE_USAGE_TRANSFER_SRC_BIT ||| VK_IMAGE_USAGE_TRANSFER_DST_BIT |||
        VK_IMAGE_USAGE_SAMPLED_BIT),
    Op.vkAllocateMemory j,
    Op.vkBindImageMemory a.Image.vkCreateImage.handle a.Image.vkAllocateMemory.handle ] ++
  BeginSingleTimeCommands a.Image.singleTimeCommandBuffer app ++
  [ Op.vkCmdPipelineBarrier a.Image.singleTimeCommandBuffer a.Image.vkCreateImage.handle 0 1
      VK_IMAGE_LAYOUT_UNDEFINED VK_IMAGE_LAYOUT_TRANSFER_DST_OPTIMAL VK_IMAGE_ASPECT_COLOR_BIT ] ++
  EndSingleTimeCommands a.Image.singleTimeCommandBuffer app ++
  BeginSingleTimeCommands a.copyCommandBuffer app ++
  [ Op.transfer (TransferCall.vkCmdCopyBufferToImage a.copyCommandBuffer
      a.Staging.vkCreateBuffer.handle a.Image.vkCreateImage.handle 0 1 1) ] ++
  EndSingleTimeCommands a.copyCommandBuffer app ++
  BeginSingleTimeCommands a.mipmapCommandBuffer app ++
  [ Op.vkCmdPipelineBarrier a.mipmapCommandBuffer a.Image.vkCreateImage.handle 0 1
      VK_IMAGE_LAYOUT_TRANSFER_DST_OPTIMAL VK_IMAGE_LAYOUT_SHADER_READ_ONLY_OPTIMAL
      VK_IMAGE_ASPECT_COLOR_BIT ] ++
  EndSingleTimeCommands a.mipmapCommandBuffer app ++
  [ Op.lifecycle (LifecycleCall.vkDestroyBuffer a.Staging.vkCreateBuffer.handle),
    Op.vkFreeMemory a.Staging.vkAllocateMemory.handle ]

/-- An example application whose device supports linear filtering of
`R8G8B8A8_UNORM` images. -/
def exampleTextureApp : App :=
  { exampleApp with
    m_PhysicalDevice :=
      { exampleDevice with formatProperties := [(126, ⟨0, 0x200⟩), (37, ⟨0, 0x1000⟩)] } }

/-- An example application whose device lists no feature of `R8G8B8A8_UNORM`. -/
def exampleNoBlitApp : App := exampleApp

/-- Example answers of a texture creation in which the file cannot be loaded
and every other call succeeds. -/
def exampleMissingTexture : TextureAnswers :=
  { stbi_load := none, TexWidth := -1, TexHeight := -1, malloc := true
    Staging := ⟨⟨VK_SUCCESS, 90⟩, 3, ⟨VK_SUCCESS, 91⟩⟩
    Image := ⟨⟨VK_SUCCESS, 92⟩, 3, ⟨VK_SUCCESS, 93⟩, ⟨VK_SUCCESS, 94⟩, 95⟩
    copyCommandBuffer := 96
    mipmapCommandBuffer := 97 }

/-! ## The run of the application (`App::Run`) -/

/-- Member function `App::InitWindow`; the window hint and the registration of
the callbacks are not listed. -/
def InitWindow (app : App) : Step :=
  Step.ret app
    [ Op.lifecycle LifecycleCall.glfwInit,
      Op.lifecycle (LifecycleCall.glfwCreateWindow app.m_InitWidth app.m_InitHeight) ]

/-- What the window system delivers in one iteration of the main loop, and the
answers during the frame: whether `glfwPollEvents` calls the framebuffer resize
callback, the keyboard events it hands to `KeyboardCallback`, and the answers
during `Draw`.  Mouse events change the camera only and are not listed. -/
structure FrameAnswers where
  resized : Bool
  keys : List KeyEvent
  draw : DrawAnswers

/-- Member function `App::MainLoop`.  The list holds the iterations for which
the window system reports that the window stays open; the loop also ends after
the iteration in which a callback has called `glfwSetWindowShouldClose`.  The
update of the window title is not modelled. -/
def MainLoop : List FrameAnswers → App → Step
  | [], app => Step.ret app [Op.vkDeviceWaitIdle]
  | f :: rest, app =>
    let poll :=
      (Step.ret (if f.resized then FramebufferResizeCallback app else app)
        [Op.lifecycle LifecycleCall.glfwPollEvents])
      |>.andThen (KeyboardCallbacks f.keys)
    if Op.lifecycle LifecycleCall.glfwSetWindowShouldClose ∈ poll.trace then
      (poll.andThen (Draw f.draw)).andThen (fun app => Step.ret app [Op.vkDeviceWaitIdle])
    else (poll.andThen (Draw f.draw)).andThen (MainLoop rest)

/-- Member function `App::Destroy`.  An index past the end of a uniform buffer
array reads a value-initialised element here; in C++ that read is undefined. -/
def Destroy (app : App) : Step :=
  (forLoop (List.range app.m_MaxFramesInFlights)
    (fun i app => Step.ret app
      [ Op.lifecycle
          (LifecycleCall.vkDestroySemaphore (SemaphoreRef.m_ImageAvailableSemaphores i)),
        Op.lifecycle
          (LifecycleCall.vkDestroySemaphore (SemaphoreRef.m_RenderFinishedSemaphores i)),
        Op.lifecycle (LifecycleCall.vkDestroyFence i) ]) app)
  |>.andThen DestroySwapChainAndRelevantObject
  |>.andThen (fun app => Step.ret app
      [ Op.lifecycle (LifecycleCall.vkDestroyDescriptorPool app.m_DescriptorPool),
        Op.lifecycle (LifecycleCall.vkDestroyDescriptorSetLayout app.m_DescriptorSetLayout) ])
  |>.andThen (fun app =>
      forLoop (List.range app.m_SwapChainInfo.BufferCount)
        (fun i app => DestroyBuffer (app.m_MaterialUniformBuffers.getD i {}) app) app)
  |>.andThen (fun app =>
      forLoop (List.range app.m_SwapChainInfo.BufferCount)
        (fun i app => DestroyBuffer (app.m_LightUniformBuffers.getD i {}) app) app)
  |>.andThen (fun app =>
      forLoop (List.range app.m_SwapChainInfo.BufferCount)
        (fun i app => DestroyBuffer (app.m_MvpUniformBuffers.getD i {}) app) app)
  |>.andThen (fun app => DestroyBuffer app.m_IndexBuffer app)
  |>.andThen (fun app => DestroyBuffer app.m_VertexBuffer app)
  |>.andThen (fun app => DestroyTexture app.m_AoTexture app)
  |>.andThen (fun app => DestroyTexture app.m_RoughnessTexture app)
  |>.andThen (fun app => DestroyTexture app.m_MetallicTexture app)
  |>.andThen (fun app => DestroyTexture app.m_NormalTexture app)
  |>.andThen (fun app => DestroyTexture app.m_AlbedoTexture app)
  |>.andThen (fun app => Step.ret app
      ([ Op.lifecycle (LifecycleCall.vkDestroyCommandPool app.m_CommandPool),
         Op.lifecycle (LifecycleCall.vkDestroyDevice app.m_Device),
         Op.lifecycle (LifecycleCall.vkDestroySurfaceKHR app.m_Surface) ] ++
       (if app.m_bEnableValidationLayers then
          [Op.lifecycle (LifecycleCall.vkDestroyDebugUtilsMessengerEXT app.m_DebugMessenger)]
        else []) ++
       [ Op.lifecycle (LifecycleCall.vkDestroyInstance app.m_Instance),
         Op.lifecycle LifecycleCall.glfwDestroyWindow,
         Op.lifecycle LifecycleCall.glfwTerminate ]))

/-- The answers during a run of the application. -/
structure RunAnswers where
  init : InitAnswers
  frames : List FrameAnswers

/-- Member function `App::Run`. -/
def Run (a : RunAnswers) (app : App) : Step :=
  (InitWindow app)
  |>.andThen (InitVulkan a.init)
  |>.andThen (MainLoop a.frames)
  |>.andThen Destroy

/-- Example answers of a run: the driver reports three presentable images at
the start; in the first frame the acquisition reports that the swapchain is out
of date and the rebuild gets two presentable images; the second frame
succeeds; then the window is closed. -/
def exampleShrinkingRun : RunAnswers :=
  { init := exampleInit [61, 62, 63]
    frames :=
      [ { resized := false, keys := []
          draw :=
            { exampleDraw VK_ERROR_OUT_OF_DATE_KHR 0 VK_SUCCESS VK_SUCCESS with
              recreate :=
                { waits := [⟨800, 600, false, []⟩], build := exampleBuild [71, 72] 500 } } },
        { resized := false, keys := []
          draw := exampleDraw VK_SUCCESS 1 VK_SUCCESS VK_SUCCESS } ] }

/-- The buffers that the calls of a trace bind to memory, with the memory. -/
def boundBuffers (trace : List Op) : List (Handle × Handle) :=
  trace.filterMap (fun op =>
    match op with
    | .vkBindBufferMemory buffer memory => some (buffer, memory)
    | _ => none)

/-- The buffers that the calls of a trace destroy. -/
def destroyedBuffers (trace : List Op) : List Handle :=
  trace.filterMap (fun op =>
    match op with
    | .lifecycle (.vkDestroyBuffer buffer) => some buffer
    | _ => none)

/-- The devices that the calls of a trace destroy. -/
def destroyedDevices (trace : List Op) : List Handle :=
  trace.filterMap (fun op =>
    match op with
    | .lifecycle (.vkDestroyDevice device) => some device
    | _ => none)

/-! ## A device whose heaps are small -/

/-- An example device that is suitable and whose two memory heaps hold 512 KiB
each, less than 1 MiB. -/
def exampleSmallDevice : PhysicalDevice :=
  { exampleDevice with
    handle := 73, deviceName := "small", deviceType := 1
    memoryHeaps := [524288, 524288]
    framebufferColorSampleCounts := 1, framebufferDepthSampleCounts := 1
    extensions := ["VK_KHR_swapchain"]
    surfaceFormats := [⟨44, 0⟩], surfacePresentModes := [2]
    samplerAnisotropy := 1 }

/-! ## Vertex attributes (`App::Vertex`, `App::LoadObjModel`) -/

/-- Structure `VkVertexInputAttributeDescription`. -/
structure VkVertexInputAttributeDescription where
  location : Nat
  binding : Nat
  format : VkFormat
  offset : Nat
deriving DecidableEq, Repr

/-- The values of `offsetof(Vertex, ...)`.  The declaration of `Vertex` is in a
header that is not part of the sources at hand, so they are parameters. -/
structure VertexOffsets where
  Position : Nat
  Color : Nat
  Normal : Nat
  Tangent : Nat
  TexCoord : Nat
deriving DecidableEq, Repr

/-- Function `App::Vertex::GetAttributeDescription`. -/
def Vertex.GetAttributeDescription (offsetof : VertexOffsets) :
    List VkVertexInputAttributeDescription :=
  [ { binding := 0, location := 0, format := VK_FORMAT_R32G32B32_SFLOAT
      offset := offsetof.Position },
    { binding := 0, location := 1, format := VK_FORMAT_R32G32B32_SFLOAT
      offset := offsetof.Color },
    { binding := 0, location := 2, format := VK_FORMAT_R32G32B32_SFLOAT
      offset := offsetof.Normal },
    { binding := 0, location := 3, format := VK_FORMAT_R32G32_SFLOAT
      offset := offsetof.Tangent },
    { binding := 0, location := 4, format := VK_FORMAT_R32G32_SFLOAT
      offset := offsetof.TexCoord } ]

/-- The number of 32-bit float components of a vertex attribute format of
`vulkan_core.h`; 0 for a format that is not one of `R32_SFLOAT`,
`R32G32_SFLOAT`, `R32G32B32_SFLOAT`, `R32G32B32A32_SFLOAT`. -/
def floatComponents (format : VkFormat) : Nat :=
  if format = 100 then 1
  else if format = VK_FORMAT_R32G32_SFLOAT then 2
  else if format = VK_FORMAT_R32G32B32_SFLOAT then 3
  else if format = 109 then 4
  else 0

/-- A vertex as `LoadObjModel` fills it: for each field of `Vertex`, the
components the loop body assigns, in the order `x`, `y`, `z`.  The type `F`
stands for `float`. -/
structure Vertex (F : Type) where
  Position : List F
  Color : List F
  Normal : List F
  Tangent : List F
  TexCoord : List F

/-- The body of the vertex loop of `App::LoadObjModel` for a mesh that has
normals, tangents and texture coordinates: the vertex it appends for the
position, normal, tangent and texture coordinate that the importer reports;
`one` is the value `1.0f`. -/
def LoadObjModel.vertex {F : Type} (one : F) (mVertices mNormals mTangents : F × F × F)
    (mTextureCoords : F × F × F) : Vertex F :=
  { Position := [mVertices.1, mVertices.2.1, mVertices.2.2]
    Color := [one, one, one]
    Normal := [mNormals.1, mNormals.2.1, mNormals.2.2]
    Tangent := [mTangents.1, mTangents.2.1, mTangents.2.2]
    TexCoord := [mTextureCoords.1, mTextureCoords.2.1] }

/-- The number of components that `LoadObjModel` fills in for the field that
the attribute at a location describes. -/
def Vertex.components {F : Type} (v : Vertex F) (location : Nat) : Nat :=
  match location with
  | 0 => v.Position.length
  | 1 => v.Color.length
  | 2 => v.Normal.length
  | 3 => v.Tangent.length
  | 4 => v.TexCoord.length
  | _ => 0

/-! ## The camera (`Camera.hpp`, `Camera.cpp`) -/

/-- The operations on `float` that the camera uses.  A finite `float` is a
rational number; the rounded arithmetic and the library functions are
parameters. -/
structure FloatOps where
  radians : ℚ → ℚ
  tan : ℚ → ℚ
  atan : ℚ → ℚ
  cos : ℚ → ℚ
  sin : ℚ → ℚ
  add : ℚ → ℚ → ℚ
  mul : ℚ → ℚ → ℚ
  div : ℚ → ℚ → ℚ

/-- Class `Camera`: the members that `Reset` and `RetriveData` read or write. -/
structure Camera where
  m_Target : ℚ × ℚ × ℚ
  m_Yaw : ℚ
  m_Pitch : ℚ
  m_Radius : ℚ
  m_NearZ : ℚ
  m_FarZ : ℚ
  m_Resolution : ℚ × ℚ
  m_Fov : ℚ × ℚ
  m_Eye : ℚ × ℚ × ℚ
  m_Up : ℚ × ℚ × ℚ
deriving DecidableEq

/-- Constants `WINDOW_INIT_WIDTH` and `WINDOW_INIT_HEIGH` of `Camera.hpp`. -/
def WINDOW_INIT_WIDTH : Int := 1280

def WINDOW_INIT_HEIGH : Int := 720

/-- The value of the literal `0.1f`: the `float` nearest to one tenth. -/
def float_0_1 : ℚ := 13421773 / 134217728

/-- A freshly constructed `Camera`: the default member initialisers of
`Camera.hpp`. -/
def Camera.new (ops : FloatOps) : Camera :=
  { m_Target := (0, 0, 0)
    m_Yaw := ops.radians 0
    m_Pitch := ops.radians 0
    m_Radius := 3
    m_NearZ := float_0_1
    m_FarZ := 100
    m_Resolution := (WINDOW_INIT_WIDTH, WINDOW_INIT_HEIGH)
    m_Fov := (ops.radians 45, ops.radians 45)
    m_Eye := (0, 0, 0)
    m_Up := (0, 0, 0) }

/-- Member function `Camera::SetFov`; the assertion `FovX > 0` is not
modelled. -/
def Camera.SetFov (ops : FloatOps) (FovX : ℚ) (c : Camera) : Camera :=
  { c with
    m_Fov :=
      (FovX,
       ops.mul
         (ops.atan (ops.mul (ops.tan (ops.mul FovX (1 / 2)))
           (ops.div c.m_Resolution.2 c.m_Resolution.1)))
         2) }

/-- Member function `Camera::Reset`. -/
def Camera.Reset (ops : FloatOps) (c : Camera) : Camera :=
  Camera.SetFov ops (ops.radians 45)
    { c with
      m_Target := (0, 0, 0)
      m_Yaw := ops.radians 0
      m_Pitch := ops.radians 0
      m_Radius := 3
      m_NearZ := float_0_1
      m_FarZ := 100
      m_Resolution := (800, 600) }

/-- The values that `Camera::RetriveData` writes to its reference parameters. -/
structure CameraData where
  Target : ℚ × ℚ × ℚ
  Eye : ℚ × ℚ × ℚ
  Up : ℚ × ℚ × ℚ
  Fov : ℚ × ℚ
  NearZ : ℚ
  FarZ : ℚ
deriving DecidableEq

/-- Member function `Camera::RetriveData`: the values it writes and the camera
with the cached eye and up vectors. -/
def Camera.RetriveData (ops : FloatOps) (c : Camera) : CameraData × Camera :=
  let X := ops.mul (ops.cos c.m_Yaw) (ops.cos c.m_Pitch)
  let Y := ops.mul (ops.sin c.m_Yaw) (ops.cos c.m_Pitch)
  let Z := ops.sin c.m_Pitch
  let Eye : ℚ × ℚ × ℚ :=
    (ops.add c.m_Target.1 (ops.mul X c.m_Radius),
     ops.add c.m_Target.2.1 (ops.mul Y c.m_Radius),
     ops.add c.m_Target.2.2 (ops.mul Z c.m_Radius))
  let Up : ℚ × ℚ × ℚ := (0, 0, 1)
  ({ Target := c.m_Target, Eye := Eye, Up := Up, Fov := c.m_Fov, NearZ := c.m_NearZ,
     FarZ := c.m_FarZ },
   { c with m_Up := Up, m_Eye := Eye })

/-- The property of a memory type index in the words of the claim: the index is
below the memory-type count, bit `i` of the type filter is set, and the
property flags of type `i` include every required flag. -/
def memoryTypeFits (Device : PhysicalDevice) (TypeFilter Properties i : Nat) : Prop :=
  ∃ propertyFlags, Device.memoryTypes[i]? = some propertyFlags ∧ TypeFilter.testBit i = true ∧
    ∀ b, Properties.testBit b = true → propertyFlags.testBit b = true

/-- The state between two keyboard events: the variant constants are `t`, the
modes are valid, and the pipeline mapping is `m`. -/
def keyboardInvariant (t : GraphicsPipelineType) (m : PipelineMap) (app : App) : Prop :=
  app.GRAPHICS_PIPELINE_TYPE = t ∧ app.modesValid ∧ app.m_GraphicsPipelines = m

/-- A call that binds a pipeline binds one that the mapping `m` holds under one
of the nine keys. -/
def bindsVariant (t : GraphicsPipelineType) (m : PipelineMap) (op : Op) : Prop :=
  ∀ cb pipeline, op = Op.vkCmdBindPipeline cb pipeline →
    ∃ key ∈ variantKeys t, PipelineMap.find m key = some pipeline

/-- The variant constants and the two modes of a state. -/
def App.modes (app : App) : GraphicsPipelineType × Nat × Nat :=
  (app.GRAPHICS_PIPELINE_TYPE, app.m_GraphicsPipelineDisplayMode, app.m_GraphicsPipelineCullMode)

/-- The calls of an upload of the bytes `d` through a staging buffer, in the
order the claim lists them; `i` and `j` are the memory type indices of the
staging and of the destination memory. -/
def uploadCalls (a : UploadAnswers) (d : List Nat) (targetUsage i j : Nat) (app : App) :
    List Op :=
  [ Op.vkCreateBuffer d.length VK_BUFFER_USAGE_TRANSFER_SRC_BIT,
    Op.vkAllocateMemory i,
    Op.vkBindBufferMemory a.Staging.vkCreateBuffer.handle a.Staging.vkAllocateMemory.handle,
    Op.transfer (TransferCall.MapMemory a.Staging.vkAllocateMemory.handle d.length (some d)),
    Op.vkCreateBuffer d.length (VK_BUFFER_USAGE_TRANSFER_DST_BIT ||| targetUsage),
    Op.vkAllocateMemory j,
    Op.vkBindBufferMemory a.Destination.vkCreateBuffer.handle
      a.Destination.vkAllocateMemory.handle,
    Op.vkAllocateCommandBuffers app.m_CommandPool 1,
    Op.vkBeginCommandBuffer a.singleTimeCommandBuffer,
    Op.transfer (TransferCall.vkCmdCopyBuffer a.singleTimeCommandBuffer
      a.Staging.vkCreateBuffer.handle a.Destination.vkCreateBuffer.handle 0 0 d.length),
    Op.vkEndCommandBuffer a.singleTimeCommandBuffer,
    Op.vkQueueSubmit Queue.m_GraphicsQueue []
      (CommandBufferRef.singleTime a.singleTimeCommandBuffer) [] none,
    Op.vkQueueWaitIdle Queue.m_GraphicsQueue,
    Op.vkFreeCommandBuffers app.m_CommandPool [a.singleTimeCommandBuffer],
    Op.lifecycle (LifecycleCall.vkDestroyBuffer a.Staging.vkCreateBuffer.handle),
    Op.vkFreeMemory a.Staging.vkAllocateMemory.handle ]

/-- Whether a call is a blit. -/
def Op.isBlit : Op → Bool
  | .transfer (.vkCmdBlitImage _ _ _ _ _ _ _ _) => true
  | _ => false

/-- The calls of `App::Destroy` in a state, in their order. -/
def Destroy.calls (app : App) : List Op :=
  ((List.range app.m_MaxFramesInFlights).map (fun i =>
      [ Op.lifecycle
          (LifecycleCall.vkDestroySemaphore (SemaphoreRef.m_ImageAvailableSemaphores i)),
        Op.lifecycle
          (LifecycleCall.vkDestroySemaphore (SemaphoreRef.m_RenderFinishedSemaphores i)),
        Op.lifecycle (LifecycleCall.vkDestroyFence i) ])).flatten ++
  (DestroySwapChainAndRelevantObject app).trace ++
  [ Op.lifecycle (LifecycleCall.vkDestroyDescriptorPool app.m_DescriptorPool),
    Op.lifecycle (LifecycleCall.vkDestroyDescriptorSetLayout app.m_DescriptorSetLayout) ] ++
  ((List.range app.m_SwapChainInfo.BufferCount).map (fun i =>
      (DestroyBuffer (app.m_MaterialUniformBuffers.getD i {}) app).trace)).flatten ++
  ((List.range app.m_SwapChainInfo.BufferCount).map (fun i =>
      (DestroyBuffer (app.m_LightUniformBuffers.getD i {}) app).trace)).flatten ++
  ((List.range app.m_SwapChainInfo.BufferCount).map (fun i =>
      (DestroyBuffer (app.m_MvpUniformBuffers.getD i {}) app).trace)).flatten ++
  (DestroyBuffer app.m_IndexBuffer app).trace ++
  (DestroyBuffer app.m_VertexBuffer app).trace ++
  (DestroyTexture app.m_AoTexture app).trace ++
  (DestroyTexture app.m_RoughnessTexture app).trace ++
  (DestroyTexture app.m_MetallicTexture app).trace ++
  (DestroyTexture app.m_NormalTexture app).trace ++
  (DestroyTexture app.m_AlbedoTexture app).trace ++
  [ Op.lifecycle (LifecycleCall.vkDestroyCommandPool app.m_CommandPool),
    Op.lifecycle (LifecycleCall.vkDestroyDevice app.m_Device),
    Op.lifecycle (LifecycleCall.vkDestroySurfaceKHR app.m_Surface) ] ++
  (if app.m_bEnableValidationLayers then
     [Op.lifecycle (LifecycleCall.vkDestroyDebugUtilsMessengerEXT app.m_DebugMessenger)]
   else []) ++
  [ Op.lifecycle (LifecycleCall.vkDestroyInstance app.m_Instance),
    Op.lifecycle LifecycleCall.glfwDestroyWindow,
    Op.lifecycle LifecycleCall.glfwTerminate ]

/-! ## The steps of a build, and constants whose keys coincide -/

/-- A sequence of steps, run in order; the run ends where a step throws or
blocks. -/
def runSteps : List (App → Step) → App → Step
  | [], app => Step.ret app []
  | f :: rest, app => (f app).andThen (runSteps rest)

/-- The eight steps of a swapchain build, in the order of the calls. -/
def RecreateSwapChainAndRelevantObject.steps (a : BuildAnswers) : List (App → Step) :=
  [ CreateSwapChain a, CreateSwapChainImageViews a, CreateRenderPass a,
    CreateGraphicsPipeline a, CreateColorResource a, CreateDepthResource a,
    CreateFramebuffers a, CreateDrawingCommandBuffers a ]

/-- The state with the members that step `k` of a build writes set to fixed
values: two states agree under `hideStep k` when they differ at most in the
members that step `k` writes.  Step 0 is `CreateSwapChain` (the swapchain, its
images, format and extent), 1 `CreateSwapChainImageViews`, 2
`CreateRenderPass`, 3 `CreateGraphicsPipeline` (the pipeline layout and the
pipeline map), 4 and 5 the colour and the depth attachment, 6
`CreateFramebuffers`, 7 `CreateDrawingCommandBuffers` (the drawing command
buffers, and the pipeline map, in which `operator[]` inserts a missing key). -/
def App.hideStep (k : Nat) (app : App) : App :=
  match k with
  | 0 =>
    { app with m_SwapChainInfo :=
      { app.m_SwapChainInfo with
        SwapChain := VK_NULL_HANDLE, SwapChainImages := [],
        SwapChainImageFormat := VK_FORMAT_UNDEFINED, SwapChainExtent := ⟨0, 0⟩ } }
  | 1 => { app with m_SwapChainInfo := { app.m_SwapChainInfo with SwapChainImageViews := [] } }
  | 2 => { app with m_RenderPass := VK_NULL_HANDLE }
  | 3 => { app with m_PipelineLayout := VK_NULL_HANDLE, m_GraphicsPipelines := [] }
  | 4 =>
    { app with m_SwapChainInfo :=
      { app.m_SwapChainInfo with
        ColorImage := VK_NULL_HANDLE, ColorImageMemory := VK_NULL_HANDLE,
        ColorImageView := VK_NULL_HANDLE } }
  | 5 =>
    { app with m_SwapChainInfo :=
      { app.m_SwapChainInfo with
        DepthImage := VK_NULL_HANDLE, DepthImageMemory := VK_NULL_HANDLE,
        DepthImageView := VK_NULL_HANDLE } }
  | 6 => { app with m_SwapChainInfo := { app.m_SwapChainInfo with SwapChainFramebuffers := [] } }
  | 7 => { app with m_DrawingCommandBuffers := [], m_GraphicsPipelines := [] }
  | _ => app

/-! ## Sequencing lemmas -/

@[simp] theorem Step.ret_app (app : App) (tr : List Op) : (Step.ret app tr).app = app := rfl

@[simp] theorem Step.ret_trace (app : App) (tr : List Op) : (Step.ret app tr).trace = tr := rfl

@[simp] theorem Step.ret_outcome (app : App) (tr : List Op) :
    (Step.ret app tr).outcome = Outcome.returned := rfl

@[simp] theorem Step.throw_app (app : App) (tr : List Op) (w : String) :
    (Step.throw app tr w).app = app := rfl

@[simp] theorem Step.throw_trace (app : App) (tr : List Op) (w : String) :
    (Step.throw app tr w).trace = tr := rfl

@[simp] theorem Step.throw_outcome (app : App) (tr : List Op) (w : String) :
    (Step.throw app tr w).outcome = Outcome.threw w := rfl

theorem Step.andThen_of_returned (s : Step) (f : App → Step) (h : s.outcome = Outcome.returned) :
    s.andThen f = ⟨(f s.app).app, s.trace ++ (f s.app).trace, (f s.app).outcome⟩ := by
  unfold Step.andThen
  rw [h]

theorem Step.andThen_of_not_returned (s : Step) (f : App → Step)
    (h : s.outcome ≠ Outcome.returned) : s.andThen f = s := by
  unfold Step.andThen
  cases hs : s.outcome with
  | returned => exact absurd hs h
  | threw w => rfl
  | blocked => rfl

@[simp] theorem Step.andThen_ret (app : App) (tr : List Op) (f : App → Step) :
    (Step.ret app tr).andThen f = ⟨(f app).app, tr ++ (f app).trace, (f app).outcome⟩ :=
  Step.andThen_of_returned _ f rfl

@[simp] theorem Step.andThen_throw (app : App) (tr : List Op) (w : String) (f : App → Step) :
    (Step.throw app tr w).andThen f = Step.throw app tr w :=
  Step.andThen_of_not_returned _ f (by simp)

@[simp] theorem Step.andThen_mk_returned (app : App) (tr : List Op) (f : App → Step) :
    (Step.mk app tr Outcome.returned).andThen f =
      ⟨(f app).app, tr ++ (f app).trace, (f app).outcome⟩ :=
  Step.andThen_of_returned _ f rfl

@[simp] theorem Step.andThen_mk_threw (app : App) (tr : List Op) (w : String)
    (f : App → Step) :
    (Step.mk app tr (Outcome.threw w)).andThen f = Step.mk app tr (Outcome.threw w) :=
  Step.andThen_of_not_returned _ f (by simp)

@[simp] theorem Step.andThen_mk_blocked (app : App) (tr : List Op) (f : App → Step) :
    (Step.mk app tr Outcome.blocked).andThen f = Step.mk app tr Outcome.blocked :=
  Step.andThen_of_not_returned _ f (by simp)

/-- The trace of a sequence starts with the trace of its first part. -/
theorem Step.andThen_trace (s : Step) (f : App → Step) :
    ∃ rest, (s.andThen f).trace = s.trace ++ rest := by
  by_cases h : s.outcome = Outcome.returned
  · exact ⟨(f s.app).trace, by rw [Step.andThen_of_returned s f h]⟩
  · exact ⟨[], by rw [Step.andThen_of_not_returned s f h]; simp⟩

/-- A sequence returns exactly when both parts return. -/
theorem Step.andThen_returned_iff (s : Step) (f : App → Step) :
    (s.andThen f).outcome = Outcome.returned ↔
      s.outcome = Outcome.returned ∧ (f s.app).outcome = Outcome.returned := by
  by_cases h : s.outcome = Outcome.returned
  · rw [Step.andThen_of_returned s f h]; simp [h]
  · rw [Step.andThen_of_not_returned s f h]; simp [h]

/-- A property of states that each part of a sequence carries over is carried
over by the sequence. -/
theorem Step.andThen_preserves {β : Type} (p : App → β) (s : Step) (f : App → Step) (x : β)
    (hs : p s.app = x) (hf : ∀ app, p (f app).app = p app) : p (s.andThen f).app = x := by
  by_cases h : s.outcome = Outcome.returned
  · rw [Step.andThen_of_returned s f h]; simp [hf, hs]
  · rw [Step.andThen_of_not_returned s f h]; exact hs

/-- A property of calls that holds in each part of a sequence holds in the
sequence. -/
theorem Step.andThen_all (P : Op → Prop) (s : Step) (f : App → Step)
    (hs : ∀ op ∈ s.trace, P op) (hf : ∀ app, ∀ op ∈ (f app).trace, P op) :
    ∀ op ∈ (s.andThen f).trace, P op := by
  by_cases h : s.outcome = Outcome.returned
  · rw [Step.andThen_of_returned s f h]
    intro op hop
    rcases List.mem_append.mp hop with h1 | h1
    · exact hs op h1
    · exact hf _ op h1
  · rw [Step.andThen_of_not_returned s f h]; exact hs

theorem forLoop_preserves {β : Type} (p : App → β) (body : Nat → App → Step)
    (hb : ∀ i app, p (body i app).app = p app) :
    ∀ (l : List Nat) (app : App), p (forLoop l body app).app = p app := by
  intro l
  induction l with
  | nil => intro app; rfl
  | cons i rest ih =>
    intro app
    exact Step.andThen_preserves p _ _ _ (hb i app) (fun s => ih s)

theorem forLoop_all (P : Op → Prop) (body : Nat → App → Step)
    (hb : ∀ i app, ∀ op ∈ (body i app).trace, P op) :
    ∀ (l : List Nat) (app : App), ∀ op ∈ (forLoop l body app).trace, P op := by
  intro l
  induction l with
  | nil => intro app op hop; simp [forLoop] at hop
  | cons i rest ih =>
    intro app
    exact Step.andThen_all P _ _ (hb i app) (fun s => ih s)

/-- A property of states and a property of calls that each part of a sequence
carries over are carried over by the sequence. -/
theorem Step.andThen_invariant (J : App → Prop) (P : Op → Prop) (s : Step) (f : App → Step)
    (hs : J s.app ∧ ∀ op ∈ s.trace, P op)
    (hf : ∀ app, J app → J (f app).app ∧ ∀ op ∈ (f app).trace, P op) :
    J (s.andThen f).app ∧ ∀ op ∈ (s.andThen f).trace, P op := by
  by_cases h : s.outcome = Outcome.returned
  · rw [Step.andThen_of_returned s f h]
    refine ⟨(hf _ hs.1).1, ?_⟩
    intro op hop
    rcases List.mem_append.mp hop with h1 | h1
    · exact hs.2 op h1
    · exact (hf _ hs.1).2 op h1
  · rw [Step.andThen_of_not_returned s f h]; exact hs

theorem forLoop_invariant (J : App → Prop) (P : Op → Prop) (body : Nat → App → Step)
    (hb : ∀ i app, J app → J (body i app).app ∧ ∀ op ∈ (body i app).trace, P op) :
    ∀ (l : List Nat) (app : App), J app →
      J (forLoop l body app).app ∧ ∀ op ∈ (forLoop l body app).trace, P op := by
  intro l
  induction l with
  | nil => intro app h; exact ⟨h, by simp [forLoop]⟩
  | cons i rest ih =>
    intro app h
    exact Step.andThen_invariant J P _ _ (hb i app h) (fun x hx => ih x hx)

/-! ## The frame: `App::Draw` -/

/-- The calls of a frame that runs to its end in slot `c` on image `k`. -/
theorem Draw_of_success (a : DrawAnswers) (app : App)
    (hacq : a.vkAcquireNextImageKHR = VK_SUCCESS) (hsub : a.vkQueueSubmit = VK_SUCCESS)
    (hpres : a.vkQueuePresentKHR = VK_SUCCESS) (hflag : app.m_bFramebufferResized = false) :
    Draw a app =
      ⟨{ app with m_CurrentFrame := (app.m_CurrentFrame + 1) % app.m_MaxFramesInFlights },
       [ Op.vkWaitForFences app.m_CurrentFrame,
         Op.vkAcquireNextImageKHR app.m_SwapChainInfo.SwapChain
           (SemaphoreRef.m_ImageAvailableSemaphores app.m_CurrentFrame),
         Op.MapMemory UniformArray.m_MvpUniformBuffers a.ImageIndex,
         Op.MapMemory UniformArray.m_LightUniformBuffers a.ImageIndex,
         Op.MapMemory UniformArray.m_MaterialUniformBuffers a.ImageIndex,
         Op.vkResetFences app.m_CurrentFrame,
         Op.vkQueueSubmit Queue.m_GraphicsQueue
           [SemaphoreRef.m_ImageAvailableSemaphores app.m_CurrentFrame]
           (CommandBufferRef.m_DrawingCommandBuffers a.ImageIndex)
           [SemaphoreRef.m_RenderFinishedSemaphores app.m_CurrentFrame]
           (some app.m_CurrentFrame),
         Op.vkQueuePresentKHR Queue.m_PresentQueue
           (SemaphoreRef.m_RenderFinishedSemaphores app.m_CurrentFrame)
           app.m_SwapChainInfo.SwapChain a.ImageIndex ],
       Outcome.returned⟩ := by
  simp [Draw, UpdateUniformBuffer, Step.ret, hacq, hsub, hpres, hflag, VK_SUCCESS,
    VK_ERROR_OUT_OF_DATE_KHR, VK_SUBOPTIMAL_KHR]

/-- C1.  When the acquisition, the submission and the presentation succeed and
the resize flag is clear, `Draw` in slot `c = m_CurrentFrame` on the acquired
image `k` returns after exactly these calls, in this order: wait on fence `c`;
acquire signalling image-available `c`; write the three uniform buffers of
index `k`; reset fence `c`; submit command buffer `k` to the graphics queue
waiting on image-available `c`, signalling render-finished `c` and fence `c`;
present image `k` on the present queue waiting on render-finished `c`.  The
reset of the fence stands after the acquisition and before the submission. -/
theorem Draw_frame_sequence (a : DrawAnswers) (app : App)
    (hacq : a.vkAcquireNextImageKHR = VK_SUCCESS) (hsub : a.vkQueueSubmit = VK_SUCCESS)
    (hpres : a.vkQueuePresentKHR = VK_SUCCESS) (hflag : app.m_bFramebufferResized = false) :
    (Draw a app).outcome = Outcome.returned ∧
    (Draw a app).trace =
      [ Op.vkWaitForFences app.m_CurrentFrame,
        Op.vkAcquireNextImageKHR app.m_SwapChainInfo.SwapChain
          (SemaphoreRef.m_ImageAvailableSemaphores app.m_CurrentFrame),
        Op.MapMemory UniformArray.m_MvpUniformBuffers a.ImageIndex,
        Op.MapMemory UniformArray.m_LightUniformBuffers a.ImageIndex,
        Op.MapMemory UniformArray.m_MaterialUniformBuffers a.ImageIndex,
        Op.vkResetFences app.m_CurrentFrame,
        Op.vkQueueSubmit Queue.m_GraphicsQueue
          [SemaphoreRef.m_ImageAvailableSemaphores app.m_CurrentFrame]
          (CommandBufferRef.m_DrawingCommandBuffers a.ImageIndex)
          [SemaphoreRef.m_RenderFinishedSemaphores app.m_CurrentFrame]
          (some app.m_CurrentFrame),
        Op.vkQueuePresentKHR Queue.m_PresentQueue
          (SemaphoreRef.m_RenderFinishedSemaphores app.m_CurrentFrame)
          app.m_SwapChainInfo.SwapChain a.ImageIndex ] := by
  rw [Draw_of_success a app hacq hsub hpres hflag]
  exact ⟨rfl, rfl⟩

/-- Witness of C1: slot 0, image 1 of the example application. -/
theorem Draw_frame_sequence_witness :
    (Draw (exampleDraw 0 1 0 0) exampleApp).outcome = Outcome.returned ∧
    (Draw (exampleDraw 0 1 0 0) exampleApp).trace =
      [ Op.vkWaitForFences 0,
        Op.vkAcquireNextImageKHR 10 (SemaphoreRef.m_ImageAvailableSemaphores 0),
        Op.MapMemory UniformArray.m_MvpUniformBuffers 1,
        Op.MapMemory UniformArray.m_LightUniformBuffers 1,
        Op.MapMemory UniformArray.m_MaterialUniformBuffers 1,
        Op.vkResetFences 0,
        Op.vkQueueSubmit Queue.m_GraphicsQueue [SemaphoreRef.m_ImageAvailableSemaphores 0]
          (CommandBufferRef.m_DrawingCommandBuffers 1)
          [SemaphoreRef.m_RenderFinishedSemaphores 0] (some 0),
        Op.vkQueuePresentKHR Queue.m_PresentQueue (SemaphoreRef.m_RenderFinishedSemaphores 0)
          10 1 ] :=
  Draw_frame_sequence (exampleDraw 0 1 0 0) exampleApp rfl rfl rfl rfl

/-- A run of frames that all run to their end advances the slot index by the
number of frames, modulo the number of slots. -/
theorem Draws_of_success (N : Nat) (l : List DrawAnswers) :
    ∀ app : App, app.m_MaxFramesInFlights = N → app.m_CurrentFrame < N →
      app.m_bFramebufferResized = false →
      (∀ a ∈ l, a.vkAcquireNextImageKHR = VK_SUCCESS ∧ a.vkQueueSubmit = VK_SUCCESS ∧
        a.vkQueuePresentKHR = VK_SUCCESS) →
      (Draws l app).outcome = Outcome.returned ∧
      (Draws l app).app.m_CurrentFrame = (app.m_CurrentFrame + l.length) % N := by
  induction l with
  | nil =>
    intro app _ hs _ _
    simp [Draws, Nat.mod_eq_of_lt hs]
  | cons a rest ih =>
    intro app hN hs hflag hok
    have ha := hok a (List.mem_cons_self a rest)
    have hstep := Draw_of_success a app ha.1 ha.2.1 ha.2.2 hflag
    have hNpos : 0 < N := Nat.lt_of_le_of_lt (Nat.zero_le _) hs
    have hrest := ih { app with m_CurrentFrame := (app.m_CurrentFrame + 1) % app.m_MaxFramesInFlights }
      hN (by simpa [hN] using Nat.mod_lt (app.m_CurrentFrame + 1) hNpos) hflag
      (fun b hb => hok b (List.mem_cons_of_mem a hb))
    simp only [Draws, hstep, Step.andThen_mk_returned]
    refine ⟨hrest.1, ?_⟩
    rw [hrest.2]
    simp only [hN, List.length_cons]
    rw [Nat.mod_add_mod]
    congr 1
    omega

/-- C2.  With `N > 0` frame slots and a starting slot `s < N`, a run of `N`
calls of `Draw` that each run to their end (acquisition, submission and
presentation succeed, no recreation) returns with the slot index equal to `s`
again; and one such call, from any state, leaves the slot index at
`(previous + 1) mod N`. -/
theorem Draw_slot_cycle (app : App) (l : List DrawAnswers)
    (hN : 0 < app.m_MaxFramesInFlights) (hs : app.m_CurrentFrame < app.m_MaxFramesInFlights)
    (hflag : app.m_bFramebufferResized = false) (hlen : l.length = app.m_MaxFramesInFlights)
    (hok : ∀ a ∈ l, a.vkAcquireNextImageKHR = VK_SUCCESS ∧ a.vkQueueSubmit = VK_SUCCESS ∧
      a.vkQueuePresentKHR = VK_SUCCESS) :
    ((Draws l app).outcome = Outcome.returned ∧
      (Draws l app).app.m_CurrentFrame = app.m_CurrentFrame) ∧
    (∀ (b : DrawAnswers) (s : App), b.vkAcquireNextImageKHR = VK_SUCCESS →
      b.vkQueueSubmit = VK_SUCCESS → b.vkQueuePresentKHR = VK_SUCCESS →
      s.m_bFramebufferResized = false →
      (Draw b s).outcome = Outcome.returned ∧
      (Draw b s).app.m_CurrentFrame = (s.m_CurrentFrame + 1) % s.m_MaxFramesInFlights) := by
  have _ := hN
  have h := Draws_of_success app.m_MaxFramesInFlights l app rfl hs hflag hok
  refine ⟨⟨h.1, ?_⟩, ?_⟩
  · rw [h.2, hlen, Nat.add_mod_right, Nat.mod_eq_of_lt hs]
  · intro b s h1 h2 h3 h4
    rw [Draw_of_success b s h1 h2 h3 h4]
    exact ⟨rfl, rfl⟩

/-- Witness of C2: two slots, two frames, starting in slot 0. -/
theorem Draw_slot_cycle_witness :
    ((Draws [exampleDraw 0 0 0 0, exampleDraw 0 1 0 0] exampleApp).outcome = Outcome.returned ∧
      (Draws [exampleDraw 0 0 0 0, exampleDraw 0 1 0 0] exampleApp).app.m_CurrentFrame = 0) ∧
    (∀ (b : DrawAnswers) (s : App), b.vkAcquireNextImageKHR = VK_SUCCESS →
      b.vkQueueSubmit = VK_SUCCESS → b.vkQueuePresentKHR = VK_SUCCESS →
      s.m_bFramebufferResized = false →
      (Draw b s).outcome = Outcome.returned ∧
      (Draw b s).app.m_CurrentFrame = (s.m_CurrentFrame + 1) % s.m_MaxFramesInFlights) :=
  Draw_slot_cycle exampleApp [exampleDraw 0 0 0 0, exampleDraw 0 1 0 0] (by decide) (by decide)
    rfl rfl (by
      intro a ha
      simp only [List.mem_cons, List.mem_singleton, List.not_mem_nil, or_false] at ha
      rcases ha with h | h <;> subst h <;> exact ⟨rfl, rfl, rfl⟩)

/-! ## The rebuild makes only rebuild calls and keeps the other members -/

theorem Step.andThen_inert (s : Step) (f : App → Step) (app : App) (hs : s.inert app)
    (hf : ∀ x, (f x).inert x) : (s.andThen f).inert app :=
  ⟨Step.andThen_preserves App.kept s f _ hs.1 (fun x => (hf x).1),
   Step.andThen_all _ s f hs.2 (fun x => (hf x).2)⟩

theorem forLoop_inert (body : Nat → App → Step) (hb : ∀ i x, (body i x).inert x)
    (l : List Nat) (app : App) : (forLoop l body app).inert app :=
  ⟨forLoop_preserves App.kept body (fun i x => (hb i x).1) l app,
   forLoop_all _ body (fun i x => (hb i x).2) l app⟩

theorem Step.inert_of_kept_eq (s : Step) (app app1 : App) (h : s.inert app1)
    (h1 : app1.kept = app.kept) : s.inert app :=
  ⟨h.1.trans h1, h.2⟩

theorem DestroySwapChainAndRelevantObject_inert (app : App) :
    (DestroySwapChainAndRelevantObject app).inert app := by
  refine ⟨rfl, ?_⟩
  rw [← List.all_eq_true]
  simp [DestroySwapChainAndRelevantObject, Step.ret, Op.isRebuildCall]
  intro x _ _ _ h
  subst h
  rfl

theorem CreateSwapChain_inert (a : BuildAnswers) (app : App) :
    (CreateSwapChain a app).inert app := by
  unfold CreateSwapChain
  dsimp only
  split
  · split <;> exact ⟨rfl, by simp [Step.throw, Step.ret, Op.isRebuildCall]⟩
  · exact ⟨rfl, by simp [Step.throw]⟩


theorem CreateImageView_inert (r : Created) (Image : Handle) (Format : VkFormat)
    (AspectFlags : Nat) (ImageView : App → Handle → App)
    (hset : ∀ x h, (ImageView x h).kept = x.kept) (app : App) :
    (CreateImageView r Image Format AspectFlags ImageView app).inert app := by
  unfold CreateImageView
  split
  · exact ⟨rfl, by simp [Step.throw, Op.isRebuildCall]⟩
  · exact ⟨hset _ _, by simp [Step.ret, Op.isRebuildCall]⟩

theorem CreateSwapChainImageViews_inert (a : BuildAnswers) (app : App) :
    (CreateSwapChainImageViews a app).inert app := by
  unfold CreateSwapChainImageViews
  refine Step.inert_of_kept_eq _ _ _ (forLoop_inert _ ?_ _ _) rfl
  intro i x
  apply CreateImageView_inert
  intro _ _
  rfl

theorem CreateRenderPass_inert (a : BuildAnswers) (app : App) :
    (CreateRenderPass a app).inert app := by
  unfold CreateRenderPass
  split
  · exact ⟨rfl, by simp [Step.throw]⟩
  · dsimp only
    split
    · exact ⟨rfl, by simp [Step.throw, Op.isRebuildCall]⟩
    · exact ⟨rfl, by simp [Step.ret, Op.isRebuildCall]⟩

theorem CreateGraphicsPipeline.variant_inert (r : Created) (p c k : Nat) (app : App) :
    (CreateGraphicsPipeline.variant r p c k app).inert app := by
  unfold CreateGraphicsPipeline.variant
  dsimp only
  split
  · exact ⟨rfl, by simp [Step.throw, Op.isRebuildCall]⟩
  · exact ⟨rfl, by simp [Step.ret, Op.isRebuildCall]⟩

theorem CreateGraphicsPipeline_inert (a : BuildAnswers) (app : App) :
    (CreateGraphicsPipeline a app).inert app := by
  unfold CreateGraphicsPipeline
  dsimp only
  split
  · exact ⟨rfl, by simp [Step.throw]⟩
  · exact ⟨rfl, by simp [Step.throw]⟩
  · split
    · exact ⟨rfl, by simp [Step.throw, Op.isRebuildCall]⟩
    · split
      · exact ⟨rfl, by simp [Step.throw, Op.isRebuildCall]⟩
      · split
        · exact ⟨rfl, by simp [Step.throw, Op.isRebuildCall]⟩
        · repeat (first
            | exact ⟨rfl, by simp [Step.ret, Op.isRebuildCall]⟩
            | apply Step.andThen_inert _ _ _ _ (fun s => CreateGraphicsPipeline.variant_inert _ _ _ _ s)
            | apply Step.andThen_inert _ _ _ _ (fun s => ⟨rfl, by simp [Step.ret, Op.isRebuildCall]⟩))

theorem CreateImage_inert (a : ImageAnswers) (Width Height MipLevels Samples : Nat) (Format : VkFormat)
    (Usage Properties : Nat) (Image ImageMemory : App → Handle → App)
    (h1 : ∀ x h, (Image x h).kept = x.kept) (h2 : ∀ x h, (ImageMemory x h).kept = x.kept)
    (app : App) :
    (CreateImage a Width Height MipLevels Samples Format Usage Properties Image ImageMemory app).inert app := by
  unfold CreateImage
  dsimp only
  split
  · exact ⟨rfl, by simp [Step.throw, Op.isRebuildCall]⟩
  · split
    · exact ⟨h1 _ _, by simp [Step.throw, Op.isRebuildCall]⟩
    · split
      · exact ⟨h1 _ _, by simp [Step.throw, Op.isRebuildCall]⟩
      · exact ⟨(h2 _ _).trans (h1 _ _), by simp [Step.ret, Op.isRebuildCall]⟩

theorem TransitionImageLayout_inert (cb Image : Handle) (Format : VkFormat)
    (MipLevels OldLayout NewLayout : Nat) (app : App) :
    (TransitionImageLayout cb Image Format MipLevels OldLayout NewLayout app).inert app := by
  unfold TransitionImageLayout
  dsimp only
  split
  · exact ⟨rfl, by simp [Step.ret, Op.isRebuildCall]⟩
  · exact ⟨rfl, by simp [Step.throw, Op.isRebuildCall]⟩

theorem CreateColorResource_inert (a : BuildAnswers) (app : App) :
    (CreateColorResource a app).inert app := by
  unfold CreateColorResource
  dsimp only
  apply Step.andThen_inert
  · apply Step.andThen_inert
    · apply CreateImage_inert <;> intro _ _ <;> rfl
    · intro x
      apply CreateImageView_inert
      intro _ _
      rfl
  · intro x
    exact TransitionImageLayout_inert _ _ _ _ _ _ x

theorem CreateDepthResource_inert (a : BuildAnswers) (app : App) :
    (CreateDepthResource a app).inert app := by
  unfold CreateDepthResource
  split
  · exact ⟨rfl, by simp [Step.throw]⟩
  · apply Step.andThen_inert
    · apply Step.andThen_inert
      · apply CreateImage_inert <;> intro _ _ <;> rfl
      · intro x
        apply CreateImageView_inert
        intro _ _
        rfl
    · intro x
      exact TransitionImageLayout_inert _ _ _ _ _ _ x

theorem CreateFramebuffers_inert (a : BuildAnswers) (app : App) :
    (CreateFramebuffers a app).inert app := by
  unfold CreateFramebuffers
  refine Step.inert_of_kept_eq _ _ _ (forLoop_inert _ ?_ _ _) rfl
  intro i x
  dsimp only
  split
  · exact ⟨rfl, by simp [Step.throw, Op.isRebuildCall]⟩
  · exact ⟨rfl, by simp [Step.ret, Op.isRebuildCall]⟩

theorem CreateDrawingCommandBuffers.record_inert (a : BuildAnswers) (i : Nat) (app : App) :
    (CreateDrawingCommandBuffers.record a i app).inert app := by
  unfold CreateDrawingCommandBuffers.record
  dsimp only
  split
  · exact ⟨rfl, by simp [Step.throw, Op.isRebuildCall]⟩
  · split
    · exact ⟨rfl, by simp [Step.throw, Op.isRebuildCall]⟩
    · exact ⟨rfl, by simp [Step.ret, Op.isRebuildCall]⟩

theorem CreateDrawingCommandBuffers_inert (a : BuildAnswers) (app : App) :
    (CreateDrawingCommandBuffers a app).inert app := by
  unfold CreateDrawingCommandBuffers
  dsimp only
  split
  · exact ⟨rfl, by simp [Step.throw, Op.isRebuildCall]⟩
  · apply Step.andThen_inert
    · exact ⟨rfl, by simp [Step.ret, Op.isRebuildCall]⟩
    · intro x
      exact forLoop_inert _ (fun i y => CreateDrawingCommandBuffers.record_inert a i y) _ x

/-! ## The event wait of the rebuild and the callbacks it runs -/

theorem forLoop_returns (body : Nat → App → Step)
    (hb : ∀ i app, (body i app).outcome = Outcome.returned) :
    ∀ (l : List Nat) (app : App), (forLoop l body app).outcome = Outcome.returned := by
  intro l
  induction l with
  | nil => intro app; rfl
  | cons i rest ih =>
    intro app
    exact (Step.andThen_returned_iff _ _).mpr ⟨hb i app, ih _⟩

theorem Op.isRebuildCall_of_windowWait (op : Op) (h : op.isWindowWait = true) :
    op.isRebuildCall = true := by
  cases op <;> simp_all [Op.isWindowWait, Op.isRebuildCall]

theorem Op.isRebuildCall_of_callbackCall (op : Op) (h : op.isCallbackCall = true) :
    op.isRebuildCall = true := by
  cases op with
  | lifecycle c => cases c <;> simp_all [Op.isCallbackCall, Op.isRebuildCall]
  | _ => simp_all [Op.isCallbackCall, Op.isRebuildCall]

/-- The only call of a keyboard callback that destroys or frees anything is
the release of the drawing command buffers. -/
theorem Op.free_of_callbackCall (op : Op) (h : op.isCallbackCall = true)
    (hd : op.isDestroy = true) :
    ∃ pool buffers, op = Op.vkFreeCommandBuffers pool buffers := by
  cases op with
  | vkFreeCommandBuffers pool buffers => exact ⟨pool, buffers, rfl⟩
  | lifecycle c => cases c <;> simp_all [Op.isCallbackCall, Op.isDestroy]
  | _ => simp_all [Op.isCallbackCall, Op.isDestroy]

theorem CreateDrawingCommandBuffers.record_callback (K : Kept) (S : CallbackFrame)
    (a : BuildAnswers) (i : Nat) (app : App)
    (h : app.kept = K ∧ app.outsideCallbacks = S) :
    ((CreateDrawingCommandBuffers.record a i app).app.kept = K ∧
      (CreateDrawingCommandBuffers.record a i app).app.outsideCallbacks = S) ∧
    ∀ op ∈ (CreateDrawingCommandBuffers.record a i app).trace, op.isCallbackCall = true := by
  unfold CreateDrawingCommandBuffers.record
  dsimp only
  split
  · exact ⟨h, by simp [Step.throw, Op.isCallbackCall]⟩
  · split
    · exact ⟨h, by simp [Step.throw, Op.isCallbackCall]⟩
    · exact ⟨h, by simp [Step.ret, Op.isCallbackCall]⟩

theorem CreateDrawingCommandBuffers_callback (K : Kept) (S : CallbackFrame)
    (a : BuildAnswers) (app : App)
    (h : app.kept = K ∧ app.outsideCallbacks = S) :
    ((CreateDrawingCommandBuffers a app).app.kept = K ∧
      (CreateDrawingCommandBuffers a app).app.outsideCallbacks = S) ∧
    ∀ op ∈ (CreateDrawingCommandBuffers a app).trace, op.isCallbackCall = true := by
  unfold CreateDrawingCommandBuffers
  dsimp only
  split
  · exact ⟨h, by simp [Step.throw, Op.isCallbackCall]⟩
  · refine Step.andThen_invariant (fun x => x.kept = K ∧ x.outsideCallbacks = S)
        (fun op => op.isCallbackCall = true) _ _ ?_ ?_
    · exact ⟨h, by simp [Step.ret, Op.isCallbackCall]⟩
    · intro x hx
      exact forLoop_invariant (fun x => x.kept = K ∧ x.outsideCallbacks = S)
        (fun op => op.isCallbackCall = true) _
        (fun i y hy => CreateDrawingCommandBuffers.record_callback K S a i y hy) _ x hx

theorem RecreateDrawingCommandBuffer_callback (K : Kept) (S : CallbackFrame)
    (a : BuildAnswers) (app : App)
    (h : app.kept = K ∧ app.outsideCallbacks = S) :
    ((RecreateDrawingCommandBuffer a app).app.kept = K ∧
      (RecreateDrawingCommandBuffer a app).app.outsideCallbacks = S) ∧
    ∀ op ∈ (RecreateDrawingCommandBuffer a app).trace, op.isCallbackCall = true := by
  unfold RecreateDrawingCommandBuffer
  refine Step.andThen_invariant (fun x => x.kept = K ∧ x.outsideCallbacks = S)
        (fun op => op.isCallbackCall = true) _ _ ?_ ?_
  · exact ⟨h, by simp [Step.ret, Op.isCallbackCall]⟩
  · intro x hx
    exact CreateDrawingCommandBuffers_callback K S a x hx

theorem KeyboardCallback_callback (K : Kept) (S : CallbackFrame)
    (a : BuildAnswers) (Key Action : Int) (app : App)
    (h : app.kept = K ∧ app.outsideCallbacks = S) :
    ((KeyboardCallback a Key Action app).app.kept = K ∧
      (KeyboardCallback a Key Action app).app.outsideCallbacks = S) ∧
    ∀ op ∈ (KeyboardCallback a Key Action app).trace, op.isCallbackCall = true := by
  have hret : ∀ x : App, (x.kept = K ∧ x.outsideCallbacks = S) →
      ((Step.ret x []).app.kept = K ∧ (Step.ret x []).app.outsideCallbacks = S) ∧
        ∀ op ∈ (Step.ret x []).trace, op.isCallbackCall = true :=
    fun x hx => ⟨hx, by simp⟩
  unfold KeyboardCallback
  refine Step.andThen_invariant (fun x => x.kept = K ∧ x.outsideCallbacks = S)
        (fun op => op.isCallbackCall = true) _ _ ?_ ?_
  · refine Step.andThen_invariant (fun x => x.kept = K ∧ x.outsideCallbacks = S)
        (fun op => op.isCallbackCall = true) _ _ ?_ ?_
    · refine Step.andThen_invariant (fun x => x.kept = K ∧ x.outsideCallbacks = S)
          (fun op => op.isCallbackCall = true) _ _ ?_ ?_
      · split
        · exact RecreateDrawingCommandBuffer_callback K S a _ h
        · exact hret app h
      · intro x hx
        split
        · exact RecreateDrawingCommandBuffer_callback K S a _ hx
        · exact hret x hx
    · intro x hx
      split
      · exact RecreateDrawingCommandBuffer_callback K S a _ hx
      · exact hret x hx
  · intro x hx
    split
    · exact ⟨hx, by simp [Step.ret, Op.isCallbackCall]⟩
    · exact hret x hx

/-- Keyboard callbacks leave the members of `Kept`, the swapchain information,
the render pass and the pipeline layout as they were, and make only the calls
of `KeyboardCallback`. -/
theorem KeyboardCallbacks_callback (K : Kept) (S : CallbackFrame) :
    ∀ (events : List KeyEvent) (app : App), (app.kept = K ∧ app.outsideCallbacks = S) →
      ((KeyboardCallbacks events app).app.kept = K ∧
        (KeyboardCallbacks events app).app.outsideCallbacks = S) ∧
      ∀ op ∈ (KeyboardCallbacks events app).trace, op.isCallbackCall = true := by
  intro events
  induction events with
  | nil => intro app h; exact ⟨h, by simp [KeyboardCallbacks]⟩
  | cons e rest ih =>
    intro app h
    unfold KeyboardCallbacks
    exact Step.andThen_invariant (fun x => x.kept = K ∧ x.outsideCallbacks = S)
      (fun op => op.isCallbackCall = true) _ _
      (KeyboardCallback_callback K S e.build e.Key e.Action app h) (fun x hx => ih x hx)

theorem CreateDrawingCommandBuffers_returns (a : BuildAnswers) (h : a.recordingSucceeds)
    (app : App) : (CreateDrawingCommandBuffers a app).outcome = Outcome.returned := by
  unfold CreateDrawingCommandBuffers
  dsimp only
  rw [if_neg (by simp [h.1])]
  refine (Step.andThen_returned_iff _ _).mpr ⟨rfl, forLoop_returns _ ?_ _ _⟩
  intro i x
  unfold CreateDrawingCommandBuffers.record
  dsimp only
  rw [if_neg (by simp [(h.2 i).1]), if_neg (by simp [(h.2 i).2])]
  rfl

theorem RecreateDrawingCommandBuffer_returns (a : BuildAnswers) (h : a.recordingSucceeds)
    (app : App) : (RecreateDrawingCommandBuffer a app).outcome = Outcome.returned := by
  unfold RecreateDrawingCommandBuffer
  exact (Step.andThen_returned_iff _ _).mpr ⟨rfl, CreateDrawingCommandBuffers_returns a h _⟩

theorem KeyboardCallback_returns (a : BuildAnswers) (h : a.recordingSucceeds)
    (Key Action : Int) (app : App) :
    (KeyboardCallback a Key Action app).outcome = Outcome.returned := by
  unfold KeyboardCallback
  refine (Step.andThen_returned_iff _ _).mpr ⟨(Step.andThen_returned_iff _ _).mpr
    ⟨(Step.andThen_returned_iff _ _).mpr ⟨?_, ?_⟩, ?_⟩, ?_⟩
  · split
    · exact RecreateDrawingCommandBuffer_returns a h _
    · rfl
  · dsimp only
    split
    · exact RecreateDrawingCommandBuffer_returns a h _
    · rfl
  · dsimp only
    split
    · exact RecreateDrawingCommandBuffer_returns a h _
    · rfl
  · dsimp only
    split <;> rfl

/-- Keyboard callbacks return when the driver answers success to every call of
the re-recordings. -/
theorem KeyboardCallbacks_returns :
    ∀ (events : List KeyEvent), (∀ e ∈ events, e.build.recordingSucceeds) →
      ∀ app : App, (KeyboardCallbacks events app).outcome = Outcome.returned := by
  intro events
  induction events with
  | nil => intro _ app; rfl
  | cons e rest ih =>
    intro h app
    unfold KeyboardCallbacks
    exact (Step.andThen_returned_iff _ _).mpr
      ⟨KeyboardCallback_returns e.build (h e (List.mem_cons_self e rest)) e.Key e.Action app,
       ih (fun x hx => h x (List.mem_cons_of_mem e hx)) _⟩

theorem App.kept_resized (app : App) (b : Bool) :
    ({ app with m_bFramebufferResized := b } : App).kept =
      { app.kept with m_bFramebufferResized := b } := rfl

/-- The body of the wait loop: the read of the size, the event wait, and then
calls of keyboard callbacks only.  It leaves the members of `Kept` as they
were, but for the resize flag, which a notification sets, and it leaves the
swapchain information, the render pass and the pipeline layout as they were. -/
theorem RecreateSwapChainAndRelevantObject.waitBody_spec (w : WaitAnswer) (app : App) :
    (RecreateSwapChainAndRelevantObject.waitBody w app).app.kept =
      { app.kept with m_bFramebufferResized := app.m_bFramebufferResized || w.resized } ∧
    (RecreateSwapChainAndRelevantObject.waitBody w app).app.outsideCallbacks =
      app.outsideCallbacks ∧
    ∃ post, (RecreateSwapChainAndRelevantObject.waitBody w app).trace =
        [Op.glfwGetFramebufferSize w.Width w.Height, Op.glfwWaitEvents] ++ post ∧
      ∀ op ∈ post, op.isCallbackCall = true := by
  unfold RecreateSwapChainAndRelevantObject.waitBody
  rw [Step.andThen_ret]
  have hk := KeyboardCallbacks_callback
    (if w.resized then FramebufferResizeCallback app else app).kept
    (if w.resized then FramebufferResizeCallback app else app).outsideCallbacks w.keys
    (if w.resized then FramebufferResizeCallback app else app) ⟨rfl, rfl⟩
  refine ⟨?_, ?_, _, rfl, hk.2⟩
  · show (KeyboardCallbacks w.keys _).app.kept = _
    rw [hk.1.1]
    cases hr : w.resized
    · cases hb : app.m_bFramebufferResized <;> simp [App.kept, hb]
    · cases hb : app.m_bFramebufferResized <;> simp [App.kept, FramebufferResizeCallback]
  · show (KeyboardCallbacks w.keys _).app.outsideCallbacks = _
    rw [hk.1.2]
    cases hr : w.resized <;> rfl

theorem RecreateSwapChainAndRelevantObject.waitBody_returns (w : WaitAnswer)
    (h : ∀ e ∈ w.keys, e.build.recordingSucceeds) (app : App) :
    (RecreateSwapChainAndRelevantObject.waitBody w app).outcome = Outcome.returned := by
  unfold RecreateSwapChainAndRelevantObject.waitBody
  rw [Step.andThen_ret]
  exact KeyboardCallbacks_returns w.keys h _

theorem RecreateSwapChainAndRelevantObject.waitBody_of_no_keys (w : WaitAnswer)
    (h : w.keys = []) (app : App) :
    RecreateSwapChainAndRelevantObject.waitBody w app =
      Step.ret { app with m_bFramebufferResized := app.m_bFramebufferResized || w.resized }
        [Op.glfwGetFramebufferSize w.Width w.Height, Op.glfwWaitEvents] := by
  unfold RecreateSwapChainAndRelevantObject.waitBody
  rw [Step.andThen_ret, h]
  cases hr : w.resized
  · cases hb : app.m_bFramebufferResized <;>
      simp [KeyboardCallbacks, Step.ret, ← hb]
  · simp [KeyboardCallbacks, Step.ret, FramebufferResizeCallback]

theorem RecreateSwapChainAndRelevantObject.wait_cons (w : WaitAnswer) (rest : List WaitAnswer)
    (app : App) :
    RecreateSwapChainAndRelevantObject.wait (w :: rest) app =
      if w.Width = 0 ∨ w.Height = 0 then
        (RecreateSwapChainAndRelevantObject.waitBody w app).andThen
          (RecreateSwapChainAndRelevantObject.wait rest)
      else RecreateSwapChainAndRelevantObject.waitBody w app := rfl

/-- The wait loop leaves the members of `Kept` as they were, but for the resize
flag, which a notification during the wait sets. -/
theorem RecreateSwapChainAndRelevantObject.wait_kept (l : List WaitAnswer) :
    ∀ app : App, (RecreateSwapChainAndRelevantObject.wait l app).app.kept =
      { app.kept with
        m_bFramebufferResized := app.m_bFramebufferResized || resizedDuringWait l app } := by
  induction l with
  | nil =>
    intro app
    cases hb : app.m_bFramebufferResized <;>
      simp [RecreateSwapChainAndRelevantObject.wait, resizedDuringWait, App.kept, hb]
  | cons w rest ih =>
    intro app
    have hb := (RecreateSwapChainAndRelevantObject.waitBody_spec w app).1
    have hf := congrArg Kept.m_bFramebufferResized hb
    rw [RecreateSwapChainAndRelevantObject.wait_cons]
    by_cases hz : w.Width = 0 ∨ w.Height = 0
    · rw [if_pos hz]
      by_cases hr : (RecreateSwapChainAndRelevantObject.waitBody w app).outcome
          = Outcome.returned
      · rw [Step.andThen_of_returned _ _ hr]
        show (RecreateSwapChainAndRelevantObject.wait rest _).app.kept = _
        rw [ih, hb]
        have hf1 : (RecreateSwapChainAndRelevantObject.waitBody w app).app.m_bFramebufferResized
            = (app.m_bFramebufferResized || w.resized) := hf
        rw [hf1]
        simp [resizedDuringWait, hz, hr, Bool.or_assoc]
      · rw [Step.andThen_of_not_returned _ _ hr, hb]
        simp [resizedDuringWait, hz, hr]
    · rw [if_neg hz, hb]
      simp [resizedDuringWait, hz]

theorem RecreateSwapChainAndRelevantObject.wait_outsideCallbacks (l : List WaitAnswer) :
    ∀ app : App, (RecreateSwapChainAndRelevantObject.wait l app).app.outsideCallbacks =
      app.outsideCallbacks := by
  induction l with
  | nil => intro app; rfl
  | cons w rest ih =>
    intro app
    have hb := (RecreateSwapChainAndRelevantObject.waitBody_spec w app).2.1
    rw [RecreateSwapChainAndRelevantObject.wait_cons]
    split
    · exact Step.andThen_preserves App.outsideCallbacks _ _ _ hb (fun x => ih x)
    · exact hb

/-- The wait loop makes only calls of the event wait and of the keyboard
callbacks that the event wait runs. -/
theorem RecreateSwapChainAndRelevantObject.wait_calls (l : List WaitAnswer) :
    ∀ app : App, ∀ op ∈ (RecreateSwapChainAndRelevantObject.wait l app).trace,
      op.isWindowWait = true ∨ op.isCallbackCall = true := by
  induction l with
  | nil => intro app op hop; simp [RecreateSwapChainAndRelevantObject.wait] at hop
  | cons w rest ih =>
    intro app
    obtain ⟨post, htr, hpost⟩ := (RecreateSwapChainAndRelevantObject.waitBody_spec w app).2.2
    have hbody : ∀ op ∈ (RecreateSwapChainAndRelevantObject.waitBody w app).trace,
        op.isWindowWait = true ∨ op.isCallbackCall = true := by
      intro op hop
      rw [htr] at hop
      rcases List.mem_append.mp hop with h1 | h1
      · simp only [List.mem_cons, List.mem_singleton, List.not_mem_nil, or_false] at h1
        rcases h1 with rfl | rfl <;> exact Or.inl rfl
      · exact Or.inr (hpost op h1)
    rw [RecreateSwapChainAndRelevantObject.wait_cons]
    split
    · exact Step.andThen_all _ _ _ hbody (fun s => ih s)
    · exact hbody

/-- When no key event is delivered during the wait, the wait changes the resize
flag only and makes only calls of the event wait. -/
theorem RecreateSwapChainAndRelevantObject.wait_of_no_keys (l : List WaitAnswer)
    (h : ∀ w ∈ l, w.keys = []) :
    ∀ app : App,
      (RecreateSwapChainAndRelevantObject.wait l app).app =
        { app with
          m_bFramebufferResized := app.m_bFramebufferResized || resizedDuringWait l app } ∧
      ∀ op ∈ (RecreateSwapChainAndRelevantObject.wait l app).trace,
        op.isWindowWait = true := by
  induction l with
  | nil =>
    intro app
    refine ⟨?_, by simp [RecreateSwapChainAndRelevantObject.wait]⟩
    cases hb : app.m_bFramebufferResized <;>
      simp [RecreateSwapChainAndRelevantObject.wait, resizedDuringWait, ← hb]
  | cons w rest ih =>
    intro app
    have hw := RecreateSwapChainAndRelevantObject.waitBody_of_no_keys w
      (h w (List.mem_cons_self w rest)) app
    have ih1 := ih (fun x hx => h x (List.mem_cons_of_mem w hx))
    rw [RecreateSwapChainAndRelevantObject.wait_cons]
    by_cases hz : w.Width = 0 ∨ w.Height = 0
    · rw [if_pos hz, hw, Step.andThen_ret]
      refine ⟨?_, ?_⟩
      · show (RecreateSwapChainAndRelevantObject.wait rest _).app = _
        rw [(ih1 _).1]
        simp [resizedDuringWait, hz, hw, Bool.or_assoc]
      · intro op hop
        rcases List.mem_append.mp hop with h1 | h1
        · simp only [List.mem_cons, List.mem_singleton, List.not_mem_nil, or_false] at h1
          rcases h1 with rfl | rfl <;> rfl
        · exact (ih1 _).2 op h1
    · rw [if_neg hz, hw]
      refine ⟨by simp [resizedDuringWait, hz], ?_⟩
      intro op hop
      simp only [Step.ret_trace, List.mem_cons, List.mem_singleton, List.not_mem_nil,
        or_false] at hop
      rcases hop with rfl | rfl <;> rfl

/-- The wait ends when the window system reports a non-zero size at some
iteration and no keyboard callback throws. -/
theorem RecreateSwapChainAndRelevantObject.wait_returns (l : List WaitAnswer)
    (h : ∃ w ∈ l, w.Width ≠ 0 ∧ w.Height ≠ 0)
    (hk : ∀ w ∈ l, ∀ e ∈ w.keys, e.build.recordingSucceeds) :
    ∀ app : App, (RecreateSwapChainAndRelevantObject.wait l app).outcome = Outcome.returned := by
  induction l with
  | nil => simp at h
  | cons w rest ih =>
    intro app
    have hb := RecreateSwapChainAndRelevantObject.waitBody_returns w
      (hk w (List.mem_cons_self w rest)) app
    rw [RecreateSwapChainAndRelevantObject.wait_cons]
    split
    · rename_i hz
      refine (Step.andThen_returned_iff _ _).mpr ⟨hb, ?_⟩
      apply ih
      · obtain ⟨x, hx, hx1, hx2⟩ := h
        rcases List.mem_cons.mp hx with rfl | hx
        · rcases hz with hz | hz
          · exact absurd hz hx1
          · exact absurd hz hx2
        · exact ⟨x, hx, hx1, hx2⟩
      · exact fun x hx => hk x (List.mem_cons_of_mem w hx)
    · exact hb

/-- The wait does not end while the window system reports a zero size and no
keyboard callback throws. -/
theorem RecreateSwapChainAndRelevantObject.wait_blocks (l : List WaitAnswer)
    (h : ∀ w ∈ l, w.Width = 0 ∨ w.Height = 0)
    (hk : ∀ w ∈ l, ∀ e ∈ w.keys, e.build.recordingSucceeds) :
    ∀ app : App, (RecreateSwapChainAndRelevantObject.wait l app).outcome = Outcome.blocked := by
  induction l with
  | nil => intro app; rfl
  | cons w rest ih =>
    intro app
    have hb := RecreateSwapChainAndRelevantObject.waitBody_returns w
      (hk w (List.mem_cons_self w rest)) app
    rw [RecreateSwapChainAndRelevantObject.wait_cons, if_pos (h w (List.mem_cons_self w rest)),
      Step.andThen_of_returned _ _ hb]
    exact ih (fun x hx => h x (List.mem_cons_of_mem w hx))
      (fun x hx => hk x (List.mem_cons_of_mem w hx)) _

/-- When the wait ends, the last size it read is non-zero in both dimensions,
every size read before was zero in some dimension, and every other call is a
call of the event wait or of a keyboard callback that it runs. -/
theorem RecreateSwapChainAndRelevantObject.wait_trace (l : List WaitAnswer) :
    ∀ app : App, (RecreateSwapChainAndRelevantObject.wait l app).outcome = Outcome.returned →
      ∃ (pre : List Op) (Width Height : Int) (post : List Op),
        (RecreateSwapChainAndRelevantObject.wait l app).trace =
          pre ++ [Op.glfwGetFramebufferSize Width Height, Op.glfwWaitEvents] ++ post ∧
        Width ≠ 0 ∧ Height ≠ 0 ∧
        (∀ op ∈ pre, op = Op.glfwWaitEvents ∨
          (∃ w h : Int, op = Op.glfwGetFramebufferSize w h ∧ (w = 0 ∨ h = 0)) ∨
          op.isCallbackCall = true) ∧
        ∀ op ∈ post, op.isCallbackCall = true := by
  induction l with
  | nil => intro app h; simp [RecreateSwapChainAndRelevantObject.wait] at h
  | cons w rest ih =>
    intro app
    obtain ⟨post0, htr0, hpost0⟩ := (RecreateSwapChainAndRelevantObject.waitBody_spec w app).2.2
    rw [RecreateSwapChainAndRelevantObject.wait_cons]
    split
    · rename_i hz
      intro h
      obtain ⟨hb, hrest⟩ := (Step.andThen_returned_iff _ _).mp h
      obtain ⟨pre, W, H, post, htr, hW, hH, hpre, hpost⟩ := ih _ hrest
      refine ⟨[Op.glfwGetFramebufferSize w.Width w.Height, Op.glfwWaitEvents] ++ post0 ++ pre,
        W, H, post, ?_, hW, hH, ?_, hpost⟩
      · rw [Step.andThen_of_returned _ _ hb]
        show _ ++ _ = _
        rw [htr0, htr]
        simp only [List.append_assoc]
      · intro op hop
        rcases List.mem_append.mp hop with h1 | h1
        · rcases List.mem_append.mp h1 with h2 | h2
          · simp only [List.mem_cons, List.mem_singleton, List.not_mem_nil, or_false] at h2
            rcases h2 with rfl | rfl
            · exact Or.inr (Or.inl ⟨_, _, rfl, hz⟩)
            · exact Or.inl rfl
          · exact Or.inr (Or.inr (hpost0 op h2))
        · exact hpre op h1
    · rename_i hz
      intro _
      refine ⟨[], w.Width, w.Height, post0, by rw [htr0]; rfl, ?_, ?_, by simp, hpost0⟩
      · exact fun h => hz (Or.inl h)
      · exact fun h => hz (Or.inr h)

/-! ## What a build that returns leaves in the state -/

theorem Step.andThen_returned (s : Step) (f : App → Step)
    (h : (s.andThen f).outcome = Outcome.returned) :
    s.outcome = Outcome.returned ∧ (f s.app).outcome = Outcome.returned ∧
      (s.andThen f).app = (f s.app).app ∧ (s.andThen f).trace = s.trace ++ (f s.app).trace := by
  have h1 := (Step.andThen_returned_iff s f).mp h
  refine ⟨h1.1, h1.2, ?_, ?_⟩ <;> rw [Step.andThen_of_returned s f h1.1]

theorem Step.andThen_assoc (s : Step) (f g : App → Step) :
    (s.andThen f).andThen g = s.andThen (fun x => (f x).andThen g) := by
  obtain ⟨app, tr, o⟩ := s
  cases o with
  | returned =>
    simp only [Step.andThen_mk_returned]
    generalize f app = t
    obtain ⟨app2, tr2, o2⟩ := t
    cases o2 <;> simp
  | threw w => simp
  | blocked => simp

theorem forLoop_returned (body : Nat → App → Step) (g : Nat → App → App)
    (hb : ∀ i x, (body i x).outcome = Outcome.returned → (body i x).app = g i x) :
    ∀ (l : List Nat) (app : App), (forLoop l body app).outcome = Outcome.returned →
      (forLoop l body app).app = l.foldl (fun x i => g i x) app := by
  intro l
  induction l with
  | nil => intro app _; rfl
  | cons i rest ih =>
    intro app h
    unfold forLoop at h ⊢
    obtain ⟨h1, h2, h3, _⟩ := Step.andThen_returned _ _ h
    rw [h3, ih _ h2, hb i app h1]
    rfl

theorem foldl_set_range_aux {α : Type} (h : Nat → α) (v : List α) :
    ∀ m : Nat, m ≤ v.length →
      (List.range m).foldl (fun v i => v.set i (h i)) v = (List.range m).map h ++ v.drop m := by
  intro m
  induction m with
  | zero => intro _; simp
  | succ m ih =>
    intro hm
    have hlt : m < v.length := hm
    rw [List.range_succ, List.foldl_append, ih (Nat.le_of_lt hlt)]
    simp only [List.foldl_cons, List.foldl_nil, List.map_append, List.map_cons, List.map_nil]
    rw [List.set_append_right _ _ (by simp)]
    simp only [List.length_map, List.length_range, Nat.sub_self]
    rw [List.drop_eq_getElem_cons hlt, List.set_cons_zero]
    simp

theorem foldl_set_range {α : Type} (h : Nat → α) (v : List α) (n : Nat) (hn : v.length = n) :
    (List.range n).foldl (fun v i => v.set i (h i)) v = (List.range n).map h := by
  subst hn
  rw [foldl_set_range_aux h v v.length (Nat.le_refl _)]
  simp

theorem length_resize {α : Type} (v : List α) (n : Nat) (d : α) : (resize v n d).length = n := by
  simp only [resize, List.length_append, List.length_take, List.length_replicate]
  omega

theorem CreateSwapChain_returned (a : BuildAnswers) (app : App)
    (h : (CreateSwapChain a app).outcome = Outcome.returned) :
    (CreateSwapChain a app).app =
      { app with m_SwapChainInfo :=
          { app.m_SwapChainInfo with
            SwapChain := a.vkCreateSwapchainKHR.handle
            SwapChainImages := a.SwapChainImages
            SwapChainImageFormat := (ChooseSwapSurfaceFormat a.Support.Formats).format
            SwapChainExtent := ChooseSwapExtent a.framebufferSize a.Support.Capabilities
              app.m_InitWidth app.m_InitHeight } } := by
  revert h
  unfold CreateSwapChain
  dsimp only
  split
  · split
    · intro h; simp [Step.throw] at h
    · intro _; rfl
  · intro h; simp [Step.throw] at h

theorem CreateImageView_returned (r : Created) (Image : Handle) (Format : VkFormat)
    (AspectFlags : Nat) (ImageView : App → Handle → App) (app : App)
    (h : (CreateImageView r Image Format AspectFlags ImageView app).outcome = Outcome.returned) :
    (CreateImageView r Image Format AspectFlags ImageView app).app = ImageView app r.handle := by
  revert h
  unfold CreateImageView
  split
  · intro h; simp [Step.throw] at h
  · intro _; rfl

theorem CreateSwapChainImageViews_returned (a : BuildAnswers) (app : App)
    (h : (CreateSwapChainImageViews a app).outcome = Outcome.returned) :
    (CreateSwapChainImageViews a app).app =
      { app with m_SwapChainInfo :=
          { app.m_SwapChainInfo with
            SwapChainImageViews :=
              (List.range app.m_SwapChainInfo.SwapChainImages.length).map
                (fun i => (a.SwapChainImageView i).handle) } } := by
  unfold CreateSwapChainImageViews at h ⊢
  rw [forLoop_returned _ _ (fun i x hx => CreateImageView_returned _ _ _ _ _ x hx) _ _ h]
  have key : ∀ (l : List Nat) (x : App),
      l.foldl (fun (x : App) i =>
        { x with m_SwapChainInfo :=
          { x.m_SwapChainInfo with
            SwapChainImageViews :=
              x.m_SwapChainInfo.SwapChainImageViews.set i (a.SwapChainImageView i).handle } }) x =
      { x with m_SwapChainInfo :=
          { x.m_SwapChainInfo with
            SwapChainImageViews :=
              l.foldl (fun v i => v.set i (a.SwapChainImageView i).handle)
                x.m_SwapChainInfo.SwapChainImageViews } } := by
    intro l
    induction l with
    | nil => intro x; rfl
    | cons i rest ih => intro x; simp only [List.foldl_cons, ih]
  rw [key]
  simp only [SwapChainInfo.BufferCount]
  rw [foldl_set_range _ _ _ (length_resize _ _ _)]

theorem CreateRenderPass_returned (a : BuildAnswers) (app : App)
    (h : (CreateRenderPass a app).outcome = Outcome.returned) :
    (CreateRenderPass a app).app = { app with m_RenderPass := a.vkCreateRenderPass.handle } := by
  revert h
  unfold CreateRenderPass
  split
  · intro h; simp [Step.throw] at h
  · dsimp only
    split
    · intro h; simp [Step.throw] at h
    · intro _; rfl

theorem CreateGraphicsPipeline.variant_returned (r : Created) (p c k : Nat) (app : App)
    (h : (CreateGraphicsPipeline.variant r p c k app).outcome = Outcome.returned) :
    (CreateGraphicsPipeline.variant r p c k app).app =
      { app with m_GraphicsPipelines := PipelineMap.insert app.m_GraphicsPipelines k r.handle } := by
  revert h
  unfold CreateGraphicsPipeline.variant
  dsimp only
  split
  · intro h; simp [Step.throw] at h
  · intro _; rfl


theorem CreateGraphicsPipeline.chain_returned (vs : List (Created × Nat × Nat × Nat)) :
    ∀ s : Step,
      (vs.foldl (fun s v => s.andThen (CreateGraphicsPipeline.variant v.1 v.2.1 v.2.2.1 v.2.2.2))
        s).outcome = Outcome.returned →
      (vs.foldl (fun s v => s.andThen (CreateGraphicsPipeline.variant v.1 v.2.1 v.2.2.1 v.2.2.2))
        s).app =
        { s.app with
          m_GraphicsPipelines :=
            vs.foldl (fun m v => PipelineMap.insert m v.2.2.2 v.1.handle)
              s.app.m_GraphicsPipelines } ∧ s.outcome = Outcome.returned := by
  induction vs with
  | nil => intro s h; exact ⟨rfl, h⟩
  | cons v rest ih =>
    intro s h
    simp only [List.foldl_cons] at h ⊢
    obtain ⟨e, h1⟩ := ih _ h
    obtain ⟨h2, hv, e2, _⟩ := Step.andThen_returned _ _ h1
    rw [e, e2, CreateGraphicsPipeline.variant_returned _ _ _ _ _ hv]
    exact ⟨rfl, h2⟩

theorem CreateGraphicsPipeline_returned (a : BuildAnswers) (app : App)
    (h : (CreateGraphicsPipeline a app).outcome = Outcome.returned) :
    (CreateGraphicsPipeline a app).app =
      { app with
        m_PipelineLayout := a.vkCreatePipelineLayout.handle
        m_GraphicsPipelines :=
          (variantPairs a app.GRAPHICS_PIPELINE_TYPE).foldl
            (fun m kh => PipelineMap.insert m kh.1 kh.2) app.m_GraphicsPipelines } := by
  revert h
  unfold CreateGraphicsPipeline
  dsimp only
  split
  · intro h; simp [Step.throw] at h
  · intro h; simp [Step.throw] at h
  · split
    · intro h; simp [Step.throw] at h
    · split
      · intro h; simp [Step.throw] at h
      · split
        · intro h; simp [Step.throw] at h
        · intro h
          obtain ⟨h9, _, e, _⟩ := Step.andThen_returned _ _ h
          rw [e, Step.ret_app]
          have hc := CreateGraphicsPipeline.chain_returned
            [ (a.vkCreateGraphicsPipelines 0, VK_POLYGON_MODE_FILL, VK_CULL_MODE_FRONT_BIT,
                app.GRAPHICS_PIPELINE_TYPE.FILL ||| app.GRAPHICS_PIPELINE_TYPE.FRONT_CULL),
              (a.vkCreateGraphicsPipelines 1, VK_POLYGON_MODE_LINE, VK_CULL_MODE_FRONT_BIT,
                app.GRAPHICS_PIPELINE_TYPE.WIREFRAME ||| app.GRAPHICS_PIPELINE_TYPE.FRONT_CULL),
              (a.vkCreateGraphicsPipelines 2, VK_POLYGON_MODE_POINT, VK_CULL_MODE_FRONT_BIT,
                app.GRAPHICS_PIPELINE_TYPE.POINT ||| app.GRAPHICS_PIPELINE_TYPE.FRONT_CULL),
              (a.vkCreateGraphicsPipelines 3, VK_POLYGON_MODE_FILL, VK_CULL_MODE_BACK_BIT,
                app.GRAPHICS_PIPELINE_TYPE.FILL ||| app.GRAPHICS_PIPELINE_TYPE.BACK_CULL),
              (a.vkCreateGraphicsPipelines 4, VK_POLYGON_MODE_LINE, VK_CULL_MODE_BACK_BIT,
                app.GRAPHICS_PIPELINE_TYPE.WIREFRAME ||| app.GRAPHICS_PIPELINE_TYPE.BACK_CULL),
              (a.vkCreateGraphicsPipelines 5, VK_POLYGON_MODE_POINT, VK_CULL_MODE_BACK_BIT,
                app.GRAPHICS_PIPELINE_TYPE.POINT ||| app.GRAPHICS_PIPELINE_TYPE.BACK_CULL),
              (a.vkCreateGraphicsPipelines 6, VK_POLYGON_MODE_FILL, VK_CULL_MODE_NONE,
                app.GRAPHICS_PIPELINE_TYPE.FILL ||| app.GRAPHICS_PIPELINE_TYPE.NONE_CULL),
              (a.vkCreateGraphicsPipelines 7, VK_POLYGON_MODE_LINE, VK_CULL_MODE_NONE,
                app.GRAPHICS_PIPELINE_TYPE.WIREFRAME ||| app.GRAPHICS_PIPELINE_TYPE.NONE_CULL),
              (a.vkCreateGraphicsPipelines 8, VK_POLYGON_MODE_POINT, VK_CULL_MODE_NONE,
                app.GRAPHICS_PIPELINE_TYPE.POINT ||| app.GRAPHICS_PIPELINE_TYPE.NONE_CULL) ]
            _ h9
          exact hc.1

theorem CreateImage_returned (a : ImageAnswers) (Width Height MipLevels Samples : Nat) (Format : VkFormat)
    (Usage Properties : Nat) (Image ImageMemory : App → Handle → App) (app : App)
    (h : (CreateImage a Width Height MipLevels Samples Format Usage Properties Image ImageMemory app).outcome
      = Outcome.returned) :
    (CreateImage a Width Height MipLevels Samples Format Usage Properties Image ImageMemory app).app =
      ImageMemory (Image app a.vkCreateImage.handle) a.vkAllocateMemory.handle := by
  revert h
  unfold CreateImage
  dsimp only
  split
  · intro h; simp [Step.throw] at h
  · split
    · intro h; simp [Step.throw] at h
    · split
      · intro h; simp [Step.throw] at h
      · intro _; rfl

theorem TransitionImageLayout_app (cb Image : Handle) (Format : VkFormat)
    (MipLevels OldLayout NewLayout : Nat) (app : App) :
    (TransitionImageLayout cb Image Format MipLevels OldLayout NewLayout app).app = app := by
  unfold TransitionImageLayout
  dsimp only
  split <;> rfl

theorem CreateColorResource_returned (a : BuildAnswers) (app : App)
    (h : (CreateColorResource a app).outcome = Outcome.returned) :
    (CreateColorResource a app).app =
      { app with m_SwapChainInfo :=
          { app.m_SwapChainInfo with
            ColorImage := a.Color.vkCreateImage.handle
            ColorImageMemory := a.Color.vkAllocateMemory.handle
            ColorImageView := a.Color.vkCreateImageView.handle } } := by
  unfold CreateColorResource at h ⊢
  dsimp only at h ⊢
  obtain ⟨h2, _, e3, _⟩ := Step.andThen_returned _ _ h
  obtain ⟨h1, hv, e2, _⟩ := Step.andThen_returned _ _ h2
  rw [e3, TransitionImageLayout_app, e2, CreateImageView_returned _ _ _ _ _ _ hv,
    CreateImage_returned _ _ _ _ _ _ _ _ _ _ _ h1]

theorem CreateDepthResource_returned (a : BuildAnswers) (app : App)
    (h : (CreateDepthResource a app).outcome = Outcome.returned) :
    (CreateDepthResource a app).app =
      { app with m_SwapChainInfo :=
          { app.m_SwapChainInfo with
            DepthImage := a.Depth.vkCreateImage.handle
            DepthImageMemory := a.Depth.vkAllocateMemory.handle
            DepthImageView := a.Depth.vkCreateImageView.handle } } := by
  revert h
  unfold CreateDepthResource
  split
  · intro h; simp [Step.throw] at h
  · intro h
    obtain ⟨h2, _, e3, _⟩ := Step.andThen_returned _ _ h
    obtain ⟨h1, hv, e2, _⟩ := Step.andThen_returned _ _ h2
    rw [e3, TransitionImageLayout_app, e2, CreateImageView_returned _ _ _ _ _ _ hv,
      CreateImage_returned _ _ _ _ _ _ _ _ _ _ _ h1]

theorem CreateFramebuffers_returned (a : BuildAnswers) (app : App)
    (h : (CreateFramebuffers a app).outcome = Outcome.returned) :
    (CreateFramebuffers a app).app =
      { app with m_SwapChainInfo :=
          { app.m_SwapChainInfo with
            SwapChainFramebuffers :=
              (List.range app.m_SwapChainInfo.SwapChainImages.length).map
                (fun i => (a.vkCreateFramebuffer i).handle) } } := by
  unfold CreateFramebuffers at h ⊢
  have hb : ∀ (i : Nat) (x : App),
      ((fun i (app : App) =>
        if (a.vkCreateFramebuffer i).result ≠ VK_SUCCESS then
          Step.throw app
            [Op.vkCreateFramebuffer app.m_RenderPass
              [app.m_SwapChainInfo.ColorImageView, app.m_SwapChainInfo.DepthImageView,
               app.m_SwapChainInfo.SwapChainImageViews.getD i VK_NULL_HANDLE]
              app.m_SwapChainInfo.SwapChainExtent.width
              app.m_SwapChainInfo.SwapChainExtent.height]
            "Failed to create framebuffer!"
        else
          Step.ret
            { app with m_SwapChainInfo :=
              { app.m_SwapChainInfo with
                SwapChainFramebuffers :=
                  app.m_SwapChainInfo.SwapChainFramebuffers.set i
                    (a.vkCreateFramebuffer i).handle } }
            [Op.vkCreateFramebuffer app.m_RenderPass
              [app.m_SwapChainInfo.ColorImageView, app.m_SwapChainInfo.DepthImageView,
               app.m_SwapChainInfo.SwapChainImageViews.getD i VK_NULL_HANDLE]
              app.m_SwapChainInfo.SwapChainExtent.width
              app.m_SwapChainInfo.SwapChainExtent.height]) i x).outcome = Outcome.returned →
      ((fun i (app : App) =>
        if (a.vkCreateFramebuffer i).result ≠ VK_SUCCESS then
          Step.throw app
            [Op.vkCreateFramebuffer app.m_RenderPass
              [app.m_SwapChainInfo.ColorImageView, app.m_SwapChainInfo.DepthImageView,
               app.m_SwapChainInfo.SwapChainImageViews.getD i VK_NULL_HANDLE]
              app.m_SwapChainInfo.SwapChainExtent.width
              app.m_SwapChainInfo.SwapChainExtent.height]
            "Failed to create framebuffer!"
        else
          Step.ret
            { app with m_SwapChainInfo :=
              { app.m_SwapChainInfo with
                SwapChainFramebuffers :=
                  app.m_SwapChainInfo.SwapChainFramebuffers.set i
                    (a.vkCreateFramebuffer i).handle } }
            [Op.vkCreateFramebuffer app.m_RenderPass
              [app.m_SwapChainInfo.ColorImageView, app.m_SwapChainInfo.DepthImageView,
               app.m_SwapChainInfo.SwapChainImageViews.getD i VK_NULL_HANDLE]
              app.m_SwapChainInfo.SwapChainExtent.width
              app.m_SwapChainInfo.SwapChainExtent.height]) i x).app =
      (fun i (x : App) =>
        { x with m_SwapChainInfo :=
          { x.m_SwapChainInfo with
            SwapChainFramebuffers :=
              x.m_SwapChainInfo.SwapChainFramebuffers.set i (a.vkCreateFramebuffer i).handle } })
        i x := by
    intro i x
    dsimp only
    split
    · intro h; simp [Step.throw] at h
    · intro _; rfl
  rw [forLoop_returned _ _ hb _ _ h]
  have key : ∀ (l : List Nat) (x : App),
      l.foldl (fun (x : App) i =>
        { x with m_SwapChainInfo :=
          { x.m_SwapChainInfo with
            SwapChainFramebuffers :=
              x.m_SwapChainInfo.SwapChainFramebuffers.set i (a.vkCreateFramebuffer i).handle } }) x =
      { x with m_SwapChainInfo :=
          { x.m_SwapChainInfo with
            SwapChainFramebuffers :=
              l.foldl (fun v i => v.set i (a.vkCreateFramebuffer i).handle)
                x.m_SwapChainInfo.SwapChainFramebuffers } } := by
    intro l
    induction l with
    | nil => intro x; rfl
    | cons i rest ih => intro x; simp only [List.foldl_cons, ih]
  rw [key]
  simp only [SwapChainInfo.BufferCount]
  rw [foldl_set_range _ _ _ (length_resize _ _ _)]

theorem CreateDrawingCommandBuffers.record_returned (a : BuildAnswers) (i : Nat) (app : App)
    (h : (CreateDrawingCommandBuffers.record a i app).outcome = Outcome.returned) :
    (CreateDrawingCommandBuffers.record a i app).app =
      { app with
        m_GraphicsPipelines :=
          (PipelineMap.subscript app.m_GraphicsPipelines
            (app.m_GraphicsPipelineDisplayMode ||| app.m_GraphicsPipelineCullMode)).1 } := by
  revert h
  unfold CreateDrawingCommandBuffers.record
  dsimp only
  split
  · intro h; simp [Step.throw] at h
  · split
    · intro h; simp [Step.throw] at h
    · intro _; rfl

theorem CreateDrawingCommandBuffers_returned (a : BuildAnswers) (app : App)
    (h : (CreateDrawingCommandBuffers a app).outcome = Outcome.returned) :
    (CreateDrawingCommandBuffers a app).app =
      { app with
        m_DrawingCommandBuffers :=
          (List.range app.m_SwapChainInfo.SwapChainImages.length).map a.DrawingCommandBuffer
        m_GraphicsPipelines :=
          (List.range app.m_SwapChainInfo.SwapChainImages.length).foldl
            (fun m _ => (PipelineMap.subscript m
              (app.m_GraphicsPipelineDisplayMode ||| app.m_GraphicsPipelineCullMode)).1)
            app.m_GraphicsPipelines } := by
  revert h
  unfold CreateDrawingCommandBuffers
  dsimp only
  split
  · intro h; simp [Step.throw] at h
  · intro h
    obtain ⟨_, h2, e, _⟩ := Step.andThen_returned _ _ h
    rw [e, forLoop_returned _ _ (fun i x hx => CreateDrawingCommandBuffers.record_returned a i x hx)
      _ _ h2]
    have key : ∀ (l : List Nat) (x : App),
        l.foldl (fun (x : App) (_ : Nat) =>
          { x with
            m_GraphicsPipelines :=
              (PipelineMap.subscript x.m_GraphicsPipelines
                (x.m_GraphicsPipelineDisplayMode ||| x.m_GraphicsPipelineCullMode)).1 }) x =
        { x with
          m_GraphicsPipelines :=
            l.foldl (fun m _ => (PipelineMap.subscript m
              (x.m_GraphicsPipelineDisplayMode ||| x.m_GraphicsPipelineCullMode)).1)
              x.m_GraphicsPipelines } := by
      intro l
      induction l with
      | nil => intro x; rfl
      | cons i rest ih => intro x; simp only [List.foldl_cons, ih]
    rw [key]
    rfl

/-! ## The pipeline mapping -/

theorem PipelineMap.find_insert_self (m : PipelineMap) (k : Nat) (h : Handle) :
    PipelineMap.find (PipelineMap.insert m k h) k = some h := by
  induction m with
  | nil => simp [PipelineMap.insert, PipelineMap.find]
  | cons kv rest ih =>
    obtain ⟨k1, v1⟩ := kv
    unfold PipelineMap.insert
    split
    · simp [PipelineMap.find]
    · split
      · simp [PipelineMap.find]
      · rename_i hne _
        have hne1 : ¬ k1 = k := fun e => hne e.symm
        simpa [PipelineMap.find, List.find?_cons, hne1] using ih

theorem PipelineMap.find_insert_of_ne (m : PipelineMap) (k k1 : Nat) (h : Handle) (hne : k1 ≠ k) :
    PipelineMap.find (PipelineMap.insert m k h) k1 = PipelineMap.find m k1 := by
  induction m with
  | nil => simp [PipelineMap.insert, PipelineMap.find, List.find?_cons, Ne.symm hne]
  | cons kv rest ih =>
    obtain ⟨k2, v2⟩ := kv
    unfold PipelineMap.insert
    split
    · rename_i heq
      subst heq
      simp [PipelineMap.find, List.find?_cons, Ne.symm hne]
    · split
      · simp [PipelineMap.find, List.find?_cons, Ne.symm hne]
      · by_cases h2 : k2 = k1
        · simp [PipelineMap.find, List.find?_cons, h2]
        · simpa [PipelineMap.find, List.find?_cons, h2] using ih

theorem PipelineMap.find_subscript (m : PipelineMap) (key k : Nat) (v : Handle)
    (h : PipelineMap.find m k = some v) :
    PipelineMap.find (PipelineMap.subscript m key).1 k = some v := by
  unfold PipelineMap.subscript
  split
  · exact h
  · rename_i hnone
    have hne : k ≠ key := by
      intro e
      subst e
      rw [h] at hnone
      cases hnone
    simpa [PipelineMap.find_insert_of_ne _ _ _ _ hne] using h

theorem PipelineMap.find_foldl_subscript (key k : Nat) (v : Handle) (l : List Nat) :
    ∀ m : PipelineMap, PipelineMap.find m k = some v →
      PipelineMap.find (l.foldl (fun m _ => (PipelineMap.subscript m key).1) m) k = some v := by
  induction l with
  | nil => intro m h; exact h
  | cons i rest ih =>
    intro m h
    exact ih _ (PipelineMap.find_subscript m key k v h)

theorem PipelineMap.find_foldl_insert_of_not_mem (k : Nat) (pairs : List (Nat × Handle))
    (hk : ∀ q ∈ pairs, q.1 ≠ k) :
    ∀ m : PipelineMap,
      PipelineMap.find (pairs.foldl (fun m kh => PipelineMap.insert m kh.1 kh.2) m) k =
        PipelineMap.find m k := by
  induction pairs with
  | nil => intro m; rfl
  | cons p rest ih =>
    intro m
    simp only [List.foldl_cons]
    rw [ih (fun q hq => hk q (List.mem_cons_of_mem p hq)),
      PipelineMap.find_insert_of_ne _ _ _ _ (Ne.symm (hk p (List.mem_cons_self p rest)))]

/-- After the pairs are inserted in order, every key of a pair maps to the
handle of a pair with that key. -/
theorem PipelineMap.find_foldl_insert (pairs : List (Nat × Handle)) :
    ∀ m : PipelineMap, ∀ kh ∈ pairs, ∃ q ∈ pairs, q.1 = kh.1 ∧
      PipelineMap.find (pairs.foldl (fun m kh => PipelineMap.insert m kh.1 kh.2) m) kh.1 =
        some q.2 := by
  induction pairs with
  | nil => intro m kh hkh; cases hkh
  | cons p rest ih =>
    intro m kh hkh
    simp only [List.foldl_cons]
    by_cases hex : ∃ q ∈ rest, q.1 = kh.1
    · obtain ⟨q, hq, hq1⟩ := hex
      obtain ⟨q2, hq2, e1, e2⟩ := ih (PipelineMap.insert m p.1 p.2) q hq
      exact ⟨q2, List.mem_cons_of_mem p hq2, e1.trans hq1, by rw [← hq1]; exact e2⟩
    · have hk : ∀ q ∈ rest, q.1 ≠ kh.1 := fun q hq e => hex ⟨q, hq, e⟩
      rcases List.mem_cons.mp hkh with rfl | hmem
      · refine ⟨kh, List.mem_cons_self kh rest, rfl, ?_⟩
        rw [PipelineMap.find_foldl_insert_of_not_mem _ _ hk, PipelineMap.find_insert_self]
      · exact absurd rfl (hk kh hmem)

/-! ## A build whose calls succeed returns -/

/-- A sequence returns and keeps a property of states when its first part does
and the second part does from every state with the property. -/
theorem Step.andThen_returns (J : App → Prop) (s : Step) (f : App → Step)
    (hs : s.outcome = Outcome.returned ∧ J s.app)
    (hf : ∀ x, J x → (f x).outcome = Outcome.returned ∧ J (f x).app) :
    (s.andThen f).outcome = Outcome.returned ∧ J (s.andThen f).app := by
  rw [Step.andThen_of_returned s f hs.1]
  exact hf _ hs.2

theorem forLoop_returns_of (J : App → Prop) (body : Nat → App → Step)
    (hb : ∀ i x, J x → (body i x).outcome = Outcome.returned ∧ J (body i x).app) :
    ∀ (l : List Nat) (app : App), J app →
      (forLoop l body app).outcome = Outcome.returned ∧ J (forLoop l body app).app := by
  intro l
  induction l with
  | nil => intro app h; exact ⟨rfl, h⟩
  | cons i rest ih =>
    intro app h
    exact Step.andThen_returns J _ _ (hb i app h) (fun x hx => ih x hx)

theorem CreateSwapChain_returns (b : BuildAnswers) (app : App)
    (h : b.succeeds app.m_PhysicalDevice) :
    (CreateSwapChain b app).outcome = Outcome.returned ∧
      (CreateSwapChain b app).app.m_PhysicalDevice = app.m_PhysicalDevice := by
  have hc := h.1
  have hs := h.2.1
  unfold CreateSwapChain
  dsimp only
  split
  · rw [if_neg (by simp [hs])]
    exact ⟨rfl, rfl⟩
  · rename_i hnot
    exfalso
    revert hc hnot
    generalize FindQueueFamilies app.m_PhysicalDevice = q
    obtain ⟨g, p⟩ := q
    cases g <;> cases p <;> simp [QueueFamilyIndices.IsComplete]

theorem CreateSwapChainImageViews_returns (b : BuildAnswers) (app : App)
    (h : b.succeeds app.m_PhysicalDevice) :
    (CreateSwapChainImageViews b app).outcome = Outcome.returned ∧
      (CreateSwapChainImageViews b app).app.m_PhysicalDevice = app.m_PhysicalDevice := by
  unfold CreateSwapChainImageViews
  refine forLoop_returns_of (fun x => x.m_PhysicalDevice = app.m_PhysicalDevice) _ ?_ _ _ rfl
  intro i x hx
  unfold CreateImageView
  rw [if_neg (by simp [h.2.2.1 i])]
  exact ⟨rfl, hx⟩

theorem CreateRenderPass_returns (b : BuildAnswers) (app : App)
    (h : b.succeeds app.m_PhysicalDevice) :
    (CreateRenderPass b app).outcome = Outcome.returned ∧
      (CreateRenderPass b app).app.m_PhysicalDevice = app.m_PhysicalDevice := by
  obtain ⟨Format, hf⟩ := h.2.2.2.1
  unfold CreateRenderPass
  rw [hf]
  dsimp only
  rw [if_neg (by simp [h.2.2.2.2.1])]
  exact ⟨rfl, rfl⟩

theorem CreateGraphicsPipeline.variant_returns (r : Created) (hr : r.result = VK_SUCCESS)
    (p c k : Nat) (D : PhysicalDevice) (app : App) (hd : app.m_PhysicalDevice = D) :
    (CreateGraphicsPipeline.variant r p c k app).outcome = Outcome.returned ∧
      (CreateGraphicsPipeline.variant r p c k app).app.m_PhysicalDevice = D := by
  unfold CreateGraphicsPipeline.variant
  dsimp only
  rw [if_neg (by simp [hr])]
  exact ⟨rfl, hd⟩

theorem CreateGraphicsPipeline_returns (b : BuildAnswers) (app : App)
    (h : b.succeeds app.m_PhysicalDevice) :
    (CreateGraphicsPipeline b app).outcome = Outcome.returned ∧
      (CreateGraphicsPipeline b app).app.m_PhysicalDevice = app.m_PhysicalDevice := by
  obtain ⟨_, _, _, _, _, ⟨v, f, hv, hf⟩, hvm, hfm, hl, hp, _⟩ := h
  unfold CreateGraphicsPipeline
  rw [hv, hf]
  dsimp only
  rw [if_neg (by simp [hvm]), if_neg (by simp [hfm]), if_neg (by simp [hl])]
  repeat (first
    | exact ⟨rfl, rfl⟩
    | refine Step.andThen_returns (fun x => x.m_PhysicalDevice = app.m_PhysicalDevice) _ _ ?_
        (fun s hs => CreateGraphicsPipeline.variant_returns _ (hp _) _ _ _ _ s hs)
    | refine Step.andThen_returns (fun x => x.m_PhysicalDevice = app.m_PhysicalDevice) _ _ ?_
        (fun s hs => ⟨rfl, hs⟩))

theorem CreateImage_returns (a : ImageAnswers) (Width Height MipLevels Samples : Nat)
    (Format : VkFormat) (Usage Properties : Nat) (Image ImageMemory : App → Handle → App)
    (h1 : ∀ x h, (Image x h).m_PhysicalDevice = x.m_PhysicalDevice)
    (h2 : ∀ x h, (ImageMemory x h).m_PhysicalDevice = x.m_PhysicalDevice)
    (app : App) (hc : a.vkCreateImage.result = VK_SUCCESS)
    (hm : ∃ i, FindMemoryType app.m_PhysicalDevice a.memoryTypeBits Properties = .ok i)
    (ha : a.vkAllocateMemory.result = VK_SUCCESS) :
    (CreateImage a Width Height MipLevels Samples Format Usage Properties Image ImageMemory
      app).outcome = Outcome.returned ∧
    (CreateImage a Width Height MipLevels Samples Format Usage Properties Image ImageMemory
      app).app.m_PhysicalDevice = app.m_PhysicalDevice := by
  obtain ⟨i, hi⟩ := hm
  unfold CreateImage
  dsimp only
  rw [if_neg (by simp [hc]), hi]
  dsimp only
  rw [if_neg (by simp [ha])]
  exact ⟨rfl, (h2 _ _).trans (h1 _ _)⟩

theorem CreateColorResource_returns (b : BuildAnswers) (app : App)
    (h : b.succeeds app.m_PhysicalDevice) :
    (CreateColorResource b app).outcome = Outcome.returned ∧
      (CreateColorResource b app).app.m_PhysicalDevice = app.m_PhysicalDevice := by
  obtain ⟨hc, hm, ha, hv⟩ := h.2.2.2.2.2.2.2.2.2.2.1
  unfold CreateColorResource
  dsimp only
  refine Step.andThen_returns (fun x => x.m_PhysicalDevice = app.m_PhysicalDevice) _ _ ?_ ?_
  · refine Step.andThen_returns (fun x => x.m_PhysicalDevice = app.m_PhysicalDevice) _ _ ?_ ?_
    · refine CreateImage_returns _ _ _ _ _ _ _ _ _ _ ?_ ?_ app hc hm ha <;> intro _ _ <;> rfl
    · intro x hx
      unfold CreateImageView
      rw [if_neg (by simp [hv])]
      exact ⟨rfl, hx⟩
  · intro x hx
    unfold TransitionImageLayout
    dsimp only
    rw [if_pos (Or.inr (Or.inr (Or.inr ⟨rfl, rfl⟩)))]
    exact ⟨rfl, hx⟩

theorem CreateDepthResource_returns (b : BuildAnswers) (app : App)
    (h : b.succeeds app.m_PhysicalDevice) :
    (CreateDepthResource b app).outcome = Outcome.returned ∧
      (CreateDepthResource b app).app.m_PhysicalDevice = app.m_PhysicalDevice := by
  obtain ⟨Format, hf⟩ := h.2.2.2.1
  obtain ⟨hc, hm, ha, hv⟩ := h.2.2.2.2.2.2.2.2.2.2.2.1
  unfold CreateDepthResource
  rw [hf]
  dsimp only
  refine Step.andThen_returns (fun x => x.m_PhysicalDevice = app.m_PhysicalDevice) _ _ ?_ ?_
  · refine Step.andThen_returns (fun x => x.m_PhysicalDevice = app.m_PhysicalDevice) _ _ ?_ ?_
    · refine CreateImage_returns _ _ _ _ _ _ _ _ _ _ ?_ ?_ app hc hm ha <;> intro _ _ <;> rfl
    · intro x hx
      unfold CreateImageView
      rw [if_neg (by simp [hv])]
      exact ⟨rfl, hx⟩
  · intro x hx
    unfold TransitionImageLayout
    dsimp only
    rw [if_pos (Or.inr (Or.inr (Or.inl ⟨rfl, rfl⟩)))]
    exact ⟨rfl, hx⟩

theorem CreateFramebuffers_returns (b : BuildAnswers) (app : App)
    (h : b.succeeds app.m_PhysicalDevice) :
    (CreateFramebuffers b app).outcome = Outcome.returned ∧
      (CreateFramebuffers b app).app.m_PhysicalDevice = app.m_PhysicalDevice := by
  unfold CreateFramebuffers
  refine forLoop_returns_of (fun x => x.m_PhysicalDevice = app.m_PhysicalDevice) _ ?_ _ _ rfl
  intro i x hx
  dsimp only
  rw [if_neg (by simp [h.2.2.2.2.2.2.2.2.2.2.2.2.1 i])]
  exact ⟨rfl, hx⟩

/-- A build returns when every call of it succeeds on the physical device of
the state. -/
theorem RecreateSwapChainAndRelevantObject.create_returns (b : BuildAnswers) (app : App)
    (h : b.succeeds app.m_PhysicalDevice) :
    (RecreateSwapChainAndRelevantObject.create b app).outcome = Outcome.returned := by
  have key : ∀ step : BuildAnswers → App → Step,
      (∀ x, b.succeeds x.m_PhysicalDevice → (step b x).outcome = Outcome.returned ∧
        (step b x).app.m_PhysicalDevice = x.m_PhysicalDevice) →
      ∀ x, x.m_PhysicalDevice = app.m_PhysicalDevice →
        (step b x).outcome = Outcome.returned ∧
          (step b x).app.m_PhysicalDevice = app.m_PhysicalDevice := by
    intro step hstep x hx
    have := hstep x (by rw [hx]; exact h)
    exact ⟨this.1, this.2.trans hx⟩
  unfold RecreateSwapChainAndRelevantObject.create
  refine (Step.andThen_returned_iff _ _).mpr ⟨?_, ?_⟩
  · refine (Step.andThen_returns (fun x => x.m_PhysicalDevice = app.m_PhysicalDevice) _ _
      (Step.andThen_returns (fun x => x.m_PhysicalDevice = app.m_PhysicalDevice) _ _
        (Step.andThen_returns (fun x => x.m_PhysicalDevice = app.m_PhysicalDevice) _ _
          (Step.andThen_returns (fun x => x.m_PhysicalDevice = app.m_PhysicalDevice) _ _
            (Step.andThen_returns (fun x => x.m_PhysicalDevice = app.m_PhysicalDevice) _ _
              (Step.andThen_returns (fun x => x.m_PhysicalDevice = app.m_PhysicalDevice) _ _
                (CreateSwapChain_returns b app h)
                (key CreateSwapChainImageViews (CreateSwapChainImageViews_returns b)))
              (key CreateRenderPass (CreateRenderPass_returns b)))
            (key CreateGraphicsPipeline (CreateGraphicsPipeline_returns b)))
          (key CreateColorResource (CreateColorResource_returns b)))
        (key CreateDepthResource (CreateDepthResource_returns b)))
      (key CreateFramebuffers (CreateFramebuffers_returns b))).1
  · exact CreateDrawingCommandBuffers_returns b h.2.2.2.2.2.2.2.2.2.2.2.2.2 _

/-! ## The rebuild as a whole -/

/-- The state a build that returns leaves: every swapchain-dependent member
holds what the driver answered during this build. -/
theorem RecreateSwapChainAndRelevantObject.create_returned (b : BuildAnswers) (app : App)
    (h : (RecreateSwapChainAndRelevantObject.create b app).outcome = Outcome.returned) :
    (RecreateSwapChainAndRelevantObject.create b app).app =
      { app with
        m_SwapChainInfo :=
          { MsaaSamples := app.m_SwapChainInfo.MsaaSamples
            SwapChain := b.vkCreateSwapchainKHR.handle
            SwapChainImages := b.SwapChainImages
            SwapChainImageViews :=
              (List.range b.SwapChainImages.length).map (fun i => (b.SwapChainImageView i).handle)
            SwapChainImageFormat := (ChooseSwapSurfaceFormat b.Support.Formats).format
            SwapChainExtent := ChooseSwapExtent b.framebufferSize b.Support.Capabilities
              app.m_InitWidth app.m_InitHeight
            ColorImage := b.Color.vkCreateImage.handle
            ColorImageMemory := b.Color.vkAllocateMemory.handle
            ColorImageView := b.Color.vkCreateImageView.handle
            DepthImage := b.Depth.vkCreateImage.handle
            DepthImageMemory := b.Depth.vkAllocateMemory.handle
            DepthImageView := b.Depth.vkCreateImageView.handle
            SwapChainFramebuffers :=
              (List.range b.SwapChainImages.length).map (fun i => (b.vkCreateFramebuffer i).handle) }
        m_RenderPass := b.vkCreateRenderPass.handle
        m_PipelineLayout := b.vkCreatePipelineLayout.handle
        m_GraphicsPipelines :=
          (List.range b.SwapChainImages.length).foldl
            (fun m _ => (PipelineMap.subscript m
              (app.m_GraphicsPipelineDisplayMode ||| app.m_GraphicsPipelineCullMode)).1)
            ((variantPairs b app.GRAPHICS_PIPELINE_TYPE).foldl
              (fun m kh => PipelineMap.insert m kh.1 kh.2) app.m_GraphicsPipelines)
        m_DrawingCommandBuffers :=
          (List.range b.SwapChainImages.length).map b.DrawingCommandBuffer } := by
  unfold RecreateSwapChainAndRelevantObject.create at h ⊢
  obtain ⟨h7, g8, e8, _⟩ := Step.andThen_returned _ _ h
  obtain ⟨h6, g7, e7, _⟩ := Step.andThen_returned _ _ h7
  obtain ⟨h5, g6, e6, _⟩ := Step.andThen_returned _ _ h6
  obtain ⟨h4, g5, e5, _⟩ := Step.andThen_returned _ _ h5
  obtain ⟨h3, g4, e4, _⟩ := Step.andThen_returned _ _ h4
  obtain ⟨h2, g3, e3, _⟩ := Step.andThen_returned _ _ h3
  obtain ⟨h1, g2, e2, _⟩ := Step.andThen_returned _ _ h2
  have s1 := CreateSwapChain_returned b app h1
  have s2 := e2.trans (CreateSwapChainImageViews_returned b _ g2)
  rw [s1] at s2
  have s3 := e3.trans (CreateRenderPass_returned b _ g3)
  rw [s2] at s3
  have s4 := e4.trans (CreateGraphicsPipeline_returned b _ g4)
  rw [s3] at s4
  have s5 := e5.trans (CreateColorResource_returned b _ g5)
  rw [s4] at s5
  have s6 := e6.trans (CreateDepthResource_returned b _ g6)
  rw [s5] at s6
  have s7 := e7.trans (CreateFramebuffers_returned b _ g7)
  rw [s6] at s7
  have s8 := e8.trans (CreateDrawingCommandBuffers_returned b _ g8)
  rw [s7] at s8
  exact s8

theorem RecreateSwapChainAndRelevantObject.create_inert (b : BuildAnswers) (app : App) :
    (RecreateSwapChainAndRelevantObject.create b app).inert app := by
  unfold RecreateSwapChainAndRelevantObject.create
  refine Step.andThen_inert _ _ _ ?_ (CreateDrawingCommandBuffers_inert b)
  refine Step.andThen_inert _ _ _ ?_ (CreateFramebuffers_inert b)
  refine Step.andThen_inert _ _ _ ?_ (CreateDepthResource_inert b)
  refine Step.andThen_inert _ _ _ ?_ (CreateColorResource_inert b)
  refine Step.andThen_inert _ _ _ ?_ (CreateGraphicsPipeline_inert b)
  refine Step.andThen_inert _ _ _ ?_ (CreateRenderPass_inert b)
  refine Step.andThen_inert _ _ _ ?_ (CreateSwapChainImageViews_inert b)
  exact CreateSwapChain_inert b app

/-- The rebuild is the event wait, then the idle wait, then the teardown, then
the eight creation steps. -/
theorem RecreateSwapChainAndRelevantObject_eq (a : RecreateAnswers) (app : App) :
    RecreateSwapChainAndRelevantObject a app =
      (RecreateSwapChainAndRelevantObject.wait a.waits app).andThen (fun x =>
        (Step.ret x [Op.vkDeviceWaitIdle]).andThen (fun x =>
          (DestroySwapChainAndRelevantObject x).andThen
            (RecreateSwapChainAndRelevantObject.create a.build))) := by
  unfold RecreateSwapChainAndRelevantObject RecreateSwapChainAndRelevantObject.create
  simp only [Step.andThen_assoc]

theorem RecreateSwapChainAndRelevantObject_of_wait_not_returned (a : RecreateAnswers)
    (app : App)
    (h : (RecreateSwapChainAndRelevantObject.wait a.waits app).outcome ≠ Outcome.returned) :
    RecreateSwapChainAndRelevantObject a app =
      RecreateSwapChainAndRelevantObject.wait a.waits app := by
  rw [RecreateSwapChainAndRelevantObject_eq]
  exact Step.andThen_of_not_returned _ _ h

theorem RecreateSwapChainAndRelevantObject_of_blocked (a : RecreateAnswers) (app : App)
    (h : (RecreateSwapChainAndRelevantObject.wait a.waits app).outcome = Outcome.blocked) :
    RecreateSwapChainAndRelevantObject a app =
      RecreateSwapChainAndRelevantObject.wait a.waits app :=
  RecreateSwapChainAndRelevantObject_of_wait_not_returned a app (by rw [h]; simp)

/-- When the event wait ends, the rebuild goes on with the idle wait, the
teardown of the objects the state holds after the wait, and the build. -/
theorem RecreateSwapChainAndRelevantObject_of_wait_returned (a : RecreateAnswers) (app : App)
    (h : (RecreateSwapChainAndRelevantObject.wait a.waits app).outcome = Outcome.returned) :
    RecreateSwapChainAndRelevantObject a app =
      ⟨(RecreateSwapChainAndRelevantObject.create a.build
          (RecreateSwapChainAndRelevantObject.wait a.waits app).app).app,
       (RecreateSwapChainAndRelevantObject.wait a.waits app).trace ++
         ([Op.vkDeviceWaitIdle] ++
           ((DestroySwapChainAndRelevantObject
               (RecreateSwapChainAndRelevantObject.wait a.waits app).app).trace ++
             (RecreateSwapChainAndRelevantObject.create a.build
               (RecreateSwapChainAndRelevantObject.wait a.waits app).app).trace)),
       (RecreateSwapChainAndRelevantObject.create a.build
          (RecreateSwapChainAndRelevantObject.wait a.waits app).app).outcome⟩ := by
  rw [RecreateSwapChainAndRelevantObject_eq, Step.andThen_of_returned _ _ h]
  simp only [Step.andThen_ret]
  have hd : ∀ x : App, DestroySwapChainAndRelevantObject x =
      Step.ret x (DestroySwapChainAndRelevantObject x).trace := fun _ => rfl
  rw [hd]
  simp only [Step.andThen_ret, Step.ret_trace]

theorem RecreateSwapChainAndRelevantObject_wait_of_returned (a : RecreateAnswers) (app : App)
    (h : (RecreateSwapChainAndRelevantObject a app).outcome = Outcome.returned) :
    (RecreateSwapChainAndRelevantObject.wait a.waits app).outcome = Outcome.returned := by
  rw [RecreateSwapChainAndRelevantObject_eq] at h
  exact ((Step.andThen_returned_iff _ _).mp h).1

/-- The rebuild returns when the window system reports a non-zero size at some
read, the driver answers success to every call of the keyboard callbacks that
the event wait runs, and every call of the build succeeds. -/
theorem RecreateSwapChainAndRelevantObject_returns (a : RecreateAnswers) (app : App)
    (hnz : ∃ w ∈ a.waits, w.Width ≠ 0 ∧ w.Height ≠ 0)
    (hk : ∀ w ∈ a.waits, ∀ e ∈ w.keys, e.build.recordingSucceeds)
    (hb : a.build.succeeds app.m_PhysicalDevice) :
    (RecreateSwapChainAndRelevantObject a app).outcome = Outcome.returned := by
  have hw := RecreateSwapChainAndRelevantObject.wait_returns a.waits hnz hk app
  rw [RecreateSwapChainAndRelevantObject_of_wait_returned a app hw]
  apply RecreateSwapChainAndRelevantObject.create_returns
  have hd := congrArg (fun p => p.2.1)
    (RecreateSwapChainAndRelevantObject.wait_outsideCallbacks a.waits app)
  have hd1 : (RecreateSwapChainAndRelevantObject.wait a.waits app).app.m_PhysicalDevice =
      app.m_PhysicalDevice := hd
  rw [hd1]
  exact hb

/-- The rebuild makes only rebuild calls, and leaves the members of `Kept` as
they were, but for the resize flag, which a notification during the event wait
sets. -/
theorem RecreateSwapChainAndRelevantObject_inert (a : RecreateAnswers) (app : App) :
    (RecreateSwapChainAndRelevantObject a app).inert
      { app with
        m_bFramebufferResized :=
          app.m_bFramebufferResized || resizedDuringWait a.waits app } := by
  rw [RecreateSwapChainAndRelevantObject_eq]
  refine Step.andThen_inert _ _ _ ?_ ?_
  · refine ⟨by rw [RecreateSwapChainAndRelevantObject.wait_kept]; rfl, ?_⟩
    intro op hop
    rcases RecreateSwapChainAndRelevantObject.wait_calls a.waits app op hop with hw | hw
    · exact Op.isRebuildCall_of_windowWait op hw
    · exact Op.isRebuildCall_of_callbackCall op hw
  · intro x
    refine Step.andThen_inert _ _ _ ⟨rfl, by simp [Step.ret, Op.isRebuildCall]⟩ ?_
    intro y
    exact Step.andThen_inert _ _ _ (DestroySwapChainAndRelevantObject_inert y)
      (RecreateSwapChainAndRelevantObject.create_inert a.build)

theorem Op.usesImage_of_rebuildCall (op : Op) (h : op.isRebuildCall = true) :
    op.usesImage = none := by
  cases op with
  | vkQueueSubmit q w cb s f =>
    cases w <;> cases cb <;> cases s <;> cases f <;> simp_all [Op.isRebuildCall, Op.usesImage]
  | lifecycle c => rfl
  | _ => simp_all [Op.isRebuildCall, Op.usesImage]

/-! ## The branches of `App::Draw` -/

theorem Draw_of_acquire_stale (a : DrawAnswers) (app : App)
    (h : a.vkAcquireNextImageKHR = VK_ERROR_OUT_OF_DATE_KHR ∨
      a.vkAcquireNextImageKHR = VK_SUBOPTIMAL_KHR) :
    Draw a app =
      (Step.ret app (Draw.acquireCalls app)).andThen
        (RecreateSwapChainAndRelevantObject a.recreate) := by
  unfold Draw
  dsimp only
  rw [if_pos h]
  rfl

theorem Draw_of_acquire_error (a : DrawAnswers) (app : App)
    (h1 : a.vkAcquireNextImageKHR ≠ VK_ERROR_OUT_OF_DATE_KHR)
    (h2 : a.vkAcquireNextImageKHR ≠ VK_SUBOPTIMAL_KHR)
    (h3 : a.vkAcquireNextImageKHR ≠ VK_SUCCESS) :
    Draw a app =
      Step.throw app (Draw.acquireCalls app) "Failed to acquire swap chain image!" := by
  unfold Draw
  dsimp only
  rw [if_neg (by simp [h1, h2]), if_pos h3]
  rfl

theorem Draw_of_submit_error (a : DrawAnswers) (app : App)
    (hacq : a.vkAcquireNextImageKHR = VK_SUCCESS) (hsub : a.vkQueueSubmit ≠ VK_SUCCESS) :
    Draw a app =
      Step.throw app (Draw.submitCalls a.ImageIndex app)
        "Failed to submit draw command buffer!" := by
  unfold Draw
  dsimp only
  rw [if_neg (by simp [hacq, VK_SUCCESS, VK_ERROR_OUT_OF_DATE_KHR, VK_SUBOPTIMAL_KHR]),
    if_neg (by simp [hacq])]
  simp only [UpdateUniformBuffer, Step.andThen_ret, Step.ret_app, Step.ret_trace,
    Step.ret_outcome, Step.andThen_mk_returned, if_pos hsub]
  simp [Step.throw, Draw.submitCalls, Draw.acquireCalls]

theorem Draw_of_present_stale (a : DrawAnswers) (app : App)
    (hacq : a.vkAcquireNextImageKHR = VK_SUCCESS) (hsub : a.vkQueueSubmit = VK_SUCCESS)
    (h : a.vkQueuePresentKHR = VK_ERROR_OUT_OF_DATE_KHR ∨
      a.vkQueuePresentKHR = VK_SUBOPTIMAL_KHR ∨ app.m_bFramebufferResized = true) :
    Draw a app =
      (Step.ret { app with m_bFramebufferResized := false }
        (Draw.presentCalls a.ImageIndex app)).andThen
        (RecreateSwapChainAndRelevantObject a.recreate) := by
  unfold Draw
  dsimp only
  rw [if_neg (by simp [hacq, VK_SUCCESS, VK_ERROR_OUT_OF_DATE_KHR, VK_SUBOPTIMAL_KHR]),
    if_neg (by simp [hacq])]
  have hs : ¬ a.vkQueueSubmit ≠ VK_SUCCESS := by simp [hsub]
  simp only [UpdateUniformBuffer, Step.andThen_ret, Step.ret_app, Step.ret_trace,
    Step.ret_outcome, Step.andThen_mk_returned, if_neg hs, if_pos h]
  simp [Step.ret, Draw.presentCalls, Draw.submitCalls, Draw.acquireCalls]

theorem Draw_of_present_error (a : DrawAnswers) (app : App)
    (hacq : a.vkAcquireNextImageKHR = VK_SUCCESS) (hsub : a.vkQueueSubmit = VK_SUCCESS)
    (h1 : a.vkQueuePresentKHR ≠ VK_ERROR_OUT_OF_DATE_KHR)
    (h2 : a.vkQueuePresentKHR ≠ VK_SUBOPTIMAL_KHR) (h3 : app.m_bFramebufferResized = false)
    (h4 : a.vkQueuePresentKHR ≠ VK_SUCCESS) :
    Draw a app =
      Step.throw app (Draw.presentCalls a.ImageIndex app)
        "Failed to acquire swap chain image!" := by
  unfold Draw
  dsimp only
  rw [if_neg (by simp [hacq, VK_SUCCESS, VK_ERROR_OUT_OF_DATE_KHR, VK_SUBOPTIMAL_KHR]),
    if_neg (by simp [hacq])]
  have hs : ¬ a.vkQueueSubmit ≠ VK_SUCCESS := by simp [hsub]
  have hp : ¬ (a.vkQueuePresentKHR = VK_ERROR_OUT_OF_DATE_KHR ∨
      a.vkQueuePresentKHR = VK_SUBOPTIMAL_KHR ∨ app.m_bFramebufferResized = true) := by
    simp [h1, h2, h3]
  simp only [UpdateUniformBuffer, Step.andThen_ret, Step.ret_app, Step.ret_trace,
    Step.ret_outcome, Step.andThen_mk_returned, if_neg hs, if_neg hp, if_pos h4]
  simp [Step.throw, Draw.presentCalls, Draw.submitCalls, Draw.acquireCalls]

theorem exampleBuild_succeeds (images : List Handle) (base : Handle) :
    (exampleBuild images base).succeeds exampleApp.m_PhysicalDevice := by
  have hm : FindMemoryType exampleApp.m_PhysicalDevice 3 VK_MEMORY_PROPERTY_DEVICE_LOCAL_BIT
      = Except.ok 0 := by rfl
  exact ⟨by decide, rfl, fun _ => rfl, ⟨_, rfl⟩, rfl, ⟨_, _, rfl, rfl⟩, rfl, rfl, rfl,
    fun _ => rfl, ⟨rfl, ⟨0, hm⟩, rfl, rfl⟩, ⟨rfl, ⟨0, hm⟩, rfl, rfl⟩, fun _ => rfl,
    rfl, fun _ => ⟨rfl, rfl⟩⟩

theorem exampleMinimised_keys :
    ∀ w ∈ exampleMinimised.waits, ∀ e ∈ w.keys, e.build.recordingSucceeds := by
  intro w hw e he
  simp only [exampleMinimised, List.mem_singleton] at hw
  subst hw
  simp at he

theorem resizedDuringWait_of_no_notification (l : List WaitAnswer)
    (h : ∀ w ∈ l, w.resized = false) : ∀ app : App, resizedDuringWait l app = false := by
  induction l with
  | nil => intro _; rfl
  | cons w rest ih =>
    intro app
    simp [resizedDuringWait, h w (List.mem_cons_self w rest),
      ih (fun x hx => h x (List.mem_cons_of_mem w hx))]

/-- Counterexample to C4: the acquisition and the submission succeed, the
presentation reports out-of-date, `Draw` rebuilds the swapchain and returns, and
the resize flag is set afterwards: the event wait of the rebuild delivered a
framebuffer-resize notification after `Draw` had cleared the flag.  And with
the same results, while the window stays minimised `Draw` does not return: it
stays in the event wait of the rebuild. -/
theorem Draw_present_stale_flag_set :
    (exampleDraw 0 1 0 VK_ERROR_OUT_OF_DATE_KHR).vkAcquireNextImageKHR = VK_SUCCESS ∧
    (exampleDraw 0 1 0 VK_ERROR_OUT_OF_DATE_KHR).vkQueueSubmit = VK_SUCCESS ∧
    (exampleDraw 0 1 0 VK_ERROR_OUT_OF_DATE_KHR).vkQueuePresentKHR = VK_ERROR_OUT_OF_DATE_KHR ∧
    (Draw (exampleDraw 0 1 0 VK_ERROR_OUT_OF_DATE_KHR) exampleApp).outcome = Outcome.returned ∧
    ¬ ((Draw (exampleDraw 0 1 0 VK_ERROR_OUT_OF_DATE_KHR) exampleApp).app.m_bFramebufferResized
        = false) ∧
    (Draw { exampleDraw 0 1 0 VK_ERROR_OUT_OF_DATE_KHR with recreate := exampleMinimised }
      exampleApp).outcome = Outcome.blocked := by
  refine ⟨rfl, rfl, rfl, by rfl, ?_, by rfl⟩
  decide

/-- C4, amended.  When the acquisition and the submission succeed and the
presentation reports out-of-date or suboptimal, or the resize flag is set when
the presentation returns, `Draw` clears the resize flag, runs the swapchain
rebuild and ends as the rebuild ends, with the current slot index unchanged.
Afterwards the resize flag is set exactly when the event wait of the rebuild
delivered a framebuffer-resize notification; it is clear when none was
delivered.  `Draw` returns when the rebuild returns, and the rebuild returns
when the window system reports a non-zero framebuffer size at some read of the
event wait, the driver answers success to every call of the keyboard callbacks
that the event wait runs, and every call of the build succeeds. -/
theorem Draw_present_stale (a : DrawAnswers) (app : App)
    (hacq : a.vkAcquireNextImageKHR = VK_SUCCESS) (hsub : a.vkQueueSubmit = VK_SUCCESS)
    (h : a.vkQueuePresentKHR = VK_ERROR_OUT_OF_DATE_KHR ∨
      a.vkQueuePresentKHR = VK_SUBOPTIMAL_KHR ∨ app.m_bFramebufferResized = true) :
    (Draw a app).trace =
      Draw.presentCalls a.ImageIndex app ++
        (RecreateSwapChainAndRelevantObject a.recreate
          { app with m_bFramebufferResized := false }).trace ∧
    (Draw a app).outcome =
      (RecreateSwapChainAndRelevantObject a.recreate
        { app with m_bFramebufferResized := false }).outcome ∧
    (Draw a app).app.m_CurrentFrame = app.m_CurrentFrame ∧
    (Draw a app).app.m_bFramebufferResized =
      resizedDuringWait a.recreate.waits { app with m_bFramebufferResized := false } ∧
    ((∀ w ∈ a.recreate.waits, w.resized = false) →
      (Draw a app).app.m_bFramebufferResized = false) ∧
    ((∃ w ∈ a.recreate.waits, w.Width ≠ 0 ∧ w.Height ≠ 0) →
      (∀ w ∈ a.recreate.waits, ∀ e ∈ w.keys, e.build.recordingSucceeds) →
      a.recreate.build.succeeds app.m_PhysicalDevice →
      (Draw a app).outcome = Outcome.returned) := by
  rw [Draw_of_present_stale a app hacq hsub h, Step.andThen_ret]
  have hin := RecreateSwapChainAndRelevantObject_inert a.recreate
    { app with m_bFramebufferResized := false }
  have hflag : (RecreateSwapChainAndRelevantObject a.recreate
      { app with m_bFramebufferResized := false }).app.m_bFramebufferResized =
      resizedDuringWait a.recreate.waits { app with m_bFramebufferResized := false } := by
    have := congrArg Kept.m_bFramebufferResized hin.1
    simpa [App.kept] using this
  refine ⟨rfl, rfl, congrArg Kept.m_CurrentFrame hin.1, hflag, ?_, ?_⟩
  · intro hno
    rw [hflag]
    exact resizedDuringWait_of_no_notification _ hno _
  · intro hnz hk hb
    exact RecreateSwapChainAndRelevantObject_returns a.recreate
      { app with m_bFramebufferResized := false } hnz hk hb

/-- Witness of C4, amended: the presentation reports suboptimal and no
notification is delivered during the rebuild, in which every call succeeds. -/
theorem Draw_present_stale_witness :
    (Draw { exampleDraw 0 1 0 VK_SUBOPTIMAL_KHR with
            recreate := { exampleRecreate [111, 112, 113] 100 with
                          waits := [⟨800, 600, false, []⟩] } } exampleApp).app.m_CurrentFrame
      = exampleApp.m_CurrentFrame ∧
    (Draw { exampleDraw 0 1 0 VK_SUBOPTIMAL_KHR with
            recreate := { exampleRecreate [111, 112, 113] 100 with
                          waits := [⟨800, 600, false, []⟩] } }
      exampleApp).app.m_bFramebufferResized = false ∧
    (Draw { exampleDraw 0 1 0 VK_SUBOPTIMAL_KHR with
            recreate := { exampleRecreate [111, 112, 113] 100 with
                          waits := [⟨800, 600, false, []⟩] } }
      exampleApp).outcome = Outcome.returned :=
  ⟨(Draw_present_stale _ exampleApp rfl rfl (Or.inr (Or.inl rfl))).2.2.1,
   (Draw_present_stale _ exampleApp rfl rfl (Or.inr (Or.inl rfl))).2.2.2.2.1 (by decide),
   (Draw_present_stale _ exampleApp rfl rfl (Or.inr (Or.inl rfl))).2.2.2.2.2
     ⟨⟨800, 600, false, []⟩, by simp, by decide, by decide⟩
     (by intro w hw e he; simp at hw; subst hw; simp at he)
     (exampleBuild_succeeds [111, 112, 113] 100)⟩

/-- C5.  `Draw` throws, makes no further call of the frame and leaves the
state (so the current slot index) as it was: when the acquisition returns a
result other than success, out-of-date and suboptimal, the trace ends with the
acquisition (no uniform-buffer write, fence reset or submission follows); when
the acquisition succeeds and the submission fails, the trace ends with the
failed `vkQueueSubmit` (no presentation follows). -/
theorem Draw_fatal (a : DrawAnswers) (app : App) :
    (a.vkAcquireNextImageKHR ≠ VK_SUCCESS → a.vkAcquireNextImageKHR ≠ VK_ERROR_OUT_OF_DATE_KHR →
      a.vkAcquireNextImageKHR ≠ VK_SUBOPTIMAL_KHR →
      (Draw a app).outcome = Outcome.threw "Failed to acquire swap chain image!" ∧
      (Draw a app).trace =
        [ Op.vkWaitForFences app.m_CurrentFrame,
          Op.vkAcquireNextImageKHR app.m_SwapChainInfo.SwapChain
            (SemaphoreRef.m_ImageAvailableSemaphores app.m_CurrentFrame) ] ∧
      (Draw a app).app = app) ∧
    (a.vkAcquireNextImageKHR = VK_SUCCESS → a.vkQueueSubmit ≠ VK_SUCCESS →
      (Draw a app).outcome = Outcome.threw "Failed to submit draw command buffer!" ∧
      (Draw a app).trace =
        [ Op.vkWaitForFences app.m_CurrentFrame,
          Op.vkAcquireNextImageKHR app.m_SwapChainInfo.SwapChain
            (SemaphoreRef.m_ImageAvailableSemaphores app.m_CurrentFrame),
          Op.MapMemory UniformArray.m_MvpUniformBuffers a.ImageIndex,
          Op.MapMemory UniformArray.m_LightUniformBuffers a.ImageIndex,
          Op.MapMemory UniformArray.m_MaterialUniformBuffers a.ImageIndex,
          Op.vkResetFences app.m_CurrentFrame,
          Op.vkQueueSubmit Queue.m_GraphicsQueue
            [SemaphoreRef.m_ImageAvailableSemaphores app.m_CurrentFrame]
            (CommandBufferRef.m_DrawingCommandBuffers a.ImageIndex)
            [SemaphoreRef.m_RenderFinishedSemaphores app.m_CurrentFrame]
            (some app.m_CurrentFrame) ] ∧
      (Draw a app).app = app) := by
  constructor
  · intro h3 h1 h2
    rw [Draw_of_acquire_error a app h1 h2 h3]
    exact ⟨rfl, rfl, rfl⟩
  · intro hacq hsub
    rw [Draw_of_submit_error a app hacq hsub]
    exact ⟨rfl, rfl, rfl⟩

/-- Witness of C5: the acquisition reports a lost device; the submission
reports a lost device. -/
theorem Draw_fatal_witness :
    ((Draw (exampleDraw VK_ERROR_DEVICE_LOST 1 0 0) exampleApp).outcome =
        Outcome.threw "Failed to acquire swap chain image!" ∧
      (Draw (exampleDraw VK_ERROR_DEVICE_LOST 1 0 0) exampleApp).trace =
        [ Op.vkWaitForFences 0,
          Op.vkAcquireNextImageKHR 10 (SemaphoreRef.m_ImageAvailableSemaphores 0) ] ∧
      (Draw (exampleDraw VK_ERROR_DEVICE_LOST 1 0 0) exampleApp).app = exampleApp) ∧
    ((Draw (exampleDraw 0 1 VK_ERROR_DEVICE_LOST 0) exampleApp).outcome =
        Outcome.threw "Failed to submit draw command buffer!" ∧
      (Draw (exampleDraw 0 1 VK_ERROR_DEVICE_LOST 0) exampleApp).trace =
        [ Op.vkWaitForFences 0,
          Op.vkAcquireNextImageKHR 10 (SemaphoreRef.m_ImageAvailableSemaphores 0),
          Op.MapMemory UniformArray.m_MvpUniformBuffers 1,
          Op.MapMemory UniformArray.m_LightUniformBuffers 1,
          Op.MapMemory UniformArray.m_MaterialUniformBuffers 1,
          Op.vkResetFences 0,
          Op.vkQueueSubmit Queue.m_GraphicsQueue [SemaphoreRef.m_ImageAvailableSemaphores 0]
            (CommandBufferRef.m_DrawingCommandBuffers 1)
            [SemaphoreRef.m_RenderFinishedSemaphores 0] (some 0) ] ∧
      (Draw (exampleDraw 0 1 VK_ERROR_DEVICE_LOST 0) exampleApp).app = exampleApp) :=
  ⟨(Draw_fatal (exampleDraw VK_ERROR_DEVICE_LOST 1 0 0) exampleApp).1 (by decide) (by decide)
      (by decide),
   (Draw_fatal (exampleDraw 0 1 VK_ERROR_DEVICE_LOST 0) exampleApp).2 rfl (by decide)⟩

/-- Counterexample to C6: the presentation reports a lost device while the
resize flag is set.  `Draw` throws nothing: it runs the swapchain rebuild and
returns.  With the flag clear the same result is fatal. -/
theorem Draw_present_error_with_resize_flag :
    (exampleDraw 0 1 0 VK_ERROR_DEVICE_LOST).vkQueuePresentKHR ≠ VK_SUCCESS ∧
    (exampleDraw 0 1 0 VK_ERROR_DEVICE_LOST).vkQueuePresentKHR ≠ VK_ERROR_OUT_OF_DATE_KHR ∧
    (exampleDraw 0 1 0 VK_ERROR_DEVICE_LOST).vkQueuePresentKHR ≠ VK_SUBOPTIMAL_KHR ∧
    (Draw (exampleDraw 0 1 0 VK_ERROR_DEVICE_LOST)
      { exampleApp with m_bFramebufferResized := true }).outcome = Outcome.returned ∧
    Op.vkDeviceWaitIdle ∈ (Draw (exampleDraw 0 1 0 VK_ERROR_DEVICE_LOST)
      { exampleApp with m_bFramebufferResized := true }).trace ∧
    (Draw (exampleDraw 0 1 0 VK_ERROR_DEVICE_LOST) exampleApp).outcome =
      Outcome.threw "Failed to acquire swap chain image!" := by
  refine ⟨by decide, by decide, by decide, by rfl, ?_, by rfl⟩
  decide

/-- C6, amended.  When the acquisition and the submission succeed and the resize
flag is clear at the call, every presentation result other than success,
out-of-date and suboptimal is fatal: `Draw` throws, its trace ends with the
presentation, and the state is as it was.  With the flag clear, out-of-date
and suboptimal lead to the swapchain rebuild and success to the end of the
frame, so `Draw` throws at the presentation for no other result.  With the
flag set, `Draw` clears it and runs the swapchain rebuild whatever the
presentation reports, and ends as the rebuild ends. -/
theorem Draw_present_fatal (a : DrawAnswers) (app : App)
    (hacq : a.vkAcquireNextImageKHR = VK_SUCCESS) (hsub : a.vkQueueSubmit = VK_SUCCESS) :
    (app.m_bFramebufferResized = false → a.vkQueuePresentKHR ≠ VK_SUCCESS →
      a.vkQueuePresentKHR ≠ VK_ERROR_OUT_OF_DATE_KHR →
      a.vkQueuePresentKHR ≠ VK_SUBOPTIMAL_KHR →
      (Draw a app).outcome = Outcome.threw "Failed to acquire swap chain image!" ∧
      (Draw a app).trace = Draw.presentCalls a.ImageIndex app ∧
      (Draw a app).app = app) ∧
    (app.m_bFramebufferResized = false → a.vkQueuePresentKHR = VK_SUCCESS →
      (Draw a app).outcome = Outcome.returned ∧
      (Draw a app).trace = Draw.presentCalls a.ImageIndex app) ∧
    (a.vkQueuePresentKHR = VK_ERROR_OUT_OF_DATE_KHR ∨ a.vkQueuePresentKHR = VK_SUBOPTIMAL_KHR ∨
        app.m_bFramebufferResized = true →
      (Draw a app).trace =
        Draw.presentCalls a.ImageIndex app ++
          (RecreateSwapChainAndRelevantObject a.recreate
            { app with m_bFramebufferResized := false }).trace ∧
      (Draw a app).outcome =
        (RecreateSwapChainAndRelevantObject a.recreate
          { app with m_bFramebufferResized := false }).outcome) := by
  refine ⟨?_, ?_, ?_⟩
  · intro hflag h1 h2 h3
    rw [Draw_of_present_error a app hacq hsub h2 h3 hflag h1]
    exact ⟨rfl, rfl, rfl⟩
  · intro hflag hp
    rw [Draw_of_success a app hacq hsub hp hflag]
    exact ⟨rfl, rfl⟩
  · intro h
    rw [Draw_of_present_stale a app hacq hsub h, Step.andThen_ret]
    exact ⟨rfl, rfl⟩

/-- Witness of C6, amended: the presentation reports a lost device, with the
resize flag clear and with the resize flag set. -/
theorem Draw_present_fatal_witness :
    ((Draw (exampleDraw 0 1 0 VK_ERROR_DEVICE_LOST) exampleApp).outcome =
        Outcome.threw "Failed to acquire swap chain image!" ∧
      (Draw (exampleDraw 0 1 0 VK_ERROR_DEVICE_LOST) exampleApp).trace =
        Draw.presentCalls 1 exampleApp ∧
      (Draw (exampleDraw 0 1 0 VK_ERROR_DEVICE_LOST) exampleApp).app = exampleApp) ∧
    (Draw (exampleDraw 0 1 0 VK_ERROR_DEVICE_LOST)
        { exampleApp with m_bFramebufferResized := true }).outcome =
      (RecreateSwapChainAndRelevantObject (exampleRecreate [111, 112, 113] 100)
        { exampleApp with m_bFramebufferResized := false }).outcome :=
  ⟨(Draw_present_fatal (exampleDraw 0 1 0 VK_ERROR_DEVICE_LOST) exampleApp rfl rfl).1 rfl
      (by decide) (by decide) (by decide),
   ((Draw_present_fatal (exampleDraw 0 1 0 VK_ERROR_DEVICE_LOST)
      { exampleApp with m_bFramebufferResized := true } rfl rfl).2.2
        (Or.inr (Or.inr rfl))).2⟩

/-- C8, the code at the failing input: `InitVulkan` with three presentable
images, then one rebuild in which the driver reports four.  Both return; the
swapchain then has four images, four image views and four framebuffers, and
each uniform buffer array still has three elements. -/
theorem Recreate_uniform_buffer_count :
    (InitVulkan (exampleInit [61, 62, 63]) freshApp).outcome = Outcome.returned ∧
    exampleRebuiltWithFourImages.outcome = Outcome.returned ∧
    exampleRebuiltWithFourImages.app.m_SwapChainInfo.SwapChainImages.length = 4 ∧
    exampleRebuiltWithFourImages.app.m_SwapChainInfo.SwapChainImageViews.length = 4 ∧
    exampleRebuiltWithFourImages.app.m_SwapChainInfo.SwapChainFramebuffers.length = 4 ∧
    exampleRebuiltWithFourImages.app.m_MvpUniformBuffers.length = 3 ∧
    exampleRebuiltWithFourImages.app.m_LightUniformBuffers.length = 3 ∧
    exampleRebuiltWithFourImages.app.m_MaterialUniformBuffers.length = 3 := by
  refine ⟨by rfl, by rfl, by rfl, by rfl, by rfl, by rfl, by rfl, by rfl⟩

/-- C10.  `DestroySwapChainAndRelevantObject` returns, leaves the members as
they are, and makes exactly these calls in this order: depth image view, depth
image, depth memory; colour image view, colour image, colour memory; one
`vkDestroyFramebuffer` for every framebuffer; one `vkDestroyPipeline` for every
pipeline of the mapping; the pipeline layout; the render pass; one
`vkDestroyImageView` for every swapchain image view; the swapchain; and last
`vkFreeCommandBuffers` on the drawing command buffers.  The memory of the depth
image and of the colour image is freed by the call that follows the
destruction of the image. -/
theorem DestroySwapChainAndRelevantObject_order (app : App) :
    (DestroySwapChainAndRelevantObject app).outcome = Outcome.returned ∧
    (DestroySwapChainAndRelevantObject app).app = app ∧
    (DestroySwapChainAndRelevantObject app).trace =
      [ Op.vkDestroyImageView app.m_SwapChainInfo.DepthImageView,
        Op.vkDestroyImage app.m_SwapChainInfo.DepthImage,
        Op.vkFreeMemory app.m_SwapChainInfo.DepthImageMemory,
        Op.vkDestroyImageView app.m_SwapChainInfo.ColorImageView,
        Op.vkDestroyImage app.m_SwapChainInfo.ColorImage,
        Op.vkFreeMemory app.m_SwapChainInfo.ColorImageMemory ]
      ++ app.m_SwapChainInfo.SwapChainFramebuffers.map Op.vkDestroyFramebuffer
      ++ app.m_GraphicsPipelines.map (fun Kv => Op.vkDestroyPipeline Kv.2)
      ++ [ Op.vkDestroyPipelineLayout app.m_PipelineLayout,
           Op.vkDestroyRenderPass app.m_RenderPass ]
      ++ app.m_SwapChainInfo.SwapChainImageViews.map Op.vkDestroyImageView
      ++ [ Op.vkDestroySwapchainKHR app.m_SwapChainInfo.SwapChain,
           Op.vkFreeCommandBuffers app.m_CommandPool app.m_DrawingCommandBuffers ] ∧
    (DestroySwapChainAndRelevantObject app).trace.length =
      10 + app.m_SwapChainInfo.SwapChainFramebuffers.length + app.m_GraphicsPipelines.length
        + app.m_SwapChainInfo.SwapChainImageViews.length ∧
    (DestroySwapChainAndRelevantObject app).trace[1]? =
      some (Op.vkDestroyImage app.m_SwapChainInfo.DepthImage) ∧
    (DestroySwapChainAndRelevantObject app).trace[2]? =
      some (Op.vkFreeMemory app.m_SwapChainInfo.DepthImageMemory) ∧
    (DestroySwapChainAndRelevantObject app).trace[4]? =
      some (Op.vkDestroyImage app.m_SwapChainInfo.ColorImage) ∧
    (DestroySwapChainAndRelevantObject app).trace[5]? =
      some (Op.vkFreeMemory app.m_SwapChainInfo.ColorImageMemory) ∧
    (∃ earlier : List Op, (DestroySwapChainAndRelevantObject app).trace =
      earlier ++ [Op.vkFreeCommandBuffers app.m_CommandPool app.m_DrawingCommandBuffers]) := by
  refine ⟨rfl, rfl, rfl, ?_, ?_, ?_, ?_, ?_, ?_⟩
  · simp only [DestroySwapChainAndRelevantObject, Step.ret, List.length_append, List.length_map,
      List.length_cons, List.length_nil]
    omega
  · simp [DestroySwapChainAndRelevantObject, Step.ret]
  · simp [DestroySwapChainAndRelevantObject, Step.ret]
  · simp [DestroySwapChainAndRelevantObject, Step.ret]
  · simp [DestroySwapChainAndRelevantObject, Step.ret]
  · exact ⟨[ Op.vkDestroyImageView app.m_SwapChainInfo.DepthImageView,
        Op.vkDestroyImage app.m_SwapChainInfo.DepthImage,
        Op.vkFreeMemory app.m_SwapChainInfo.DepthImageMemory,
        Op.vkDestroyImageView app.m_SwapChainInfo.ColorImageView,
        Op.vkDestroyImage app.m_SwapChainInfo.ColorImage,
        Op.vkFreeMemory app.m_SwapChainInfo.ColorImageMemory ]
      ++ app.m_SwapChainInfo.SwapChainFramebuffers.map Op.vkDestroyFramebuffer
      ++ app.m_GraphicsPipelines.map (fun Kv => Op.vkDestroyPipeline Kv.2)
      ++ [ Op.vkDestroyPipelineLayout app.m_PipelineLayout,
           Op.vkDestroyRenderPass app.m_RenderPass ]
      ++ app.m_SwapChainInfo.SwapChainImageViews.map Op.vkDestroyImageView
      ++ [ Op.vkDestroySwapchainKHR app.m_SwapChainInfo.SwapChain ],
      by simp [DestroySwapChainAndRelevantObject, Step.ret]⟩

/-! ## Frames in flight -/

theorem slotSafe_append (fence : Nat) (l1 l2 : List Op) :
    ∀ p : List (Nat × Nat), slotSafe fence p (l1 ++ l2) =
      (slotSafe fence p l1 && slotSafe fence (l1.foldl (fun q op => inFlightStep op q) p) l2) := by
  induction l1 with
  | nil => intro p; simp [slotSafe]
  | cons op rest ih => intro p; simp [slotSafe, ih, Bool.and_assoc]

theorem imageSafe_append (l1 l2 : List Op) :
    ∀ p : List (Nat × Nat), imageSafe p (l1 ++ l2) =
      (imageSafe p l1 && imageSafe (l1.foldl (fun q op => inFlightStep op q) p) l2) := by
  induction l1 with
  | nil => intro p; simp [imageSafe]
  | cons op rest ih => intro p; simp [imageSafe, ih, Bool.and_assoc]

theorem slotSafe_of_rebuildCalls (fence : Nat) (l : List Op)
    (h : ∀ op ∈ l, op.isRebuildCall = true) : ∀ p : List (Nat × Nat), slotSafe fence p l = true := by
  induction l with
  | nil => intro p; rfl
  | cons op rest ih =>
    intro p
    simp [slotSafe, Op.usesImage_of_rebuildCall op (h op (List.mem_cons_self op rest)),
      ih (fun x hx => h x (List.mem_cons_of_mem op hx))]

theorem imageSafe_of_rebuildCalls (l : List Op)
    (h : ∀ op ∈ l, op.isRebuildCall = true) : ∀ p : List (Nat × Nat), imageSafe p l = true := by
  induction l with
  | nil => intro p; rfl
  | cons op rest ih =>
    intro p
    simp [imageSafe, Op.usesImage_of_rebuildCall op (h op (List.mem_cons_self op rest)),
      ih (fun x hx => h x (List.mem_cons_of_mem op hx))]

theorem slotSafe_presentCalls (k : Nat) (app : App) (p : List (Nat × Nat)) :
    slotSafe app.m_CurrentFrame p (Draw.presentCalls k app) = true := by
  simp [slotSafe, inFlightStep, Op.usesImage, Draw.presentCalls, Draw.submitCalls,
    Draw.acquireCalls]

theorem slotSafe_submitCalls (k : Nat) (app : App) (p : List (Nat × Nat)) :
    slotSafe app.m_CurrentFrame p (Draw.submitCalls k app) = true := by
  simp [slotSafe, inFlightStep, Op.usesImage, Draw.submitCalls, Draw.acquireCalls]

theorem slotSafe_acquireCalls (app : App) (p : List (Nat × Nat)) :
    slotSafe app.m_CurrentFrame p (Draw.acquireCalls app) = true := by
  simp [slotSafe, inFlightStep, Op.usesImage, Draw.acquireCalls]

theorem imageSafe_presentCalls (k : Nat) (app : App) (p : List (Nat × Nat))
    (h : ∀ q ∈ p, q.2 = k → q.1 = app.m_CurrentFrame) :
    imageSafe p (Draw.presentCalls k app) = true := by
  simp [imageSafe, inFlightStep, Op.usesImage, Draw.presentCalls, Draw.submitCalls,
    Draw.acquireCalls]
  intro a b hab
  by_cases hk : b = k
  · exact Or.inl (h (a, b) hab hk)
  · exact Or.inr hk

theorem imageSafe_submitCalls (k : Nat) (app : App) (p : List (Nat × Nat))
    (h : ∀ q ∈ p, q.2 = k → q.1 = app.m_CurrentFrame) :
    imageSafe p (Draw.submitCalls k app) = true := by
  simp [imageSafe, inFlightStep, Op.usesImage, Draw.submitCalls, Draw.acquireCalls]
  intro a b hab
  by_cases hk : b = k
  · exact Or.inl (h (a, b) hab hk)
  · exact Or.inr hk

theorem imageSafe_acquireCalls (app : App) (p : List (Nat × Nat)) :
    imageSafe p (Draw.acquireCalls app) = true := by
  simp [imageSafe, inFlightStep, Op.usesImage, Draw.acquireCalls]

/-- The trace of `Draw` is the acquisition, or the calls up to the submission,
or the calls up to the presentation, followed by nothing or by calls of the
rebuild. -/
theorem Draw_trace_cases (a : DrawAnswers) (app : App) :
    ∃ rebuild : List Op, (∀ op ∈ rebuild, op.isRebuildCall = true) ∧
      ((Draw a app).trace = Draw.acquireCalls app ++ rebuild ∨
       (Draw a app).trace = Draw.submitCalls a.ImageIndex app ++ rebuild ∨
       (Draw a app).trace = Draw.presentCalls a.ImageIndex app ++ rebuild) := by
  by_cases hst : a.vkAcquireNextImageKHR = VK_ERROR_OUT_OF_DATE_KHR ∨
      a.vkAcquireNextImageKHR = VK_SUBOPTIMAL_KHR
  · refine ⟨_, (RecreateSwapChainAndRelevantObject_inert a.recreate app).2, Or.inl ?_⟩
    rw [Draw_of_acquire_stale a app hst, Step.andThen_ret]
  · have h1 : a.vkAcquireNextImageKHR ≠ VK_ERROR_OUT_OF_DATE_KHR := fun e => hst (Or.inl e)
    have h2 : a.vkAcquireNextImageKHR ≠ VK_SUBOPTIMAL_KHR := fun e => hst (Or.inr e)
    by_cases hacq : a.vkAcquireNextImageKHR = VK_SUCCESS
    · by_cases hsub : a.vkQueueSubmit = VK_SUCCESS
      · by_cases hp : a.vkQueuePresentKHR = VK_ERROR_OUT_OF_DATE_KHR ∨
            a.vkQueuePresentKHR = VK_SUBOPTIMAL_KHR ∨ app.m_bFramebufferResized = true
        · refine ⟨_, (RecreateSwapChainAndRelevantObject_inert a.recreate
            { app with m_bFramebufferResized := false }).2, Or.inr (Or.inr ?_)⟩
          rw [Draw_of_present_stale a app hacq hsub hp, Step.andThen_ret]
        · have p1 : a.vkQueuePresentKHR ≠ VK_ERROR_OUT_OF_DATE_KHR := fun e => hp (Or.inl e)
          have p2 : a.vkQueuePresentKHR ≠ VK_SUBOPTIMAL_KHR := fun e => hp (Or.inr (Or.inl e))
          have p3 : app.m_bFramebufferResized = false := by
            cases hb : app.m_bFramebufferResized
            · rfl
            · exact absurd (Or.inr (Or.inr hb)) hp
          refine ⟨[], by simp, Or.inr (Or.inr ?_)⟩
          by_cases hpr : a.vkQueuePresentKHR = VK_SUCCESS
          · rw [Draw_of_success a app hacq hsub hpr p3]
            simp [Draw.presentCalls, Draw.submitCalls, Draw.acquireCalls]
          · rw [Draw_of_present_error a app hacq hsub p1 p2 p3 hpr]
            simp
      · refine ⟨[], by simp, Or.inr (Or.inl ?_)⟩
        rw [Draw_of_submit_error a app hacq hsub]
        simp
    · refine ⟨[], by simp, Or.inl ?_⟩
      rw [Draw_of_acquire_error a app h1 h2 hacq]
      simp

/-- Counterexample to C7: two frame slots, and the driver returns image index
0 at two acquisitions in a row.  Both frames run to their end.  The second
frame, in slot 1, waits on fence 1 only; it writes the uniform buffers of image
0 and submits command buffer 0 while the frame submitted with image 0 and fence
0 is still in flight. -/
theorem Draws_same_image_in_flight :
    (Draws [exampleDraw 0 0 0 0, exampleDraw 0 0 0 0] exampleApp).outcome = Outcome.returned ∧
    imageSafe [] (Draws [exampleDraw 0 0 0 0, exampleDraw 0 0 0 0] exampleApp).trace = false ∧
    imageSafe [(0, 0)]
      (Draw (exampleDraw 0 0 0 0) { exampleApp with m_CurrentFrame := 1 }).trace = false := by
  refine ⟨by rfl, by decide, by decide⟩

/-- C7, amended.  In a call of `Draw` from any state, with any frames in
flight, any number of slots and any image index returned at the acquisition,
no uniform buffer is written and no command buffer is submitted while a frame
submitted with the in-flight fence of the current slot has not been confirmed
complete by a wait on that fence.  A frame submitted from another slot with the
same image index is not waited for: the uniform buffers of image `k` are
written, and command buffer `k` submitted, with no frame of image `k` in flight
when every frame of image `k` in flight at the call was submitted with the
fence of the current slot. -/
theorem Draw_slot_safe (a : DrawAnswers) (app : App) (inFlight : List (Nat × Nat)) :
    slotSafe app.m_CurrentFrame inFlight (Draw a app).trace = true ∧
    ((∀ q ∈ inFlight, q.2 = a.ImageIndex → q.1 = app.m_CurrentFrame) →
      imageSafe inFlight (Draw a app).trace = true) := by
  obtain ⟨rebuild, hr, hcases⟩ := Draw_trace_cases a app
  constructor
  · rcases hcases with h | h | h <;> rw [h, slotSafe_append]
    · simp [slotSafe_acquireCalls, slotSafe_of_rebuildCalls _ _ hr]
    · simp [slotSafe_submitCalls, slotSafe_of_rebuildCalls _ _ hr]
    · simp [slotSafe_presentCalls, slotSafe_of_rebuildCalls _ _ hr]
  · intro hq
    rcases hcases with h | h | h <;> rw [h, imageSafe_append]
    · simp [imageSafe_acquireCalls, imageSafe_of_rebuildCalls _ hr]
    · simp [imageSafe_submitCalls _ _ _ hq, imageSafe_of_rebuildCalls _ hr]
    · simp [imageSafe_presentCalls _ _ _ hq, imageSafe_of_rebuildCalls _ hr]

/-- Witness of C7, amended: slot 0 of the example application, with a frame of
image 1 in flight that was submitted with fence 0. -/
theorem Draw_slot_safe_witness :
    slotSafe 0 [(0, 1)] (Draw (exampleDraw 0 1 0 0) exampleApp).trace = true ∧
    imageSafe [(0, 1)] (Draw (exampleDraw 0 1 0 0) exampleApp).trace = true :=
  ⟨(Draw_slot_safe (exampleDraw 0 1 0 0) exampleApp [(0, 1)]).1,
   (Draw_slot_safe (exampleDraw 0 1 0 0) exampleApp [(0, 1)]).2 (by decide)⟩


/-! ## The protocol of the rebuild -/

theorem variantPairs_eq (b : BuildAnswers) (t : GraphicsPipelineType) :
    variantPairs b t =
      [ (t.FILL ||| t.FRONT_CULL, (b.vkCreateGraphicsPipelines 0).handle),
        (t.WIREFRAME ||| t.FRONT_CULL, (b.vkCreateGraphicsPipelines 1).handle),
        (t.POINT ||| t.FRONT_CULL, (b.vkCreateGraphicsPipelines 2).handle),
        (t.FILL ||| t.BACK_CULL, (b.vkCreateGraphicsPipelines 3).handle),
        (t.WIREFRAME ||| t.BACK_CULL, (b.vkCreateGraphicsPipelines 4).handle),
        (t.POINT ||| t.BACK_CULL, (b.vkCreateGraphicsPipelines 5).handle),
        (t.FILL ||| t.NONE_CULL, (b.vkCreateGraphicsPipelines 6).handle),
        (t.WIREFRAME ||| t.NONE_CULL, (b.vkCreateGraphicsPipelines 7).handle),
        (t.POINT ||| t.NONE_CULL, (b.vkCreateGraphicsPipelines 8).handle) ] := rfl

theorem variantPairs_handle (b : BuildAnswers) (t : GraphicsPipelineType) :
    ∀ q ∈ variantPairs b t, ∃ j, j < 9 ∧ q.2 = (b.vkCreateGraphicsPipelines j).handle := by
  intro q hq
  rw [variantPairs_eq] at hq
  simp only [List.mem_cons, List.mem_singleton, List.not_mem_nil, or_false] at hq
  rcases hq with rfl | rfl | rfl | rfl | rfl | rfl | rfl | rfl | rfl
  exacts [⟨0, by decide, rfl⟩, ⟨1, by decide, rfl⟩, ⟨2, by decide, rfl⟩, ⟨3, by decide, rfl⟩,
    ⟨4, by decide, rfl⟩, ⟨5, by decide, rfl⟩, ⟨6, by decide, rfl⟩, ⟨7, by decide, rfl⟩,
    ⟨8, by decide, rfl⟩]

theorem variantPairs_key (b : BuildAnswers) (t : GraphicsPipelineType) :
    ∀ key ∈ variantKeys t, ∃ kh ∈ variantPairs b t, kh.1 = key := by
  intro key hkey
  rw [variantPairs_eq]
  simp only [variantKeys, List.mem_cons, List.mem_singleton, List.not_mem_nil, or_false] at hkey
  rcases hkey with rfl | rfl | rfl | rfl | rfl | rfl | rfl | rfl | rfl
  · exact ⟨(t.FILL ||| t.FRONT_CULL, (b.vkCreateGraphicsPipelines 0).handle), by simp, rfl⟩
  · exact ⟨(t.WIREFRAME ||| t.FRONT_CULL, (b.vkCreateGraphicsPipelines 1).handle), by simp, rfl⟩
  · exact ⟨(t.POINT ||| t.FRONT_CULL, (b.vkCreateGraphicsPipelines 2).handle), by simp, rfl⟩
  · exact ⟨(t.FILL ||| t.BACK_CULL, (b.vkCreateGraphicsPipelines 3).handle), by simp, rfl⟩
  · exact ⟨(t.WIREFRAME ||| t.BACK_CULL, (b.vkCreateGraphicsPipelines 4).handle), by simp, rfl⟩
  · exact ⟨(t.POINT ||| t.BACK_CULL, (b.vkCreateGraphicsPipelines 5).handle), by simp, rfl⟩
  · exact ⟨(t.FILL ||| t.NONE_CULL, (b.vkCreateGraphicsPipelines 6).handle), by simp, rfl⟩
  · exact ⟨(t.WIREFRAME ||| t.NONE_CULL, (b.vkCreateGraphicsPipelines 7).handle), by simp, rfl⟩
  · exact ⟨(t.POINT ||| t.NONE_CULL, (b.vkCreateGraphicsPipelines 8).handle), by simp, rfl⟩

/-- After a build that returns, every key of the nine variants maps to a handle
the driver answered during this build. -/
theorem RecreateSwapChainAndRelevantObject.create_pipelines (b : BuildAnswers) (app : App)
    (h : (RecreateSwapChainAndRelevantObject.create b app).outcome = Outcome.returned) :
    ∀ key ∈ variantKeys app.GRAPHICS_PIPELINE_TYPE, ∃ j, j < 9 ∧
      PipelineMap.find (RecreateSwapChainAndRelevantObject.create b app).app.m_GraphicsPipelines
        key = some (b.vkCreateGraphicsPipelines j).handle := by
  intro key hkey
  rw [RecreateSwapChainAndRelevantObject.create_returned b app h]
  obtain ⟨kh, hkh, e⟩ := variantPairs_key b app.GRAPHICS_PIPELINE_TYPE key hkey
  obtain ⟨q, hq, _, hfind⟩ :=
    PipelineMap.find_foldl_insert (variantPairs b app.GRAPHICS_PIPELINE_TYPE)
      app.m_GraphicsPipelines kh hkh
  obtain ⟨j, hj, ej⟩ := variantPairs_handle b app.GRAPHICS_PIPELINE_TYPE q hq
  refine ⟨j, hj, ?_⟩
  rw [← ej, ← e]
  exact PipelineMap.find_foldl_subscript _ _ _ _ _ hfind

theorem exampleRecreateWithKey_keys :
    ∀ w ∈ exampleRecreateWithKey.waits, ∀ e ∈ w.keys, e.build.recordingSucceeds := by
  intro w hw e he
  simp only [exampleRecreateWithKey, List.mem_cons, List.mem_singleton, List.not_mem_nil,
    or_false] at hw
  rcases hw with rfl | rfl
  · simp only [List.mem_singleton] at he
    subst he
    exact ⟨rfl, fun _ => ⟨rfl, rfl⟩⟩
  · simp at he

theorem Op.not_windowWait_and_callbackCall (op : Op) (h1 : op.isWindowWait = true)
    (h2 : op.isCallbackCall = true) : False := by
  cases op <;> simp_all [Op.isWindowWait, Op.isCallbackCall]

set_option maxRecDepth 100000 in
/-- Counterexample to C9: the window is minimised at the first read of the
event wait, and `glfwWaitEvents` delivers the release of the key D.
`KeyboardCallback` waits for the graphics queue and frees the drawing command
buffers before the rebuild has waited for the device: the first four calls of
the rebuild are the read of the size, the event wait, `vkQueueWaitIdle` and
`vkFreeCommandBuffers`, and `vkDeviceWaitIdle` is the call at index 34.  The
rebuild returns. -/
theorem Recreate_frees_during_event_wait :
    (RecreateSwapChainAndRelevantObject exampleRecreateWithKey exampleApp).outcome
      = Outcome.returned ∧
    (RecreateSwapChainAndRelevantObject exampleRecreateWithKey exampleApp).trace.take 4 =
      [ Op.glfwGetFramebufferSize 0 0, Op.glfwWaitEvents,
        Op.vkQueueWaitIdle Queue.m_GraphicsQueue,
        Op.vkFreeCommandBuffers exampleApp.m_CommandPool exampleApp.m_DrawingCommandBuffers ] ∧
    (Op.vkFreeCommandBuffers exampleApp.m_CommandPool
      exampleApp.m_DrawingCommandBuffers).isDestroy = true ∧
    (RecreateSwapChainAndRelevantObject exampleRecreateWithKey exampleApp).trace[34]? =
      some Op.vkDeviceWaitIdle ∧
    Op.vkDeviceWaitIdle ∉
      (RecreateSwapChainAndRelevantObject exampleRecreateWithKey exampleApp).trace.take 34 := by
  refine ⟨by rfl, by rfl, by rfl, by rfl, ?_⟩
  decide

/-- C9, amended.  `RecreateSwapChainAndRelevantObject`, for all answers of the
window system and of the driver and from every state.  (1) It leaves the
uniform buffers, the descriptor pool, sets and set layout, the vertex and index
buffers, the five textures, the sync objects and the current slot index as
they were.  (2) When the window system reports a non-zero width and height at
some read and the driver answers success to every call of the keyboard
callbacks that the event wait runs, the calls are: reads of the framebuffer
size that are zero in some dimension, each followed by an event wait and the
calls of the keyboard callbacks it runs; the read of a size that is non-zero in
both dimensions, its event wait and the calls of the keyboard callbacks it
runs; `vkDeviceWaitIdle`; the calls of `DestroySwapChainAndRelevantObject` on
the state after the event wait, which holds the swapchain information, the
render pass and the pipeline layout of the state at entry; then the calls of
the build, and the rebuild ends as the build ends.  Before the teardown, the
only call that destroys or frees anything is the `vkFreeCommandBuffers` of a
keyboard callback.  (3) When no key event is delivered during the event wait,
no call before the teardown destroys or frees anything, and the teardown is
that of the objects held at entry.  (4) When every read reports a zero
dimension and the driver answers success to every call of the keyboard
callbacks, the rebuild stays in the wait and makes only calls of the event
wait and of the keyboard callbacks it runs.  (5) When the rebuild returns, the
swapchain, its images and image views, the render pass, the pipeline layout,
the pipeline of each of the nine variant keys, the colour and depth image,
memory and view, the framebuffers and the drawing command buffers are the
handles the driver answered during this rebuild.  (6) The rebuild returns when
the conditions of (2) hold and every call of the build succeeds. -/
theorem Recreate_protocol (a : RecreateAnswers) (app : App) :
    ((RecreateSwapChainAndRelevantObject a app).app.m_MvpUniformBuffers = app.m_MvpUniformBuffers ∧
     (RecreateSwapChainAndRelevantObject a app).app.m_LightUniformBuffers
       = app.m_LightUniformBuffers ∧
     (RecreateSwapChainAndRelevantObject a app).app.m_MaterialUniformBuffers
       = app.m_MaterialUniformBuffers ∧
     (RecreateSwapChainAndRelevantObject a app).app.m_DescriptorPool = app.m_DescriptorPool ∧
     (RecreateSwapChainAndRelevantObject a app).app.m_DescriptorSets = app.m_DescriptorSets ∧
     (RecreateSwapChainAndRelevantObject a app).app.m_DescriptorSetLayout
       = app.m_DescriptorSetLayout ∧
     (RecreateSwapChainAndRelevantObject a app).app.m_VertexBuffer = app.m_VertexBuffer ∧
     (RecreateSwapChainAndRelevantObject a app).app.m_IndexBuffer = app.m_IndexBuffer ∧
     (RecreateSwapChainAndRelevantObject a app).app.m_AlbedoTexture = app.m_AlbedoTexture ∧
     (RecreateSwapChainAndRelevantObject a app).app.m_NormalTexture = app.m_NormalTexture ∧
     (RecreateSwapChainAndRelevantObject a app).app.m_MetallicTexture = app.m_MetallicTexture ∧
     (RecreateSwapChainAndRelevantObject a app).app.m_RoughnessTexture
       = app.m_RoughnessTexture ∧
     (RecreateSwapChainAndRelevantObject a app).app.m_AoTexture = app.m_AoTexture ∧
     (RecreateSwapChainAndRelevantObject a app).app.m_ImageAvailableSemaphores
       = app.m_ImageAvailableSemaphores ∧
     (RecreateSwapChainAndRelevantObject a app).app.m_RenderFinishedSemaphores
       = app.m_RenderFinishedSemaphores ∧
     (RecreateSwapChainAndRelevantObject a app).app.m_InFlightFences = app.m_InFlightFences ∧
     (RecreateSwapChainAndRelevantObject a app).app.m_CurrentFrame = app.m_CurrentFrame) ∧
    ((∃ w ∈ a.waits, w.Width ≠ 0 ∧ w.Height ≠ 0) →
      (∀ w ∈ a.waits, ∀ e ∈ w.keys, e.build.recordingSucceeds) →
      ∃ (pre : List Op) (Width Height : Int) (post : List Op),
        (RecreateSwapChainAndRelevantObject a app).trace =
          pre ++ [Op.glfwGetFramebufferSize Width Height, Op.glfwWaitEvents] ++ post
            ++ [Op.vkDeviceWaitIdle]
            ++ (DestroySwapChainAndRelevantObject
                  (RecreateSwapChainAndRelevantObject.wait a.waits app).app).trace
            ++ (RecreateSwapChainAndRelevantObject.create a.build
                  (RecreateSwapChainAndRelevantObject.wait a.waits app).app).trace ∧
        Width ≠ 0 ∧ Height ≠ 0 ∧
        (∀ op ∈ pre, op = Op.glfwWaitEvents ∨
          (∃ w h : Int, op = Op.glfwGetFramebufferSize w h ∧ (w = 0 ∨ h = 0)) ∨
          op.isCallbackCall = true) ∧
        (∀ op ∈ post, op.isCallbackCall = true) ∧
        (∀ op ∈ pre ++ [Op.glfwGetFramebufferSize Width Height, Op.glfwWaitEvents] ++ post
            ++ [Op.vkDeviceWaitIdle], op.isDestroy = true →
          op.isCallbackCall = true ∧
            ∃ pool buffers, op = Op.vkFreeCommandBuffers pool buffers) ∧
        (RecreateSwapChainAndRelevantObject.wait a.waits app).app.m_SwapChainInfo
          = app.m_SwapChainInfo ∧
        (RecreateSwapChainAndRelevantObject.wait a.waits app).app.m_RenderPass
          = app.m_RenderPass ∧
        (RecreateSwapChainAndRelevantObject.wait a.waits app).app.m_PipelineLayout
          = app.m_PipelineLayout ∧
        (RecreateSwapChainAndRelevantObject a app).outcome =
          (RecreateSwapChainAndRelevantObject.create a.build
            (RecreateSwapChainAndRelevantObject.wait a.waits app).app).outcome) ∧
    ((∃ w ∈ a.waits, w.Width ≠ 0 ∧ w.Height ≠ 0) → (∀ w ∈ a.waits, w.keys = []) →
      ∃ (pre : List Op) (Width Height : Int),
        (RecreateSwapChainAndRelevantObject a app).trace =
          pre ++ [Op.glfwGetFramebufferSize Width Height, Op.glfwWaitEvents, Op.vkDeviceWaitIdle]
            ++ (DestroySwapChainAndRelevantObject app).trace
            ++ (RecreateSwapChainAndRelevantObject.create a.build
                  (RecreateSwapChainAndRelevantObject.wait a.waits app).app).trace ∧
        Width ≠ 0 ∧ Height ≠ 0 ∧
        (∀ op ∈ pre, op = Op.glfwWaitEvents ∨
          ∃ w h : Int, op = Op.glfwGetFramebufferSize w h ∧ (w = 0 ∨ h = 0)) ∧
        (∀ op ∈ pre ++ [Op.glfwGetFramebufferSize Width Height, Op.glfwWaitEvents,
          Op.vkDeviceWaitIdle], op.isDestroy = false)) ∧
    ((∀ w ∈ a.waits, w.Width = 0 ∨ w.Height = 0) →
      (∀ w ∈ a.waits, ∀ e ∈ w.keys, e.build.recordingSucceeds) →
      (RecreateSwapChainAndRelevantObject a app).outcome = Outcome.blocked ∧
      ∀ op ∈ (RecreateSwapChainAndRelevantObject a app).trace,
        op.isWindowWait = true ∨ op.isCallbackCall = true) ∧
    ((RecreateSwapChainAndRelevantObject a app).outcome = Outcome.returned →
      (RecreateSwapChainAndRelevantObject a app).app.m_SwapChainInfo.SwapChain
        = a.build.vkCreateSwapchainKHR.handle ∧
      (RecreateSwapChainAndRelevantObject a app).app.m_SwapChainInfo.SwapChainImages
        = a.build.SwapChainImages ∧
      (RecreateSwapChainAndRelevantObject a app).app.m_SwapChainInfo.SwapChainImageViews
        = (List.range a.build.SwapChainImages.length).map
            (fun i => (a.build.SwapChainImageView i).handle) ∧
      (RecreateSwapChainAndRelevantObject a app).app.m_RenderPass
        = a.build.vkCreateRenderPass.handle ∧
      (RecreateSwapChainAndRelevantObject a app).app.m_PipelineLayout
        = a.build.vkCreatePipelineLayout.handle ∧
      (∀ key ∈ variantKeys app.GRAPHICS_PIPELINE_TYPE, ∃ j, j < 9 ∧
        PipelineMap.find (RecreateSwapChainAndRelevantObject a app).app.m_GraphicsPipelines key
          = some (a.build.vkCreateGraphicsPipelines j).handle) ∧
      (RecreateSwapChainAndRelevantObject a app).app.m_SwapChainInfo.ColorImage
        = a.build.Color.vkCreateImage.handle ∧
      (RecreateSwapChainAndRelevantObject a app).app.m_SwapChainInfo.ColorImageMemory
        = a.build.Color.vkAllocateMemory.handle ∧
      (RecreateSwapChainAndRelevantObject a app).app.m_SwapChainInfo.ColorImageView
        = a.build.Color.vkCreateImageView.handle ∧
      (RecreateSwapChainAndRelevantObject a app).app.m_SwapChainInfo.DepthImage
        = a.build.Depth.vkCreateImage.handle ∧
      (RecreateSwapChainAndRelevantObject a app).app.m_SwapChainInfo.DepthImageMemory
        = a.build.Depth.vkAllocateMemory.handle ∧
      (RecreateSwapChainAndRelevantObject a app).app.m_SwapChainInfo.DepthImageView
        = a.build.Depth.vkCreateImageView.handle ∧
      (RecreateSwapChainAndRelevantObject a app).app.m_SwapChainInfo.SwapChainFramebuffers
        = (List.range a.build.SwapChainImages.length).map
            (fun i => (a.build.vkCreateFramebuffer i).handle) ∧
      (RecreateSwapChainAndRelevantObject a app).app.m_DrawingCommandBuffers
        = (List.range a.build.SwapChainImages.length).map a.build.DrawingCommandBuffer) ∧
    ((∃ w ∈ a.waits, w.Width ≠ 0 ∧ w.Height ≠ 0) →
      (∀ w ∈ a.waits, ∀ e ∈ w.keys, e.build.recordingSucceeds) →
      a.build.succeeds app.m_PhysicalDevice →
      (RecreateSwapChainAndRelevantObject a app).outcome = Outcome.returned) := by
  have hk := (RecreateSwapChainAndRelevantObject_inert a app).1
  have hout := RecreateSwapChainAndRelevantObject.wait_outsideCallbacks a.waits app
  refine ⟨⟨congrArg Kept.m_MvpUniformBuffers hk, congrArg Kept.m_LightUniformBuffers hk,
    congrArg Kept.m_MaterialUniformBuffers hk, congrArg Kept.m_DescriptorPool hk,
    congrArg Kept.m_DescriptorSets hk, congrArg Kept.m_DescriptorSetLayout hk,
    congrArg Kept.m_VertexBuffer hk, congrArg Kept.m_IndexBuffer hk,
    congrArg Kept.m_AlbedoTexture hk, congrArg Kept.m_NormalTexture hk,
    congrArg Kept.m_MetallicTexture hk, congrArg Kept.m_RoughnessTexture hk,
    congrArg Kept.m_AoTexture hk, congrArg Kept.m_ImageAvailableSemaphores hk,
    congrArg Kept.m_RenderFinishedSemaphores hk, congrArg Kept.m_InFlightFences hk,
    congrArg Kept.m_CurrentFrame hk⟩, ?_, ?_, ?_, ?_, ?_⟩
  · intro hnz hkeys
    have hw := RecreateSwapChainAndRelevantObject.wait_returns a.waits hnz hkeys app
    obtain ⟨pre, W, H, post, htr, hW, hH, hpre, hpost⟩ :=
      RecreateSwapChainAndRelevantObject.wait_trace a.waits app hw
    refine ⟨pre, W, H, post, ?_, hW, hH, hpre, hpost, ?_,
      congrArg (fun p => p.2.2.1) hout, congrArg (fun p => p.2.2.2.1) hout,
      congrArg (fun p => p.2.2.2.2) hout, ?_⟩
    · rw [RecreateSwapChainAndRelevantObject_of_wait_returned a app hw]
      show (RecreateSwapChainAndRelevantObject.wait a.waits app).trace ++ _ = _
      rw [htr]
      simp only [List.append_assoc, List.cons_append, List.nil_append]
    · intro op hop hd
      have hcall : op.isCallbackCall = true := by
        rcases List.mem_append.mp hop with h1 | h1
        · rcases List.mem_append.mp h1 with h2 | h2
          · rcases List.mem_append.mp h2 with h3 | h3
            · rcases hpre op h3 with rfl | ⟨w, h, rfl, _⟩ | hc
              · cases hd
              · cases hd
              · exact hc
            · simp only [List.mem_cons, List.mem_singleton, List.not_mem_nil, or_false] at h3
              rcases h3 with rfl | rfl <;> cases hd
          · exact hpost op h2
        · simp only [List.mem_singleton] at h1
          subst h1
          cases hd
      exact ⟨hcall, Op.free_of_callbackCall op hcall hd⟩
    · rw [RecreateSwapChainAndRelevantObject_of_wait_returned a app hw]
  · intro hnz hno
    have hkeys : ∀ w ∈ a.waits, ∀ e ∈ w.keys, e.build.recordingSucceeds := by
      intro w hw e he
      rw [hno w hw] at he
      cases he
    have hw := RecreateSwapChainAndRelevantObject.wait_returns a.waits hnz hkeys app
    obtain ⟨pre, W, H, post, htr, hW, hH, hpre, hpost⟩ :=
      RecreateSwapChainAndRelevantObject.wait_trace a.waits app hw
    obtain ⟨happ, hcalls⟩ := RecreateSwapChainAndRelevantObject.wait_of_no_keys a.waits hno app
    have hpost0 : post = [] := by
      cases post with
      | nil => rfl
      | cons op rest =>
        exfalso
        refine Op.not_windowWait_and_callbackCall op (hcalls op ?_)
          (hpost op (List.mem_cons_self op rest))
        rw [htr]
        simp
    subst hpost0
    have hpre0 : ∀ op ∈ pre, op = Op.glfwWaitEvents ∨
        ∃ w h : Int, op = Op.glfwGetFramebufferSize w h ∧ (w = 0 ∨ h = 0) := by
      intro op hop
      rcases hpre op hop with h1 | h1 | h1
      · exact Or.inl h1
      · exact Or.inr h1
      · exact absurd h1 (fun hc => Op.not_windowWait_and_callbackCall op
          (hcalls op (by rw [htr]; simp [hop])) hc)
    refine ⟨pre, W, H, ?_, hW, hH, hpre0, ?_⟩
    · rw [RecreateSwapChainAndRelevantObject_of_wait_returned a app hw]
      have hd : (DestroySwapChainAndRelevantObject
          (RecreateSwapChainAndRelevantObject.wait a.waits app).app).trace =
          (DestroySwapChainAndRelevantObject app).trace := by
        rw [happ]
        rfl
      show (RecreateSwapChainAndRelevantObject.wait a.waits app).trace ++ _ = _
      rw [htr, hd]
      simp only [List.append_assoc, List.cons_append, List.nil_append, List.append_nil]
    · intro op hop
      rcases List.mem_append.mp hop with h1 | h1
      · rcases hpre0 op h1 with rfl | ⟨w, h, rfl, _⟩ <;> rfl
      · simp only [List.mem_cons, List.mem_singleton, List.not_mem_nil, or_false] at h1
        rcases h1 with rfl | rfl | rfl <;> rfl
  · intro hz hkeys
    have hw := RecreateSwapChainAndRelevantObject.wait_blocks a.waits hz hkeys app
    rw [RecreateSwapChainAndRelevantObject_of_blocked a app hw]
    exact ⟨hw, RecreateSwapChainAndRelevantObject.wait_calls a.waits app⟩
  · intro hret
    have hw := RecreateSwapChainAndRelevantObject_wait_of_returned a app hret
    have hc : (RecreateSwapChainAndRelevantObject.create a.build
        (RecreateSwapChainAndRelevantObject.wait a.waits app).app).outcome = Outcome.returned := by
      rw [RecreateSwapChainAndRelevantObject_of_wait_returned a app hw] at hret
      exact hret
    have hp := RecreateSwapChainAndRelevantObject.create_pipelines a.build _ hc
    have hs := RecreateSwapChainAndRelevantObject.create_returned a.build _ hc
    have ht : (RecreateSwapChainAndRelevantObject.wait a.waits app).app.GRAPHICS_PIPELINE_TYPE
        = app.GRAPHICS_PIPELINE_TYPE := congrArg Prod.fst hout
    rw [ht] at hp
    rw [RecreateSwapChainAndRelevantObject_of_wait_returned a app hw]
    refine ⟨?_, ?_, ?_, ?_, ?_, hp, ?_, ?_, ?_, ?_, ?_, ?_, ?_, ?_⟩ <;>
      (dsimp only; rw [hs])
  · intro hnz hkeys hb
    exact RecreateSwapChainAndRelevantObject_returns a app hnz hkeys hb

/-- Witness of C9, amended: the rebuild in which the release of the key D is
delivered while the window is minimised, after whose event wait the state
holds the swapchain information of the state at entry; the example rebuild,
without key events; and a rebuild during which the window stays minimised. -/
theorem Recreate_protocol_witness :
    (RecreateSwapChainAndRelevantObject exampleRecreateWithKey exampleApp).outcome
      = Outcome.returned ∧
    (RecreateSwapChainAndRelevantObject exampleRecreateWithKey
      exampleApp).app.m_SwapChainInfo.SwapChainImages = [111, 112, 113] ∧
    (RecreateSwapChainAndRelevantObject exampleRecreateWithKey
      exampleApp).app.m_MvpUniformBuffers = exampleApp.m_MvpUniformBuffers ∧
    (∃ (pre : List Op) (Width Height : Int),
      (RecreateSwapChainAndRelevantObject (exampleRecreate [111, 112, 113] 100) exampleApp).trace =
        pre ++ [Op.glfwGetFramebufferSize Width Height, Op.glfwWaitEvents, Op.vkDeviceWaitIdle]
          ++ (DestroySwapChainAndRelevantObject exampleApp).trace
          ++ (RecreateSwapChainAndRelevantObject.create (exampleRecreate [111, 112, 113] 100).build
                (RecreateSwapChainAndRelevantObject.wait
                  (exampleRecreate [111, 112, 113] 100).waits exampleApp).app).trace ∧
      Width ≠ 0 ∧ Height ≠ 0 ∧
      (∀ op ∈ pre, op = Op.glfwWaitEvents ∨
        ∃ w h : Int, op = Op.glfwGetFramebufferSize w h ∧ (w = 0 ∨ h = 0)) ∧
      (∀ op ∈ pre ++ [Op.glfwGetFramebufferSize Width Height, Op.glfwWaitEvents,
        Op.vkDeviceWaitIdle], op.isDestroy = false)) ∧
    (RecreateSwapChainAndRelevantObject exampleMinimised exampleApp).outcome
      = Outcome.blocked ∧
    (RecreateSwapChainAndRelevantObject.wait exampleRecreateWithKey.waits
      exampleApp).app.m_SwapChainInfo = exampleApp.m_SwapChainInfo :=
  ⟨(Recreate_protocol exampleRecreateWithKey exampleApp).2.2.2.2.2
     ⟨⟨800, 600, false, []⟩, by simp [exampleRecreateWithKey], by decide, by decide⟩
     exampleRecreateWithKey_keys (exampleBuild_succeeds [111, 112, 113] 100),
   ((Recreate_protocol exampleRecreateWithKey exampleApp).2.2.2.2.1 (by rfl)).2.1,
   (Recreate_protocol exampleRecreateWithKey exampleApp).1.1,
   (Recreate_protocol (exampleRecreate [111, 112, 113] 100) exampleApp).2.2.1
     ⟨⟨800, 600, false, []⟩, by simp [exampleRecreate], by decide, by decide⟩
     (by simp [exampleRecreate]),
   ((Recreate_protocol exampleMinimised exampleApp).2.2.2.1 (by decide)
     exampleMinimised_keys).1,
   (let ⟨_, _, _, _, h⟩ := (Recreate_protocol exampleRecreateWithKey exampleApp).2.1
      ⟨⟨800, 600, false, []⟩, by simp [exampleRecreateWithKey], by decide, by decide⟩
      exampleRecreateWithKey_keys
    h.2.2.2.2.2.2.1)⟩

/-! ## The choices of `CreateSwapChain` -/

/-- C12.  For every surface capability with `minImageCount < 2^32 - 1`, every
`vkCreateSwapchainKHR` call of `CreateSwapChain` requests `minImageCount + 1`
images when `maxImageCount` is 0 or `minImageCount + 1 <= maxImageCount`, and
`maxImageCount` images otherwise; the requested count does not exceed a
non-zero `maxImageCount`; and when the device has a graphics and a present
queue family, `CreateSwapChain` makes exactly one such call. -/
theorem CreateSwapChain_image_count (a : BuildAnswers) (app : App)
    (hmin : a.Support.Capabilities.minImageCount < 2 ^ 32 - 1) :
    (∀ info, Op.vkCreateSwapchainKHR info ∈ (CreateSwapChain a app).trace →
      info.minImageCount =
        (if a.Support.Capabilities.maxImageCount = 0 ∨
            a.Support.Capabilities.minImageCount + 1 ≤ a.Support.Capabilities.maxImageCount
         then a.Support.Capabilities.minImageCount + 1
         else a.Support.Capabilities.maxImageCount) ∧
      (a.Support.Capabilities.maxImageCount ≠ 0 →
        info.minImageCount ≤ a.Support.Capabilities.maxImageCount)) ∧
    ((FindQueueFamilies app.m_PhysicalDevice).IsComplete = true →
      ∃ info, (CreateSwapChain a app).trace = [Op.vkCreateSwapchainKHR info]) := by
  have hmod : (a.Support.Capabilities.minImageCount + 1) % 2 ^ 32 =
      a.Support.Capabilities.minImageCount + 1 := Nat.mod_eq_of_lt (by omega)
  constructor
  · intro info hinfo
    have hcount : info.minImageCount =
        (if a.Support.Capabilities.maxImageCount > 0 ∧
            (a.Support.Capabilities.minImageCount + 1) % 2 ^ 32 >
              a.Support.Capabilities.maxImageCount
         then a.Support.Capabilities.maxImageCount
         else (a.Support.Capabilities.minImageCount + 1) % 2 ^ 32) := by
      revert hinfo
      unfold CreateSwapChain
      dsimp only
      split
      · split
        · intro h
          simp only [Step.throw, List.mem_singleton, Op.vkCreateSwapchainKHR.injEq] at h
          rw [h]
        · intro h
          simp only [Step.ret, List.mem_singleton, Op.vkCreateSwapchainKHR.injEq] at h
          rw [h]
      · intro h
        simp [Step.throw] at h
    rw [hmod] at hcount
    rw [hcount]
    constructor
    · split <;> split <;> omega
    · intro _
      split <;> omega
  · intro hc
    unfold CreateSwapChain
    dsimp only
    split
    · split
      · exact ⟨_, rfl⟩
      · exact ⟨_, rfl⟩
    · rename_i hnot
      exfalso
      revert hc hnot
      generalize FindQueueFamilies app.m_PhysicalDevice = q
      obtain ⟨g, p⟩ := q
      cases g <;> cases p <;> simp [QueueFamilyIndices.IsComplete]

/-- Witness of C12: the example surface (at least 2 images, no upper bound)
and a surface with at most 2 images. -/
theorem CreateSwapChain_image_count_witness :
    (∀ info, Op.vkCreateSwapchainKHR info ∈
        (CreateSwapChain (exampleBuild [111, 112, 113] 100) exampleApp).trace →
      info.minImageCount = 3) ∧
    (∀ info, Op.vkCreateSwapchainKHR info ∈
        (CreateSwapChain
          { exampleBuild [111, 112] 100 with
            Support := { Capabilities := ⟨2, 2, ⟨800, 600⟩, ⟨1, 1⟩, ⟨4096, 4096⟩, 1⟩
                         Formats := [⟨44, 0⟩]
                         PresentModes := [2] } } exampleApp).trace →
      info.minImageCount = 2) ∧
    (∃ info, (CreateSwapChain (exampleBuild [111, 112, 113] 100) exampleApp).trace =
      [Op.vkCreateSwapchainKHR info]) :=
  ⟨fun info h =>
     ((CreateSwapChain_image_count (exampleBuild [111, 112, 113] 100) exampleApp
       (by decide)).1 info h).1,
   fun info h =>
     ((CreateSwapChain_image_count
       { exampleBuild [111, 112] 100 with
         Support := { Capabilities := ⟨2, 2, ⟨800, 600⟩, ⟨1, 1⟩, ⟨4096, 4096⟩, 1⟩
                      Formats := [⟨44, 0⟩]
                      PresentModes := [2] } } exampleApp (by decide)).1 info h).1,
   (CreateSwapChain_image_count (exampleBuild [111, 112, 113] 100) exampleApp (by decide)).2
     (by decide)⟩

/-- C13, the code at the failing input: the surface reports the undefined
extent, the framebuffer of the window is 1024 by 768, inside the bounds 1 by 1
and 4096 by 4096, and the application was constructed with 800 by 600.
`ChooseSwapExtent` returns 800 by 600, not the framebuffer size. -/
theorem ChooseSwapExtent_ignores_framebuffer_size :
    (⟨2, 0, ⟨UINT32_MAX, UINT32_MAX⟩, ⟨1, 1⟩, ⟨4096, 4096⟩, 1⟩ :
      VkSurfaceCapabilitiesKHR).currentExtent.width = 2 ^ 32 - 1 ∧
    ChooseSwapExtent (1024, 768) ⟨2, 0, ⟨UINT32_MAX, UINT32_MAX⟩, ⟨1, 1⟩, ⟨4096, 4096⟩, 1⟩
      800 600 = ⟨800, 600⟩ ∧
    ChooseSwapExtent (1024, 768) ⟨2, 0, ⟨UINT32_MAX, UINT32_MAX⟩, ⟨1, 1⟩, ⟨4096, 4096⟩, 1⟩
      800 600 ≠ ⟨1024, 768⟩ ∧
    (∀ W H : Int,
      ChooseSwapExtent (W, H) ⟨2, 0, ⟨UINT32_MAX, UINT32_MAX⟩, ⟨1, 1⟩, ⟨4096, 4096⟩, 1⟩
        800 600 = ⟨800, 600⟩) := by
  refine ⟨by decide, by decide, by decide, fun W H => ?_⟩
  rfl

/-- C14.  When the width of the current extent that the surface reports is not
the undefined sentinel `2^32 - 1`, `ChooseSwapExtent` returns the current
extent, for every framebuffer size of the window, every initial width and
height and every bounds of the extent. -/
theorem ChooseSwapExtent_of_defined (framebufferSize : Int × Int)
    (Capabilities : VkSurfaceCapabilitiesKHR) (InitWidth InitHeight : Nat)
    (h : Capabilities.currentExtent.width ≠ 2 ^ 32 - 1) :
    ChooseSwapExtent framebufferSize Capabilities InitWidth InitHeight =
      Capabilities.currentExtent := by
  unfold ChooseSwapExtent
  rw [if_pos]
  simpa [UINT32_MAX] using h

/-- Witness of C14: a surface that reports 640 by 480 while the window has a
framebuffer of 1024 by 768. -/
theorem ChooseSwapExtent_of_defined_witness :
    ChooseSwapExtent (1024, 768) ⟨2, 0, ⟨640, 480⟩, ⟨1, 1⟩, ⟨4096, 4096⟩, 1⟩ 800 600 =
      ⟨640, 480⟩ :=
  ChooseSwapExtent_of_defined (1024, 768) ⟨2, 0, ⟨640, 480⟩, ⟨1, 1⟩, ⟨4096, 4096⟩, 1⟩ 800 600
    (by decide)

theorem ChooseSwapPresentMode.loop_eq (l : List Nat) :
    ∀ BestMode : Nat, ChooseSwapPresentMode.loop l BestMode =
      if VK_PRESENT_MODE_MAILBOX_KHR ∈ l then VK_PRESENT_MODE_MAILBOX_KHR
      else if VK_PRESENT_MODE_IMMEDIATE_KHR ∈ l then VK_PRESENT_MODE_IMMEDIATE_KHR
      else BestMode := by
  induction l with
  | nil => intro b; simp [ChooseSwapPresentMode.loop]
  | cons m rest ih =>
    intro b
    unfold ChooseSwapPresentMode.loop
    by_cases h1 : m = VK_PRESENT_MODE_MAILBOX_KHR
    · simp [h1]
    · rw [if_neg h1]
      have h1' : ¬ VK_PRESENT_MODE_MAILBOX_KHR = m := fun e => h1 e.symm
      by_cases h2 : m = VK_PRESENT_MODE_IMMEDIATE_KHR
      · rw [if_pos h2, ih]
        subst h2
        by_cases hm : VK_PRESENT_MODE_MAILBOX_KHR ∈ rest
        · simp [hm]
        · simp [hm, h1']
      · rw [if_neg h2, ih]
        have h2' : ¬ VK_PRESENT_MODE_IMMEDIATE_KHR = m := fun e => h2 e.symm
        simp only [List.mem_cons, h1', h2', false_or]

/-- C15.  For every list of available present modes, `ChooseSwapPresentMode`
returns MAILBOX if MAILBOX occurs in the list, wherever it stands and whatever
else the list holds; otherwise IMMEDIATE if IMMEDIATE occurs in the list;
otherwise FIFO.  A list that holds only FIFO yields FIFO. -/
theorem ChooseSwapPresentMode_choice (AvailablePresentModes : List Nat) :
    (VK_PRESENT_MODE_MAILBOX_KHR ∈ AvailablePresentModes →
      ChooseSwapPresentMode AvailablePresentModes = VK_PRESENT_MODE_MAILBOX_KHR) ∧
    (VK_PRESENT_MODE_MAILBOX_KHR ∉ AvailablePresentModes →
      VK_PRESENT_MODE_IMMEDIATE_KHR ∈ AvailablePresentModes →
      ChooseSwapPresentMode AvailablePresentModes = VK_PRESENT_MODE_IMMEDIATE_KHR) ∧
    (VK_PRESENT_MODE_MAILBOX_KHR ∉ AvailablePresentModes →
      VK_PRESENT_MODE_IMMEDIATE_KHR ∉ AvailablePresentModes →
      ChooseSwapPresentMode AvailablePresentModes = VK_PRESENT_MODE_FIFO_KHR) ∧
    ChooseSwapPresentMode [VK_PRESENT_MODE_FIFO_KHR] = VK_PRESENT_MODE_FIFO_KHR := by
  unfold ChooseSwapPresentMode
  refine ⟨fun h => ?_, fun h1 h2 => ?_, fun h1 h2 => ?_, by decide⟩
  · rw [ChooseSwapPresentMode.loop_eq, if_pos h]
  · rw [ChooseSwapPresentMode.loop_eq, if_neg h1, if_pos h2]
  · rw [ChooseSwapPresentMode.loop_eq, if_neg h1, if_neg h2]

/-- Witness of C15: MAILBOX at the end of a list, a list without MAILBOX, and
a list with neither MAILBOX nor IMMEDIATE. -/
theorem ChooseSwapPresentMode_choice_witness :
    ChooseSwapPresentMode [2, 0, 3, 1] = VK_PRESENT_MODE_MAILBOX_KHR ∧
    ChooseSwapPresentMode [2, 0, 3] = VK_PRESENT_MODE_IMMEDIATE_KHR ∧
    ChooseSwapPresentMode [3, 2] = VK_PRESENT_MODE_FIFO_KHR :=
  ⟨(ChooseSwapPresentMode_choice [2, 0, 3, 1]).1 (by decide),
   (ChooseSwapPresentMode_choice [2, 0, 3]).2.1 (by decide) (by decide),
   (ChooseSwapPresentMode_choice [3, 2]).2.2.1 (by decide) (by decide)⟩

/-- Counterexample to C16: the list holds one format, the undefined format.
The preferred pair does not occur in it, and `ChooseSwapSurfaceFormat` returns
the preferred pair, not the first element of the list. -/
theorem ChooseSwapSurfaceFormat_single_undefined :
    (⟨VK_FORMAT_B8G8R8A8_UNORM, VK_COLOR_SPACE_SRGB_NONLINEAR_KHR⟩ : VkSurfaceFormatKHR) ∉
      [(⟨VK_FORMAT_UNDEFINED, 0⟩ : VkSurfaceFormatKHR)] ∧
    ChooseSwapSurfaceFormat [⟨VK_FORMAT_UNDEFINED, 0⟩] ≠ ⟨VK_FORMAT_UNDEFINED, 0⟩ ∧
    ChooseSwapSurfaceFormat [⟨VK_FORMAT_UNDEFINED, 0⟩] =
      ⟨VK_FORMAT_B8G8R8A8_UNORM, VK_COLOR_SPACE_SRGB_NONLINEAR_KHR⟩ := by
  refine ⟨by decide, by decide, by decide⟩

/-- C16, amended.  For every non-empty list of supported surface formats,
`ChooseSwapSurfaceFormat` returns the pair (B8G8R8A8_UNORM, SRGB_NONLINEAR) if
that pair occurs in the list, or if the list has one element and its format is
the undefined format; otherwise it returns the first element of the list. -/
theorem ChooseSwapSurfaceFormat_choice (first : VkSurfaceFormatKHR)
    (rest : List VkSurfaceFormatKHR) :
    ((⟨VK_FORMAT_B8G8R8A8_UNORM, VK_COLOR_SPACE_SRGB_NONLINEAR_KHR⟩ : VkSurfaceFormatKHR) ∈
        first :: rest →
      ChooseSwapSurfaceFormat (first :: rest) =
        ⟨VK_FORMAT_B8G8R8A8_UNORM, VK_COLOR_SPACE_SRGB_NONLINEAR_KHR⟩) ∧
    (rest = [] → first.format = VK_FORMAT_UNDEFINED →
      ChooseSwapSurfaceFormat (first :: rest) =
        ⟨VK_FORMAT_B8G8R8A8_UNORM, VK_COLOR_SPACE_SRGB_NONLINEAR_KHR⟩) ∧
    ((⟨VK_FORMAT_B8G8R8A8_UNORM, VK_COLOR_SPACE_SRGB_NONLINEAR_KHR⟩ : VkSurfaceFormatKHR) ∉
        first :: rest →
      ¬ (rest = [] ∧ first.format = VK_FORMAT_UNDEFINED) →
      ChooseSwapSurfaceFormat (first :: rest) = first) := by
  refine ⟨fun hmem => ?_, fun h1 h2 => ?_, fun hmem hnot => ?_⟩
  · unfold ChooseSwapSurfaceFormat
    dsimp only
    split
    · rfl
    · split
      · rename_i f hf
        have := List.find?_some hf
        simp only [Bool.and_eq_true, beq_iff_eq] at this
        obtain ⟨fm, cs⟩ := f
        simp only at this
        rw [this.1, this.2]
      · rename_i hf
        rw [List.find?_eq_none] at hf
        have := hf _ hmem
        simp at this
  · unfold ChooseSwapSurfaceFormat
    dsimp only
    rw [if_pos ⟨h1, h2⟩]
  · unfold ChooseSwapSurfaceFormat
    dsimp only
    rw [if_neg hnot]
    split
    · rename_i f hf
      exfalso
      have h1 := List.find?_some hf
      have h2 := List.mem_of_find?_eq_some hf
      simp only [Bool.and_eq_true, beq_iff_eq] at h1
      obtain ⟨fm, cs⟩ := f
      simp only at h1
      rw [h1.1, h1.2] at h2
      exact hmem h2
    · rfl

/-- Witness of C16, amended: the preferred pair in second place, and a list
without it. -/
theorem ChooseSwapSurfaceFormat_choice_witness :
    ChooseSwapSurfaceFormat [⟨37, 0⟩, ⟨44, 0⟩] = ⟨44, 0⟩ ∧
    ChooseSwapSurfaceFormat [⟨0, 7⟩] = ⟨44, 0⟩ ∧
    ChooseSwapSurfaceFormat [⟨37, 0⟩, ⟨50, 0⟩] = ⟨37, 0⟩ :=
  ⟨(ChooseSwapSurfaceFormat_choice ⟨37, 0⟩ [⟨44, 0⟩]).1 (by decide),
   (ChooseSwapSurfaceFormat_choice ⟨0, 7⟩ []).2.1 rfl rfl,
   (ChooseSwapSurfaceFormat_choice ⟨37, 0⟩ [⟨50, 0⟩]).2.2 (by decide) (by decide)⟩

/-- C19, the code at the failing input: the colour attachments support 1, 4
and 16 samples (mask 21) and the depth attachments 1, 2, 4 and 8 (mask 15).
`GetMaxUsableSampleCount` takes the smaller of the two masks as numbers, 15, and
returns 8, whose bit is not set in the colour mask; the largest count with its
bit in both masks is 4. -/
theorem GetMaxUsableSampleCount_min_of_masks :
    GetMaxUsableSampleCount
      { framebufferColorSampleCounts := 21, framebufferDepthSampleCounts := 15 } = 8 ∧
    (21 : Nat) &&& 8 = 0 ∧
    ((21 : Nat) &&& 4 ≠ 0 ∧ (15 : Nat) &&& 4 ≠ 0) ∧
    (∀ n ∈ [64, 32, 16, 8], ¬ ((21 : Nat) &&& n ≠ 0 ∧ (15 : Nat) &&& n ≠ 0)) := by
  refine ⟨by decide, by decide, by decide, by decide⟩

/-! ## Device suitability and selection -/

theorem FindQueueFamilies.loop_isComplete (l : List QueueFamily) :
    ∀ (i : Nat) (Indices : QueueFamilyIndices),
      (FindQueueFamilies.loop l i Indices).IsComplete = true ↔
        (Indices.GraphicsFamily.isSome = true ∨
          ∃ q ∈ l, q.queueCount > 0 ∧ q.queueFlags &&& VK_QUEUE_GRAPHICS_BIT ≠ 0) ∧
        (Indices.PresentFamily.isSome = true ∨
          ∃ q ∈ l, q.queueCount > 0 ∧ q.presentSupport = true) := by
  induction l with
  | nil =>
    intro i Indices
    simp [FindQueueFamilies.loop, QueueFamilyIndices.IsComplete]
  | cons q rest ih =>
    intro i Indices
    have key : ∀ X : QueueFamilyIndices,
        (if X.IsComplete = true then X else FindQueueFamilies.loop rest (i + 1) X).IsComplete
          = true ↔
        (X.GraphicsFamily.isSome = true ∨
          ∃ q ∈ rest, q.queueCount > 0 ∧ q.queueFlags &&& VK_QUEUE_GRAPHICS_BIT ≠ 0) ∧
        (X.PresentFamily.isSome = true ∨
          ∃ q ∈ rest, q.queueCount > 0 ∧ q.presentSupport = true) := by
      intro X
      by_cases hc : X.IsComplete = true
      · rw [if_pos hc]
        simp only [hc, true_iff]
        simp only [QueueFamilyIndices.IsComplete, Bool.and_eq_true] at hc
        exact ⟨Or.inl hc.1, Or.inl hc.2⟩
      · rw [if_neg hc]
        exact ih _ _
    unfold FindQueueFamilies.loop
    dsimp only
    rw [key]
    by_cases hg : q.queueCount > 0 ∧ q.queueFlags &&& VK_QUEUE_GRAPHICS_BIT ≠ 0
    · by_cases hp : q.queueCount > 0 ∧ q.presentSupport = true
      · simp only [if_pos hg, if_pos hp, List.mem_cons, exists_eq_or_imp, Option.isSome_some]
        simp only [eq_true hg, eq_true hp, true_or, or_true, and_self]
      · simp only [if_pos hg, if_neg hp, List.mem_cons, exists_eq_or_imp, Option.isSome_some]
        simp only [eq_true hg, eq_false hp, true_or, or_true, false_or, true_and]
    · by_cases hp : q.queueCount > 0 ∧ q.presentSupport = true
      · simp only [if_neg hg, if_pos hp, List.mem_cons, exists_eq_or_imp, Option.isSome_some]
        simp only [eq_false hg, eq_true hp, true_or, or_true, false_or, and_true]
      · simp only [if_neg hg, if_neg hp, List.mem_cons, exists_eq_or_imp, Option.isSome_some]
        simp only [eq_false hg, eq_false hp, false_or]

theorem mem_foldl_erase (available : List String) :
    ∀ (s : List String), s.Nodup → ∀ x,
      x ∈ available.foldl (fun s extensionName => s.erase extensionName) s ↔
        x ∈ s ∧ x ∉ available := by
  induction available with
  | nil => intro s _ x; simp
  | cons e rest ih =>
    intro s hs x
    simp only [List.foldl_cons]
    rw [ih _ (hs.erase e), hs.mem_erase_iff]
    simp only [List.mem_cons, not_or]
    tauto

theorem CheckPhysicalDeviceExtensionsSupport_iff (Device : PhysicalDevice)
    (Extensions : List String) :
    CheckPhysicalDeviceExtensionsSupport Device Extensions = true ↔
      ∀ e ∈ Extensions, e ∈ Device.extensions := by
  unfold CheckPhysicalDeviceExtensionsSupport
  dsimp only
  rw [List.isEmpty_iff, List.eq_nil_iff_forall_not_mem]
  constructor
  · intro h e he
    by_contra hne
    exact h e ((mem_foldl_erase _ _ (List.nodup_dedup _) e).mpr ⟨List.mem_dedup.mpr he, hne⟩)
  · intro h e he
    have := (mem_foldl_erase _ _ (List.nodup_dedup _) e).mp he
    exact this.2 (h e (List.mem_dedup.mp this.1))

/-- C18.  For every physical device and every list of required extension
names, `IsPhysicalDeviceSuitable` returns true exactly when: some queue family
with at least one queue has the graphics capability; some queue family with at
least one queue, the same or another, supports presentation to the surface;
every required extension name is among the names of the extensions of the
device; the list of surface formats is not empty; the list of present modes is
not empty; and the device supports sampler anisotropy. -/
theorem IsPhysicalDeviceSuitable_iff (Device : PhysicalDevice) (Extensions : List String) :
    IsPhysicalDeviceSuitable Device Extensions = true ↔
      (∃ q ∈ Device.queueFamilies,
        q.queueCount > 0 ∧ q.queueFlags &&& VK_QUEUE_GRAPHICS_BIT ≠ 0) ∧
      (∃ q ∈ Device.queueFamilies, q.queueCount > 0 ∧ q.presentSupport = true) ∧
      (∀ e ∈ Extensions, e ∈ Device.extensions) ∧
      Device.surfaceFormats ≠ [] ∧
      Device.surfacePresentModes ≠ [] ∧
      Device.samplerAnisotropy ≠ 0 := by
  unfold IsPhysicalDeviceSuitable
  dsimp only
  have hq := FindQueueFamilies.loop_isComplete Device.queueFamilies 0 {}
  simp only [Option.isSome_none, Bool.false_eq_true, false_or] at hq
  by_cases he : CheckPhysicalDeviceExtensionsSupport Device Extensions = true
  · have he' := (CheckPhysicalDeviceExtensionsSupport_iff Device Extensions).mp he
    rw [he]
    simp only [if_true, Bool.and_true, Bool.and_eq_true, Bool.not_eq_true', bne_iff_ne, ne_eq]
    unfold FindQueueFamilies
    rw [hq]
    simp only [List.isEmpty_eq_false, ne_eq]
    constructor
    · rintro ⟨⟨⟨g, p⟩, f, m⟩, s⟩
      exact ⟨g, p, he', f, m, s⟩
    · rintro ⟨g, p, _, f, m, s⟩
      exact ⟨⟨⟨g, p⟩, f, m⟩, s⟩
  · have he' : ¬ ∀ e ∈ Extensions, e ∈ Device.extensions :=
      fun h => he ((CheckPhysicalDeviceExtensionsSupport_iff Device Extensions).mpr h)
    have hf : CheckPhysicalDeviceExtensionsSupport Device Extensions = false := by
      cases h : CheckPhysicalDeviceExtensionsSupport Device Extensions
      · rfl
      · exact absurd h he
    rw [hf]
    simp only [Bool.and_false, Bool.false_and, Bool.false_eq_true, false_iff]
    rintro ⟨_, _, h, _⟩
    exact he' h

theorem sum_heaps_le (heaps : List Nat) (h : ∀ size ∈ heaps, size < 2 ^ 64) :
    (heaps.map (fun size => size / 1024 / 1024)).sum ≤ heaps.length * 2 ^ 44 := by
  induction heaps with
  | nil => simp
  | cons s rest ih =>
    have hs : s < 2 ^ 64 := h s (List.mem_cons_self s rest)
    have ih1 := ih (fun x hx => h x (List.mem_cons_of_mem s hx))
    simp only [List.map_cons, List.sum_cons, List.length_cons]
    have : s / 1024 / 1024 < 2 ^ 44 := by omega
    omega

theorem foldl_heaps (heaps : List Nat) :
    ∀ Memory : Nat, Memory + (heaps.map (fun size => size / 1024 / 1024)).sum < 2 ^ 64 →
      heaps.foldl (fun Memory size => (Memory + size / 1024 / 1024) % 2 ^ 64) Memory =
        Memory + (heaps.map (fun size => size / 1024 / 1024)).sum := by
  induction heaps with
  | nil => intro M _; simp
  | cons s rest ih =>
    intro M hM
    simp only [List.map_cons, List.sum_cons] at hM
    simp only [List.foldl_cons, List.map_cons, List.sum_cons]
    rw [Nat.mod_eq_of_lt (by omega), ih _ (by omega)]
    omega

/-- With at most 16 memory heaps (`VK_MAX_MEMORY_HEAPS`) of 64-bit sizes, the
64-bit arithmetic of `App::SelectPhysicalDevice` does not wrap around: the value
it computes is the score in the words of the claim. -/
theorem SelectPhysicalDevice.Memory_eq_deviceScore (Device : PhysicalDevice)
    (hn : Device.memoryHeaps.length ≤ 16) (hs : ∀ size ∈ Device.memoryHeaps, size < 2 ^ 64) :
    SelectPhysicalDevice.Memory Device = deviceScore Device := by
  have hb := sum_heaps_le Device.memoryHeaps hs
  have hb2 : (Device.memoryHeaps.map (fun size => size / 1024 / 1024)).sum ≤ 16 * 2 ^ 44 :=
    le_trans hb (Nat.mul_le_mul_right _ hn)
  unfold SelectPhysicalDevice.Memory deviceScore
  dsimp only
  rw [foldl_heaps _ 0 (by omega)]
  split
  · rw [Nat.mod_eq_of_lt (by omega)]
    omega
  · omega

/-- The invariant of the loop of `App::SelectPhysicalDevice`: either no device
of the list is selected, the state is as before and no suitable device of the
list has a value above `MaxMemory`; or the selected device is a suitable
device of the list, its value is above `MaxMemory` and not below the value of
any suitable device of the list, and the sample count and the name are those of
the selected device. -/
theorem SelectPhysicalDevice.loop_spec (exts : List String) (l : List PhysicalDevice) :
    ∀ (MaxMemory : Nat) (app : App),
      (SelectPhysicalDevice.loop exts l MaxMemory app = app ∧
        (∀ d ∈ l, IsPhysicalDeviceSuitable d exts = true →
          SelectPhysicalDevice.Memory d ≤ MaxMemory)) ∨
      ((SelectPhysicalDevice.loop exts l MaxMemory app).m_PhysicalDevice ∈ l ∧
        IsPhysicalDeviceSuitable
          (SelectPhysicalDevice.loop exts l MaxMemory app).m_PhysicalDevice exts = true ∧
        MaxMemory < SelectPhysicalDevice.Memory
          (SelectPhysicalDevice.loop exts l MaxMemory app).m_PhysicalDevice ∧
        (∀ d ∈ l, IsPhysicalDeviceSuitable d exts = true →
          SelectPhysicalDevice.Memory d ≤ SelectPhysicalDevice.Memory
            (SelectPhysicalDevice.loop exts l MaxMemory app).m_PhysicalDevice) ∧
        (SelectPhysicalDevice.loop exts l MaxMemory app).m_SwapChainInfo.MsaaSamples =
          GetMaxUsableSampleCount
            (SelectPhysicalDevice.loop exts l MaxMemory app).m_PhysicalDevice ∧
        (SelectPhysicalDevice.loop exts l MaxMemory app).m_GpuName =
          (SelectPhysicalDevice.loop exts l MaxMemory app).m_PhysicalDevice.deviceName) := by
  induction l with
  | nil => intro M app; left; exact ⟨rfl, fun d hd => by cases hd⟩
  | cons x rest ih =>
    intro M app
    unfold SelectPhysicalDevice.loop
    by_cases hsuit : IsPhysicalDeviceSuitable x exts = true
    · rw [if_pos hsuit]
      dsimp only
      by_cases hgt : SelectPhysicalDevice.Memory x > M
      · rw [if_pos hgt]
        rcases ih (SelectPhysicalDevice.Memory x)
          { app with
            m_PhysicalDevice := x
            m_SwapChainInfo :=
              { app.m_SwapChainInfo with MsaaSamples := GetMaxUsableSampleCount x }
            m_GpuName := x.deviceName } with ⟨e, hle⟩ | ⟨hm, hs, hlt, hle, h1, h2⟩
        · right
          rw [e]
          refine ⟨List.mem_cons_self x rest, hsuit, hgt, ?_, rfl, rfl⟩
          intro d hd hds
          rcases List.mem_cons.mp hd with rfl | hd
          · exact le_refl _
          · exact hle d hd hds
        · right
          refine ⟨List.mem_cons_of_mem x hm, hs, lt_trans hgt hlt, ?_, h1, h2⟩
          intro d hd hds
          rcases List.mem_cons.mp hd with rfl | hd
          · exact le_of_lt hlt
          · exact hle d hd hds
      · rw [if_neg hgt]
        rcases ih M app with ⟨e, hle⟩ | ⟨hm, hs, hlt, hle, h1, h2⟩
        · left
          refine ⟨e, ?_⟩
          intro d hd hds
          rcases List.mem_cons.mp hd with rfl | hd
          · exact Nat.le_of_not_gt hgt
          · exact hle d hd hds
        · right
          refine ⟨List.mem_cons_of_mem x hm, hs, hlt, ?_, h1, h2⟩
          intro d hd hds
          rcases List.mem_cons.mp hd with rfl | hd
          · exact le_trans (Nat.le_of_not_gt hgt) (le_of_lt hlt)
          · exact hle d hd hds
    · rw [if_neg hsuit]
      rcases ih M app with ⟨e, hle⟩ | ⟨hm, hs, hlt, hle, h1, h2⟩
      · left
        refine ⟨e, ?_⟩
        intro d hd hds
        rcases List.mem_cons.mp hd with rfl | hd
        · exact absurd hds hsuit
        · exact hle d hd hds
      · right
        refine ⟨List.mem_cons_of_mem x hm, hs, hlt, ?_, h1, h2⟩
        intro d hd hds
        rcases List.mem_cons.mp hd with rfl | hd
        · exact absurd hds hsuit
        · exact hle d hd hds

/-- C17.  For every list of enumerated devices whose devices have at most 16
memory heaps of 64-bit sizes.  (1) When some suitable device of the list has a
non-zero score, `SelectPhysicalDevice` leaves in `m_PhysicalDevice` a device of
the list that is suitable and whose score is greater than or equal to the score
of every suitable device of the list, and the recorded MSAA sample count and
GPU name are those of that device; the score is the sum over the memory heaps
of the heap size divided by 1024 and by 1024, multiplied by 50 for a discrete
GPU.  (2) When `m_PhysicalDevice` is the null handle at the call and
`SelectPhysicalDevice` returns, some suitable device of the list has a non-zero
score, so (1) applies. -/
theorem SelectPhysicalDevice_selects (PhysicalDevices : List PhysicalDevice)
    (m_DeviceExtensions : List String) (app : App)
    (hheaps : ∀ d ∈ PhysicalDevices,
      d.memoryHeaps.length ≤ 16 ∧ ∀ size ∈ d.memoryHeaps, size < 2 ^ 64) :
    ((∃ d ∈ PhysicalDevices,
        IsPhysicalDeviceSuitable d m_DeviceExtensions = true ∧ 0 < deviceScore d) →
      (SelectPhysicalDevice PhysicalDevices m_DeviceExtensions app).app.m_PhysicalDevice
        ∈ PhysicalDevices ∧
      IsPhysicalDeviceSuitable
        (SelectPhysicalDevice PhysicalDevices m_DeviceExtensions app).app.m_PhysicalDevice
        m_DeviceExtensions = true ∧
      (∀ d ∈ PhysicalDevices, IsPhysicalDeviceSuitable d m_DeviceExtensions = true →
        deviceScore d ≤ deviceScore
          (SelectPhysicalDevice PhysicalDevices m_DeviceExtensions app).app.m_PhysicalDevice) ∧
      (SelectPhysicalDevice PhysicalDevices m_DeviceExtensions app).app.m_SwapChainInfo.MsaaSamples
        = GetMaxUsableSampleCount
            (SelectPhysicalDevice PhysicalDevices m_DeviceExtensions app).app.m_PhysicalDevice ∧
      (SelectPhysicalDevice PhysicalDevices m_DeviceExtensions app).app.m_GpuName =
        (SelectPhysicalDevice PhysicalDevices m_DeviceExtensions app).app.m_PhysicalDevice.deviceName)
    ∧
    (app.m_PhysicalDevice.handle = VK_NULL_HANDLE →
      (SelectPhysicalDevice PhysicalDevices m_DeviceExtensions app).outcome = Outcome.returned →
      ∃ d ∈ PhysicalDevices,
        IsPhysicalDeviceSuitable d m_DeviceExtensions = true ∧ 0 < deviceScore d) := by
  have happ : PhysicalDevices ≠ [] →
      (SelectPhysicalDevice PhysicalDevices m_DeviceExtensions app).app =
        SelectPhysicalDevice.loop m_DeviceExtensions PhysicalDevices 0 app := by
    intro hne
    unfold SelectPhysicalDevice
    rw [if_neg (by simpa using hne)]
    dsimp only
    split <;> rfl
  have hscore : ∀ d ∈ PhysicalDevices, SelectPhysicalDevice.Memory d = deviceScore d :=
    fun d hd => SelectPhysicalDevice.Memory_eq_deviceScore d (hheaps d hd).1 (hheaps d hd).2
  constructor
  · rintro ⟨d, hd, hds, hpos⟩
    have hne : PhysicalDevices ≠ [] := List.ne_nil_of_mem hd
    rw [happ hne]
    rcases SelectPhysicalDevice.loop_spec m_DeviceExtensions PhysicalDevices 0 app with
      ⟨_, hle⟩ | ⟨hm, hs, _, hle, h1, h2⟩
    · have := hle d hd hds
      rw [hscore d hd] at this
      omega
    · refine ⟨hm, hs, ?_, h1, h2⟩
      intro x hx hxs
      rw [← hscore x hx, ← hscore _ hm]
      exact hle x hx hxs
  · intro hnull hret
    have hne : PhysicalDevices ≠ [] := by
      intro e
      subst e
      simp [SelectPhysicalDevice, Step.throw] at hret
    have hh : (SelectPhysicalDevice.loop m_DeviceExtensions PhysicalDevices 0
        app).m_PhysicalDevice.handle ≠ VK_NULL_HANDLE := by
      intro e
      revert hret
      unfold SelectPhysicalDevice
      rw [if_neg (by simpa using hne)]
      dsimp only
      rw [if_pos e]
      simp [Step.throw]
    rcases SelectPhysicalDevice.loop_spec m_DeviceExtensions PhysicalDevices 0 app with
      ⟨e, _⟩ | ⟨hm, hs, hlt, _, _, _⟩
    · rw [e] at hh
      exact absurd hnull hh
    · refine ⟨_, hm, hs, ?_⟩
      rw [← hscore _ hm]
      omega

/-- Witness of C17: an integrated GPU with 8 GiB and a discrete GPU with 4 GiB
and 256 MiB; the discrete GPU is selected. -/
theorem SelectPhysicalDevice_selects_witness :
    (SelectPhysicalDevice exampleDevices ["VK_KHR_swapchain"] freshApp).outcome
      = Outcome.returned ∧
    (SelectPhysicalDevice exampleDevices ["VK_KHR_swapchain"] freshApp).app.m_GpuName
      = (SelectPhysicalDevice exampleDevices ["VK_KHR_swapchain"]
          freshApp).app.m_PhysicalDevice.deviceName ∧
    (∃ d ∈ exampleDevices,
      IsPhysicalDeviceSuitable d ["VK_KHR_swapchain"] = true ∧ 0 < deviceScore d) :=
  ⟨by decide,
   ((SelectPhysicalDevice_selects exampleDevices ["VK_KHR_swapchain"] freshApp
      (by decide)).1 (by decide)).2.2.2.2,
   (SelectPhysicalDevice_selects exampleDevices ["VK_KHR_swapchain"] freshApp
      (by decide)).2 (by decide) (by decide)⟩

/-! ## The nine pipeline variants -/

theorem Step.andThen_keepsSwapChain (s : Step) (f : App → Step) (app : App)
    (hs : s.keepsSwapChain app) (hf : ∀ x, (f x).keepsSwapChain x) :
    (s.andThen f).keepsSwapChain app := by
  refine ⟨Step.andThen_preserves App.swapChain s f _ hs.1 (fun x => (hf x).1), ?_⟩
  by_cases h : s.outcome = Outcome.returned
  · rw [Step.andThen_of_returned s f h]
    exact (hf _).2
  · rw [Step.andThen_of_not_returned s f h]
    exact hs.2

theorem forLoop_keepsSwapChain (body : Nat → App → Step)
    (hb : ∀ i x, (body i x).keepsSwapChain x) :
    ∀ (l : List Nat) (app : App), (forLoop l body app).keepsSwapChain app := by
  intro l
  induction l with
  | nil => intro app; exact ⟨rfl, by simp [forLoop]⟩
  | cons i rest ih =>
    intro app
    exact Step.andThen_keepsSwapChain _ _ _ (hb i app) (fun x => ih x)

theorem Step.keepsSwapChain_of_eq (s : Step) (app app1 : App) (h : s.keepsSwapChain app1)
    (h1 : app1.swapChain = app.swapChain) : s.keepsSwapChain app :=
  ⟨h.1.trans h1, h.2⟩

theorem CreateSwapChain_not_blocked (a : BuildAnswers) (app : App) :
    (CreateSwapChain a app).outcome ≠ Outcome.blocked := by
  unfold CreateSwapChain
  dsimp only
  split
  · split <;> simp [Step.throw, Step.ret]
  · simp [Step.throw]

theorem CreateImageView_keepsSwapChain (r : Created) (Image : Handle) (Format : VkFormat)
    (AspectFlags : Nat) (ImageView : App → Handle → App)
    (hset : ∀ x h, (ImageView x h).swapChain = x.swapChain) (app : App) :
    (CreateImageView r Image Format AspectFlags ImageView app).keepsSwapChain app := by
  unfold CreateImageView
  split
  · exact ⟨rfl, by simp [Step.throw]⟩
  · exact ⟨hset _ _, by simp [Step.ret]⟩

theorem CreateSwapChainImageViews_keepsSwapChain (a : BuildAnswers) (app : App) :
    (CreateSwapChainImageViews a app).keepsSwapChain app := by
  unfold CreateSwapChainImageViews
  refine Step.keepsSwapChain_of_eq _ _ _ (forLoop_keepsSwapChain _ ?_ _ _) rfl
  intro i x
  apply CreateImageView_keepsSwapChain
  intro _ _
  rfl

theorem CreateRenderPass_keepsSwapChain (a : BuildAnswers) (app : App) :
    (CreateRenderPass a app).keepsSwapChain app := by
  unfold CreateRenderPass
  split
  · exact ⟨rfl, by simp [Step.throw]⟩
  · dsimp only
    split
    · exact ⟨rfl, by simp [Step.throw]⟩
    · exact ⟨rfl, by simp [Step.ret]⟩

theorem CreateGraphicsPipeline.variant_keepsSwapChain (r : Created) (p c k : Nat) (app : App) :
    (CreateGraphicsPipeline.variant r p c k app).keepsSwapChain app := by
  unfold CreateGraphicsPipeline.variant
  dsimp only
  split
  · exact ⟨rfl, by simp [Step.throw]⟩
  · exact ⟨rfl, by simp [Step.ret]⟩

theorem CreateGraphicsPipeline_keepsSwapChain (a : BuildAnswers) (app : App) :
    (CreateGraphicsPipeline a app).keepsSwapChain app := by
  unfold CreateGraphicsPipeline
  dsimp only
  split
  · exact ⟨rfl, by simp [Step.throw]⟩
  · exact ⟨rfl, by simp [Step.throw]⟩
  · split
    · exact ⟨rfl, by simp [Step.throw]⟩
    · split
      · exact ⟨rfl, by simp [Step.throw]⟩
      · split
        · exact ⟨rfl, by simp [Step.throw]⟩
        · repeat (first
            | exact ⟨rfl, by simp [Step.ret]⟩
            | apply Step.andThen_keepsSwapChain _ _ _ _
                (fun s => CreateGraphicsPipeline.variant_keepsSwapChain _ _ _ _ s)
            | apply Step.andThen_keepsSwapChain _ _ _ _ (fun s => ⟨rfl, by simp [Step.ret]⟩))

theorem CreateImage_keepsSwapChain (a : ImageAnswers) (Width Height MipLevels Samples : Nat)
    (Format : VkFormat) (Usage Properties : Nat) (Image ImageMemory : App → Handle → App)
    (h1 : ∀ x h, (Image x h).swapChain = x.swapChain)
    (h2 : ∀ x h, (ImageMemory x h).swapChain = x.swapChain) (app : App) :
    (CreateImage a Width Height MipLevels Samples Format Usage Properties Image ImageMemory
      app).keepsSwapChain app := by
  unfold CreateImage
  dsimp only
  split
  · exact ⟨rfl, by simp [Step.throw]⟩
  · split
    · exact ⟨h1 _ _, by simp [Step.throw]⟩
    · split
      · exact ⟨h1 _ _, by simp [Step.throw]⟩
      · exact ⟨(h2 _ _).trans (h1 _ _), by simp [Step.ret]⟩

theorem TransitionImageLayout_keepsSwapChain (cb Image : Handle) (Format : VkFormat)
    (MipLevels OldLayout NewLayout : Nat) (app : App) :
    (TransitionImageLayout cb Image Format MipLevels OldLayout NewLayout app).keepsSwapChain app := by
  unfold TransitionImageLayout
  dsimp only
  split
  · exact ⟨rfl, by simp [Step.ret]⟩
  · exact ⟨rfl, by simp [Step.throw]⟩

theorem CreateColorResource_keepsSwapChain (a : BuildAnswers) (app : App) :
    (CreateColorResource a app).keepsSwapChain app := by
  unfold CreateColorResource
  dsimp only
  apply Step.andThen_keepsSwapChain
  · apply Step.andThen_keepsSwapChain
    · apply CreateImage_keepsSwapChain <;> intro _ _ <;> rfl
    · intro x
      apply CreateImageView_keepsSwapChain
      intro _ _
      rfl
  · intro x
    exact TransitionImageLayout_keepsSwapChain _ _ _ _ _ _ x

theorem CreateDepthResource_keepsSwapChain (a : BuildAnswers) (app : App) :
    (CreateDepthResource a app).keepsSwapChain app := by
  unfold CreateDepthResource
  split
  · exact ⟨rfl, by simp [Step.throw]⟩
  · apply Step.andThen_keepsSwapChain
    · apply Step.andThen_keepsSwapChain
      · apply CreateImage_keepsSwapChain <;> intro _ _ <;> rfl
      · intro x
        apply CreateImageView_keepsSwapChain
        intro _ _
        rfl
    · intro x
      exact TransitionImageLayout_keepsSwapChain _ _ _ _ _ _ x

theorem CreateFramebuffers_keepsSwapChain (a : BuildAnswers) (app : App) :
    (CreateFramebuffers a app).keepsSwapChain app := by
  unfold CreateFramebuffers
  refine Step.keepsSwapChain_of_eq _ _ _ (forLoop_keepsSwapChain _ ?_ _ _) rfl
  intro i x
  dsimp only
  split
  · exact ⟨rfl, by simp [Step.throw]⟩
  · exact ⟨rfl, by simp [Step.ret]⟩

theorem CreateDrawingCommandBuffers.record_keepsSwapChain (a : BuildAnswers) (i : Nat)
    (app : App) : (CreateDrawingCommandBuffers.record a i app).keepsSwapChain app := by
  unfold CreateDrawingCommandBuffers.record
  dsimp only
  split
  · exact ⟨rfl, by simp [Step.throw]⟩
  · split
    · exact ⟨rfl, by simp [Step.throw]⟩
    · exact ⟨rfl, by simp [Step.ret]⟩

theorem CreateDrawingCommandBuffers_keepsSwapChain (a : BuildAnswers) (app : App) :
    (CreateDrawingCommandBuffers a app).keepsSwapChain app := by
  unfold CreateDrawingCommandBuffers
  dsimp only
  split
  · exact ⟨rfl, by simp [Step.throw]⟩
  · apply Step.andThen_keepsSwapChain
    · exact ⟨rfl, by simp [Step.ret]⟩
    · intro x
      exact forLoop_keepsSwapChain _
        (fun i y => CreateDrawingCommandBuffers.record_keepsSwapChain a i y) _ x

/-- The seven creation steps after `CreateSwapChain` return or throw, and keep
the swapchain handle and the presentable images. -/
theorem RecreateSwapChainAndRelevantObject.create_keepsSwapChain (b : BuildAnswers) (app : App) :
    (RecreateSwapChainAndRelevantObject.create b app).outcome ≠ Outcome.blocked ∧
    (RecreateSwapChainAndRelevantObject.create b app).app.swapChain =
      (CreateSwapChain b app).app.swapChain := by
  have h : ∀ s : Step, s.outcome ≠ Outcome.blocked →
      ((((((((s.andThen (CreateSwapChainImageViews b)).andThen (CreateRenderPass b)).andThen
        (CreateGraphicsPipeline b)).andThen (CreateColorResource b)).andThen
        (CreateDepthResource b)).andThen (CreateFramebuffers b)).andThen
        (CreateDrawingCommandBuffers b))).keepsSwapChain s.app := by
    intro s hs
    refine Step.andThen_keepsSwapChain _ _ _ ?_ (CreateDrawingCommandBuffers_keepsSwapChain b)
    refine Step.andThen_keepsSwapChain _ _ _ ?_ (CreateFramebuffers_keepsSwapChain b)
    refine Step.andThen_keepsSwapChain _ _ _ ?_ (CreateDepthResource_keepsSwapChain b)
    refine Step.andThen_keepsSwapChain _ _ _ ?_ (CreateColorResource_keepsSwapChain b)
    refine Step.andThen_keepsSwapChain _ _ _ ?_ (CreateGraphicsPipeline_keepsSwapChain b)
    refine Step.andThen_keepsSwapChain _ _ _ ?_ (CreateRenderPass_keepsSwapChain b)
    refine Step.andThen_keepsSwapChain _ _ _ ?_ (CreateSwapChainImageViews_keepsSwapChain b)
    exact ⟨rfl, hs⟩
  have := h (CreateSwapChain b app) (CreateSwapChain_not_blocked b app)
  exact ⟨this.2, this.1⟩

theorem forLoop_returned_each (body : Nat → App → Step) (Q : Nat → Prop)
    (hb : ∀ i x, (body i x).outcome = Outcome.returned → Q i) :
    ∀ (l : List Nat) (app : App), (forLoop l body app).outcome = Outcome.returned →
      ∀ i ∈ l, Q i := by
  intro l
  induction l with
  | nil => intro app _ i hi; cases hi
  | cons j rest ih =>
    intro app h i hi
    unfold forLoop at h
    obtain ⟨h1, h2, _, _⟩ := Step.andThen_returned _ _ h
    rcases List.mem_cons.mp hi with rfl | hi
    · exact hb _ app h1
    · exact ih _ h2 i hi

theorem CreateSwapChain_result (a : BuildAnswers) (app : App)
    (h : (CreateSwapChain a app).outcome = Outcome.returned) :
    a.vkCreateSwapchainKHR.result = VK_SUCCESS := by
  revert h
  unfold CreateSwapChain
  dsimp only
  split
  · split
    · intro h; simp [Step.throw] at h
    · rename_i hs
      intro _
      exact not_not.mp hs
  · intro h; simp [Step.throw] at h

theorem CreateImageView_result (r : Created) (Image : Handle) (Format : VkFormat)
    (AspectFlags : Nat) (ImageView : App → Handle → App) (app : App)
    (h : (CreateImageView r Image Format AspectFlags ImageView app).outcome = Outcome.returned) :
    r.result = VK_SUCCESS := by
  revert h
  unfold CreateImageView
  split
  · intro h; simp [Step.throw] at h
  · rename_i hs
    intro _
    exact not_not.mp hs

theorem CreateSwapChainImageViews_result (a : BuildAnswers) (app : App)
    (h : (CreateSwapChainImageViews a app).outcome = Outcome.returned) :
    ∀ i, i < app.m_SwapChainInfo.SwapChainImages.length →
      (a.SwapChainImageView i).result = VK_SUCCESS := by
  intro i hi
  unfold CreateSwapChainImageViews at h
  exact forLoop_returned_each _ (fun i => (a.SwapChainImageView i).result = VK_SUCCESS)
    (fun j x hx => CreateImageView_result _ _ _ _ _ x hx) _ _ h i (List.mem_range.mpr hi)

theorem CreateRenderPass_result (a : BuildAnswers) (app : App)
    (h : (CreateRenderPass a app).outcome = Outcome.returned) :
    a.vkCreateRenderPass.result = VK_SUCCESS := by
  revert h
  unfold CreateRenderPass
  split
  · intro h; simp [Step.throw] at h
  · dsimp only
    split
    · intro h; simp [Step.throw] at h
    · rename_i hs
      intro _
      exact not_not.mp hs

theorem CreateGraphicsPipeline.variant_result (r : Created) (p c k : Nat) (app : App)
    (h : (CreateGraphicsPipeline.variant r p c k app).outcome = Outcome.returned) :
    r.result = VK_SUCCESS := by
  revert h
  unfold CreateGraphicsPipeline.variant
  dsimp only
  split
  · intro h; simp [Step.throw] at h
  · rename_i hs
    intro _
    exact not_not.mp hs

theorem CreateGraphicsPipeline.chain_result (vs : List (Created × Nat × Nat × Nat)) :
    ∀ s : Step,
      (vs.foldl (fun s v => s.andThen (CreateGraphicsPipeline.variant v.1 v.2.1 v.2.2.1 v.2.2.2))
        s).outcome = Outcome.returned →
      s.outcome = Outcome.returned ∧ ∀ v ∈ vs, v.1.result = VK_SUCCESS := by
  induction vs with
  | nil => intro s h; exact ⟨h, fun v hv => by cases hv⟩
  | cons v rest ih =>
    intro s h
    simp only [List.foldl_cons] at h
    obtain ⟨h1, hrest⟩ := ih _ h
    obtain ⟨h2, hv, _, _⟩ := Step.andThen_returned _ _ h1
    refine ⟨h2, ?_⟩
    intro x hx
    rcases List.mem_cons.mp hx with rfl | hx
    · exact CreateGraphicsPipeline.variant_result _ _ _ _ _ hv
    · exact hrest x hx

theorem CreateGraphicsPipeline_result (a : BuildAnswers) (app : App)
    (h : (CreateGraphicsPipeline a app).outcome = Outcome.returned) :
    ∀ n, n < 9 → (a.vkCreateGraphicsPipelines n).result = VK_SUCCESS := by
  revert h
  unfold CreateGraphicsPipeline
  dsimp only
  split
  · intro h; simp [Step.throw] at h
  · intro h; simp [Step.throw] at h
  · split
    · intro h; simp [Step.throw] at h
    · split
      · intro h; simp [Step.throw] at h
      · split
        · intro h; simp [Step.throw] at h
        · intro h
          obtain ⟨h9, _, _, _⟩ := Step.andThen_returned _ _ h
          have hc := (CreateGraphicsPipeline.chain_result
            [ (a.vkCreateGraphicsPipelines 0, VK_POLYGON_MODE_FILL, VK_CULL_MODE_FRONT_BIT,
                app.GRAPHICS_PIPELINE_TYPE.FILL ||| app.GRAPHICS_PIPELINE_TYPE.FRONT_CULL),
              (a.vkCreateGraphicsPipelines 1, VK_POLYGON_MODE_LINE, VK_CULL_MODE_FRONT_BIT,
                app.GRAPHICS_PIPELINE_TYPE.WIREFRAME ||| app.GRAPHICS_PIPELINE_TYPE.FRONT_CULL),
              (a.vkCreateGraphicsPipelines 2, VK_POLYGON_MODE_POINT, VK_CULL_MODE_FRONT_BIT,
                app.GRAPHICS_PIPELINE_TYPE.POINT ||| app.GRAPHICS_PIPELINE_TYPE.FRONT_CULL),
              (a.vkCreateGraphicsPipelines 3, VK_POLYGON_MODE_FILL, VK_CULL_MODE_BACK_BIT,
                app.GRAPHICS_PIPELINE_TYPE.FILL ||| app.GRAPHICS_PIPELINE_TYPE.BACK_CULL),
              (a.vkCreateGraphicsPipelines 4, VK_POLYGON_MODE_LINE, VK_CULL_MODE_BACK_BIT,
                app.GRAPHICS_PIPELINE_TYPE.WIREFRAME ||| app.GRAPHICS_PIPELINE_TYPE.BACK_CULL),
              (a.vkCreateGraphicsPipelines 5, VK_POLYGON_MODE_POINT, VK_CULL_MODE_BACK_BIT,
                app.GRAPHICS_PIPELINE_TYPE.POINT ||| app.GRAPHICS_PIPELINE_TYPE.BACK_CULL),
              (a.vkCreateGraphicsPipelines 6, VK_POLYGON_MODE_FILL, VK_CULL_MODE_NONE,
                app.GRAPHICS_PIPELINE_TYPE.FILL ||| app.GRAPHICS_PIPELINE_TYPE.NONE_CULL),
              (a.vkCreateGraphicsPipelines 7, VK_POLYGON_MODE_LINE, VK_CULL_MODE_NONE,
                app.GRAPHICS_PIPELINE_TYPE.WIREFRAME ||| app.GRAPHICS_PIPELINE_TYPE.NONE_CULL),
              (a.vkCreateGraphicsPipelines 8, VK_POLYGON_MODE_POINT, VK_CULL_MODE_NONE,
                app.GRAPHICS_PIPELINE_TYPE.POINT ||| app.GRAPHICS_PIPELINE_TYPE.NONE_CULL) ]
            _ h9).2
          intro n hn
          have hcases : n = 0 ∨ n = 1 ∨ n = 2 ∨ n = 3 ∨ n = 4 ∨ n = 5 ∨ n = 6 ∨ n = 7 ∨ n = 8 := by
            omega
          rcases hcases with rfl | rfl | rfl | rfl | rfl | rfl | rfl | rfl | rfl
          · exact hc _ (List.mem_cons_self _ _)
          · exact hc _ (List.mem_cons_of_mem _ (List.mem_cons_self _ _))
          · exact hc _ (List.mem_cons_of_mem _ (List.mem_cons_of_mem _ (List.mem_cons_self _ _)))
          · exact hc _ (List.mem_cons_of_mem _ (List.mem_cons_of_mem _
              (List.mem_cons_of_mem _ (List.mem_cons_self _ _))))
          · exact hc _ (List.mem_cons_of_mem _ (List.mem_cons_of_mem _
              (List.mem_cons_of_mem _ (List.mem_cons_of_mem _ (List.mem_cons_self _ _)))))
          · exact hc _ (List.mem_cons_of_mem _ (List.mem_cons_of_mem _
              (List.mem_cons_of_mem _ (List.mem_cons_of_mem _ (List.mem_cons_of_mem _
                (List.mem_cons_self _ _))))))
          · exact hc _ (List.mem_cons_of_mem _ (List.mem_cons_of_mem _
              (List.mem_cons_of_mem _ (List.mem_cons_of_mem _ (List.mem_cons_of_mem _
                (List.mem_cons_of_mem _ (List.mem_cons_self _ _)))))))
          · exact hc _ (List.mem_cons_of_mem _ (List.mem_cons_of_mem _
              (List.mem_cons_of_mem _ (List.mem_cons_of_mem _ (List.mem_cons_of_mem _
                (List.mem_cons_of_mem _ (List.mem_cons_of_mem _ (List.mem_cons_self _ _))))))))
          · exact hc _ (List.mem_cons_of_mem _ (List.mem_cons_of_mem _
              (List.mem_cons_of_mem _ (List.mem_cons_of_mem _ (List.mem_cons_of_mem _
                (List.mem_cons_of_mem _ (List.mem_cons_of_mem _ (List.mem_cons_of_mem _
                  (List.mem_cons_self _ _)))))))))

theorem CreateImage_result (a : ImageAnswers) (Width Height MipLevels Samples : Nat) (Format : VkFormat)
    (Usage Properties : Nat) (Image ImageMemory : App → Handle → App) (app : App)
    (h : (CreateImage a Width Height MipLevels Samples Format Usage Properties Image ImageMemory app).outcome
      = Outcome.returned) :
    a.vkCreateImage.result = VK_SUCCESS ∧ a.vkAllocateMemory.result = VK_SUCCESS := by
  revert h
  unfold CreateImage
  dsimp only
  split
  · intro h; simp [Step.throw] at h
  · rename_i h1
    split
    · intro h; simp [Step.throw] at h
    · split
      · intro h; simp [Step.throw] at h
      · rename_i h2
        intro _
        exact ⟨not_not.mp h1, not_not.mp h2⟩

theorem CreateColorResource_result (a : BuildAnswers) (app : App)
    (h : (CreateColorResource a app).outcome = Outcome.returned) :
    a.Color.vkCreateImage.result = VK_SUCCESS ∧ a.Color.vkAllocateMemory.result = VK_SUCCESS ∧
      a.Color.vkCreateImageView.result = VK_SUCCESS := by
  unfold CreateColorResource at h
  dsimp only at h
  obtain ⟨h2, _, _, _⟩ := Step.andThen_returned _ _ h
  obtain ⟨h1, hv, _, _⟩ := Step.andThen_returned _ _ h2
  have hi := CreateImage_result _ _ _ _ _ _ _ _ _ _ _ h1
  exact ⟨hi.1, hi.2, CreateImageView_result _ _ _ _ _ _ hv⟩

theorem CreateDepthResource_result (a : BuildAnswers) (app : App)
    (h : (CreateDepthResource a app).outcome = Outcome.returned) :
    a.Depth.vkCreateImage.result = VK_SUCCESS ∧ a.Depth.vkAllocateMemory.result = VK_SUCCESS ∧
      a.Depth.vkCreateImageView.result = VK_SUCCESS := by
  revert h
  unfold CreateDepthResource
  split
  · intro h; simp [Step.throw] at h
  · intro h
    obtain ⟨h2, _, _, _⟩ := Step.andThen_returned _ _ h
    obtain ⟨h1, hv, _, _⟩ := Step.andThen_returned _ _ h2
    have hi := CreateImage_result _ _ _ _ _ _ _ _ _ _ _ h1
    exact ⟨hi.1, hi.2, CreateImageView_result _ _ _ _ _ _ hv⟩

theorem CreateFramebuffers_result (a : BuildAnswers) (app : App)
    (h : (CreateFramebuffers a app).outcome = Outcome.returned) :
    ∀ i, i < app.m_SwapChainInfo.SwapChainImages.length →
      (a.vkCreateFramebuffer i).result = VK_SUCCESS := by
  intro i hi
  unfold CreateFramebuffers at h
  refine forLoop_returned_each _ (fun i => (a.vkCreateFramebuffer i).result = VK_SUCCESS)
    ?_ _ _ h i (List.mem_range.mpr hi)
  intro j x
  dsimp only
  split
  · intro h; simp [Step.throw] at h
  · rename_i hs
    intro _
    exact not_not.mp hs

/-- A build that returns: every creation call of the build succeeded. -/
theorem RecreateSwapChainAndRelevantObject.create_result (b : BuildAnswers) (app : App)
    (h : (RecreateSwapChainAndRelevantObject.create b app).outcome = Outcome.returned) :
    b.vkCreateSwapchainKHR.result = VK_SUCCESS ∧
    (∀ i, i < b.SwapChainImages.length → (b.SwapChainImageView i).result = VK_SUCCESS) ∧
    b.vkCreateRenderPass.result = VK_SUCCESS ∧
    (∀ n, n < 9 → (b.vkCreateGraphicsPipelines n).result = VK_SUCCESS) ∧
    (b.Color.vkCreateImage.result = VK_SUCCESS ∧ b.Color.vkAllocateMemory.result = VK_SUCCESS ∧
      b.Color.vkCreateImageView.result = VK_SUCCESS) ∧
    (b.Depth.vkCreateImage.result = VK_SUCCESS ∧ b.Depth.vkAllocateMemory.result = VK_SUCCESS ∧
      b.Depth.vkCreateImageView.result = VK_SUCCESS) ∧
    (∀ i, i < b.SwapChainImages.length → (b.vkCreateFramebuffer i).result = VK_SUCCESS) := by
  unfold RecreateSwapChainAndRelevantObject.create at h
  obtain ⟨h7, _, _, _⟩ := Step.andThen_returned _ _ h
  obtain ⟨h6, g7, e7, _⟩ := Step.andThen_returned _ _ h7
  obtain ⟨h5, g6, e6, _⟩ := Step.andThen_returned _ _ h6
  obtain ⟨h4, g5, e5, _⟩ := Step.andThen_returned _ _ h5
  obtain ⟨h3, g4, e4, _⟩ := Step.andThen_returned _ _ h4
  obtain ⟨h2, g3, e3, _⟩ := Step.andThen_returned _ _ h3
  obtain ⟨h1, g2, e2, _⟩ := Step.andThen_returned _ _ h2
  have s1 := CreateSwapChain_returned b app h1
  have s2 := e2.trans (CreateSwapChainImageViews_returned b _ g2)
  rw [s1] at s2
  have s3 := e3.trans (CreateRenderPass_returned b _ g3)
  rw [s2] at s3
  have s4 := e4.trans (CreateGraphicsPipeline_returned b _ g4)
  rw [s3] at s4
  have s5 := e5.trans (CreateColorResource_returned b _ g5)
  rw [s4] at s5
  have s6 := e6.trans (CreateDepthResource_returned b _ g6)
  rw [s5] at s6
  have r2 := CreateSwapChainImageViews_result b _ g2
  rw [s1] at r2
  have r7 := CreateFramebuffers_result b _ g7
  rw [s6] at r7
  exact ⟨CreateSwapChain_result b app h1, r2, CreateRenderPass_result b _ g3,
    CreateGraphicsPipeline_result b _ g4, CreateColorResource_result b _ g5,
    CreateDepthResource_result b _ g6, r7⟩

theorem Step.andThen_ret_nil (s : Step) : s.andThen (fun x => Step.ret x []) = s := by
  by_cases h : s.outcome = Outcome.returned
  · rw [Step.andThen_of_returned s _ h]
    obtain ⟨x, tr, o⟩ := s
    simp only [Step.ret_app, Step.ret_trace, Step.ret_outcome, List.append_nil] at h ⊢
    rw [h]
  · exact Step.andThen_of_not_returned s _ h

/-- A build is the run of its eight steps. -/
theorem RecreateSwapChainAndRelevantObject.create_eq_runSteps (b : BuildAnswers) (app : App) :
    RecreateSwapChainAndRelevantObject.create b app =
      runSteps (RecreateSwapChainAndRelevantObject.steps b) app := by
  unfold RecreateSwapChainAndRelevantObject.create RecreateSwapChainAndRelevantObject.steps
  simp only [runSteps, Step.andThen_assoc, Step.andThen_ret_nil]

/-- A run of steps that does not return ends in the step that does not return:
the steps before it have returned, no later step runs, and the run has the
state and the outcome in which that step ended. -/
theorem runSteps_stops (l : List (App → Step)) :
    ∀ app : App, (runSteps l app).outcome ≠ Outcome.returned →
      ∃ (k : Nat) (step : App → Step), l[k]? = some step ∧
        (runSteps (l.take k) app).outcome = Outcome.returned ∧
        (step (runSteps (l.take k) app).app).outcome ≠ Outcome.returned ∧
        runSteps l app =
          ⟨(step (runSteps (l.take k) app).app).app,
           (runSteps (l.take k) app).trace ++ (step (runSteps (l.take k) app).app).trace,
           (step (runSteps (l.take k) app).app).outcome⟩ := by
  induction l with
  | nil => intro app h; exact absurd rfl h
  | cons f rest ih =>
    intro app h
    by_cases hf : (f app).outcome = Outcome.returned
    · have hrun : runSteps (f :: rest) app =
          ⟨(runSteps rest (f app).app).app, (f app).trace ++ (runSteps rest (f app).app).trace,
           (runSteps rest (f app).app).outcome⟩ := Step.andThen_of_returned _ _ hf
      rw [hrun] at h
      obtain ⟨k, step, hk, hret, hstep, heq⟩ := ih (f app).app h
      have htake : runSteps ((f :: rest).take (k + 1)) app =
          ⟨(runSteps (rest.take k) (f app).app).app,
           (f app).trace ++ (runSteps (rest.take k) (f app).app).trace,
           (runSteps (rest.take k) (f app).app).outcome⟩ := Step.andThen_of_returned _ _ hf
      refine ⟨k + 1, step, by simpa using hk, ?_, ?_, ?_⟩
      · rw [htake]; exact hret
      · rw [htake]; exact hstep
      · rw [hrun, htake, heq]
        simp only [List.append_assoc]
    · refine ⟨0, f, by simp, rfl, hf, ?_⟩
      have hrun : runSteps (f :: rest) app = f app := Step.andThen_of_not_returned _ _ hf
      rw [hrun]
      rfl

theorem CreateSwapChain_hideStep (a : BuildAnswers) (app : App) :
    (CreateSwapChain a app).app.hideStep 0 = app.hideStep 0 := by
  unfold CreateSwapChain
  dsimp only
  split
  · split <;> rfl
  · rfl

theorem CreateSwapChainImageViews_hideStep (a : BuildAnswers) (app : App) :
    (CreateSwapChainImageViews a app).app.hideStep 1 = app.hideStep 1 := by
  unfold CreateSwapChainImageViews
  refine (forLoop_preserves (App.hideStep 1) _ ?_ _ _).trans rfl
  intro i x
  unfold CreateImageView
  split <;> rfl

theorem CreateRenderPass_hideStep (a : BuildAnswers) (app : App) :
    (CreateRenderPass a app).app.hideStep 2 = app.hideStep 2 := by
  unfold CreateRenderPass
  split
  · rfl
  · dsimp only
    split <;> rfl

theorem CreateGraphicsPipeline.variant_hideStep (r : Created) (p c k : Nat) (app : App) :
    (CreateGraphicsPipeline.variant r p c k app).app.hideStep 3 = app.hideStep 3 := by
  unfold CreateGraphicsPipeline.variant
  dsimp only
  split <;> rfl

theorem CreateGraphicsPipeline_hideStep (a : BuildAnswers) (app : App) :
    (CreateGraphicsPipeline a app).app.hideStep 3 = app.hideStep 3 := by
  unfold CreateGraphicsPipeline
  dsimp only
  split
  · rfl
  · rfl
  · split
    · rfl
    · split
      · rfl
      · split
        · rfl
        · repeat (first
            | exact rfl
            | refine Step.andThen_preserves (App.hideStep 3) _ _ _ ?_
                (fun s => CreateGraphicsPipeline.variant_hideStep _ _ _ _ s)
            | refine Step.andThen_preserves (App.hideStep 3) _ _ _ ?_ (fun s => rfl))

theorem CreateImage_hideStep (k : Nat) (a : ImageAnswers) (Width Height MipLevels Samples : Nat)
    (Format : VkFormat) (Usage Properties : Nat) (Image ImageMemory : App → Handle → App)
    (h1 : ∀ x h, (Image x h).hideStep k = x.hideStep k)
    (h2 : ∀ x h, (ImageMemory x h).hideStep k = x.hideStep k) (app : App) :
    (CreateImage a Width Height MipLevels Samples Format Usage Properties Image ImageMemory
      app).app.hideStep k = app.hideStep k := by
  unfold CreateImage
  dsimp only
  split
  · rfl
  · split
    · exact h1 _ _
    · split
      · exact h1 _ _
      · exact (h2 _ _).trans (h1 _ _)

theorem TransitionImageLayout_hideStep (k : Nat) (cb Image : Handle) (Format : VkFormat)
    (MipLevels OldLayout NewLayout : Nat) (app : App) :
    (TransitionImageLayout cb Image Format MipLevels OldLayout NewLayout app).app.hideStep k
      = app.hideStep k := by
  unfold TransitionImageLayout
  dsimp only
  split <;> rfl

theorem CreateColorResource_hideStep (a : BuildAnswers) (app : App) :
    (CreateColorResource a app).app.hideStep 4 = app.hideStep 4 := by
  unfold CreateColorResource
  dsimp only
  refine Step.andThen_preserves (App.hideStep 4) _ _ _ ?_ ?_
  · refine Step.andThen_preserves (App.hideStep 4) _ _ _ ?_ ?_
    · refine CreateImage_hideStep 4 _ _ _ _ _ _ _ _ _ _ ?_ ?_ app <;> intro _ _ <;> rfl
    · intro x
      unfold CreateImageView
      split <;> rfl
  · intro x
    exact TransitionImageLayout_hideStep 4 _ _ _ _ _ _ x

theorem CreateDepthResource_hideStep (a : BuildAnswers) (app : App) :
    (CreateDepthResource a app).app.hideStep 5 = app.hideStep 5 := by
  unfold CreateDepthResource
  split
  · rfl
  · refine Step.andThen_preserves (App.hideStep 5) _ _ _ ?_ ?_
    · refine Step.andThen_preserves (App.hideStep 5) _ _ _ ?_ ?_
      · refine CreateImage_hideStep 5 _ _ _ _ _ _ _ _ _ _ ?_ ?_ app <;> intro _ _ <;> rfl
      · intro x
        unfold CreateImageView
        split <;> rfl
    · intro x
      exact TransitionImageLayout_hideStep 5 _ _ _ _ _ _ x

theorem CreateFramebuffers_hideStep (a : BuildAnswers) (app : App) :
    (CreateFramebuffers a app).app.hideStep 6 = app.hideStep 6 := by
  unfold CreateFramebuffers
  refine (forLoop_preserves (App.hideStep 6) _ ?_ _ _).trans rfl
  intro i x
  dsimp only
  split <;> rfl

theorem CreateDrawingCommandBuffers_hideStep (a : BuildAnswers) (app : App) :
    (CreateDrawingCommandBuffers a app).app.hideStep 7 = app.hideStep 7 := by
  unfold CreateDrawingCommandBuffers
  dsimp only
  split
  · rfl
  · refine Step.andThen_preserves (App.hideStep 7) _ _ _ rfl ?_
    intro x
    refine forLoop_preserves (App.hideStep 7) _ ?_ _ x
    intro i y
    unfold CreateDrawingCommandBuffers.record
    dsimp only
    split
    · rfl
    · split <;> rfl

/-- Each step of a build, whether it returns or throws, changes no member of
the state but its own. -/
theorem RecreateSwapChainAndRelevantObject.steps_hideStep (b : BuildAnswers) (k : Nat)
    (step : App → Step) (h : (RecreateSwapChainAndRelevantObject.steps b)[k]? = some step)
    (x : App) : (step x).app.hideStep k = x.hideStep k := by
  unfold RecreateSwapChainAndRelevantObject.steps at h
  match k, h with
  | 0, h => cases h; exact CreateSwapChain_hideStep b x
  | 1, h => cases h; exact CreateSwapChainImageViews_hideStep b x
  | 2, h => cases h; exact CreateRenderPass_hideStep b x
  | 3, h => cases h; exact CreateGraphicsPipeline_hideStep b x
  | 4, h => cases h; exact CreateColorResource_hideStep b x
  | 5, h => cases h; exact CreateDepthResource_hideStep b x
  | 6, h => cases h; exact CreateFramebuffers_hideStep b x
  | 7, h => cases h; exact CreateDrawingCommandBuffers_hideStep b x
  | n + 8, h => simp at h

/-- Counterexample to C11: the creation of the second framebuffer fails.  The
build throws, and afterwards the swapchain state is not as it was before the
build: it holds the new swapchain, its images and image views, the new colour
and depth attachments and one new framebuffer, and the pipeline map holds the
nine new pipelines.  The same build fails in the same way in `InitVulkan`. -/
theorem create_failure_keeps_partial_state :
    (exampleFailingBuild.vkCreateFramebuffer 1).result ≠ VK_SUCCESS ∧
    (RecreateSwapChainAndRelevantObject.create exampleFailingBuild exampleApp).outcome =
      Outcome.threw "Failed to create framebuffer!" ∧
    (RecreateSwapChainAndRelevantObject.create exampleFailingBuild exampleApp).app.m_SwapChainInfo
      ≠ exampleApp.m_SwapChainInfo ∧
    (RecreateSwapChainAndRelevantObject.create exampleFailingBuild
      exampleApp).app.m_GraphicsPipelines ≠ exampleApp.m_GraphicsPipelines ∧
    (RecreateSwapChainAndRelevantObject.create exampleFailingBuild
      exampleApp).app.m_SwapChainInfo.SwapChain = 100 ∧
    (RecreateSwapChainAndRelevantObject.create exampleFailingBuild
      exampleApp).app.m_SwapChainInfo.SwapChainFramebuffers = [140, 24, 25] ∧
    (InitVulkan { exampleInit [61, 62, 63] with build := exampleFailingBuild } freshApp).outcome =
      Outcome.threw "Failed to create framebuffer!" ∧
    (InitVulkan { exampleInit [61, 62, 63] with build := exampleFailingBuild }
      freshApp).app.m_SwapChainInfo.SwapChain = 100 := by
  refine ⟨by decide, by rfl, by decide, by decide, by rfl, by rfl, by rfl, by rfl⟩

/-- C11, amended.  A swapchain build never blocks.  If any creation call of
the build fails (the swapchain, an image view of a presentable image, the
render pass, one of the nine pipelines, the image, memory or view of the colour
or of the depth attachment, or a framebuffer), the build throws.  A build that
throws runs no further step: the steps before the failing one have returned,
the failing step throws, and the build ends with the calls of those steps and
with the outcome and the state in which the failing step ended.  Nothing is
rolled back: but for the members that the failing step itself writes, the
state is the one that the steps before it left.  When the device has a
graphics and a present queue family and the creation of the swapchain
succeeded, the state at the end of the build, whether it returned or threw,
holds the new swapchain handle and the new presentable images. -/
theorem create_failure (b : BuildAnswers) (app : App) :
    (RecreateSwapChainAndRelevantObject.create b app).outcome ≠ Outcome.blocked ∧
    ((b.vkCreateSwapchainKHR.result ≠ VK_SUCCESS ∨
      (∃ i, i < b.SwapChainImages.length ∧ (b.SwapChainImageView i).result ≠ VK_SUCCESS) ∨
      b.vkCreateRenderPass.result ≠ VK_SUCCESS ∨
      (∃ n, n < 9 ∧ (b.vkCreateGraphicsPipelines n).result ≠ VK_SUCCESS) ∨
      b.Color.vkCreateImage.result ≠ VK_SUCCESS ∨
      b.Color.vkAllocateMemory.result ≠ VK_SUCCESS ∨
      b.Color.vkCreateImageView.result ≠ VK_SUCCESS ∨
      b.Depth.vkCreateImage.result ≠ VK_SUCCESS ∨
      b.Depth.vkAllocateMemory.result ≠ VK_SUCCESS ∨
      b.Depth.vkCreateImageView.result ≠ VK_SUCCESS ∨
      (∃ i, i < b.SwapChainImages.length ∧ (b.vkCreateFramebuffer i).result ≠ VK_SUCCESS)) →
      ∃ what, (RecreateSwapChainAndRelevantObject.create b app).outcome = Outcome.threw what) ∧
    ((RecreateSwapChainAndRelevantObject.create b app).outcome ≠ Outcome.returned →
      ∃ (k : Nat) (step : App → Step) (what : String),
        k < 8 ∧ (RecreateSwapChainAndRelevantObject.steps b)[k]? = some step ∧
        (runSteps ((RecreateSwapChainAndRelevantObject.steps b).take k) app).outcome
          = Outcome.returned ∧
        (step (runSteps ((RecreateSwapChainAndRelevantObject.steps b).take k) app).app).outcome
          = Outcome.threw what ∧
        (RecreateSwapChainAndRelevantObject.create b app).outcome = Outcome.threw what ∧
        (RecreateSwapChainAndRelevantObject.create b app).trace =
          (runSteps ((RecreateSwapChainAndRelevantObject.steps b).take k) app).trace ++
            (step (runSteps ((RecreateSwapChainAndRelevantObject.steps b).take k)
              app).app).trace ∧
        (RecreateSwapChainAndRelevantObject.create b app).app =
          (step (runSteps ((RecreateSwapChainAndRelevantObject.steps b).take k) app).app).app ∧
        (RecreateSwapChainAndRelevantObject.create b app).app.hideStep k =
          (runSteps ((RecreateSwapChainAndRelevantObject.steps b).take k) app).app.hideStep k) ∧
    ((FindQueueFamilies app.m_PhysicalDevice).IsComplete = true →
      b.vkCreateSwapchainKHR.result = VK_SUCCESS →
      (RecreateSwapChainAndRelevantObject.create b app).app.m_SwapChainInfo.SwapChain =
        b.vkCreateSwapchainKHR.handle ∧
      (RecreateSwapChainAndRelevantObject.create b app).app.m_SwapChainInfo.SwapChainImages =
        b.SwapChainImages) := by
  have hk := RecreateSwapChainAndRelevantObject.create_keepsSwapChain b app
  refine ⟨hk.1, ?_, ?_, ?_⟩
  · intro hfail
    have hnr : (RecreateSwapChainAndRelevantObject.create b app).outcome ≠ Outcome.returned := by
      intro hret
      obtain ⟨r1, r2, r3, r4, ⟨r5, r6, r7⟩, ⟨r8, r9, r10⟩, r11⟩ :=
        RecreateSwapChainAndRelevantObject.create_result b app hret
      rcases hfail with h | ⟨i, hi, h⟩ | h | ⟨n, hn, h⟩ | h | h | h | h | h | h | ⟨i, hi, h⟩
      · exact h r1
      · exact h (r2 i hi)
      · exact h r3
      · exact h (r4 n hn)
      · exact h r5
      · exact h r6
      · exact h r7
      · exact h r8
      · exact h r9
      · exact h r10
      · exact h (r11 i hi)
    cases ho : (RecreateSwapChainAndRelevantObject.create b app).outcome with
    | returned => exact absurd ho hnr
    | threw what => exact ⟨what, rfl⟩
    | blocked => exact absurd ho hk.1
  · intro hnr
    have hb := hk.1
    rw [RecreateSwapChainAndRelevantObject.create_eq_runSteps] at hnr hb ⊢
    obtain ⟨k, step, hstep, hret, hthrow, heq⟩ :=
      runSteps_stops (RecreateSwapChainAndRelevantObject.steps b) app hnr
    have hlt : k < 8 := by
      have := (List.getElem?_eq_some_iff.mp hstep).1
      simpa [RecreateSwapChainAndRelevantObject.steps] using this
    rw [heq] at hb ⊢
    cases ho : (step (runSteps ((RecreateSwapChainAndRelevantObject.steps b).take k)
        app).app).outcome with
    | returned => exact absurd ho hthrow
    | threw what =>
      exact ⟨k, step, what, hlt, hstep, hret, ho, rfl, rfl, rfl,
        RecreateSwapChainAndRelevantObject.steps_hideStep b k step hstep _⟩
    | blocked => exact absurd ho hb
  · intro hc hs
    have hret : (CreateSwapChain b app).outcome = Outcome.returned := by
      unfold CreateSwapChain
      dsimp only
      split
      · rw [if_neg (by simp [hs])]
        rfl
      · rename_i hnot
        exfalso
        revert hc hnot
        generalize FindQueueFamilies app.m_PhysicalDevice = q
        obtain ⟨g, p⟩ := q
        cases g <;> cases p <;> simp [QueueFamilyIndices.IsComplete]
    have e := hk.2
    rw [CreateSwapChain_returned b app hret] at e
    exact ⟨congrArg Prod.fst e, congrArg Prod.snd e⟩

/-- Witness of C11, amended: the build in which the second framebuffer fails.
It throws in its seventh step, `CreateFramebuffers`, after the six steps before
it have returned. -/
theorem create_failure_witness :
    (∃ what, (RecreateSwapChainAndRelevantObject.create exampleFailingBuild exampleApp).outcome =
      Outcome.threw what) ∧
    (RecreateSwapChainAndRelevantObject.create exampleFailingBuild
      exampleApp).app.m_SwapChainInfo.SwapChain = 100 ∧
    (∃ (k : Nat) (step : App → Step) (what : String),
      k < 8 ∧ (RecreateSwapChainAndRelevantObject.steps exampleFailingBuild)[k]? = some step ∧
      (runSteps ((RecreateSwapChainAndRelevantObject.steps exampleFailingBuild).take k)
        exampleApp).outcome = Outcome.returned ∧
      (step (runSteps ((RecreateSwapChainAndRelevantObject.steps exampleFailingBuild).take k)
        exampleApp).app).outcome = Outcome.threw what ∧
      (RecreateSwapChainAndRelevantObject.create exampleFailingBuild exampleApp).outcome
        = Outcome.threw what ∧
      (RecreateSwapChainAndRelevantObject.create exampleFailingBuild exampleApp).trace =
        (runSteps ((RecreateSwapChainAndRelevantObject.steps exampleFailingBuild).take k)
          exampleApp).trace ++
          (step (runSteps ((RecreateSwapChainAndRelevantObject.steps exampleFailingBuild).take k)
            exampleApp).app).trace ∧
      (RecreateSwapChainAndRelevantObject.create exampleFailingBuild exampleApp).app =
        (step (runSteps ((RecreateSwapChainAndRelevantObject.steps exampleFailingBuild).take k)
          exampleApp).app).app ∧
      (RecreateSwapChainAndRelevantObject.create exampleFailingBuild exampleApp).app.hideStep k =
        (runSteps ((RecreateSwapChainAndRelevantObject.steps exampleFailingBuild).take k)
          exampleApp).app.hideStep k) ∧
    (runSteps ((RecreateSwapChainAndRelevantObject.steps exampleFailingBuild).take 6)
      exampleApp).outcome = Outcome.returned ∧
    (CreateFramebuffers exampleFailingBuild
      (runSteps ((RecreateSwapChainAndRelevantObject.steps exampleFailingBuild).take 6)
        exampleApp).app).outcome = Outcome.threw "Failed to create framebuffer!" :=
  ⟨(create_failure exampleFailingBuild exampleApp).2.1
     (Or.inr (Or.inr (Or.inr (Or.inr (Or.inr (Or.inr (Or.inr (Or.inr (Or.inr (Or.inr
       ⟨1, by decide, by decide⟩)))))))))),
   ((create_failure exampleFailingBuild exampleApp).2.2.2 (by decide) (by decide)).1,
   (create_failure exampleFailingBuild exampleApp).2.2.1 (by decide),
   by rfl, by rfl⟩

/-! ## The memory type search -/

theorem and_one_shiftLeft_ne_zero (n i : Nat) : n &&& (1 <<< i) ≠ 0 ↔ n.testBit i = true := by
  rw [Nat.one_shiftLeft, Nat.and_two_pow]
  cases h : n.testBit i <;> simp

theorem and_eq_right_iff (flags p : Nat) :
    flags &&& p = p ↔ ∀ b, p.testBit b = true → flags.testBit b = true := by
  constructor
  · intro h b hb
    have := congrArg (fun n => n.testBit b) h
    simp only [Nat.testBit_and, hb, Bool.and_true] at this
    exact this
  · intro h
    apply Nat.eq_of_testBit_eq
    intro b
    rw [Nat.testBit_and]
    cases hb : p.testBit b
    · simp
    · simp [h b hb]

theorem FindMemoryType.loop_ok (TypeFilter Properties : Nat) :
    ∀ (l : List Nat) (i0 i : Nat),
      FindMemoryType.loop l i0 TypeFilter Properties = .ok i ↔
        i0 ≤ i ∧
        (∃ propertyFlags, l[i - i0]? = some propertyFlags ∧ TypeFilter.testBit i = true ∧
          ∀ b, Properties.testBit b = true → propertyFlags.testBit b = true) ∧
        ∀ j, i0 ≤ j → j < i → ¬ ∃ propertyFlags, l[j - i0]? = some propertyFlags ∧
          TypeFilter.testBit j = true ∧
          ∀ b, Properties.testBit b = true → propertyFlags.testBit b = true := by
  intro l
  induction l with
  | nil =>
    intro i0 i
    simp [FindMemoryType.loop]
  | cons propertyFlags rest ih =>
    intro i0 i
    unfold FindMemoryType.loop
    by_cases hc : TypeFilter &&& (1 <<< i0) ≠ 0 ∧ propertyFlags &&& Properties = Properties
    · rw [if_pos hc]
      have hbit := (and_one_shiftLeft_ne_zero TypeFilter i0).mp hc.1
      have hinc := (and_eq_right_iff propertyFlags Properties).mp hc.2
      constructor
      · intro h
        have hi : i0 = i := by injection h
        subst hi
        refine ⟨le_refl _, ⟨propertyFlags, by simp, hbit, hinc⟩, ?_⟩
        intro j hj hlt
        omega
      · rintro ⟨hle, _, hmin⟩
        rcases Nat.eq_or_lt_of_le hle with h | h
        · rw [h]
        · exact absurd ⟨propertyFlags, by simp, hbit, hinc⟩ (hmin i0 (le_refl _) h)
    · rw [if_neg hc]
      have hno : ¬ (TypeFilter.testBit i0 = true ∧
          ∀ b, Properties.testBit b = true → propertyFlags.testBit b = true) := by
        rintro ⟨h1, h2⟩
        exact hc ⟨(and_one_shiftLeft_ne_zero TypeFilter i0).mpr h1,
          (and_eq_right_iff propertyFlags Properties).mpr h2⟩
      rw [ih (i0 + 1) i]
      constructor
      · rintro ⟨hle, ⟨f, hf, hb, hi⟩, hmin⟩
        refine ⟨by omega, ⟨f, ?_, hb, hi⟩, ?_⟩
        · have : i - i0 = (i - (i0 + 1)) + 1 := by omega
          rw [this, List.getElem?_cons_succ]
          exact hf
        · intro j hj hlt
          rcases Nat.eq_or_lt_of_le hj with h | h
          · subst h
            rintro ⟨f2, hf2, hb2, hi2⟩
            simp at hf2
            subst hf2
            exact hno ⟨hb2, hi2⟩
          · have hmj := hmin j (by omega) hlt
            have : j - i0 = (j - (i0 + 1)) + 1 := by omega
            rw [this, List.getElem?_cons_succ]
            exact hmj
      · rintro ⟨hle, ⟨f, hf, hb, hi⟩, hmin⟩
        have hne : i0 ≠ i := by
          intro h
          subst h
          simp at hf
          subst hf
          exact hno ⟨hb, hi⟩
        have hlt : i0 < i := by omega
        refine ⟨by omega, ⟨f, ?_, hb, hi⟩, ?_⟩
        · have : i - i0 = (i - (i0 + 1)) + 1 := by omega
          rw [this, List.getElem?_cons_succ] at hf
          exact hf
        · intro j hj hjlt
          have hmj := hmin j (by omega) hjlt
          have : j - i0 = (j - (i0 + 1)) + 1 := by omega
          rw [this, List.getElem?_cons_succ] at hmj
          exact hmj

theorem FindMemoryType.loop_error (TypeFilter Properties : Nat) :
    ∀ (l : List Nat) (i0 : Nat),
      (∃ what, FindMemoryType.loop l i0 TypeFilter Properties = .error what) ↔
        ∀ i, ¬ FindMemoryType.loop l i0 TypeFilter Properties = .ok i := by
  intro l i0
  cases h : FindMemoryType.loop l i0 TypeFilter Properties with
  | error what => simp
  | ok i => simp

/-- C25.  For every memory-type table, type filter and required property
flags: `FindMemoryType` returns the index `i` exactly when `i` is the least
index below the memory-type count such that bit `i` of the type filter is set
and the property flags of type `i` include every required flag; and it raises
an error exactly when no index has that property. -/
theorem FindMemoryType_least (Device : PhysicalDevice) (TypeFilter Properties : Nat) :
    (∀ i, FindMemoryType Device TypeFilter Properties = .ok i ↔
      memoryTypeFits Device TypeFilter Properties i ∧
      ∀ j < i, ¬ memoryTypeFits Device TypeFilter Properties j) ∧
    ((∃ what, FindMemoryType Device TypeFilter Properties = .error what) ↔
      ∀ i, ¬ memoryTypeFits Device TypeFilter Properties i) := by
  have hok : ∀ i, FindMemoryType Device TypeFilter Properties = .ok i ↔
      memoryTypeFits Device TypeFilter Properties i ∧
      ∀ j < i, ¬ memoryTypeFits Device TypeFilter Properties j := by
    intro i
    unfold FindMemoryType memoryTypeFits
    rw [FindMemoryType.loop_ok]
    simp only [Nat.sub_zero, Nat.zero_le, true_and, forall_const]
  refine ⟨hok, ?_⟩
  unfold FindMemoryType
  rw [FindMemoryType.loop_error]
  constructor
  · intro h i hi
    -- a least index with the property exists
    have hex : ∃ n, memoryTypeFits Device TypeFilter Properties n := ⟨i, hi⟩
    classical
    have hmin := Nat.find_spec hex
    have hlt : ∀ j < Nat.find hex, ¬ memoryTypeFits Device TypeFilter Properties j :=
      fun j hj => Nat.find_min hex hj
    exact h (Nat.find hex) ((hok (Nat.find hex)).mpr ⟨hmin, hlt⟩)
  · intro h i hi
    exact h i ((hok i).mp hi).1

/-! ## Keyboard control of the pipeline variant -/

theorem App.modesValid_key (app : App) (h : app.modesValid) :
    (app.m_GraphicsPipelineDisplayMode ||| app.m_GraphicsPipelineCullMode) ∈
      variantKeys app.GRAPHICS_PIPELINE_TYPE := by
  obtain ⟨hd, hc⟩ := h
  rcases hd with hd | hd | hd <;> rcases hc with hc | hc | hc <;> rw [hd, hc] <;>
    simp [variantKeys]

theorem CreateDrawingCommandBuffers.record_variant (t : GraphicsPipelineType) (m : PipelineMap)
    (hm : ∀ key ∈ variantKeys t, (PipelineMap.find m key).isSome = true)
    (a : BuildAnswers) (i : Nat) (app : App) (h : keyboardInvariant t m app) :
    keyboardInvariant t m (CreateDrawingCommandBuffers.record a i app).app ∧
      ∀ op ∈ (CreateDrawingCommandBuffers.record a i app).trace, bindsVariant t m op := by
  obtain ⟨ht, hv, hmap⟩ := h
  have hkey := App.modesValid_key app hv
  rw [ht] at hkey
  obtain ⟨p, hp⟩ := Option.isSome_iff_exists.mp (hm _ hkey)
  have hsub : PipelineMap.subscript app.m_GraphicsPipelines
      (app.m_GraphicsPipelineDisplayMode ||| app.m_GraphicsPipelineCullMode) = (m, p) := by
    unfold PipelineMap.subscript
    rw [hmap, hp]
  unfold CreateDrawingCommandBuffers.record
  dsimp only
  rw [hsub]
  have hstate : keyboardInvariant t m { app with m_GraphicsPipelines := m } := ⟨ht, hv, rfl⟩
  split
  · refine ⟨⟨ht, hv, hmap⟩, ?_⟩
    intro op hop cb q e
    simp [Step.throw] at hop
    subst hop
    cases e
  · have hops : ∀ op ∈
        [ Op.vkBeginCommandBuffer (app.m_DrawingCommandBuffers.getD i VK_NULL_HANDLE),
          Op.vkCmdBeginRenderPass (app.m_DrawingCommandBuffers.getD i VK_NULL_HANDLE)
            app.m_RenderPass (app.m_SwapChainInfo.SwapChainFramebuffers.getD i VK_NULL_HANDLE),
          Op.vkCmdBindPipeline (app.m_DrawingCommandBuffers.getD i VK_NULL_HANDLE) p,
          Op.vkCmdBindVertexBuffers (app.m_DrawingCommandBuffers.getD i VK_NULL_HANDLE)
            app.m_VertexBuffer.Buffer,
          Op.vkCmdBindIndexBuffer (app.m_DrawingCommandBuffers.getD i VK_NULL_HANDLE)
            app.m_IndexBuffer.Buffer,
          Op.vkCmdBindDescriptorSets (app.m_DrawingCommandBuffers.getD i VK_NULL_HANDLE)
            app.m_PipelineLayout (app.m_DescriptorSets.getD i VK_NULL_HANDLE),
          Op.vkCmdDrawIndexed (app.m_DrawingCommandBuffers.getD i VK_NULL_HANDLE)
            app.m_Indices.length,
          Op.vkCmdEndRenderPass (app.m_DrawingCommandBuffers.getD i VK_NULL_HANDLE),
          Op.vkEndCommandBuffer (app.m_DrawingCommandBuffers.getD i VK_NULL_HANDLE) ],
        bindsVariant t m op := by
      intro op hop cb q e
      subst e
      simp at hop
      exact ⟨_, hkey, by rw [hp, hop.2]⟩
    split
    · exact ⟨hstate, hops⟩
    · exact ⟨hstate, hops⟩

theorem CreateDrawingCommandBuffers_variant (t : GraphicsPipelineType) (m : PipelineMap)
    (hm : ∀ key ∈ variantKeys t, (PipelineMap.find m key).isSome = true)
    (a : BuildAnswers) (app : App) (h : keyboardInvariant t m app) :
    keyboardInvariant t m (CreateDrawingCommandBuffers a app).app ∧
      ∀ op ∈ (CreateDrawingCommandBuffers a app).trace, bindsVariant t m op := by
  unfold CreateDrawingCommandBuffers
  dsimp only
  split
  · refine ⟨h, ?_⟩
    intro op hop cb q e
    simp [Step.throw] at hop
    subst hop
    cases e
  · apply Step.andThen_invariant
    · refine ⟨h, ?_⟩
      intro op hop cb q e
      simp [Step.ret] at hop
      subst hop
      cases e
    · intro x hx
      exact forLoop_invariant _ _ _
        (fun i y hy => CreateDrawingCommandBuffers.record_variant t m hm a i y hy) _ x hx

theorem RecreateDrawingCommandBuffer_variant (t : GraphicsPipelineType) (m : PipelineMap)
    (hm : ∀ key ∈ variantKeys t, (PipelineMap.find m key).isSome = true)
    (a : BuildAnswers) (app : App) (h : keyboardInvariant t m app) :
    keyboardInvariant t m (RecreateDrawingCommandBuffer a app).app ∧
      ∀ op ∈ (RecreateDrawingCommandBuffer a app).trace, bindsVariant t m op := by
  unfold RecreateDrawingCommandBuffer
  apply Step.andThen_invariant
  · refine ⟨h, ?_⟩
    intro op hop cb q e
    subst e
    simp [Step.ret] at hop
  · intro x hx
    exact CreateDrawingCommandBuffers_variant t m hm a x hx

theorem KeyboardCallback.nextDisplayMode_valid (t : GraphicsPipelineType) (mode : Nat) :
    KeyboardCallback.nextDisplayMode t mode = t.FILL ∨
    KeyboardCallback.nextDisplayMode t mode = t.WIREFRAME ∨
    KeyboardCallback.nextDisplayMode t mode = t.POINT := by
  unfold KeyboardCallback.nextDisplayMode
  split
  · exact Or.inr (Or.inl rfl)
  · split
    · exact Or.inr (Or.inr rfl)
    · split
      · exact Or.inl rfl
      · exact Or.inl rfl

theorem KeyboardCallback.nextCullMode_valid (t : GraphicsPipelineType) (mode : Nat) :
    KeyboardCallback.nextCullMode t mode = t.NONE_CULL ∨
    KeyboardCallback.nextCullMode t mode = t.FRONT_CULL ∨
    KeyboardCallback.nextCullMode t mode = t.BACK_CULL := by
  unfold KeyboardCallback.nextCullMode
  split
  · exact Or.inr (Or.inl rfl)
  · split
    · exact Or.inr (Or.inr rfl)
    · split
      · exact Or.inl rfl
      · exact Or.inl rfl

theorem KeyboardCallback_variant (t : GraphicsPipelineType) (m : PipelineMap)
    (hm : ∀ key ∈ variantKeys t, (PipelineMap.find m key).isSome = true)
    (a : BuildAnswers) (Key Action : Int) (app : App) (h : keyboardInvariant t m app) :
    keyboardInvariant t m (KeyboardCallback a Key Action app).app ∧
      ∀ op ∈ (KeyboardCallback a Key Action app).trace, bindsVariant t m op := by
  have hret : ∀ x : App, keyboardInvariant t m x →
      keyboardInvariant t m (Step.ret x []).app ∧
        ∀ op ∈ (Step.ret x []).trace, bindsVariant t m op :=
    fun x hx => ⟨hx, by simp⟩
  unfold KeyboardCallback
  apply Step.andThen_invariant
  · apply Step.andThen_invariant
    · apply Step.andThen_invariant
      · split
        · exact RecreateDrawingCommandBuffer_variant t m hm a _
            ⟨h.1, ⟨Or.inl rfl, Or.inl rfl⟩, h.2.2⟩
        · exact hret app h
      · intro x hx
        split
        · exact RecreateDrawingCommandBuffer_variant t m hm a _
            ⟨hx.1, ⟨KeyboardCallback.nextDisplayMode_valid _ _, hx.2.1.2⟩, hx.2.2⟩
        · exact hret x hx
    · intro x hx
      split
      · exact RecreateDrawingCommandBuffer_variant t m hm a _
          ⟨hx.1, ⟨hx.2.1.1, KeyboardCallback.nextCullMode_valid _ _⟩, hx.2.2⟩
      · exact hret x hx
  · intro x hx
    split
    · refine ⟨hx, ?_⟩
      intro op hop cb q e
      subst e
      simp [Step.ret] at hop
    · exact hret x hx

theorem KeyboardCallbacks_variant (t : GraphicsPipelineType) (m : PipelineMap)
    (hm : ∀ key ∈ variantKeys t, (PipelineMap.find m key).isSome = true) :
    ∀ (events : List KeyEvent) (app : App), keyboardInvariant t m app →
      keyboardInvariant t m (KeyboardCallbacks events app).app ∧
        ∀ op ∈ (KeyboardCallbacks events app).trace, bindsVariant t m op := by
  intro events
  induction events with
  | nil => intro app h; exact ⟨h, by simp [KeyboardCallbacks]⟩
  | cons e rest ih =>
    intro app h
    unfold KeyboardCallbacks
    exact Step.andThen_invariant _ _ _ _ (KeyboardCallback_variant t m hm e.build e.Key e.Action app h)
      (fun x hx => ih x hx)

theorem RecreateDrawingCommandBuffer_modes (a : BuildAnswers) (app : App) :
    (RecreateDrawingCommandBuffer a app).app.modes = app.modes := by
  unfold RecreateDrawingCommandBuffer
  refine Step.andThen_preserves App.modes _ _ _ rfl ?_
  intro x
  unfold CreateDrawingCommandBuffers
  dsimp only
  split
  · rfl
  · refine Step.andThen_preserves App.modes _ _ _ rfl ?_
    intro y
    refine forLoop_preserves App.modes _ ?_ _ y
    intro i z
    unfold CreateDrawingCommandBuffers.record
    dsimp only
    split
    · rfl
    · split <;> rfl

theorem App.modesValid_of_modes (x app : App) (h : x.modes = app.modes) (hv : app.modesValid) :
    x.modesValid := by
  unfold App.modes at h
  simp only [Prod.mk.injEq] at h
  obtain ⟨h1, h2, h3⟩ := h
  unfold App.modesValid
  rw [h1, h2, h3]
  exact hv

theorem KeyboardCallback_valid (a : BuildAnswers) (Key Action : Int) (app : App)
    (h : app.modesValid) :
    (KeyboardCallback a Key Action app).app.GRAPHICS_PIPELINE_TYPE = app.GRAPHICS_PIPELINE_TYPE ∧
      (KeyboardCallback a Key Action app).app.modesValid := by
  have key : ∀ x : App, x.GRAPHICS_PIPELINE_TYPE = app.GRAPHICS_PIPELINE_TYPE ∧ x.modesValid →
      (RecreateDrawingCommandBuffer a x).app.GRAPHICS_PIPELINE_TYPE = app.GRAPHICS_PIPELINE_TYPE ∧
        (RecreateDrawingCommandBuffer a x).app.modesValid := by
    intro x hx
    have e := RecreateDrawingCommandBuffer_modes a x
    refine ⟨?_, App.modesValid_of_modes _ x e hx.2⟩
    have := congrArg Prod.fst e
    exact this.trans hx.1
  have hP : ∀ (s : Step) (f : App → Step),
      (s.app.GRAPHICS_PIPELINE_TYPE = app.GRAPHICS_PIPELINE_TYPE ∧ s.app.modesValid) →
      (∀ x, (x.GRAPHICS_PIPELINE_TYPE = app.GRAPHICS_PIPELINE_TYPE ∧ x.modesValid) →
        ((f x).app.GRAPHICS_PIPELINE_TYPE = app.GRAPHICS_PIPELINE_TYPE ∧ (f x).app.modesValid)) →
      ((s.andThen f).app.GRAPHICS_PIPELINE_TYPE = app.GRAPHICS_PIPELINE_TYPE ∧
        (s.andThen f).app.modesValid) := by
    intro s f hs hf
    exact (Step.andThen_invariant
      (fun x => x.GRAPHICS_PIPELINE_TYPE = app.GRAPHICS_PIPELINE_TYPE ∧ x.modesValid)
      (fun _ => True) s f ⟨hs, fun _ _ => trivial⟩ (fun x hx => ⟨hf x hx, fun _ _ => trivial⟩)).1
  unfold KeyboardCallback
  apply hP
  · apply hP
    · apply hP
      · split
        · exact key _ ⟨rfl, ⟨Or.inl rfl, Or.inl rfl⟩⟩
        · exact ⟨rfl, h⟩
      · intro x hx
        split
        · exact key _ ⟨hx.1, ⟨KeyboardCallback.nextDisplayMode_valid _ _, hx.2.2⟩⟩
        · exact hx
    · intro x hx
      split
      · exact key _ ⟨hx.1, ⟨hx.2.1, KeyboardCallback.nextCullMode_valid _ _⟩⟩
      · exact hx
  · intro x hx
    split
    · exact hx
    · exact hx

theorem KeyboardCallbacks_valid :
    ∀ (events : List KeyEvent) (app : App), app.modesValid →
      (KeyboardCallbacks events app).app.GRAPHICS_PIPELINE_TYPE = app.GRAPHICS_PIPELINE_TYPE ∧
        (KeyboardCallbacks events app).app.modesValid := by
  intro events
  induction events with
  | nil => intro app h; exact ⟨rfl, h⟩
  | cons e rest ih =>
    intro app h
    unfold KeyboardCallbacks
    have h1 := KeyboardCallback_valid e.build e.Key e.Action app h
    exact (Step.andThen_invariant
      (fun x => x.GRAPHICS_PIPELINE_TYPE = app.GRAPHICS_PIPELINE_TYPE ∧ x.modesValid)
      (fun _ => True) _ _ ⟨h1, fun _ _ => trivial⟩
      (fun x hx => ⟨⟨(ih x hx.2).1.trans hx.1, (ih x hx.2).2⟩, fun _ _ => trivial⟩)).1

/-- C21.  Starting from a display mode in fill, wireframe, point and a cull
mode in none, front, back: after any finite sequence of keyboard events handled
by `KeyboardCallback` (any keys, any actions, any answers of the driver, also
when a callback throws), the modes are still among these values, so the key
`display mode | cull mode` that `CreateDrawingCommandBuffers` looks up is one
of the nine keys that `CreateGraphicsPipeline` inserts.  When the pipeline
mapping holds a pipeline under each of the nine keys at the start, the events
leave the mapping as it is, and every pipeline that a callback binds while it
records the drawing command buffers again is one the mapping holds under one of
the nine keys. -/
theorem KeyboardCallbacks_key (events : List KeyEvent) (app : App) (hv : app.modesValid) :
    ((KeyboardCallbacks events app).app.modesValid ∧
      ((KeyboardCallbacks events app).app.m_GraphicsPipelineDisplayMode |||
          (KeyboardCallbacks events app).app.m_GraphicsPipelineCullMode) ∈
        variantKeys app.GRAPHICS_PIPELINE_TYPE) ∧
    ((∀ key ∈ variantKeys app.GRAPHICS_PIPELINE_TYPE,
        (PipelineMap.find app.m_GraphicsPipelines key).isSome = true) →
      (KeyboardCallbacks events app).app.m_GraphicsPipelines = app.m_GraphicsPipelines ∧
      ∀ cb pipeline, Op.vkCmdBindPipeline cb pipeline ∈ (KeyboardCallbacks events app).trace →
        ∃ key ∈ variantKeys app.GRAPHICS_PIPELINE_TYPE,
          PipelineMap.find app.m_GraphicsPipelines key = some pipeline) := by
  constructor
  · obtain ⟨h1, h2⟩ := KeyboardCallbacks_valid events app hv
    refine ⟨h2, ?_⟩
    have := App.modesValid_key _ h2
    rw [h1] at this
    exact this
  · intro hm
    obtain ⟨h1, h2⟩ := KeyboardCallbacks_variant app.GRAPHICS_PIPELINE_TYPE app.m_GraphicsPipelines
      hm events app ⟨rfl, hv, rfl⟩
    exact ⟨h1.2.2, fun cb p hp => h2 _ hp cb p rfl⟩

/-- Witness of C21: the example application (fill, no culling) and the example
key events. -/
theorem KeyboardCallbacks_key_witness :
    exampleApp.modesValid ∧
    ((KeyboardCallbacks exampleKeys exampleApp).app.m_GraphicsPipelineDisplayMode |||
        (KeyboardCallbacks exampleKeys exampleApp).app.m_GraphicsPipelineCullMode) ∈
      variantKeys exampleApp.GRAPHICS_PIPELINE_TYPE :=
  ⟨⟨Or.inl rfl, Or.inl rfl⟩,
   (KeyboardCallbacks_key exampleKeys exampleApp ⟨Or.inl rfl, Or.inl rfl⟩).1.2⟩

/-! ## Uploads through a staging buffer -/

theorem CreateBuffer_of_returned (a : BufferAnswers) (Size Usage Properties : Nat)
    (Buffer Memory : App → Handle → App) (app : App)
    (h : (CreateBuffer a Size Usage Properties Buffer Memory app).outcome = Outcome.returned) :
    ∃ i, FindMemoryType app.m_PhysicalDevice a.memoryTypeBits Properties = .ok i ∧
      CreateBuffer a Size Usage Properties Buffer Memory app =
        Step.ret (Memory (Buffer app a.vkCreateBuffer.handle) a.vkAllocateMemory.handle)
          [Op.vkCreateBuffer Size Usage, Op.vkAllocateMemory i,
           Op.vkBindBufferMemory a.vkCreateBuffer.handle a.vkAllocateMemory.handle] := by
  revert h
  unfold CreateBuffer
  dsimp only
  split
  · intro h; simp [Step.throw] at h
  · cases hf : FindMemoryType app.m_PhysicalDevice a.memoryTypeBits Properties with
    | error what => intro h; simp [Step.throw] at h
    | ok i =>
      dsimp only
      split
      · intro h; simp [Step.throw] at h
      · intro _; exact ⟨i, rfl, rfl⟩

theorem CreateVertexBuffer_of_returned (a : UploadAnswers) (d : List Nat) (app : App)
    (h : (CreateVertexBuffer a d app).outcome = Outcome.returned) :
    ∃ i j,
      FindMemoryType app.m_PhysicalDevice a.Staging.memoryTypeBits
        (VK_MEMORY_PROPERTY_HOST_VISIBLE_BIT ||| VK_MEMORY_PROPERTY_HOST_COHERENT_BIT) = .ok i ∧
      FindMemoryType app.m_PhysicalDevice a.Destination.memoryTypeBits
        VK_MEMORY_PROPERTY_DEVICE_LOCAL_BIT = .ok j ∧
      CreateVertexBuffer a d app =
        Step.ret
          { app with
            m_VertexBuffer :=
              ⟨a.Destination.vkCreateBuffer.handle, a.Destination.vkAllocateMemory.handle⟩ }
          (uploadCalls a d VK_BUFFER_USAGE_VERTEX_BUFFER_BIT i j app) := by
  unfold CreateVertexBuffer at h
  dsimp only at h
  obtain ⟨h4, -, -, -⟩ := Step.andThen_returned _ _ h
  obtain ⟨h3, -, -, -⟩ := Step.andThen_returned _ _ h4
  obtain ⟨h2, h3b, -, -⟩ := Step.andThen_returned _ _ h3
  obtain ⟨h1, -, -, -⟩ := Step.andThen_returned _ _ h2
  obtain ⟨i, hi, e1⟩ := CreateBuffer_of_returned _ _ _ _ _ _ _ h1
  rw [e1] at h3b
  simp only [Step.andThen_ret, MapMemory, Step.ret_app] at h3b
  obtain ⟨j, hj, e3⟩ := CreateBuffer_of_returned _ _ _ _ _ _ _ h3b
  refine ⟨i, j, hi, hj, ?_⟩
  unfold CreateVertexBuffer
  dsimp only
  rw [e1]
  simp only [Step.andThen_ret, MapMemory, Step.ret_app, Step.ret_trace, Step.ret_outcome,
    Step.andThen_mk_returned]
  rw [e3]
  rfl

theorem CreateIndexBuffer_of_returned (a : UploadAnswers) (d : List Nat) (app : App)
    (h : (CreateIndexBuffer a d app).outcome = Outcome.returned) :
    ∃ i j,
      FindMemoryType app.m_PhysicalDevice a.Staging.memoryTypeBits
        (VK_MEMORY_PROPERTY_HOST_VISIBLE_BIT ||| VK_MEMORY_PROPERTY_HOST_COHERENT_BIT) = .ok i ∧
      FindMemoryType app.m_PhysicalDevice a.Destination.memoryTypeBits
        VK_MEMORY_PROPERTY_DEVICE_LOCAL_BIT = .ok j ∧
      CreateIndexBuffer a d app =
        Step.ret
          { app with
            m_IndexBuffer :=
              ⟨a.Destination.vkCreateBuffer.handle, a.Destination.vkAllocateMemory.handle⟩ }
          (uploadCalls a d VK_BUFFER_USAGE_INDEX_BUFFER_BIT i j app) := by
  unfold CreateIndexBuffer at h
  dsimp only at h
  obtain ⟨h4, -, -, -⟩ := Step.andThen_returned _ _ h
  obtain ⟨h3, -, -, -⟩ := Step.andThen_returned _ _ h4
  obtain ⟨h2, h3b, -, -⟩ := Step.andThen_returned _ _ h3
  obtain ⟨h1, -, -, -⟩ := Step.andThen_returned _ _ h2
  obtain ⟨i, hi, e1⟩ := CreateBuffer_of_returned _ _ _ _ _ _ _ h1
  rw [e1] at h3b
  simp only [Step.andThen_ret, MapMemory, Step.ret_app] at h3b
  obtain ⟨j, hj, e3⟩ := CreateBuffer_of_returned _ _ _ _ _ _ _ h3b
  refine ⟨i, j, hi, hj, ?_⟩
  unfold CreateIndexBuffer
  dsimp only
  rw [e1]
  simp only [Step.andThen_ret, MapMemory, Step.ret_app, Step.ret_trace, Step.ret_outcome,
    Step.andThen_mk_returned]
  rw [e3]
  rfl

theorem filter_recorded_eq_nil (recorded : List (Handle × BufferCopy)) (cb : Handle)
    (h : ∀ r ∈ recorded, r.1 ≠ cb) : recorded.filter (fun r => r.1 == cb) = [] := by
  rw [List.filter_eq_nil_iff]
  intro r hr
  simpa using h r hr

/-- The effect of the calls of an upload on the buffer contents. -/
theorem uploadCalls_run (a : UploadAnswers) (d : List Nat) (targetUsage i j : Nat) (app : App)
    (s : DeviceState)
    (hbuf : a.Staging.vkCreateBuffer.handle ≠ a.Destination.vkCreateBuffer.handle)
    (hmem : a.Staging.vkAllocateMemory.handle ≠ a.Destination.vkAllocateMemory.handle)
    (hidle : s.pending = [])
    (hrec : ∀ r ∈ s.recorded, r.1 ≠ a.singleTimeCommandBuffer) :
    ∃ s2, DeviceState.run (uploadCalls a d targetUsage i j app) s = some s2 ∧
      s2.contents a.Destination.vkCreateBuffer.handle d.length = some d ∧
      s2.pending = [] := by
  have hb1 : (a.Staging.vkCreateBuffer.handle == a.Destination.vkCreateBuffer.handle) = false :=
    beq_eq_false_iff_ne.mpr hbuf
  have hb2 : (a.Destination.vkCreateBuffer.handle == a.Staging.vkCreateBuffer.handle) = false :=
    beq_eq_false_iff_ne.mpr (Ne.symm hbuf)
  have hm1 : (a.Staging.vkAllocateMemory.handle == a.Destination.vkAllocateMemory.handle)
      = false := beq_eq_false_iff_ne.mpr hmem
  have hm2 : (a.Destination.vkAllocateMemory.handle == a.Staging.vkAllocateMemory.handle)
      = false := beq_eq_false_iff_ne.mpr (Ne.symm hmem)
  have hf := filter_recorded_eq_nil s.recorded a.singleTimeCommandBuffer hrec
  simp [uploadCalls, DeviceState.run, DeviceState.step, DeviceState.busyMemory,
    DeviceState.busyBuffer, DeviceState.complete, DeviceState.copy, DeviceState.bytes,
    DeviceState.contents, writeBytes, hidle, hf, hb1, hb2, hm1, hm2, List.lookup]
  refine ⟨a.Destination.vkAllocateMemory.handle, ?_, ?_⟩
  · simp [List.filter_cons, Ne.symm hbuf, List.lookup]
  · simp [List.filter_cons, Ne.symm hmem, List.lookup]

/-- C22.  For every byte sequence `d`, when `CreateVertexBuffer` (or
`CreateIndexBuffer`) returns, it has made exactly the calls of `uploadCalls`:
the staging buffer of `len(d)` bytes is created with transfer-source usage in
a host-visible and host-coherent memory type, `MapMemory` copies the `len(d)`
bytes of `d` into its memory, the destination buffer is created with
transfer-destination plus vertex (index) usage in a device-local memory type,
`CopyBuffer` records a copy of `len(d)` bytes from offset 0 to offset 0, submits
it and waits for the queue, and the staging buffer is destroyed after that
wait.  On a device with no copy pending and no command recorded in the one-time
command buffer, where the driver gives the staging and the destination objects
different handles, these calls are valid and leave the bytes `d` in the
destination buffer, which is the member `m_VertexBuffer` (`m_IndexBuffer`). -/
theorem upload_contents (a : UploadAnswers) (d : List Nat) (app : App) (s : DeviceState)
    (hbuf : a.Staging.vkCreateBuffer.handle ≠ a.Destination.vkCreateBuffer.handle)
    (hmem : a.Staging.vkAllocateMemory.handle ≠ a.Destination.vkAllocateMemory.handle)
    (hidle : s.pending = [])
    (hrec : ∀ r ∈ s.recorded, r.1 ≠ a.singleTimeCommandBuffer) :
    ((CreateVertexBuffer a d app).outcome = Outcome.returned →
      ∃ i j s2,
        FindMemoryType app.m_PhysicalDevice a.Staging.memoryTypeBits
          (VK_MEMORY_PROPERTY_HOST_VISIBLE_BIT ||| VK_MEMORY_PROPERTY_HOST_COHERENT_BIT) = .ok i ∧
        FindMemoryType app.m_PhysicalDevice a.Destination.memoryTypeBits
          VK_MEMORY_PROPERTY_DEVICE_LOCAL_BIT = .ok j ∧
        (CreateVertexBuffer a d app).trace =
          uploadCalls a d VK_BUFFER_USAGE_VERTEX_BUFFER_BIT i j app ∧
        DeviceState.run (CreateVertexBuffer a d app).trace s = some s2 ∧
        s2.contents (CreateVertexBuffer a d app).app.m_VertexBuffer.Buffer d.length = some d) ∧
    ((CreateIndexBuffer a d app).outcome = Outcome.returned →
      ∃ i j s2,
        FindMemoryType app.m_PhysicalDevice a.Staging.memoryTypeBits
          (VK_MEMORY_PROPERTY_HOST_VISIBLE_BIT ||| VK_MEMORY_PROPERTY_HOST_COHERENT_BIT) = .ok i ∧
        FindMemoryType app.m_PhysicalDevice a.Destination.memoryTypeBits
          VK_MEMORY_PROPERTY_DEVICE_LOCAL_BIT = .ok j ∧
        (CreateIndexBuffer a d app).trace =
          uploadCalls a d VK_BUFFER_USAGE_INDEX_BUFFER_BIT i j app ∧
        DeviceState.run (CreateIndexBuffer a d app).trace s = some s2 ∧
        s2.contents (CreateIndexBuffer a d app).app.m_IndexBuffer.Buffer d.length = some d) := by
  constructor
  · intro h
    obtain ⟨i, j, hi, hj, e⟩ := CreateVertexBuffer_of_returned a d app h
    obtain ⟨s2, hrun, hc, -⟩ :=
      uploadCalls_run a d VK_BUFFER_USAGE_VERTEX_BUFFER_BIT i j app s hbuf hmem hidle hrec
    refine ⟨i, j, s2, hi, hj, ?_, ?_, ?_⟩
    · rw [e]; rfl
    · rw [e]; exact hrun
    · rw [e]; exact hc
  · intro h
    obtain ⟨i, j, hi, hj, e⟩ := CreateIndexBuffer_of_returned a d app h
    obtain ⟨s2, hrun, hc, -⟩ :=
      uploadCalls_run a d VK_BUFFER_USAGE_INDEX_BUFFER_BIT i j app s hbuf hmem hidle hrec
    refine ⟨i, j, s2, hi, hj, ?_, ?_, ?_⟩
    · rw [e]; rfl
    · rw [e]; exact hrun
    · rw [e]; exact hc

/-- Witness of C22: the upload of four bytes with the example answers, on a
device with no buffer yet. -/
theorem upload_contents_witness :
    (CreateVertexBuffer exampleUpload [1, 2, 3, 4] exampleApp).outcome = Outcome.returned ∧
    (CreateIndexBuffer exampleUpload [0, 0, 1, 0] exampleApp).outcome = Outcome.returned ∧
    (∃ i j s2,
        FindMemoryType exampleApp.m_PhysicalDevice exampleUpload.Staging.memoryTypeBits
          (VK_MEMORY_PROPERTY_HOST_VISIBLE_BIT ||| VK_MEMORY_PROPERTY_HOST_COHERENT_BIT) = .ok i ∧
        FindMemoryType exampleApp.m_PhysicalDevice exampleUpload.Destination.memoryTypeBits
          VK_MEMORY_PROPERTY_DEVICE_LOCAL_BIT = .ok j ∧
        (CreateVertexBuffer exampleUpload [1, 2, 3, 4] exampleApp).trace =
          uploadCalls exampleUpload [1, 2, 3, 4] VK_BUFFER_USAGE_VERTEX_BUFFER_BIT i j
            exampleApp ∧
        DeviceState.run (CreateVertexBuffer exampleUpload [1, 2, 3, 4] exampleApp).trace {} =
          some s2 ∧
        s2.contents (CreateVertexBuffer exampleUpload [1, 2, 3, 4] exampleApp).app.m_VertexBuffer.Buffer
          [1, 2, 3, 4].length = some [1, 2, 3, 4]) :=
  ⟨by decide, by decide,
   (upload_contents exampleUpload [1, 2, 3, 4] exampleApp {} (by decide) (by decide) rfl
     (by simp)).1 (by decide)⟩

/-! ## The mip chain -/

theorem tdiv_two_cast (m : Nat) : Int.tdiv (m : Int) 2 = ((m / 2 : Nat) : Int) := by
  rw [Int.tdiv_eq_ediv (by omega) (by omega)]
  simp

theorem mipExtent_pos (n : Nat) (hn : 1 ≤ n) : ∀ k, 1 ≤ mipExtent n k
  | 0 => hn
  | k + 1 => by unfold mipExtent; exact le_max_left _ _

theorem GenerateMipmaps.half_cast (m : Nat) (hm : 1 ≤ m) :
    GenerateMipmaps.half (m : Int) = ((max 1 (m / 2) : Nat) : Int) := by
  unfold GenerateMipmaps.half
  by_cases h : (m : Int) > 1
  · rw [if_pos h, tdiv_two_cast]
    have : 1 ≤ m / 2 := by omega
    rw [max_eq_right this]
  · rw [if_neg h]
    have : m / 2 = 0 := by omega
    rw [this]
    rfl

theorem GenerateMipmaps.next_cast (m : Nat) (hm : 1 ≤ m) :
    GenerateMipmaps.next (m : Int) = ((max 1 (m / 2) : Nat) : Int) := by
  unfold GenerateMipmaps.next
  by_cases h : (m : Int) > 1
  · rw [if_pos h, tdiv_two_cast]
    have : 1 ≤ m / 2 := by omega
    rw [max_eq_right this]
  · rw [if_neg h]
    have h1 : m = 1 := by omega
    subst h1
    rfl

theorem toInt32_of_lt (n : Nat) (h : n < 2 ^ 31) : toInt32 n = (n : Int) := by
  unfold toInt32
  have h1 : n % 2 ^ 32 = n := Nat.mod_eq_of_lt (by omega)
  rw [h1, if_pos h]

theorem GenerateMipmaps.loop_levels (cb Image : Handle) (W H : Nat) (hW : 1 ≤ W) (hH : 1 ≤ H) :
    ∀ (n k : Nat),
      GenerateMipmaps.loop cb Image (List.range' (k + 1) n) (mipExtent W k : Nat)
          (mipExtent H k : Nat) =
        ((List.range' k n).map (mipLevelCalls cb Image W H)).flatten := by
  intro n
  induction n with
  | zero => intro k; rfl
  | succ n ih =>
    intro k
    rw [List.range'_succ, List.range'_succ, List.map_cons, List.flatten_cons]
    unfold GenerateMipmaps.loop
    rw [GenerateMipmaps.next_cast _ (mipExtent_pos W hW k),
      GenerateMipmaps.next_cast _ (mipExtent_pos H hH k),
      GenerateMipmaps.half_cast _ (mipExtent_pos W hW k),
      GenerateMipmaps.half_cast _ (mipExtent_pos H hH k)]
    have e := ih (k + 1)
    unfold mipExtent at e
    rw [e]
    rfl

theorem layoutRun_append (Image : Handle) :
    ∀ (xs ys : List Op) (layout : Nat → Nat),
      layoutRun Image (xs ++ ys) layout =
        (layoutRun Image xs layout).bind (layoutRun Image ys) := by
  intro xs
  induction xs with
  | nil => intro ys layout; rfl
  | cons x xs ih =>
    intro ys layout
    simp only [List.cons_append, layoutRun]
    cases layoutStep Image layout x with
    | none => rfl
    | some l2 => simp [ih]

theorem layoutRun_levels (cb Image : Handle) (W H : Nat) :
    ∀ (n k : Nat) (layout : Nat → Nat),
      (∀ l, k ≤ l → l ≤ k + n → layout l = VK_IMAGE_LAYOUT_TRANSFER_DST_OPTIMAL) →
      ∃ final,
        layoutRun Image ((List.range' k n).map (mipLevelCalls cb Image W H)).flatten layout
          = some final ∧
        (∀ l, k ≤ l → l < k + n → final l = VK_IMAGE_LAYOUT_SHADER_READ_ONLY_OPTIMAL) ∧
        final (k + n) = VK_IMAGE_LAYOUT_TRANSFER_DST_OPTIMAL ∧
        (∀ l, l < k → final l = layout l) := by
  intro n
  induction n with
  | zero =>
    intro k layout h
    exact ⟨layout, rfl, fun l h1 h2 => by omega, h k (le_refl _) (le_refl _), fun _ _ => rfl⟩
  | succ n ih =>
    intro k layout h
    rw [List.range'_succ, List.map_cons, List.flatten_cons, layoutRun_append]
    have hk := h k (le_refl _) (by omega)
    have hk1 := h (k + 1) (by omega) (by omega)
    have hne : VK_IMAGE_LAYOUT_TRANSFER_DST_OPTIMAL ≠ VK_IMAGE_LAYOUT_UNDEFINED := by decide
    have hne2 : VK_IMAGE_LAYOUT_TRANSFER_SRC_OPTIMAL ≠ VK_IMAGE_LAYOUT_UNDEFINED := by decide
    have e1 : layoutRun Image (mipLevelCalls cb Image W H k) layout =
        some (fun l => if l = k then VK_IMAGE_LAYOUT_SHADER_READ_ONLY_OPTIMAL else layout l) := by
      simp [mipLevelCalls, layoutRun, layoutStep, hk, hk1, hne, hne2]
      funext l
      by_cases hl : l = k
      · subst hl; simp
      · have : ¬ (k ≤ l ∧ l < k + 1) := by omega
        simp [hl, this]
    rw [e1]
    obtain ⟨final, hrun, hs, hd, hl⟩ := ih (k + 1)
      (fun l => if l = k then VK_IMAGE_LAYOUT_SHADER_READ_ONLY_OPTIMAL else layout l)
      (by
        intro l h1 h2
        have : l ≠ k := by omega
        simp only [if_neg this]
        exact h l (by omega) (by omega))
    refine ⟨final, hrun, ?_, ?_, ?_⟩
    · intro l h1 h2
      rcases Nat.eq_or_lt_of_le h1 with e | e
      · subst e
        rw [hl k (by omega)]
        simp
      · exact hs l (by omega) (by omega)
    · have : k + 1 + n = k + (n + 1) := by omega
      rw [← this]; exact hd
    · intro l h1
      rw [hl l (by omega)]
      have : l ≠ k := by omega
      simp [this]

theorem countP_isBlit_levels (cb Image : Handle) (W H : Nat) :
    ∀ (n k : Nat),
      List.countP Op.isBlit ((List.range' k n).map (mipLevelCalls cb Image W H)).flatten = n := by
  intro n
  induction n with
  | zero => intro k; rfl
  | succ n ih =>
    intro k
    rw [List.range'_succ, List.map_cons, List.flatten_cons, List.countP_append, ih (k + 1)]
    simp [mipLevelCalls, Op.isBlit, List.countP_cons]
    omega

/-- Counterexample to C23.  (1) For an image whose format does not support
linear filtering, `GenerateMipmaps` throws and records no call, so for a mip
count of 3 it records no blit instead of 2.  (2) For an image of width `2^31`,
height 1 and mip count 2, the conversion of the width to `int32_t` wraps: the
blit reads level 0 at the extent `(-2147483648, 1)`. -/
theorem GenerateMipmaps_unsupported_or_wide :
    GenerateMipmaps 97 92 VK_FORMAT_R8G8B8A8_UNORM 4 4 3 exampleNoBlitApp =
      Step.throw exampleNoBlitApp [] "Texture image format does not support linear blitting!" ∧
    (GenerateMipmaps 97 92 VK_FORMAT_R8G8B8A8_UNORM 2147483648 1 2 exampleTextureApp).outcome =
      Outcome.returned ∧
    Op.transfer (TransferCall.vkCmdBlitImage 97 92 0 (-2147483648) 1 1 1 1) ∈
      (GenerateMipmaps 97 92 VK_FORMAT_R8G8B8A8_UNORM 2147483648 1 2 exampleTextureApp).trace := by
  refine ⟨by rfl, by rfl, ?_⟩
  decide

/-- C23, amended.  For every image whose format supports linear filtering with
optimal tiling, of width `W` and height `H` from 1 to `2^31 - 1` and of mip
count `L` from 1 to `2^32 - 1`: `GenerateMipmaps` returns, and between the
begin and the end of its one-time command buffer it records, for each `k` from
0 to `L - 2` in turn, the calls of `mipLevelCalls`: the transition of level `k`
from transfer-destination to transfer-source, the blit that reads level `k` at
the extent `(mipExtent W k, mipExtent H k)` and writes level `k + 1` at the
extent `(mipExtent W (k + 1), mipExtent H (k + 1))`, and the transition of
level `k` to shader-read-only; then the transition of level `L - 1` from
transfer-destination to shader-read-only.  These are exactly `L - 1` blits.
When the levels below `L` all start in the transfer-destination layout, every
command finds its levels in the layout it needs, and every level below `L`
ends in the shader-read-only layout. -/
theorem GenerateMipmaps_levels (cb Image : Handle) (Format : VkFormat) (W H L : Nat) (app : App)
    (hfmt : (app.m_PhysicalDevice.formatProps Format).optimalTilingFeatures &&&
      VK_FORMAT_FEATURE_SAMPLED_IMAGE_FILTER_LINEAR_BIT ≠ 0)
    (hW : 1 ≤ W) (hW2 : W < 2 ^ 31) (hH : 1 ≤ H) (hH2 : H < 2 ^ 31)
    (hL : 1 ≤ L) (hL2 : L < 2 ^ 32) :
    GenerateMipmaps cb Image Format W H L app =
      Step.ret app
        (BeginSingleTimeCommands cb app ++
          ((List.range (L - 1)).map (mipLevelCalls cb Image W H)).flatten ++
          [Op.vkCmdPipelineBarrier cb Image (L - 1) 1 VK_IMAGE_LAYOUT_TRANSFER_DST_OPTIMAL
            VK_IMAGE_LAYOUT_SHADER_READ_ONLY_OPTIMAL VK_IMAGE_ASPECT_COLOR_BIT] ++
          EndSingleTimeCommands cb app) ∧
    List.countP Op.isBlit (GenerateMipmaps cb Image Format W H L app).trace = L - 1 ∧
    ∀ layout : Nat → Nat, (∀ l < L, layout l = VK_IMAGE_LAYOUT_TRANSFER_DST_OPTIMAL) →
      ∃ final, layoutRun Image (GenerateMipmaps cb Image Format W H L app).trace layout
          = some final ∧
        ∀ l < L, final l = VK_IMAGE_LAYOUT_SHADER_READ_ONLY_OPTIMAL := by
  have hlast : (L + 2 ^ 32 - 1) % 2 ^ 32 = L - 1 := by omega
  have e : GenerateMipmaps cb Image Format W H L app =
      Step.ret app
        (BeginSingleTimeCommands cb app ++
          ((List.range (L - 1)).map (mipLevelCalls cb Image W H)).flatten ++
          [Op.vkCmdPipelineBarrier cb Image (L - 1) 1 VK_IMAGE_LAYOUT_TRANSFER_DST_OPTIMAL
            VK_IMAGE_LAYOUT_SHADER_READ_ONLY_OPTIMAL VK_IMAGE_ASPECT_COLOR_BIT] ++
          EndSingleTimeCommands cb app) := by
    unfold GenerateMipmaps
    rw [if_neg hfmt, toInt32_of_lt W hW2, toInt32_of_lt H hH2, hlast]
    have h0 := GenerateMipmaps.loop_levels cb Image W H hW hH (L - 1) 0
    simp only [mipExtent, Nat.zero_add] at h0
    rw [h0, List.range_eq_range']
    rfl
  refine ⟨e, ?_, ?_⟩
  · rw [e, Step.ret_trace, List.range_eq_range']
    simp only [List.countP_append, countP_isBlit_levels]
    simp [BeginSingleTimeCommands, EndSingleTimeCommands, Op.isBlit, List.countP_cons]
  · intro layout hl
    rw [e, Step.ret_trace, List.range_eq_range']
    obtain ⟨mid, hrun, hs, hd, -⟩ := layoutRun_levels cb Image W H (L - 1) 0 layout
      (fun l _ h2 => hl l (by omega))
    have hne : VK_IMAGE_LAYOUT_TRANSFER_DST_OPTIMAL ≠ VK_IMAGE_LAYOUT_UNDEFINED := by decide
    simp only [Nat.zero_add] at hd hs
    refine ⟨fun l => if L - 1 ≤ l ∧ l < L - 1 + 1 then VK_IMAGE_LAYOUT_SHADER_READ_ONLY_OPTIMAL
      else mid l, ?_, ?_⟩
    · have hbegin : layoutRun Image (BeginSingleTimeCommands cb app) layout = some layout := rfl
      have hend : ∀ f, layoutRun Image (EndSingleTimeCommands cb app) f = some f := fun _ => rfl
      rw [layoutRun_append, layoutRun_append, layoutRun_append, hbegin, Option.some_bind, hrun,
        Option.some_bind]
      simp [layoutRun, layoutStep, hd, hne, hend]
    · intro l hlt
      dsimp only
      by_cases h1 : L - 1 ≤ l ∧ l < L - 1 + 1
      · rw [if_pos h1]
      · rw [if_neg h1]
        exact hs l (Nat.zero_le _) (by omega)

/-- Witness of C23, amended: an image of extent 4x2 with 3 mip levels. -/
theorem GenerateMipmaps_levels_witness :
    GenerateMipmaps 97 92 VK_FORMAT_R8G8B8A8_UNORM 4 2 3 exampleTextureApp =
      Step.ret exampleTextureApp
        (BeginSingleTimeCommands 97 exampleTextureApp ++
          ((List.range (3 - 1)).map (mipLevelCalls 97 92 4 2)).flatten ++
          [Op.vkCmdPipelineBarrier 97 92 (3 - 1) 1 VK_IMAGE_LAYOUT_TRANSFER_DST_OPTIMAL
            VK_IMAGE_LAYOUT_SHADER_READ_ONLY_OPTIMAL VK_IMAGE_ASPECT_COLOR_BIT] ++
          EndSingleTimeCommands 97 exampleTextureApp) ∧
    List.countP Op.isBlit
      (GenerateMipmaps 97 92 VK_FORMAT_R8G8B8A8_UNORM 4 2 3 exampleTextureApp).trace = 3 - 1 :=
  ⟨(GenerateMipmaps_levels 97 92 VK_FORMAT_R8G8B8A8_UNORM 4 2 3 exampleTextureApp (by decide)
      (by decide) (by decide) (by decide) (by decide) (by decide) (by decide)).1,
   (GenerateMipmaps_levels 97 92 VK_FORMAT_R8G8B8A8_UNORM 4 2 3 exampleTextureApp (by decide)
      (by decide) (by decide) (by decide) (by decide) (by decide) (by decide)).2.1⟩

/-! ## The mip count and the halving loop -/

/-- The value of `MipWidth` after `k` iterations of the loop of
`GenerateMipmaps`. -/
theorem GenerateMipmaps.iterate_next (n : Nat) (hn : 1 ≤ n) :
    ∀ k, GenerateMipmaps.next^[k] (n : Int) = ((mipExtent n k : Nat) : Int)
  | 0 => rfl
  | k + 1 => by
    rw [Function.iterate_succ_apply', GenerateMipmaps.iterate_next n hn k,
      GenerateMipmaps.next_cast _ (mipExtent_pos n hn k)]
    rfl

theorem mipExtent_eq (n : Nat) (hn : 1 ≤ n) : ∀ k, mipExtent n k = max 1 (n / 2 ^ k)
  | 0 => by simp [mipExtent]; omega
  | k + 1 => by
    unfold mipExtent
    rw [mipExtent_eq n hn k, pow_succ, ← Nat.div_div_eq_div_mul]
    generalize n / 2 ^ k = x
    rcases Nat.eq_zero_or_pos x with h | h
    · subst h; rfl
    · rw [max_eq_right h]

theorem toUInt32_cast (n : Nat) (h : n < 2 ^ 31) : toUInt32 (n : Int) = n := by
  unfold toUInt32
  have : ((n : Int) % 2 ^ 32) = (n : Int) := Int.emod_eq_of_lt (by omega) (by omega)
  rw [this]
  simp

/-- C29.  For every texture width `W` and height `H` from 1 to `2^31 - 1` (they
are values of `int`), with the mip count `L` that `CreateTextureImageFromFile`
computes from them: after `L - 1` iterations of the halving of
`GenerateMipmaps` both `MipWidth` and `MipHeight` are 1, and after fewer than
`L - 1` iterations the larger of the two is greater than 1. -/
theorem mip_chain_ends (W H : Int) (hW : 1 ≤ W) (hW2 : W < 2 ^ 31) (hH : 1 ≤ H)
    (hH2 : H < 2 ^ 31) :
    GenerateMipmaps.next^[CreateTextureImageFromFile.mipLevels W H - 1]
      (toInt32 (toUInt32 W)) = 1 ∧
    GenerateMipmaps.next^[CreateTextureImageFromFile.mipLevels W H - 1]
      (toInt32 (toUInt32 H)) = 1 ∧
    ∀ k < CreateTextureImageFromFile.mipLevels W H - 1,
      1 < max (GenerateMipmaps.next^[k] (toInt32 (toUInt32 W)))
        (GenerateMipmaps.next^[k] (toInt32 (toUInt32 H))) := by
  obtain ⟨w, rfl⟩ := Int.eq_ofNat_of_zero_le (by omega : 0 ≤ W)
  obtain ⟨h, rfl⟩ := Int.eq_ofNat_of_zero_le (by omega : 0 ≤ H)
  have hw1 : 1 ≤ w := by omega
  have hw2 : w < 2 ^ 31 := by omega
  have hh1 : 1 ≤ h := by omega
  have hh2 : h < 2 ^ 31 := by omega
  rw [toUInt32_cast w hw2, toUInt32_cast h hh2, toInt32_of_lt w hw2, toInt32_of_lt h hh2]
  have hmax : (max (w : Int) (h : Int)).toNat = max w h := by
    rcases max_cases w h with ⟨e, e2⟩ | ⟨e, e2⟩
    · rw [e, max_eq_left (by exact_mod_cast e2)]; simp
    · rw [e, max_eq_right (by exact_mod_cast e2.le)]; simp
  have hM1 : max w h ≠ 0 := by
    have := le_max_left w h
    omega
  have hM2 : max w h < 2 ^ 31 := max_lt hw2 hh2
  have hlog : Nat.log 2 (max w h) < 31 := Nat.log_lt_of_lt_pow hM1 hM2
  have hL : CreateTextureImageFromFile.mipLevels (w : Int) (h : Int) - 1 =
      Nat.log 2 (max w h) := by
    unfold CreateTextureImageFromFile.mipLevels
    rw [hmax]
    omega
  rw [hL]
  have hlo : 2 ^ Nat.log 2 (max w h) ≤ max w h := Nat.pow_log_le_self 2 hM1
  have hhi : max w h < 2 ^ (Nat.log 2 (max w h) + 1) := Nat.lt_pow_succ_log_self (by decide) _
  have hdiv : max w h / 2 ^ Nat.log 2 (max w h) < 2 := by
    rw [Nat.div_lt_iff_lt_mul (by positivity)]
    rw [pow_succ] at hhi
    omega
  have hone : ∀ n, n ≤ max w h → 1 ≤ n → mipExtent n (Nat.log 2 (max w h)) = 1 := by
    intro n hn h1
    rw [mipExtent_eq n h1]
    have : n / 2 ^ Nat.log 2 (max w h) ≤ max w h / 2 ^ Nat.log 2 (max w h) :=
      Nat.div_le_div_right hn
    omega
  refine ⟨?_, ?_, ?_⟩
  · rw [GenerateMipmaps.iterate_next w hw1, hone w (le_max_left _ _) hw1]; rfl
  · rw [GenerateMipmaps.iterate_next h hh1, hone h (le_max_right _ _) hh1]; rfl
  · intro k hk
    rw [GenerateMipmaps.iterate_next w hw1, GenerateMipmaps.iterate_next h hh1,
      mipExtent_eq w hw1, mipExtent_eq h hh1]
    have hpow : 2 ^ (k + 1) ≤ 2 ^ Nat.log 2 (max w h) :=
      Nat.pow_le_pow_right (by decide) hk
    have hbig : 2 ≤ max w h / 2 ^ k := by
      rw [Nat.le_div_iff_mul_le (by positivity)]
      rw [pow_succ] at hpow
      omega
    rcases max_cases w h with ⟨e, _⟩ | ⟨e, _⟩
    · rw [e] at hbig
      have : (1 : Int) < ((max 1 (w / 2 ^ k) : Nat) : Int) := by
        have : 2 ≤ max 1 (w / 2 ^ k) := le_trans hbig (le_max_right _ _)
        omega
      exact lt_of_lt_of_le this (le_max_left _ _)
    · rw [e] at hbig
      have : (1 : Int) < ((max 1 (h / 2 ^ k) : Nat) : Int) := by
        have : 2 ≤ max 1 (h / 2 ^ k) := le_trans hbig (le_max_right _ _)
        omega
      exact lt_of_lt_of_le this (le_max_right _ _)

/-- Witness of C29: a texture of extent 1024x600. -/
theorem mip_chain_ends_witness :
    GenerateMipmaps.next^[CreateTextureImageFromFile.mipLevels 1024 600 - 1]
      (toInt32 (toUInt32 1024)) = 1 ∧
    GenerateMipmaps.next^[CreateTextureImageFromFile.mipLevels 1024 600 - 1]
      (toInt32 (toUInt32 600)) = 1 :=
  ⟨(mip_chain_ends 1024 600 (by decide) (by decide) (by decide) (by decide)).1,
   (mip_chain_ends 1024 600 (by decide) (by decide) (by decide) (by decide)).2.1⟩

/-! ## The fallback texture -/

theorem CreateImage_of_returned (a : ImageAnswers) (Width Height MipLevels Samples : Nat)
    (Format : VkFormat) (Usage Properties : Nat) (Image ImageMemory : App → Handle → App)
    (app : App)
    (h : (CreateImage a Width Height MipLevels Samples Format Usage Properties Image ImageMemory
      app).outcome = Outcome.returned) :
    ∃ j, FindMemoryType app.m_PhysicalDevice a.memoryTypeBits Properties = .ok j ∧
      CreateImage a Width Height MipLevels Samples Format Usage Properties Image ImageMemory app =
        Step.ret (ImageMemory (Image app a.vkCreateImage.handle) a.vkAllocateMemory.handle)
          [Op.vkCreateImage Width Height MipLevels Samples Format Usage, Op.vkAllocateMemory j,
           Op.vkBindImageMemory a.vkCreateImage.handle a.vkAllocateMemory.handle] := by
  revert h
  unfold CreateImage
  dsimp only
  split
  · intro h; simp [Step.throw] at h
  · cases hf : FindMemoryType app.m_PhysicalDevice a.memoryTypeBits Properties with
    | error what => intro h; simp [Step.throw] at h
    | ok j =>
      dsimp only
      split
      · intro h; simp [Step.throw] at h
      · intro _; exact ⟨j, rfl, rfl⟩

@[simp] theorem App.setTexture_m_PhysicalDevice (app : App) (T : TextureMember) (t : TextureInfo) :
    (app.setTexture T t).m_PhysicalDevice = app.m_PhysicalDevice := by
  cases T <;> rfl

@[simp] theorem App.setTexture_m_CommandPool (app : App) (T : TextureMember) (t : TextureInfo) :
    (app.setTexture T t).m_CommandPool = app.m_CommandPool := by
  cases T <;> rfl

@[simp] theorem App.texture_setTexture (app : App) (T : TextureMember) (t : TextureInfo) :
    (app.setTexture T t).texture T = t := by
  cases T <;> rfl

@[simp] theorem App.setTexture_setTexture (app : App) (T : TextureMember) (t u : TextureInfo) :
    (app.setTexture T t).setTexture T u = app.setTexture T u := by
  cases T <;> rfl

/-- With a failed load and a successful `malloc`, the function is this
sequence. -/
theorem CreateTextureImageFromFile_of_fallback (a : TextureAnswers) (T : TextureMember)
    (app : App) (hload : a.stbi_load = none) (hmalloc : a.malloc = true) :
    CreateTextureImageFromFile a T app =
      ((((((CreateBuffer a.Staging 4 VK_BUFFER_USAGE_TRANSFER_SRC_BIT
        (VK_MEMORY_PROPERTY_HOST_VISIBLE_BIT ||| VK_MEMORY_PROPERTY_HOST_COHERENT_BIT)
        (fun app _ => app) (fun app _ => app)
        (app.setTexture T { app.texture T with MipLevels := 1 })).andThen
      (MapMemory a.Staging.vkAllocateMemory.handle 4 (some [255, 255, 255, 255]))).andThen
      (CreateImage a.Image 1 1 1 VK_SAMPLE_COUNT_1_BIT VK_FORMAT_R8G8B8A8_UNORM
        (VK_IMAGE_USAGE_TRANSFER_SRC_BIT ||| VK_IMAGE_USAGE_TRANSFER_DST_BIT |||
          VK_IMAGE_USAGE_SAMPLED_BIT)
        VK_MEMORY_PROPERTY_DEVICE_LOCAL_BIT
        (fun app h => app.setTexture T { app.texture T with TextureImage := h })
        (fun app h => app.setTexture T { app.texture T with TextureImageMemory := h }))).andThen
      (TransitionImageLayout a.Image.singleTimeCommandBuffer a.Image.vkCreateImage.handle
        VK_FORMAT_R8G8B8A8_UNORM 1 VK_IMAGE_LAYOUT_UNDEFINED
        VK_IMAGE_LAYOUT_TRANSFER_DST_OPTIMAL)).andThen
      (CopyBufferToImage a.copyCommandBuffer a.Staging.vkCreateBuffer.handle
        a.Image.vkCreateImage.handle 1 1)).andThen
      (GenerateMipmaps a.mipmapCommandBuffer a.Image.vkCreateImage.handle
        VK_FORMAT_R8G8B8A8_UNORM 1 1 1)).andThen
      (DestroyBuffer ⟨a.Staging.vkCreateBuffer.handle, a.Staging.vkAllocateMemory.handle⟩) := by
  unfold CreateTextureImageFromFile
  simp only [hload, hmalloc, if_true]
  rfl

theorem GenerateMipmaps_of_returned (cb Image : Handle) (Format : VkFormat) (W H L : Nat)
    (app : App) (h : (GenerateMipmaps cb Image Format W H L app).outcome = Outcome.returned) :
    (app.m_PhysicalDevice.formatProps Format).optimalTilingFeatures &&&
      VK_FORMAT_FEATURE_SAMPLED_IMAGE_FILTER_LINEAR_BIT ≠ 0 := by
  intro hz
  unfold GenerateMipmaps at h
  rw [if_pos hz] at h
  simp at h

theorem CreateTextureImageFromFile_of_success (a : TextureAnswers) (T : TextureMember)
    (app : App) (i j : Nat) (hload : a.stbi_load = none) (hmalloc : a.malloc = true)
    (e1 : CreateBuffer a.Staging 4 VK_BUFFER_USAGE_TRANSFER_SRC_BIT
        (VK_MEMORY_PROPERTY_HOST_VISIBLE_BIT ||| VK_MEMORY_PROPERTY_HOST_COHERENT_BIT)
        (fun app _ => app) (fun app _ => app)
        (app.setTexture T { app.texture T with MipLevels := 1 }) =
      Step.ret (app.setTexture T { app.texture T with MipLevels := 1 })
        [Op.vkCreateBuffer 4 VK_BUFFER_USAGE_TRANSFER_SRC_BIT, Op.vkAllocateMemory i,
         Op.vkBindBufferMemory a.Staging.vkCreateBuffer.handle a.Staging.vkAllocateMemory.handle])
    (e2 : CreateImage a.Image 1 1 1 VK_SAMPLE_COUNT_1_BIT VK_FORMAT_R8G8B8A8_UNORM
        (VK_IMAGE_USAGE_TRANSFER_SRC_BIT ||| VK_IMAGE_USAGE_TRANSFER_DST_BIT |||
          VK_IMAGE_USAGE_SAMPLED_BIT)
        VK_MEMORY_PROPERTY_DEVICE_LOCAL_BIT
        (fun app h => app.setTexture T { app.texture T with TextureImage := h })
        (fun app h => app.setTexture T { app.texture T with TextureImageMemory := h })
        (app.setTexture T { app.texture T with MipLevels := 1 }) =
      Step.ret
        (app.setTexture T
          { app.texture T with
            MipLevels := 1, TextureImage := a.Image.vkCreateImage.handle
            TextureImageMemory := a.Image.vkAllocateMemory.handle })
        [Op.vkCreateImage 1 1 1 VK_SAMPLE_COUNT_1_BIT VK_FORMAT_R8G8B8A8_UNORM
          (VK_IMAGE_USAGE_TRANSFER_SRC_BIT ||| VK_IMAGE_USAGE_TRANSFER_DST_BIT |||
            VK_IMAGE_USAGE_SAMPLED_BIT),
         Op.vkAllocateMemory j,
         Op.vkBindImageMemory a.Image.vkCreateImage.handle a.Image.vkAllocateMemory.handle])
    (hfmt : (app.m_PhysicalDevice.formatProps VK_FORMAT_R8G8B8A8_UNORM).optimalTilingFeatures &&&
      VK_FORMAT_FEATURE_SAMPLED_IMAGE_FILTER_LINEAR_BIT ≠ 0) :
    CreateTextureImageFromFile a T app =
      Step.ret
        (app.setTexture T
          { app.texture T with
            MipLevels := 1, TextureImage := a.Image.vkCreateImage.handle
            TextureImageMemory := a.Image.vkAllocateMemory.handle })
        (fallbackCalls a i j app) := by
  rw [CreateTextureImageFromFile_of_fallback a T app hload hmalloc, e1]
  simp only [Step.andThen_ret, MapMemory, Step.ret_app, Step.ret_trace, Step.ret_outcome,
    Step.andThen_mk_returned]
  rw [e2]
  have ht : ∀ x : App, TransitionImageLayout a.Image.singleTimeCommandBuffer
      a.Image.vkCreateImage.handle VK_FORMAT_R8G8B8A8_UNORM 1 VK_IMAGE_LAYOUT_UNDEFINED
      VK_IMAGE_LAYOUT_TRANSFER_DST_OPTIMAL x =
      Step.ret x (BeginSingleTimeCommands a.Image.singleTimeCommandBuffer x ++
        [Op.vkCmdPipelineBarrier a.Image.singleTimeCommandBuffer a.Image.vkCreateImage.handle 0 1
          VK_IMAGE_LAYOUT_UNDEFINED VK_IMAGE_LAYOUT_TRANSFER_DST_OPTIMAL
          VK_IMAGE_ASPECT_COLOR_BIT] ++
        EndSingleTimeCommands a.Image.singleTimeCommandBuffer x) := fun x => rfl
  have hg : ∀ x : App, x.m_PhysicalDevice = app.m_PhysicalDevice →
      GenerateMipmaps a.mipmapCommandBuffer a.Image.vkCreateImage.handle
        VK_FORMAT_R8G8B8A8_UNORM 1 1 1 x =
      Step.ret x (BeginSingleTimeCommands a.mipmapCommandBuffer x ++
        [Op.vkCmdPipelineBarrier a.mipmapCommandBuffer a.Image.vkCreateImage.handle 0 1
          VK_IMAGE_LAYOUT_TRANSFER_DST_OPTIMAL VK_IMAGE_LAYOUT_SHADER_READ_ONLY_OPTIMAL
          VK_IMAGE_ASPECT_COLOR_BIT] ++
        EndSingleTimeCommands a.mipmapCommandBuffer x) := by
    intro x hx
    unfold GenerateMipmaps
    rw [hx, if_neg hfmt]
    rfl
  simp only [Step.andThen_ret, Step.ret_app, Step.ret_trace, Step.ret_outcome,
    Step.andThen_mk_returned, ht, CopyBufferToImage, DestroyBuffer]
  rw [hg _ (by simp)]
  simp [fallbackCalls, BeginSingleTimeCommands, EndSingleTimeCommands, Step.ret, DestroyBuffer]

/-- C26.  For every texture file that cannot be loaded (`stbi_load` returns no
pixels, whatever it leaves in the width and the height), when the `malloc` of
the four bytes succeeds: (1) `CreateTextureImageFromFile` does what it does for
a file that loads as one opaque white pixel of extent 1x1; (2) when it
returns, it has made exactly the calls of `fallbackCalls`, with a staging
buffer of 4 bytes, the bytes 255, 255, 255, 255, an image of extent 1x1 with 1
mip level and no blit, and it has stored the mip count 1; (3) it returns when
the creations and allocations succeed, the two memory types are found and the
format supports linear filtering. -/
theorem CreateTextureImageFromFile_fallback (a : TextureAnswers) (T : TextureMember) (app : App)
    (hload : a.stbi_load = none) (hmalloc : a.malloc = true) :
    CreateTextureImageFromFile a T app =
      CreateTextureImageFromFile
        { a with stbi_load := some [255, 255, 255, 255], TexWidth := 1, TexHeight := 1 } T app ∧
    ((CreateTextureImageFromFile a T app).outcome = Outcome.returned →
      ∃ i j,
        (CreateTextureImageFromFile a T app).trace = fallbackCalls a i j app ∧
        (CreateTextureImageFromFile a T app).app =
          app.setTexture T
            { app.texture T with
              MipLevels := 1, TextureImage := a.Image.vkCreateImage.handle
              TextureImageMemory := a.Image.vkAllocateMemory.handle }) ∧
    (a.Staging.vkCreateBuffer.result = VK_SUCCESS →
      a.Staging.vkAllocateMemory.result = VK_SUCCESS →
      a.Image.vkCreateImage.result = VK_SUCCESS →
      a.Image.vkAllocateMemory.result = VK_SUCCESS →
      (∃ i, FindMemoryType app.m_PhysicalDevice a.Staging.memoryTypeBits
        (VK_MEMORY_PROPERTY_HOST_VISIBLE_BIT ||| VK_MEMORY_PROPERTY_HOST_COHERENT_BIT) = .ok i) →
      (∃ j, FindMemoryType app.m_PhysicalDevice a.Image.memoryTypeBits
        VK_MEMORY_PROPERTY_DEVICE_LOCAL_BIT = .ok j) →
      (app.m_PhysicalDevice.formatProps VK_FORMAT_R8G8B8A8_UNORM).optimalTilingFeatures &&&
        VK_FORMAT_FEATURE_SAMPLED_IMAGE_FILTER_LINEAR_BIT ≠ 0 →
      (CreateTextureImageFromFile a T app).outcome = Outcome.returned) := by
  refine ⟨?_, ?_, ?_⟩
  · rw [CreateTextureImageFromFile_of_fallback a T app hload hmalloc]
    have hsize : ((1 : Int) % 2 ^ 64).toNat * ((1 : Int) % 2 ^ 64).toNat * 4 % 2 ^ 64 = 4 := by
      decide
    have hlevels : CreateTextureImageFromFile.mipLevels 1 1 = 1 := by
      simp [CreateTextureImageFromFile.mipLevels]
    have hone : toUInt32 1 = 1 := by decide
    unfold CreateTextureImageFromFile
    simp only [reduceCtorEq, if_false, hsize, hlevels, hone]
  · intro h
    have h0 := h
    rw [CreateTextureImageFromFile_of_fallback a T app hload hmalloc] at h
    obtain ⟨h5, -, -, -⟩ := Step.andThen_returned _ _ h
    obtain ⟨h4, h5b, -, -⟩ := Step.andThen_returned _ _ h5
    obtain ⟨h3, -, -, -⟩ := Step.andThen_returned _ _ h4
    obtain ⟨h2, -, -, -⟩ := Step.andThen_returned _ _ h3
    obtain ⟨h1, h2b, -, -⟩ := Step.andThen_returned _ _ h2
    obtain ⟨hs, -, -, -⟩ := Step.andThen_returned _ _ h1
    obtain ⟨i, -, e1⟩ := CreateBuffer_of_returned _ _ _ _ _ _ _ hs
    rw [e1] at h2b
    simp only [Step.andThen_ret, MapMemory, Step.ret_app] at h2b
    obtain ⟨j, -, e2⟩ := CreateImage_of_returned _ _ _ _ _ _ _ _ _ _ _ h2b
    simp only [App.texture_setTexture, App.setTexture_setTexture] at e2
    have hfmt := GenerateMipmaps_of_returned _ _ _ _ _ _ _ h5b
    rw [e1] at hfmt
    simp only [Step.andThen_ret, MapMemory, Step.ret_app, Step.ret_trace, Step.ret_outcome,
      Step.andThen_mk_returned, CopyBufferToImage] at hfmt
    rw [e2] at hfmt
    have ht : ∀ x : App, TransitionImageLayout a.Image.singleTimeCommandBuffer
        a.Image.vkCreateImage.handle VK_FORMAT_R8G8B8A8_UNORM 1 VK_IMAGE_LAYOUT_UNDEFINED
        VK_IMAGE_LAYOUT_TRANSFER_DST_OPTIMAL x =
        Step.ret x (BeginSingleTimeCommands a.Image.singleTimeCommandBuffer x ++
          [Op.vkCmdPipelineBarrier a.Image.singleTimeCommandBuffer a.Image.vkCreateImage.handle
            0 1 VK_IMAGE_LAYOUT_UNDEFINED VK_IMAGE_LAYOUT_TRANSFER_DST_OPTIMAL
            VK_IMAGE_ASPECT_COLOR_BIT] ++
          EndSingleTimeCommands a.Image.singleTimeCommandBuffer x) := fun x => rfl
    simp only [Step.andThen_ret, Step.ret_app, Step.ret_trace, Step.ret_outcome,
      Step.andThen_mk_returned, ht, CopyBufferToImage, App.setTexture_m_PhysicalDevice] at hfmt
    have e := CreateTextureImageFromFile_of_success a T app i j hload hmalloc e1 e2 hfmt
    exact ⟨i, j, by rw [e]; rfl, by rw [e]; rfl⟩
  · intro c1 c2 c3 c4 ⟨i, hi⟩ ⟨j, hj⟩ hfmt
    have e1 : CreateBuffer a.Staging 4 VK_BUFFER_USAGE_TRANSFER_SRC_BIT
        (VK_MEMORY_PROPERTY_HOST_VISIBLE_BIT ||| VK_MEMORY_PROPERTY_HOST_COHERENT_BIT)
        (fun app _ => app) (fun app _ => app)
        (app.setTexture T { app.texture T with MipLevels := 1 }) =
      Step.ret (app.setTexture T { app.texture T with MipLevels := 1 })
        [Op.vkCreateBuffer 4 VK_BUFFER_USAGE_TRANSFER_SRC_BIT, Op.vkAllocateMemory i,
         Op.vkBindBufferMemory a.Staging.vkCreateBuffer.handle
           a.Staging.vkAllocateMemory.handle] := by
      unfold CreateBuffer
      simp [c1, c2, hi]
    have e2 : CreateImage a.Image 1 1 1 VK_SAMPLE_COUNT_1_BIT VK_FORMAT_R8G8B8A8_UNORM
        (VK_IMAGE_USAGE_TRANSFER_SRC_BIT ||| VK_IMAGE_USAGE_TRANSFER_DST_BIT |||
          VK_IMAGE_USAGE_SAMPLED_BIT)
        VK_MEMORY_PROPERTY_DEVICE_LOCAL_BIT
        (fun app h => app.setTexture T { app.texture T with TextureImage := h })
        (fun app h => app.setTexture T { app.texture T with TextureImageMemory := h })
        (app.setTexture T { app.texture T with MipLevels := 1 }) =
      Step.ret
        (app.setTexture T
          { app.texture T with
            MipLevels := 1, TextureImage := a.Image.vkCreateImage.handle
            TextureImageMemory := a.Image.vkAllocateMemory.handle })
        [Op.vkCreateImage 1 1 1 VK_SAMPLE_COUNT_1_BIT VK_FORMAT_R8G8B8A8_UNORM
          (VK_IMAGE_USAGE_TRANSFER_SRC_BIT ||| VK_IMAGE_USAGE_TRANSFER_DST_BIT |||
            VK_IMAGE_USAGE_SAMPLED_BIT),
         Op.vkAllocateMemory j,
         Op.vkBindImageMemory a.Image.vkCreateImage.handle
           a.Image.vkAllocateMemory.handle] := by
      unfold CreateImage
      simp [c3, c4, hj]
    rw [CreateTextureImageFromFile_of_success a T app i j hload hmalloc e1 e2 hfmt]
    rfl

/-- Witness of C26: the albedo texture, with a file that cannot be loaded. -/
theorem CreateTextureImageFromFile_fallback_witness :
    (CreateTextureImageFromFile exampleMissingTexture TextureMember.m_AlbedoTexture
      exampleTextureApp).outcome = Outcome.returned ∧
    CreateTextureImageFromFile exampleMissingTexture TextureMember.m_AlbedoTexture
        exampleTextureApp =
      CreateTextureImageFromFile
        { exampleMissingTexture with
          stbi_load := some [255, 255, 255, 255], TexWidth := 1, TexHeight := 1 }
        TextureMember.m_AlbedoTexture exampleTextureApp :=
  ⟨by decide,
   (CreateTextureImageFromFile_fallback exampleMissingTexture TextureMember.m_AlbedoTexture
     exampleTextureApp rfl rfl).1⟩

/-! ## Device selection, vertex attributes, camera and shutdown -/

/-- C27, the code at the failing input: the only enumerated device is suitable
and each of its memory heaps is smaller than 1 MiB, so its score is 0.
`SelectPhysicalDevice` selects no device and throws. -/
theorem SelectPhysicalDevice_small_heaps :
    IsPhysicalDeviceSuitable exampleSmallDevice ["VK_KHR_swapchain"] = true ∧
    SelectPhysicalDevice.Memory exampleSmallDevice = 0 ∧
    SelectPhysicalDevice [exampleSmallDevice] ["VK_KHR_swapchain"] freshApp =
      Step.throw freshApp [] "Failed to find a supported GPU!" := by
  refine ⟨by decide, by decide, by decide⟩

/-- C28, the code at the failing input: for a vertex of a mesh with tangents,
`LoadObjModel` fills in three components of the tangent, and the attribute at
location 3, which describes the tangent, has the two-component format
`R32G32_SFLOAT`.  The other four attributes have as many components as
`LoadObjModel` fills in, the locations are 0 to 4 and every binding is 0. -/
theorem GetAttributeDescription_tangent (offsetof : VertexOffsets) (F : Type) (one : F)
    (mVertices mNormals mTangents mTextureCoords : F × F × F) :
    (Vertex.GetAttributeDescription offsetof).map (fun d => d.location) = [0, 1, 2, 3, 4] ∧
    (Vertex.GetAttributeDescription offsetof).map (fun d => d.binding) = [0, 0, 0, 0, 0] ∧
    (Vertex.GetAttributeDescription offsetof).map (fun d => floatComponents d.format) =
      [3, 3, 3, 2, 2] ∧
    (Vertex.GetAttributeDescription offsetof).map (fun d =>
      (LoadObjModel.vertex one mVertices mNormals mTangents mTextureCoords).components
        d.location) = [3, 3, 3, 3, 2] := by
  refine ⟨rfl, rfl, rfl, rfl⟩

/-- C30, the code at the failing input (every camera state): `Reset` sets the
resolution to 800x600, a freshly constructed camera has 1280x720; after `Reset`
the vertical field of view is computed from the ratio 600/800, in a fresh
camera it is `radians(45)`.  The other parameters are those of a fresh
camera. -/
theorem Camera_Reset_resolution (ops : FloatOps) (c : Camera) :
    (Camera.Reset ops c).m_Resolution = (800, 600) ∧
    (Camera.new ops).m_Resolution = (1280, 720) ∧
    (Camera.Reset ops c).m_Resolution ≠ (Camera.new ops).m_Resolution ∧
    ((Camera.RetriveData ops (Camera.Reset ops c)).1.Fov =
      (ops.radians 45,
       ops.mul (ops.atan (ops.mul (ops.tan (ops.mul (ops.radians 45) (1 / 2))) (ops.div 600 800)))
         2)) ∧
    (Camera.RetriveData ops (Camera.new ops)).1.Fov = (ops.radians 45, ops.radians 45) ∧
    (Camera.Reset ops c).m_Target = (Camera.new ops).m_Target ∧
    (Camera.Reset ops c).m_Yaw = (Camera.new ops).m_Yaw ∧
    (Camera.Reset ops c).m_Pitch = (Camera.new ops).m_Pitch ∧
    (Camera.Reset ops c).m_Radius = (Camera.new ops).m_Radius ∧
    (Camera.Reset ops c).m_NearZ = (Camera.new ops).m_NearZ ∧
    (Camera.Reset ops c).m_FarZ = (Camera.new ops).m_FarZ := by
  refine ⟨rfl, ?_, ?_, rfl, rfl, rfl, rfl, rfl, rfl, rfl, rfl⟩
  · simp [Camera.new, WINDOW_INIT_WIDTH, WINDOW_INIT_HEIGH]
  · simp [Camera.new, Camera.Reset, Camera.SetFov, WINDOW_INIT_WIDTH, WINDOW_INIT_HEIGH]

/-- A loop whose body returns and leaves the state as it is. -/
theorem forLoop_of_ret (body : Nat → App → Step) (g : Nat → List Op) (app : App)
    (hb : ∀ i, body i app = Step.ret app (g i)) :
    ∀ l : List Nat, forLoop l body app = Step.ret app (l.map g).flatten := by
  intro l
  induction l with
  | nil => rfl
  | cons i rest ih =>
    unfold forLoop
    rw [hb i, Step.andThen_ret, ih]
    rfl

/-- `App::Destroy` returns, leaves the members as they are and makes the calls
of `Destroy.calls`: the sync objects, the swapchain-dependent objects, the
descriptor pool and layout, the uniform buffers up to the number of presentable
images, the index and vertex buffers, the textures, the command pool, then the
device, the surface, the debug messenger and the instance. -/
theorem Destroy_eq (app : App) : Destroy app = Step.ret app (Destroy.calls app) := by
  unfold Destroy
  rw [forLoop_of_ret _ (fun i =>
      [ Op.lifecycle
          (LifecycleCall.vkDestroySemaphore (SemaphoreRef.m_ImageAvailableSemaphores i)),
        Op.lifecycle
          (LifecycleCall.vkDestroySemaphore (SemaphoreRef.m_RenderFinishedSemaphores i)),
        Op.lifecycle (LifecycleCall.vkDestroyFence i) ]) app (fun _ => rfl)]
  have hd : DestroySwapChainAndRelevantObject app =
      Step.ret app (DestroySwapChainAndRelevantObject app).trace := rfl
  rw [Step.andThen_ret, hd]
  simp only [Step.ret_app, Step.ret_trace, Step.ret_outcome, Step.andThen_mk_returned]
  rw [forLoop_of_ret _ (fun i =>
      (DestroyBuffer (app.m_MaterialUniformBuffers.getD i {}) app).trace) app (fun _ => rfl)]
  simp only [Step.ret_app, Step.ret_trace, Step.ret_outcome, Step.andThen_mk_returned]
  rw [forLoop_of_ret _ (fun i =>
      (DestroyBuffer (app.m_LightUniformBuffers.getD i {}) app).trace) app (fun _ => rfl)]
  simp only [Step.ret_app, Step.ret_trace, Step.ret_outcome, Step.andThen_mk_returned]
  rw [forLoop_of_ret _ (fun i =>
      (DestroyBuffer (app.m_MvpUniformBuffers.getD i {}) app).trace) app (fun _ => rfl)]
  simp only [Step.ret_app, Step.ret_trace, Step.ret_outcome, Step.andThen_mk_returned,
    DestroyBuffer, DestroyTexture, Destroy.calls, Step.ret, List.append_assoc]

/-- When `App::MainLoop` returns, its last call is `vkDeviceWaitIdle`. -/
theorem MainLoop_ends_idle :
    ∀ (frames : List FrameAnswers) (app : App),
      (MainLoop frames app).outcome = Outcome.returned →
      ∃ calls, (MainLoop frames app).trace = calls ++ [Op.vkDeviceWaitIdle] := by
  intro frames
  induction frames with
  | nil => intro app _; exact ⟨[], rfl⟩
  | cons f rest ih =>
    intro app h
    unfold MainLoop at h ⊢
    dsimp only at h ⊢
    generalize (Step.ret (if f.resized = true then FramebufferResizeCallback app else app)
      [Op.lifecycle LifecycleCall.glfwPollEvents]).andThen (KeyboardCallbacks f.keys) = poll
      at h ⊢
    by_cases hc : Op.lifecycle LifecycleCall.glfwSetWindowShouldClose ∈ poll.trace
    · rw [if_pos hc] at h ⊢
      obtain ⟨_, _, _, e⟩ := Step.andThen_returned _ _ h
      exact ⟨_, e⟩
    · rw [if_neg hc] at h ⊢
      obtain ⟨_, h2, _, e⟩ := Step.andThen_returned _ _ h
      obtain ⟨calls, hcalls⟩ := ih _ h2
      rw [e, hcalls, ← List.append_assoc]
      exact ⟨_, rfl⟩

/-- When `App::Run` returns, it has waited for the device to be idle right
before the calls of `App::Destroy`, which are its last calls. -/
theorem Run_waits_before_Destroy (a : RunAnswers) (app : App)
    (h : (Run a app).outcome = Outcome.returned) :
    ∃ calls, (Run a app).trace =
      calls ++ [Op.vkDeviceWaitIdle] ++ Destroy.calls (Run a app).app := by
  unfold Run at h ⊢
  obtain ⟨h1, _, e1, e2⟩ := Step.andThen_returned _ _ h
  obtain ⟨h2, h3, _, e3⟩ := Step.andThen_returned _ _ h1
  obtain ⟨calls, hcalls⟩ := MainLoop_ends_idle _ _ h3
  rw [e2, e1, e3, hcalls, Destroy_eq]
  simp only [Step.ret_app, Step.ret_trace, ← List.append_assoc]
  exact ⟨_, rfl⟩

set_option maxRecDepth 100000 in
/-- C24, the code at the failing input: the run returns; `InitVulkan` creates
three uniform buffers of each kind (the buffers 2000 to 2002, 2200 to 2202 and
2400 to 2402), the rebuild in the first frame leaves two presentable images,
and `Destroy` destroys the device after it has destroyed two uniform buffers
of each kind only: the buffers 2002, 2202 and 2402 are never destroyed. -/
theorem Run_leaves_uniform_buffers :
    (Run exampleShrinkingRun freshApp).outcome = Outcome.returned ∧
    (Run exampleShrinkingRun freshApp).app.m_SwapChainInfo.BufferCount = 2 ∧
    (Run exampleShrinkingRun freshApp).app.m_MvpUniformBuffers =
      [⟨2000, 2100⟩, ⟨2001, 2101⟩, ⟨2002, 2102⟩] ∧
    boundBuffers (Run exampleShrinkingRun freshApp).trace =
      [(2000, 2100), (2001, 2101), (2002, 2102), (2200, 2300), (2201, 2301), (2202, 2302),
       (2400, 2500), (2401, 2501), (2402, 2502)] ∧
    destroyedBuffers (Run exampleShrinkingRun freshApp).trace =
      [2400, 2401, 2200, 2201, 2000, 2001, 9, 7] ∧
    destroyedDevices (Run exampleShrinkingRun freshApp).trace = [3] := by
  refine ⟨by rfl, by rfl, by rfl, by rfl, by rfl, by rfl⟩

end Vulky
